import Mathlib

/-!
Verification development for the `@lvmk/quick-alias` repository.

The repository provisions shell aliases: it locates the user's shell profile,
detects/removes/appends named alias blocks with regular-expression patterns,
renders two AI-assisted git workflow shell functions (`gp`- and `gc`-style),
and tests AI CLI providers in headless mode.

This file gives a shallow embedding of those operations:
* profile text is `List Char`;
* each JavaScript regular expression used by the code is embedded as an
  executable matcher with the same semantics on the inputs in scope
  (alias names are taken to be plain alphanumeric words, as the code
  interpolates them into regex source text verbatim);
* filesystem effects are explicit state passing over a small `FS` record;
* the runtime behaviour of the *emitted* shell functions (the text produced
  by `generateGpAlias` / `generateGcAlias`) is embedded as a function over an
  oracle of git command results.
-/

namespace QA

/-- Characters of a string. -/
def ofStr (s : String) : List Char := s.data

/-- ASCII part of JavaScript's `\s` character class. -/
def isWsChar (c : Char) : Bool :=
  c = ' ' || c = '\t' || c = '\n' || c = '\r' || c = '\x0b' || c = '\x0c'

/-- ASCII alphanumeric (the shape of alias names the tool handles). -/
def isAlnum (c : Char) : Bool :=
  ('a' ≤ c && c ≤ 'z') || ('A' ≤ c && c ≤ 'Z') || ('0' ≤ c && c ≤ '9')

/-- Strip `p` from the front of `s`; `none` if `p` is not a prefix. -/
def stripPre : List Char → List Char → Option (List Char)
  | [], s => some s
  | _ :: _, [] => none
  | p :: ps, c :: cs => if c = p then stripPre ps cs else none

/-- `p` is a prefix of `s`. -/
def isPre (p s : List Char) : Bool := (stripPre p s).isSome

/-- `p` occurs as a contiguous substring of `s`. -/
def occursb (p : List Char) : List Char → Bool
  | [] => isPre p []
  | c :: cs => isPre p (c :: cs) || occursb p cs

theorem stripPre_self_append (p r : List Char) : stripPre p (p ++ r) = some r := by
  induction p with
  | nil => rfl
  | cons c cs ih => simp [stripPre, ih]

theorem stripPre_length {p s r : List Char} (h : stripPre p s = some r) :
    r.length ≤ s.length := by
  induction p generalizing s with
  | nil => simp [stripPre] at h; simp [h]
  | cons c cs ih =>
    cases s with
    | nil => simp [stripPre] at h
    | cons d ds =>
      by_cases hd : d = c
      · simp [stripPre, hd] at h
        exact le_trans (ih h) (Nat.le_succ _)
      · simp [stripPre, hd] at h

theorem isPre_iff {p s : List Char} : isPre p s = true ↔ ∃ r, s = p ++ r := by
  constructor
  · intro h
    unfold isPre at h
    cases hs : stripPre p s with
    | none => simp [hs] at h
    | some r =>
      refine ⟨r, ?_⟩
      clear h
      induction p generalizing s with
      | nil => simp [stripPre] at hs; simp [hs]
      | cons c cs ih =>
        cases s with
        | nil => simp [stripPre] at hs
        | cons d ds =>
          by_cases hd : d = c
          · simp [stripPre, hd] at hs
            simp [hd, ih hs]
          · simp [stripPre, hd] at hs
  · rintro ⟨r, rfl⟩
    simp [isPre, stripPre_self_append]

theorem occursb_append_left {p : List Char} (u v : List Char)
    (h : occursb p u = true) : occursb p (u ++ v) = true := by
  induction u with
  | nil =>
    simp [occursb] at h
    rcases isPre_iff.mp h with ⟨r, hr⟩
    cases p with
    | nil => cases v <;> simp [occursb, isPre, stripPre]
    | cons c cs => simp at hr
  | cons c cs ih =>
    simp only [occursb, Bool.or_eq_true] at h
    rcases h with h | h
    · rcases isPre_iff.mp h with ⟨r, hr⟩
      have hp : isPre p (c :: (cs ++ v)) = true := by
        refine isPre_iff.mpr ⟨r ++ v, ?_⟩
        have := congrArg (fun l => l ++ v) hr
        simpa using this
      simp [occursb, hp]
    · simp [occursb, ih h]

theorem occursb_append_right {p : List Char} (u v : List Char)
    (h : occursb p v = true) : occursb p (u ++ v) = true := by
  induction u with
  | nil => simpa using h
  | cons c cs ih => simp [occursb, ih]

theorem occursb_of_tail_isPre {p u t : List Char}
    (ht : t <:+ u) (h : isPre p t = true) : occursb p u = true := by
  induction u with
  | nil =>
    rw [List.suffix_nil] at ht
    subst ht
    simpa [occursb] using h
  | cons c cs ih =>
    rcases List.suffix_cons_iff.mp ht with rfl | ht
    · simp [occursb, h]
    · simp [occursb, ih ht]

/-!
### Embedded regular-expression matchers

`src/lib/installer.js` (part_000) uses, for an alias name `N`:
* detection   : `^N\s*\(\s*\)\s*\{` (multiline) — `matchFuncHead` at line starts;
* removal 1   : `# [^\n]*N[^\n]*\nN\s*\(\s*\)\s*\{[\s\S]*?\n\}\n?` (global) —
  `matchFuncCommentAt` at every position;
* removal 2   : `N\s*\(\s*\)\s*\{[\s\S]*?\n\}\n?` (global) — `matchSimpleAt`
  at every position;
* cleanup     : `\n{3,}` → `"\n\n"` (global) — `collapseNl`.

`src/lib/reload.js` additionally uses
* detection   : `^alias\s+N=` (multiline) — `matchAliasHead` at line starts;
* removal     : `^alias\s+N=[^\n]*\n?` (global, multiline) — `matchAliasLineAt`
  at line starts.

All matchers return the remaining input after the match.  They are faithful to
the JavaScript semantics for names without regex metacharacters or newlines
(the code interpolates the raw name into the regex source, so other names
change the regex itself; every theorem below restricts names accordingly).
-/

/-- The complement of `'\n'` as a `Bool` predicate (the `[^\n]` class). -/
def notNl (c : Char) : Bool := !(c = '\n')

/-- Expect literal character `c` at the front. -/
def expectChar (c : Char) : List Char → Option (List Char)
  | [] => none
  | d :: rest => if d = c then some rest else none

/-- Match `\s*\(\s*\)\s*\{` against the front of `s` (the part of the
function-header pattern after the name).  Greedy `\s*` needs no backtracking
since each following literal is a non-space character. -/
def matchParens (s : List Char) : Option (List Char) :=
  (expectChar '(' (s.dropWhile isWsChar)).bind fun s2 =>
    (expectChar ')' (s2.dropWhile isWsChar)).bind fun s3 =>
      expectChar '\x7b' (s3.dropWhile isWsChar)

/-- Match `N\s*\(\s*\)\s*\{` against the front of `s`. -/
def matchFuncHead (name s : List Char) : Option (List Char) :=
  (stripPre name s).bind matchParens

/-- Greedy `\n?`: drop one newline if present. -/
def skipOptNl : List Char → List Char
  | [] => []
  | c :: r => if c = '\n' then r else c :: r

/-- Lazy `[\s\S]*?\n\}` followed by greedy `\n?`: consume through the first
`"\n}"` and one following newline if present. -/
def findClose : List Char → Option (List Char)
  | [] => none
  | c :: rest =>
    if c = '\n' then
      match rest with
      | [] => none
      | d :: rest2 => if d = '\x7d' then some (skipOptNl rest2) else findClose rest
    else findClose rest

/-- One match of the bare function-block pattern
`N\s*\(\s*\)\s*\{[\s\S]*?\n\}\n?` at the current position. -/
def matchSimpleAt (name s : List Char) : Option (List Char) :=
  (matchFuncHead name s).bind findClose

/-- One match of the comment-anchored pattern
`# [^\n]*N[^\n]*\nN\s*\(\s*\)\s*\{[\s\S]*?\n\}\n?` at the current position.
The two greedy `[^\n]*` pieces cannot cross a newline, so the comment part
matches exactly the current line when that line starts with `"# "` and
contains the name; the function part must follow right after that line's
newline. -/
def matchFuncCommentAt (name s : List Char) : Option (List Char) :=
  (expectChar '#' s).bind fun s0 =>
    (expectChar ' ' s0).bind fun rest =>
      if occursb name (rest.takeWhile notNl) then
        (expectChar '\n' (rest.dropWhile notNl)).bind fun after =>
          matchSimpleAt name after
      else none

/-- Match `alias\s+N=` against the front of `s` (`\s+` needs no backtracking
because a name never starts with a space character). -/
def matchAliasHead (name s : List Char) : Option (List Char) :=
  (stripPre (ofStr "alias") s).bind fun s1 =>
    if (s1.takeWhile isWsChar).isEmpty then none
    else
      (stripPre name (s1.dropWhile isWsChar)).bind fun s2 =>
        expectChar '=' s2

/-- One match of `alias\s+N=[^\n]*\n?` at a line start. -/
def matchAliasLineAt (name s : List Char) : Option (List Char) :=
  (matchAliasHead name s).bind fun s3 =>
    some (skipOptNl (s3.dropWhile notNl))

/-!
### Multiline anchoring and occurrence counting

A multiline `^` matches at position 0 and right after every newline.
-/

/-- `p` holds at some position right after a `'\n'` of `s`. -/
def anchoredAux (p : List Char → Bool) : List Char → Bool
  | [] => false
  | c :: rest => (c = '\n' && p rest) || anchoredAux p rest

/-- `p` holds at position 0 or right after some `'\n'` of `s`. -/
def anchoredAny (p : List Char → Bool) (s : List Char) : Bool :=
  p s || anchoredAux p s

/-- The function-header test used by `aliasExists` in the installer
(and as the second alternative of the reload detector). -/
def headMatch (name : List Char) (s : List Char) : Bool :=
  (matchFuncHead name s).isSome

/-- `aliasExists` of `src/lib/installer.js` on profile text:
`^N\s*\(\s*\)\s*\{` with the multiline flag. -/
def aliasExistsContent (name content : List Char) : Bool :=
  anchoredAny (headMatch name) content

/-- The `alias N=` test used by the reload detector. -/
def aliasHeadMatch (name : List Char) (s : List Char) : Bool :=
  (matchAliasHead name s).isSome

/-- The `^alias\s+N=` half of `aliasExists` in `src/lib/reload.js`. -/
def aliasLineExistsContent (name content : List Char) : Bool :=
  anchoredAny (aliasHeadMatch name) content

/-- `aliasExists` of `src/lib/reload.js`: `^alias\s+N=` or the
function-header pattern, both multiline. -/
def reloadAliasExistsContent (name content : List Char) : Bool :=
  aliasLineExistsContent name content || aliasExistsContent name content

/-- Number of anchored positions after a newline where `p` matches. -/
def countAux (p : List Char → Bool) : List Char → Nat
  | [] => 0
  | c :: rest => (if c = '\n' && p rest then 1 else 0) + countAux p rest

/-- Number of multiline-anchored positions of `s` where `p` matches. -/
def countA (p : List Char → Bool) (s : List Char) : Nat :=
  (if p s then 1 else 0) + countAux p s

/-- `q` is a suffix of `a` (computable). -/
def endsIn (q a : List Char) : Bool := isPre q.reverse a.reverse

/-- First character test. -/
def headIs (c : Char) : List Char → Bool
  | [] => false
  | d :: _ => d = c

/-- First-two-characters test. -/
def starts2 (x y : Char) : List Char → Bool
  | a :: b :: _ => a = x && b = y
  | _ => false

/-- Anchored-position count of `a` relative to a fixed continuation `b`
(the positions strictly inside `a` of `a ++ b`). -/
def countAuxC (p : List Char → Bool) : List Char → List Char → Nat
  | [], _ => 0
  | c :: r, b => (if c = '\n' && p (r ++ b) then 1 else 0) + countAuxC p r b

/-!
### Global replacement with the empty string

`String.replace(regex_with_g, '')` finds the leftmost match, deletes it,
continues scanning from the end of the deleted match.  All embedded patterns
match at least one character, which gives termination.
-/

theorem expectChar_lt {c : Char} {s r : List Char} (h : expectChar c s = some r) :
    r.length < s.length := by
  cases s with
  | nil => simp [expectChar] at h
  | cons d rest =>
    by_cases hd : d = c
    · simp [expectChar, hd] at h
      simp [← h]
    · simp [expectChar, hd] at h

theorem matchParens_lt {s r : List Char} (h : matchParens s = some r) :
    r.length < s.length := by
  unfold matchParens at h
  cases h1 : expectChar '(' (s.dropWhile isWsChar) with
  | none => rw [h1] at h; simp at h
  | some s2 =>
    rw [h1] at h
    simp only [Option.some_bind] at h
    cases h2 : expectChar ')' (s2.dropWhile isWsChar) with
    | none => rw [h2] at h; simp at h
    | some s3 =>
      rw [h2] at h
      simp only [Option.some_bind] at h
      have l1 := lt_of_lt_of_le (expectChar_lt h1) ((List.dropWhile_sublist _).length_le)
      have l2 := lt_of_lt_of_le (expectChar_lt h2) ((List.dropWhile_sublist _).length_le)
      have l3 := lt_of_lt_of_le (expectChar_lt h) ((List.dropWhile_sublist _).length_le)
      omega

theorem matchFuncHead_lt {name s r : List Char} (h : matchFuncHead name s = some r) :
    r.length < s.length := by
  unfold matchFuncHead at h
  cases h1 : stripPre name s with
  | none => rw [h1] at h; simp at h
  | some s1 =>
    rw [h1] at h
    simp only [Option.some_bind] at h
    exact lt_of_lt_of_le (matchParens_lt h) (stripPre_length h1)

theorem skipOptNl_le (s : List Char) : (skipOptNl s).length ≤ s.length := by
  cases s with
  | nil => simp [skipOptNl]
  | cons c r =>
    by_cases hc : c = '\n' <;> simp [skipOptNl, hc]

theorem findClose_lt {s r : List Char} (h : findClose s = some r) :
    r.length < s.length := by
  induction s with
  | nil => simp [findClose] at h
  | cons c rest ih =>
    unfold findClose at h
    by_cases hc : c = '\n'
    · rw [if_pos hc] at h
      cases rest with
      | nil => simp at h
      | cons d rest2 =>
        dsimp only at h
        by_cases hd : d = '\x7d'
        · rw [if_pos hd] at h
          injection h with h
          subst h
          have := skipOptNl_le rest2
          simp only [List.length_cons]
          omega
        · rw [if_neg hd] at h
          exact Nat.lt_succ_of_lt (ih h)
    · rw [if_neg hc] at h
      exact Nat.lt_succ_of_lt (ih h)

theorem matchSimpleAt_lt {name s r : List Char} (h : matchSimpleAt name s = some r) :
    r.length < s.length := by
  unfold matchSimpleAt at h
  cases h1 : matchFuncHead name s with
  | none => rw [h1] at h; simp at h
  | some s4 =>
    rw [h1] at h
    simp only [Option.some_bind] at h
    exact lt_trans (findClose_lt h) (matchFuncHead_lt h1)

theorem matchFuncCommentAt_lt {name s r : List Char}
    (h : matchFuncCommentAt name s = some r) : r.length < s.length := by
  unfold matchFuncCommentAt at h
  cases h0 : expectChar '#' s with
  | none => rw [h0] at h; simp at h
  | some s0 =>
    rw [h0] at h
    simp only [Option.some_bind] at h
    cases h1 : expectChar ' ' s0 with
    | none => rw [h1] at h; simp at h
    | some rest =>
      rw [h1] at h
      simp only [Option.some_bind] at h
      by_cases hocc : occursb name (rest.takeWhile notNl) = true
      · rw [if_pos hocc] at h
        cases h2 : expectChar '\n' (rest.dropWhile notNl) with
        | none => rw [h2] at h; simp at h
        | some after =>
          rw [h2] at h
          simp only [Option.some_bind] at h
          have l0 := expectChar_lt h0
          have l1 := expectChar_lt h1
          have l2 := lt_of_lt_of_le (expectChar_lt h2) ((List.dropWhile_sublist _).length_le)
          have l3 := matchSimpleAt_lt h
          omega
      · rw [if_neg hocc] at h
        simp at h

theorem matchAliasLineAt_lt {name s r : List Char}
    (h : matchAliasLineAt name s = some r) : r.length < s.length := by
  unfold matchAliasLineAt at h
  cases h0 : matchAliasHead name s with
  | none => rw [h0] at h; simp at h
  | some s3 =>
    rw [h0] at h
    simp only [Option.some_bind, Option.some.injEq] at h
    subst h
    have hlt : s3.length < s.length := by
      unfold matchAliasHead at h0
      cases h1 : stripPre (ofStr "alias") s with
      | none => rw [h1] at h0; simp at h0
      | some s1 =>
        rw [h1] at h0
        simp only [Option.some_bind] at h0
        by_cases hws : (s1.takeWhile isWsChar).isEmpty = true
        · rw [if_pos hws] at h0; simp at h0
        · rw [if_neg hws] at h0
          cases h2 : stripPre name (s1.dropWhile isWsChar) with
          | none => rw [h2] at h0; simp at h0
          | some s2 =>
            rw [h2] at h0
            simp only [Option.some_bind] at h0
            have l0 := stripPre_length h1
            have l1 := le_trans (stripPre_length h2) ((List.dropWhile_sublist _).length_le)
            have l2 := expectChar_lt h0
            omega
    calc (skipOptNl (s3.dropWhile notNl)).length
        ≤ (s3.dropWhile notNl).length := skipOptNl_le _
      _ ≤ s3.length := (List.dropWhile_sublist _).length_le
      _ < s.length := hlt

/-- Global replacement by the empty string: scan left to right; at each
position, if the matcher fires, delete the match and continue right after it
(the JavaScript `lastIndex` behaviour of `replace` with the `g` flag),
otherwise keep the character. -/
def removePat (m : List Char → Option (List Char))
    (hm : ∀ s r, m s = some r → r.length < s.length) (s : List Char) :
    List Char :=
  match h : m s with
  | some r => removePat m hm r
  | none =>
    match s with
    | [] => []
    | c :: rest => c :: removePat m hm rest
termination_by s.length
decreasing_by
  · exact hm _ _ h
  · simp

/-- Pass 1 of `removeExistingAlias` in the installer (comment-anchored). -/
def removeFC (name : List Char) : List Char → List Char :=
  removePat (matchFuncCommentAt name) (fun _ _ h => matchFuncCommentAt_lt h)

/-- Pass 2 of `removeExistingAlias` in the installer (bare function block). -/
def removeSimple (name : List Char) : List Char → List Char :=
  removePat (matchSimpleAt name) (fun _ _ h => matchSimpleAt_lt h)

/-- `content.replace(/\n{3,}/g, '\n\n')`: each maximal run of three or more
newlines becomes exactly two newlines. -/
def collapseNl : List Char → List Char
  | [] => []
  | c :: rest =>
    if c = '\n' ∧ 2 ≤ (rest.takeWhile (fun x => x = '\n')).length then
      '\n' :: '\n' :: collapseNl (rest.dropWhile (fun x => x = '\n'))
    else c :: collapseNl rest
termination_by s => s.length
decreasing_by
  · simp only [List.length_cons]
    exact Nat.lt_succ_of_le ((List.dropWhile_sublist _).length_le)
  · simp

/-- Content-level `removeExistingAlias` of `src/lib/installer.js`: the
comment-anchored pass, then the bare pass, then newline-run cleanup. -/
def removeExistingAliasContent (name content : List Char) : List Char :=
  collapseNl (removeSimple name (removeFC name content))

/-- The multiline-anchored global scan used by the reload remover: try the
matcher only at position 0 and right after each newline. -/
def removeAnchoredGo (name : List Char) (atStart : Bool) (s : List Char) :
    List Char :=
  match s with
  | [] => []
  | c :: rest =>
    if atStart then
      match h : matchAliasLineAt name (c :: rest) with
      | some r => removeAnchoredGo name true r
      | none => c :: removeAnchoredGo name (c = '\n') rest
    else c :: removeAnchoredGo name (c = '\n') rest
termination_by s.length
decreasing_by
  · exact matchAliasLineAt_lt h
  · simp
  · simp

/-- Content-level `removeExistingAlias` of `src/lib/reload.js`:
`^alias\s+N=[^\n]*\n?` (global, multiline) replaced by the empty string,
then newline-run cleanup. -/
def removeReloadContent (name content : List Char) : List Char :=
  collapseNl (removeAnchoredGo name true content)

/-!
### Provider registry and command builder

From `CLI_INFO` in `src/lib/ai-tools/index.js` and `buildCLICommand` in
`src/unnamed/part_002` (the alias templates module).
-/

structure ModelChoice where
  name : String
  value : String
  description : String
deriving Repr, DecidableEq

structure CLIInfo where
  id : String
  name : String
  command : String
  headlessFlag : String
  modelFlag : Option String
  permissionFlag : Option String := none
  extraFlags : Option String := none
  dynamicModels : Bool := false
  models : Option (List ModelChoice)
deriving Repr, DecidableEq

def claudeCLI : CLIInfo :=
  { id := "claude"
    name := "Claude Code"
    command := "claude"
    headlessFlag := "--print"
    modelFlag := some ("--model")
    permissionFlag := some ("--dangerously-skip-permissions")
    models := some
      [ { name := "haiku", value := "haiku", description := "fast, cheap" }
      , { name := "sonnet", value := "sonnet", description := "balanced" }
      , { name := "opus", value := "opus", description := "most capable" } ] }

def geminiCLI : CLIInfo :=
  { id := "gemini"
    name := "Gemini CLI"
    command := "gemini"
    headlessFlag := "--prompt"
    modelFlag := some ("--model")
    models := some
      [ { name := "gemini-3-flash", value := "gemini-3-flash"
          description := "fast, efficient" }
      , { name := "gemini-3-pro", value := "gemini-3-pro"
          description := "advanced reasoning" } ] }

def copilotCLI : CLIInfo :=
  { id := "copilot"
    name := "GitHub Copilot CLI"
    command := "copilot"
    headlessFlag := "--prompt"
    modelFlag := none
    models := none }

def opencodeCLI : CLIInfo :=
  { id := "opencode"
    name := "OpenCode"
    command := "opencode"
    headlessFlag := "run"
    modelFlag := some ("--model")
    dynamicModels := true
    models := none }

def aiderCLI : CLIInfo :=
  { id := "aider"
    name := "Aider"
    command := "aider"
    headlessFlag := "--message"
    modelFlag := some ("--model")
    extraFlags := some ("--yes-always --no-auto-commits")
    models := some
      [ { name := "claude-sonnet-4", value := "claude-sonnet-4"
          description := "balanced" }
      , { name := "gpt-5", value := "gpt-5", description := "advanced" }
      , { name := "claude-haiku-4", value := "claude-haiku-4"
          description := "fast, cheap" } ] }

/-- `buildCLICommand` of `src/unnamed/part_002`: switch on the provider id;
the default branch renders the model segment only when a model flag exists. -/
def buildCLICommand (cli : CLIInfo) (model : String) : String :=
  if cli.id = "claude" then
    "claude --print --model " ++ model ++
      " --dangerously-skip-permissions \"$prompt\""
  else if cli.id = "gemini" then
    "gemini --prompt \"$prompt\" --model " ++ model
  else if cli.id = "copilot" then
    "copilot --prompt \"$prompt\""
  else if cli.id = "opencode" then
    "opencode run \"$prompt\" --model " ++ model
  else if cli.id = "aider" then
    "aider --message \"$prompt\" --model " ++ model ++
      " --yes-always --no-auto-commits"
  else
    cli.command ++ " " ++ cli.headlessFlag ++ " \"$prompt\" " ++
      (match cli.modelFlag with
       | some f => f ++ " " ++ model
       | none => "")

/-!
### Emitted alias function texts

`generateGpAlias` / `generateGcAlias` of `src/unnamed/part_002`: the exact
template text with its `${...}` interpolations (literal braces are written
with `\x7b`/`\x7d` escapes).
-/

/-- Body text of the `gp` template between the `() \x7b` of the function
head and its closing `"\n\x7d"` (`generateGpAlias` below splices it). -/
def gpBody (cli : CLIInfo) (model : String) : List Char :=
  ofStr ("\n    local GREEN=$'\\033[0;32m'\n    local YELLOW=$'\\033[1;33m'\n    local BLUE=$'\\033[0;34m'\n    local RED=$'\\033[0;31m'\n    local NC=$'\\033[0m'\n    local BOLD=$'\\033[1m'\n    local DIM=$'\\033[2m'\n    \n    local review_mode=false\n    local user_message=\"\"\n    \n    if [[ \"$1\" == \"-r\" ]]; then\n        review_mode=true\n        shift\n        user_message=\"$*\"\n    else\n        user_message=\"$*\"\n    fi\n\n    if ! command -v git &> /dev/null; then\n        echo \"$\x7bRED\x7dError:$\x7bNC\x7d git is not installed\"\n        return 1\n    fi\n\n    if ! git rev-parse --is-inside-work-tree > /dev/null 2>&1; then\n        echo \"$\x7bRED\x7dError:$\x7bNC\x7d Not a git repository\"\n        return 1\n    fi\n\n    if git ls-files -u | grep -q .; then\n        echo \"$\x7bRED\x7dError:$\x7bNC\x7d Unresolved merge conflicts\"\n        return 1\n    fi\n\n    local current_branch=$(git branch --show-current 2>/dev/null)\n    if [ -z \"$current_branch\" ]; then\n        echo \"$\x7bRED\x7dError:$\x7bNC\x7d Detached HEAD state\"\n        return 1\n    fi\n\n    local has_staged=false\n    local has_unstaged=false\n    local has_untracked=false\n    \n    ! git diff --cached --quiet && has_staged=true\n    ! git diff --quiet && has_unstaged=true\n    [ -n \"$(git ls-files --others --exclude-standard 2>/dev/null)\" ] && has_untracked=true\n\n    if [ \"$has_staged\" = false ] && [ \"$has_unstaged\" = false ] && [ \"$has_untracked\" = false ]; then\n        echo \"$\x7bYELLOW\x7dNothing to commit$\x7bNC\x7d - working tree clean\"\n        local unpushed=$(git log @\x7bu\x7d.. --oneline 2>/dev/null | wc -l | tr -d ' ')\n        if [ \"$unpushed\" -gt 0 ] 2>/dev/null; then\n") ++
  ofStr ("            echo \"$\x7bDIM\x7dYou have $\x7bunpushed\x7d unpushed commit(s)$\x7bNC\x7d\"\n            echo -n \"$\x7bYELLOW\x7dPush existing commits? [Y/n]:$\x7bNC\x7d \"\n            read push_only\n            if [[ ! \"$push_only\" =~ ^[nN] ]]; then\n                git push origin \"$current_branch\" 2>&1 && echo \"$\x7bGREEN\x7d✓ Pushed$\x7bNC\x7d\"\n            fi\n        fi\n        return 0\n    fi\n\n    if ! git remote get-url origin > /dev/null 2>&1; then\n        echo \"$\x7bYELLOW\x7dWarning:$\x7bNC\x7d No remote 'origin' configured\"\n        local skip_push=true\n    else\n        local skip_push=false\n    fi\n\n    echo \"$\x7bBOLD\x7d$\x7bBLUE\x7d━━━━━━━━━━━━━━━━━━━━━━━━━━━━━━━━━━━━━━━━━━━━━━━━━━━$\x7bNC\x7d\"\n    echo \"$\x7bBOLD\x7d🚀 Git Push with AI Commit Message$\x7bNC\x7d\"\n    echo \"$\x7bBOLD\x7d$\x7bBLUE\x7d━━━━━━━━━━━━━━━━━━━━━━━━━━━━━━━━━━━━━━━━━━━━━━━━━━━$\x7bNC\x7d\"\n\n    local commit_message=\"\"\n    \n    if [ -n \"$user_message\" ]; then\n        echo \"\"\n        echo \"$\x7bGREEN\x7d✓$\x7bNC\x7d Using provided commit message\"\n        commit_message=\"$user_message\"\n    else\n        if ! command -v ") ++
  (ofStr cli.command) ++
  ofStr (" &> /dev/null; then\n            echo \"$\x7bRED\x7dError:$\x7bNC\x7d ") ++
  (ofStr cli.name) ++
  ofStr (" is not installed\"\n            return 1\n        fi\n\n        echo \"\"\n        echo \"$\x7bYELLOW\x7d[1/4]$\x7bNC\x7d 🔍 Analyzing git changes...\"\n    \n        local staged_diff=$(git diff --cached 2>/dev/null | head -500)\n        local unstaged_diff=$(git diff 2>/dev/null | head -500)\n        local untracked_files=$(git ls-files --others --exclude-standard 2>/dev/null | head -50)\n    \n        local prompt=\"Analyze the following git changes and generate a commit message following the Conventional Commits specification with bullet-point changelog style.\n\n## Commit Message Format:\n<type>(<scope>): <short summary>\n\n- <bullet point describing a specific change>\n- <bullet point describing another change>\n\n## Types: feat, fix, docs, style, refactor, perf, test, build, ci, chore, revert\n\n## Rules:\n1. Subject line: max 50 chars, imperative mood, no period\n2. Body uses bullet points (- ) to list specific changes\n3. Each bullet should be concise and actionable\n\n## Git Changes:\n\n### Staged Changes:\n$\x7bstaged_diff:-\\\"(none)\\\"\x7d\n\n### Unstaged Changes:\n$\x7bunstaged_diff:-\\\"(none)\\\"\x7d\n\n### Untracked Files:\n$\x7buntracked_files:-\\\"(none)\\\"\x7d\n\nOUTPUT ONLY THE COMMIT MESSAGE, nothing else.\"\n\n        echo \"$\x7bYELLOW\x7d[2/4]$\x7bNC\x7d 🤖 Generating commit message with ") ++
  (ofStr cli.name) ++
  ofStr ("...\"\n        echo \"$\x7bDIM\x7d     (this may take a few seconds...)$\x7bNC\x7d\"\n    \n        local temp_file=$(mktemp)\n        local error_file=$(mktemp)\n    \n        ") ++
  (ofStr (buildCLICommand cli model)) ++
  ofStr (" > \"$temp_file\" 2> \"$error_file\"\n        local exit_code=$?\n    \n        if [ $exit_code -ne 0 ] || [ ! -s \"$temp_file\" ]; then\n            echo \"$\x7bRED\x7dError:$\x7bNC\x7d Failed to generate commit message\"\n            cat \"$error_file\" 2>/dev/null\n            rm -f \"$temp_file\" \"$error_file\"\n            return 1\n        fi\n    \n        commit_message=$(cat \"$temp_file\")\n        rm -f \"$temp_file\" \"$error_file\"\n    \n        echo \"\"\n        echo \"$\x7bGREEN\x7dGenerated Commit Message:$\x7bNC\x7d\"\n        echo \"$commit_message\"\n    \n        if [ \"$review_mode\" = true ]; then\n            echo \"\"\n            echo -n \"$\x7bYELLOW\x7dProceed with this commit message? [Y/n/e(dit)]:$\x7bNC\x7d \"\n            read confirm\n    \n            case \"$confirm\" in\n                [nN]) echo \"$\x7bYELLOW\x7dAborted.$\x7bNC\x7d\"; return 0 ;;\n                [eE])\n                    local edit_file=$(mktemp)\n                    echo \"$commit_message\" > \"$edit_file\"\n                    $\x7bEDITOR:-vim\x7d \"$edit_file\"\n                    commit_message=$(cat \"$edit_file\")\n                    rm -f \"$edit_file\"\n                    ;;\n            esac\n        fi\n    fi\n\n    echo \"\"\n    echo \"$\x7bYELLOW\x7d[3/4]$\x7bNC\x7d 📦 Staging and committing changes...\"\n    \n    git add -A\n    \n    if git diff --cached --quiet; then\n        echo \"$\x7bYELLOW\x7dNothing to commit$\x7bNC\x7d\"\n        return 0\n    fi\n    \n    if ! git commit -m \"$commit_message\" 2>&1; then\n        echo \"$\x7bRED\x7dError:$\x7bNC\x7d Failed to commit\"\n        return 1\n    fi\n    \n    echo \"$\x7bGREEN\x7d✓$\x7bNC\x7d Changes committed\"\n\n    if [ \"$skip_push\" = true ]; then\n") ++
  ofStr ("        echo \"$\x7bYELLOW\x7dSkipping push$\x7bNC\x7d - no remote\"\n        echo \"$\x7bBOLD\x7d$\x7bGREEN\x7d✨ Done!$\x7bNC\x7d\"\n        return 0\n    fi\n\n    echo \"\"\n    echo \"$\x7bYELLOW\x7d[4/4]$\x7bNC\x7d 🚀 Pushing to remote...\"\n    \n    local push_output\n    push_output=$(git push origin \"$current_branch\" 2>&1)\n    local push_exit=$?\n    \n    if [ $push_exit -eq 0 ]; then\n        echo \"$\x7bGREEN\x7d✓ Pushed to origin/$current_branch$\x7bNC\x7d\"\n        local mr_url=$(echo \"$push_output\" | grep -oE 'https?://[^ ]+' | grep -iE '(merge|pull)' | head -1)\n        if [ -n \"$mr_url\" ]; then\n            echo \"\"\n            echo \"$\x7bBLUE\x7d📎 Create Merge Request:$\x7bNC\x7d\"\n            echo \"   $\x7bBOLD\x7d$mr_url$\x7bNC\x7d\"\n        fi\n    else\n        if echo \"$push_output\" | grep -q \"no upstream\"; then\n            git push --set-upstream origin \"$current_branch\" 2>&1 && echo \"$\x7bGREEN\x7d✓ Pushed$\x7bNC\x7d\"\n        else\n            echo \"$\x7bRED\x7dError:$\x7bNC\x7d Push failed\"\n            echo \"$\x7bDIM\x7d$push_output$\x7bNC\x7d\"\n            return 1\n        fi\n    fi\n\n    echo \"\"\n    echo \"$\x7bBOLD\x7d$\x7bGREEN\x7d━━━━━━━━━━━━━━━━━━━━━━━━━━━━━━━━━━━━━━━━━━━━━━━━━━━$\x7bNC\x7d\"\n    echo \"$\x7bBOLD\x7d$\x7bGREEN\x7d✨ Done!$\x7bNC\x7d\"\n    echo \"$\x7bBOLD\x7d$\x7bGREEN\x7d━━━━━━━━━━━━━━━━━━━━━━━━━━━━━━━━━━━━━━━━━━━━━━━━━━━$\x7bNC\x7d\"")

def generateGpAlias (aliasName : List Char) (cli : CLIInfo) (model : String) : List Char :=
  ofStr ("# Git Push with AI Commit Message (") ++ aliasName ++ ofStr (" alias)") ++
  ofStr ("\n") ++ ofStr ("# Provider: ") ++ (ofStr cli.name) ++ ofStr (" | Model: ") ++
  (ofStr model) ++ ofStr ("\n") ++ aliasName ++ ofStr ("() \x7b") ++
  gpBody cli model ++ ofStr ("\n\x7d")

/-- Body text of the `gc` template between the `() \x7b` of the function
head and its closing `"\n\x7d"`. -/
def gcBody (cli : CLIInfo) (model : String) : List Char :=
  ofStr ("\n    local GREEN=$'\\033[0;32m'\n    local YELLOW=$'\\033[1;33m'\n    local BLUE=$'\\033[0;34m'\n    local RED=$'\\033[0;31m'\n    local NC=$'\\033[0m'\n    local BOLD=$'\\033[1m'\n    local DIM=$'\\033[2m'\n    \n    local review_mode=false\n    local user_message=\"\"\n    \n    if [[ \"$1\" == \"-r\" ]]; then\n        review_mode=true\n        shift\n        user_message=\"$*\"\n    else\n        user_message=\"$*\"\n    fi\n\n    if ! command -v git &> /dev/null; then\n        echo \"$\x7bRED\x7dError:$\x7bNC\x7d git is not installed\"\n        return 1\n    fi\n\n    if ! git rev-parse --is-inside-work-tree > /dev/null 2>&1; then\n        echo \"$\x7bRED\x7dError:$\x7bNC\x7d Not a git repository\"\n        return 1\n    fi\n\n    if git diff --cached --quiet; then\n        echo \"$\x7bYELLOW\x7dNothing to commit$\x7bNC\x7d - no staged changes\"\n        echo \"$\x7bDIM\x7dStage changes first: git add <files>$\x7bNC\x7d\"\n        return 0\n    fi\n\n    echo \"$\x7bBOLD\x7d$\x7bBLUE\x7d━━━━━━━━━━━━━━━━━━━━━━━━━━━━━━━━━━━━━━━━━━━━━━━━━━━$\x7bNC\x7d\"\n    echo \"$\x7bBOLD\x7d📝 Git Commit with AI Message$\x7bNC\x7d\"\n    echo \"$\x7bBOLD\x7d$\x7bBLUE\x7d━━━━━━━━━━━━━━━━━━━━━━━━━━━━━━━━━━━━━━━━━━━━━━━━━━━$\x7bNC\x7d\"\n\n    local commit_message=\"\"\n    \n    if [ -n \"$user_message\" ]; then\n        echo \"\"\n        echo \"$\x7bGREEN\x7d✓$\x7bNC\x7d Using provided commit message\"\n        commit_message=\"$user_message\"\n    else\n        if ! command -v ") ++
  (ofStr cli.command) ++
  ofStr (" &> /dev/null; then\n            echo \"$\x7bRED\x7dError:$\x7bNC\x7d ") ++
  (ofStr cli.name) ++
  ofStr (" is not installed\"\n            return 1\n        fi\n\n        echo \"\"\n        echo \"$\x7bYELLOW\x7d[1/2]$\x7bNC\x7d 🔍 Analyzing staged changes...\"\n    \n        local staged_diff=$(git diff --cached 2>/dev/null | head -500)\n    \n        local prompt=\"Analyze the following staged git changes and generate a commit message following the Conventional Commits specification with bullet-point changelog style.\n\n## Commit Message Format:\n<type>(<scope>): <short summary>\n\n- <bullet point describing a specific change>\n- <bullet point describing another change>\n\n## Types: feat, fix, docs, style, refactor, perf, test, build, ci, chore, revert\n\n## Rules:\n1. Subject line: max 50 chars, imperative mood, no period\n2. Body uses bullet points (- ) to list specific changes\n3. Each bullet should be concise and actionable\n\n## Staged Changes:\n$\x7bstaged_diff\x7d\n\nOUTPUT ONLY THE COMMIT MESSAGE, nothing else.\"\n\n        echo \"$\x7bYELLOW\x7d[2/2]$\x7bNC\x7d 🤖 Generating commit message with ") ++
  (ofStr cli.name) ++
  ofStr ("...\"\n        echo \"$\x7bDIM\x7d     (this may take a few seconds...)$\x7bNC\x7d\"\n    \n        local temp_file=$(mktemp)\n        local error_file=$(mktemp)\n    \n        ") ++
  (ofStr (buildCLICommand cli model)) ++
  ofStr (" > \"$temp_file\" 2> \"$error_file\"\n        local exit_code=$?\n    \n        if [ $exit_code -ne 0 ] || [ ! -s \"$temp_file\" ]; then\n            echo \"$\x7bRED\x7dError:$\x7bNC\x7d Failed to generate commit message\"\n            cat \"$error_file\" 2>/dev/null\n            rm -f \"$temp_file\" \"$error_file\"\n            return 1\n        fi\n    \n        commit_message=$(cat \"$temp_file\")\n        rm -f \"$temp_file\" \"$error_file\"\n    \n        echo \"\"\n        echo \"$\x7bGREEN\x7dGenerated Commit Message:$\x7bNC\x7d\"\n        echo \"$commit_message\"\n    \n        if [ \"$review_mode\" = true ]; then\n            echo \"\"\n            echo -n \"$\x7bYELLOW\x7dProceed with this commit message? [Y/n/e(dit)]:$\x7bNC\x7d \"\n            read confirm\n    \n            case \"$confirm\" in\n                [nN]) echo \"$\x7bYELLOW\x7dAborted.$\x7bNC\x7d\"; return 0 ;;\n                [eE])\n                    local edit_file=$(mktemp)\n                    echo \"$commit_message\" > \"$edit_file\"\n                    $\x7bEDITOR:-vim\x7d \"$edit_file\"\n                    commit_message=$(cat \"$edit_file\")\n                    rm -f \"$edit_file\"\n                    ;;\n            esac\n        fi\n    fi\n\n    echo \"\"\n    echo \"$\x7bYELLOW\x7d📦 Committing...$\x7bNC\x7d\"\n    \n    if ! git commit -m \"$commit_message\" 2>&1; then\n        echo \"$\x7bRED\x7dError:$\x7bNC\x7d Failed to commit\"\n        return 1\n    fi\n\n    echo \"\"\n    echo \"$\x7bBOLD\x7d$\x7bGREEN\x7d━━━━━━━━━━━━━━━━━━━━━━━━━━━━━━━━━━━━━━━━━━━━━━━━━━━$\x7bNC\x7d\"\n    echo \"$\x7bBOLD\x7d$\x7bGREEN\x7d✨ Done!$\x7bNC\x7d\"\n    echo \"$\x7bBOLD\x7d$\x7bGREEN\x7d━━━━━━━━━━━━━━━━━━━━━━━━━━━━━━━━━━━━━━━━━━━━━━━━━━━$\x7bNC\x7d\"")

def generateGcAlias (aliasName : List Char) (cli : CLIInfo) (model : String) : List Char :=
  ofStr ("# Git Commit with AI Message (") ++ aliasName ++ ofStr (" alias)") ++
  ofStr ("\n") ++ ofStr ("# Provider: ") ++ (ofStr cli.name) ++ ofStr (" | Model: ") ++
  (ofStr model) ++ ofStr ("\n") ++ aliasName ++ ofStr ("() \x7b") ++
  gcBody cli model ++ ofStr ("\n\x7d")

/-- The `gp` template header line instantiated at the default configuration. -/
def gpL1 : List Char :=
  ofStr ("# Git Push with AI Commit Message (") ++ ofStr ("gp") ++ ofStr (" alias)")

/-- The `gc` template header line instantiated at the default configuration. -/
def gcL1 : List Char :=
  ofStr ("# Git Commit with AI Message (") ++ ofStr ("gc") ++ ofStr (" alias)")

/-- The provider line shared by both templates, at the default configuration. -/
def provL : List Char :=
  ofStr ("# Provider: ") ++ ofStr ("Claude Code") ++ ofStr (" | Model: ") ++ ofStr ("sonnet")

/-- `gp` template body at the default configuration. -/
def bodyGp : List Char := gpBody claudeCLI "sonnet"

/-- `gc` template body at the default configuration. -/
def bodyGc : List Char := gcBody claudeCLI "sonnet"

/-- Rendered `gp` function at the default configuration. -/
def gpT : List Char := generateGpAlias (ofStr ("gp")) claudeCLI "sonnet"

/-- Rendered `gc` function at the default configuration. -/
def gcT : List Char := generateGcAlias (ofStr ("gc")) claudeCLI "sonnet"


/-!
### Profile location, backup, and installation

From `src/unnamed/part_000` (`src/lib/installer.js`) and `src/lib/reload.js`.
Filesystem effects are explicit: `FS` holds the profile file's content
(`none` when the file does not exist) together with success oracles for the
two fallible operations whose failure the code tolerates or reports
(`fs.copyFile` for backups, `fs.appendFile` for the final append).
-/

structure ShellEnv where
  home : String
  shellVar : String        -- `process.env.SHELL || ''`
  bashrcExists : Bool      -- `fs.access(~/.bashrc)` succeeds
  bashProfileExists : Bool -- `fs.access(~/.bash_profile)` succeeds

structure FS where
  profile : Option (List Char)
  backupOk : Bool
  appendOk : Bool

def pathJoin (a b : String) : String := a ++ "/" ++ b

/-- `detectShellProfile` of `src/lib/installer.js`: zsh wins unconditionally
when `$SHELL` mentions it; otherwise probe `~/.bashrc`, then
`~/.bash_profile`, then default to `~/.bashrc`.  Total: every environment
yields a result. -/
def detectShellProfile (env : ShellEnv) : String × String :=
  if occursb (ofStr "zsh") (ofStr env.shellVar) then
    ("zsh", pathJoin env.home ".zshrc")
  else if env.bashrcExists then
    ("bash", pathJoin env.home ".bashrc")
  else if env.bashProfileExists then
    ("bash", pathJoin env.home ".bash_profile")
  else
    ("bash", pathJoin env.home ".bashrc")

/-- `backupProfile`: `copyFile` to `<profile>.backup.<epochMillis>`; any
error (missing source file included) yields `null` instead of throwing. -/
def backupProfile (fs : FS) (profilePath : String) (nowMs : Nat) :
    Option String :=
  match fs.profile with
  | none => none
  | some _ =>
    if fs.backupOk then some (profilePath ++ ".backup." ++ toString nowMs)
    else none

/-- `aliasExists` of the installer: read the file (failure ⇒ `false`), test
the multiline function-header pattern. -/
def aliasExistsFS (fs : FS) (name : List Char) : Bool :=
  match fs.profile with
  | none => false
  | some content => aliasExistsContent name content

/-- `removeExistingAlias` of the installer: read, excise, cleanup, write.
Read failure ⇒ `false` and no write. -/
def removeExistingAliasFS (fs : FS) (name : List Char) : FS × Bool :=
  match fs.profile with
  | none => (fs, false)
  | some content =>
    ({ fs with profile := some (removeExistingAliasContent name content) }, true)

/-- The appended block of `installAliases` (its template literal with the
banner, both alias functions, and surrounding blank lines). -/
def aliasContentBlock (gpContent gcContent : List Char) (cli : CLIInfo)
    (model : String) (ts : List Char) : List Char :=
  ofStr ("\n# ━━━━━━━━━━━━━━━━━━━━━━━━━━━━━━━━━━━━━━━━━━━━━━━━━━━\n# AI Git Aliases - Added by @lvmk/git-alias\n# Provider: ") ++
  ofStr cli.name ++ ofStr (" | Model: ") ++ ofStr model ++
  ofStr ("\n# Generated: ") ++ ts ++
  ofStr ("\n# ━━━━━━━━━━━━━━━━━━━━━━━━━━━━━━━━━━━━━━━━━━━━━━━━━━━\n\n") ++
  gpContent ++ ofStr ("\n\n") ++ gcContent ++ ofStr ("\n")

/-- The banner part of the appended block, at the default configuration
(`ts` is the run's ISO timestamp). -/
def bannerOf (ts : List Char) : List Char :=
  ofStr ("\n# ━━━━━━━━━━━━━━━━━━━━━━━━━━━━━━━━━━━━━━━━━━━━━━━━━━━\n# AI Git Aliases - Added by @lvmk/git-alias\n# Provider: ") ++ ofStr ("Claude Code") ++ ofStr (" | Model: ") ++
  ofStr ("sonnet") ++ ofStr ("\n# Generated: ") ++ ts ++ ofStr ("\n# ━━━━━━━━━━━━━━━━━━━━━━━━━━━━━━━━━━━━━━━━━━━━━━━━━━━\n\n")

/-- The whole appended block at the default configuration. -/
def blockC (ts : List Char) : List Char :=
  bannerOf ts ++ (gpT ++ ('\n' :: '\n' :: (gcT ++ ['\n'])))

/-- Profile content after the `gp` removal pass of the second install. -/
def leftover1 (c0 ts : List Char) : List Char :=
  c0 ++ (bannerOf ts ++ (gpL1 ++ '\n' :: (provL ++ '\n' :: ('\n' ::
    (gcT ++ ['\n'])))))

/-- Profile content after both removal passes of the second install. -/
def leftover2 (c0 ts : List Char) : List Char :=
  c0 ++ (bannerOf ts ++ (gpL1 ++ '\n' :: (provL ++ '\n' :: ('\n' ::
    (gcL1 ++ '\n' :: (provL ++ ['\n']))))))

inductive InstallResult where
  | success (shell profile : String)
  | conflict (existing : List (List Char)) (profile : String)
  | failure (error : String)
deriving Repr, DecidableEq

/-- `installAliases` of `src/lib/installer.js`: detect conflicts, remove on
overwrite, back up (result discarded), render and append.  `ts` is the ISO
timestamp and `nowMs` the epoch-milliseconds clock reading of the run. -/
def installAliases (env : ShellEnv) (fs : FS)
    (gpAlias gcAlias : List Char) (cli : CLIInfo) (model : String)
    (overwrite : Bool) (ts : List Char) (nowMs : Nat) : FS × InstallResult :=
  let sp := detectShellProfile env
  let gpEx := aliasExistsFS fs gpAlias
  let gcEx := aliasExistsFS fs gcAlias
  if (gpEx || gcEx) && !overwrite then
    (fs, .conflict ((if gpEx then [gpAlias] else []) ++
                    (if gcEx then [gcAlias] else [])) sp.2)
  else
    let fs1 := if overwrite && gpEx then (removeExistingAliasFS fs gpAlias).1 else fs
    let fs2 := if overwrite && gcEx then (removeExistingAliasFS fs1 gcAlias).1 else fs1
    let _bk := backupProfile fs2 sp.2 nowMs
    let gpContent := generateGpAlias gpAlias cli model
    let gcContent := generateGcAlias gcAlias cli model
    let block := aliasContentBlock gpContent gcContent cli model ts
    if fs2.appendOk then
      ({ fs2 with profile := some (fs2.profile.getD [] ++ block) },
        .success sp.1 sp.2)
    else
      (fs2, .failure ("append failed"))

/-!
### Shell-reload alias installation (`src/lib/reload.js`)
-/

/-- `removeExistingAlias` of `src/lib/reload.js`. -/
def removeReloadFS (fs : FS) (name : List Char) : FS × Bool :=
  match fs.profile with
  | none => (fs, false)
  | some content =>
    ({ fs with profile := some (removeReloadContent name content) }, true)

/-- `aliasExists` of `src/lib/reload.js`. -/
def reloadAliasExistsFS (fs : FS) (name : List Char) : Bool :=
  match fs.profile with
  | none => false
  | some content => reloadAliasExistsContent name content

/-- The appended block of `installReloadAlias`. -/
def reloadBlock (name : List Char) (profilePath : String) (ts : List Char) :
    List Char :=
  ofStr ("\n# ━━━━━━━━━━━━━━━━━━━━━━━━━━━━━━━━━━━━━━━━━━━━━━━━━━━\n# Shell Reload Alias - Added by @lvmk/quick-alias\n# Generated: ") ++
  ts ++
  ofStr ("\n# ━━━━━━━━━━━━━━━━━━━━━━━━━━━━━━━━━━━━━━━━━━━━━━━━━━━\nalias ") ++
  name ++ ofStr ("=\"source ") ++ ofStr profilePath ++ ofStr ("\"\n")

/-- `installReloadAlias` of `src/lib/reload.js`. -/
def installReloadAlias (env : ShellEnv) (fs : FS) (name : List Char)
    (overwrite : Bool) (ts : List Char) : FS × InstallResult :=
  let sp := detectShellProfile env
  let ex := reloadAliasExistsFS fs name
  if ex && !overwrite then
    (fs, .conflict [name] sp.2)
  else
    let fs1 := if ex && overwrite then (removeReloadFS fs name).1 else fs
    if fs1.appendOk then
      ({ fs1 with profile := some (fs1.profile.getD [] ++ reloadBlock name sp.2 ts) },
        .success sp.1 sp.2)
    else
      (fs1, .failure ("append failed"))

/-!
### Headless-mode tester (`src/unnamed/part_001`, `src/lib/tester.js`)

The `close` handler classifies a completed child process from its captured
`stdout`, `stderr`, and exit code (`none` models a JavaScript `null` code).
-/

structure TestOutcome where
  success : Bool
  output : Option String
  error : Option String
deriving Repr, DecidableEq

/-- ASCII lowering (JavaScript `toLowerCase` restricted to ASCII data). -/
def toLowerAscii (s : List Char) : List Char :=
  s.map fun c => if 'A' ≤ c ∧ c ≤ 'Z' then Char.ofNat (c.toNat + 32) else c

/-- JavaScript `String.prototype.trim` on ASCII data. -/
def trimJs (s : List Char) : List Char :=
  (((s.dropWhile isWsChar).reverse).dropWhile isWsChar).reverse

/-- The `CLI exited with code ${code}` interpolation (a `null` code prints
as `"null"`). -/
def codeText : Option Nat → String
  | some n => toString n
  | none => "null"

/-- The `close`-event classification in `testHeadlessMode`:
(1) non-empty combined output (lower-cased, trimmed) ⇒ success with
`stdout || stderr`; (2) exit code `0` ⇒ success with a synthetic message;
(3) otherwise failure with `stderr` or a generic exit-code message. -/
def classifyClose (stdout stderr : String) (code : Option Nat) : TestOutcome :=
  let combined := trimJs (toLowerAscii (ofStr stdout ++ ofStr stderr))
  if 0 < combined.length then
    { success := true
      output := some (if stdout = "" then stderr else stdout)
      error := none }
  else if code = some 0 then
    { success := true, output := some ("CLI responded successfully"), error := none }
  else
    { success := false
      output := none
      error := some (if stderr = "" then "CLI exited with code " ++ codeText code
                     else stderr) }


/-!
### Runtime behaviour of the emitted workflow functions

The texts produced by `generateGpAlias` / `generateGcAlias` are shell
functions executed later.  `runGp` / `runGc` embed their control flow: a
`GitEnv` is an oracle giving each external command's result, `RunResult`
collects the exit status, every `echo`ed line (with the colour variables
expanded to their `$'\033[..m'` values), and the state-changing git commands
issued.
-/

inductive GitAction where
  | pushExisting (branch : String)
  | invokeAI (prompt : String)
  | addAll
  | commit (message : String)
  | pushOrigin (branch : String)
  | pushSetUpstream (branch : String)
deriving Repr, DecidableEq

structure GitEnv where
  gitInstalled : Bool          -- `command -v git`
  insideWorkTree : Bool        -- `git rev-parse --is-inside-work-tree`
  hasUnmerged : Bool           -- `git ls-files -u | grep -q .`
  currentBranch : String       -- `git branch --show-current` ("" = detached)
  stagedQuiet : Bool           -- `git diff --cached --quiet` exits 0
  unstagedQuiet : Bool         -- `git diff --quiet` exits 0
  untrackedList : List String  -- `git ls-files --others --exclude-standard`
  unpushedCount : Nat          -- `git log @{u}.. --oneline | wc -l`
  answerPushOnly : String      -- `read push_only`
  pushExistingOk : Bool        -- scenario-A `git push origin <branch>`
  hasOrigin : Bool             -- `git remote get-url origin`
  cliOnPath : Bool             -- `command -v <cli.command>`
  stagedDiffLines : List String    -- `git diff --cached`
  unstagedDiffLines : List String  -- `git diff`
  aiExit : Nat                 -- provider command exit code
  aiStdout : String            -- temp_file content
  aiStderr : String            -- error_file content
  answerConfirm : String       -- `read confirm`
  editedMessage : String       -- edit_file content after `${EDITOR:-vim}`
  stagedQuietAfterAdd : Bool   -- `git diff --cached --quiet` after `git add -A`
  commitOk : Bool              -- `git commit -m ...`
  pushExit : Nat               -- first `git push origin <branch>`
  pushOutput : String          -- its combined output
  upstreamPushOk : Bool        -- `git push --set-upstream origin <branch>`

structure RunResult where
  exit : Nat
  lines : List String
  actions : List GitAction
deriving Repr, DecidableEq

def cGREEN : String := "\x1b[0;32m"
def cYELLOW : String := "\x1b[1;33m"
def cBLUE : String := "\x1b[0;34m"
def cRED : String := "\x1b[0;31m"
def cNC : String := "\x1b[0m"
def cBOLD : String := "\x1b[1m"
def cDIM : String := "\x1b[2m"

def barLine : String := "━━━━━━━━━━━━━━━━━━━━━━━━━━━━━━━━━━━━━━━━━━━━━━━━━━━"

def joinSp (l : List String) : String := String.intercalate " " l

def joinLines (l : List String) : String := String.intercalate "\n" l

/-- `$1 == "-r"` selects review mode and is shifted away; the remaining
arguments joined by spaces (`"$*"`) form the user-supplied message. -/
def parseArgs (args : List String) : Bool × String :=
  match args with
  | a :: rest => if a = "-r" then (true, joinSp rest) else (false, joinSp (a :: rest))
  | [] => (false, "")

/-- `[[ "$x" =~ ^[nN] ]]`. -/
def startsWithNn (s : String) : Bool :=
  match s.data with
  | c :: _ => c = 'n' || c = 'N'
  | [] => false

/-- `${var:-"(none)"}` with the literal quotes of the template. -/
def orNone (s : String) : String := if s = "" then "\"(none)\"" else s

/-- The prompt of the push-variant workflow, as interpolated at runtime. -/
def gpPrompt (stagedDiff unstagedDiff untrackedFiles : String) : String :=
  "Analyze the following git changes and generate a commit message following the Conventional Commits specification with bullet-point changelog style.\n\n## Commit Message Format:\n<type>(<scope>): <short summary>\n\n- <bullet point describing a specific change>\n- <bullet point describing another change>\n\n## Types: feat, fix, docs, style, refactor, perf, test, build, ci, chore, revert\n\n## Rules:\n1. Subject line: max 50 chars, imperative mood, no period\n2. Body uses bullet points (- ) to list specific changes\n3. Each bullet should be concise and actionable\n\n## Git Changes:\n\n### Staged Changes:\n" ++
  orNone stagedDiff ++
  "\n\n### Unstaged Changes:\n" ++ orNone unstagedDiff ++
  "\n\n### Untracked Files:\n" ++ orNone untrackedFiles ++
  "\n\nOUTPUT ONLY THE COMMIT MESSAGE, nothing else."

/-- The prompt of the commit-only workflow (no `(none)` defaults). -/
def gcPrompt (stagedDiff : String) : String :=
  "Analyze the following staged git changes and generate a commit message following the Conventional Commits specification with bullet-point changelog style.\n\n## Commit Message Format:\n<type>(<scope>): <short summary>\n\n- <bullet point describing a specific change>\n- <bullet point describing another change>\n\n## Types: feat, fix, docs, style, refactor, perf, test, build, ci, chore, revert\n\n## Rules:\n1. Subject line: max 50 chars, imperative mood, no period\n2. Body uses bullet points (- ) to list specific changes\n3. Each bullet should be concise and actionable\n\n## Staged Changes:\n" ++
  stagedDiff ++
  "\n\nOUTPUT ONLY THE COMMIT MESSAGE, nothing else."

/-- `grep -oE 'https?://[^ ]+'` tokens of the push output (line-local, so a
newline also ends a token). -/
def urlTokens : List Char → List (List Char)
  | [] => []
  | c :: rest =>
    if isPre (ofStr "https://") (c :: rest) || isPre (ofStr "http://") (c :: rest) then
      let tok := rest.takeWhile (fun d => !(d = ' ') && !(d = '\n'))
      (c :: tok) :: urlTokens (rest.drop tok.length)
    else urlTokens rest
termination_by s => s.length
decreasing_by
  · simp only [List.length_cons, List.length_drop]
    omega
  · simp

/-- `grep -iE '(merge|pull)' | head -1` over the URL tokens. -/
def extractMrUrl (pushOutput : String) : Option (List Char) :=
  ((urlTokens (ofStr pushOutput)).filter fun t =>
    occursb (ofStr "merge") (toLowerAscii t) ||
      occursb (ofStr "pull") (toLowerAscii t)).head?

/-- Stages [3/4]–[4/4] of the push-variant workflow: stage everything,
commit with the resolved message, then push with the upstream fallback. -/
def runGpStage3 (env : GitEnv) (branch : String) (skipPush : Bool)
    (ls : List String) (acts : List GitAction) (message : String) : RunResult :=
  let l5 := ls ++ ["", cYELLOW ++ "[3/4]" ++ cNC ++ " 📦 Staging and committing changes..."]
  let a5 := acts ++ [.addAll]
  if env.stagedQuietAfterAdd then
    ⟨0, l5 ++ [cYELLOW ++ "Nothing to commit" ++ cNC], a5⟩
  else
    let a6 := a5 ++ [.commit message]
    if !env.commitOk then
      ⟨1, l5 ++ [cRED ++ "Error:" ++ cNC ++ " Failed to commit"], a6⟩
    else
      let l6 := l5 ++ [cGREEN ++ "✓" ++ cNC ++ " Changes committed"]
      if skipPush then
        ⟨0, l6 ++ [cYELLOW ++ "Skipping push" ++ cNC ++ " - no remote",
          cBOLD ++ cGREEN ++ "✨ Done!" ++ cNC], a6⟩
      else
        let l7 := l6 ++ ["", cYELLOW ++ "[4/4]" ++ cNC ++ " 🚀 Pushing to remote..."]
        let a7 := a6 ++ [.pushOrigin branch]
        let lDone : List String → List String := fun l => l ++
          ["", cBOLD ++ cGREEN ++ barLine ++ cNC,
           cBOLD ++ cGREEN ++ "✨ Done!" ++ cNC,
           cBOLD ++ cGREEN ++ barLine ++ cNC]
        if env.pushExit = 0 then
          let l8 := l7 ++ [cGREEN ++ "✓ Pushed to origin/" ++ branch ++ cNC]
          let l9 := match extractMrUrl env.pushOutput with
            | some url => l8 ++
                ["", cBLUE ++ "📎 Create Merge Request:" ++ cNC,
                 "   " ++ cBOLD ++ String.mk url ++ cNC]
            | none => l8
          ⟨0, lDone l9, a7⟩
        else if occursb (ofStr "no upstream") (ofStr env.pushOutput) then
          ⟨0, lDone (l7 ++ (if env.upstreamPushOk then [cGREEN ++ "✓ Pushed" ++ cNC] else [])),
            a7 ++ [.pushSetUpstream branch]⟩
        else
          ⟨1, l7 ++ [cRED ++ "Error:" ++ cNC ++ " Push failed",
            cDIM ++ env.pushOutput ++ cNC], a7⟩

/-- The commit stage of the commit-only workflow. -/
def runGcStage3 (env : GitEnv) (ls : List String) (acts : List GitAction)
    (message : String) : RunResult :=
  let l5 := ls ++ ["", cYELLOW ++ "📦 Committing..." ++ cNC]
  let a6 := acts ++ [.commit message]
  if !env.commitOk then
    ⟨1, l5 ++ [cRED ++ "Error:" ++ cNC ++ " Failed to commit"], a6⟩
  else
    ⟨0, l5 ++
      ["", cBOLD ++ cGREEN ++ barLine ++ cNC,
       cBOLD ++ cGREEN ++ "✨ Done!" ++ cNC,
       cBOLD ++ cGREEN ++ barLine ++ cNC], a6⟩

/-- Runtime behaviour of the function emitted by `generateGpAlias`
(stage-all, AI commit message, push with upstream fallback). -/
def runGp (cli : CLIInfo) (env : GitEnv) (args : List String) : RunResult :=
  let pa := parseArgs args
  let reviewMode := pa.1
  let userMessage := pa.2
  if !env.gitInstalled then
    ⟨1, [cRED ++ "Error:" ++ cNC ++ " git is not installed"], []⟩
  else if !env.insideWorkTree then
    ⟨1, [cRED ++ "Error:" ++ cNC ++ " Not a git repository"], []⟩
  else if env.hasUnmerged then
    ⟨1, [cRED ++ "Error:" ++ cNC ++ " Unresolved merge conflicts"], []⟩
  else if env.currentBranch = "" then
    ⟨1, [cRED ++ "Error:" ++ cNC ++ " Detached HEAD state"], []⟩
  else
    let branch := env.currentBranch
    let hasStaged := !env.stagedQuiet
    let hasUnstaged := !env.unstagedQuiet
    let hasUntracked := !(joinLines env.untrackedList = "")
    if !hasStaged && !hasUnstaged && !hasUntracked then
      let l0 := [cYELLOW ++ "Nothing to commit" ++ cNC ++ " - working tree clean"]
      if 0 < env.unpushedCount then
        let l1 := l0 ++
          [cDIM ++ "You have " ++ toString env.unpushedCount ++
             " unpushed commit(s)" ++ cNC,
           cYELLOW ++ "Push existing commits? [Y/n]:" ++ cNC ++ " "]
        if !startsWithNn env.answerPushOnly then
          ⟨0, l1 ++ (if env.pushExistingOk then [cGREEN ++ "✓ Pushed" ++ cNC] else []),
            [.pushExisting branch]⟩
        else ⟨0, l1, []⟩
      else ⟨0, l0, []⟩
    else
      let skipPush := !env.hasOrigin
      let lWarn := if !env.hasOrigin then
          [cYELLOW ++ "Warning:" ++ cNC ++ " No remote 'origin' configured"]
        else []
      let lBan := lWarn ++
        [cBOLD ++ cBLUE ++ barLine ++ cNC,
         cBOLD ++ "🚀 Git Push with AI Commit Message" ++ cNC,
         cBOLD ++ cBLUE ++ barLine ++ cNC]
      -- MessageSource: user-supplied message or AI generation
      let msgStep : Option (Nat × List String × List GitAction × String) :=
        if !(userMessage = "") then
          some (0, lBan ++ ["", cGREEN ++ "✓" ++ cNC ++ " Using provided commit message"],
            [], userMessage)
        else if !env.cliOnPath then
          none
        else
          let stagedDiff := joinLines (env.stagedDiffLines.take 500)
          let unstagedDiff := joinLines (env.unstagedDiffLines.take 500)
          let untrackedFiles := joinLines (env.untrackedList.take 50)
          let prompt := gpPrompt stagedDiff unstagedDiff untrackedFiles
          let l2 := lBan ++
            ["", cYELLOW ++ "[1/4]" ++ cNC ++ " 🔍 Analyzing git changes...",
             cYELLOW ++ "[2/4]" ++ cNC ++ " 🤖 Generating commit message with " ++
               cli.name ++ "...",
             cDIM ++ "     (this may take a few seconds...)" ++ cNC]
          if !(env.aiExit = 0) || env.aiStdout = "" then
            some (2, l2 ++ [cRED ++ "Error:" ++ cNC ++ " Failed to generate commit message",
              env.aiStderr], [.invokeAI prompt], "")
          else
            let l3 := l2 ++ ["", cGREEN ++ "Generated Commit Message:" ++ cNC, env.aiStdout]
            if reviewMode then
              let l4 := l3 ++ ["",
                cYELLOW ++ "Proceed with this commit message? [Y/n/e(dit)]:" ++ cNC ++ " "]
              if env.answerConfirm = "n" || env.answerConfirm = "N" then
                some (1, l4 ++ [cYELLOW ++ "Aborted." ++ cNC], [.invokeAI prompt], "")
              else if env.answerConfirm = "e" || env.answerConfirm = "E" then
                some (0, l4, [.invokeAI prompt], env.editedMessage)
              else
                some (0, l4, [.invokeAI prompt], env.aiStdout)
            else
              some (0, l3, [.invokeAI prompt], env.aiStdout)
      match msgStep with
      | none =>
        ⟨1, lBan ++ [cRED ++ "Error:" ++ cNC ++ " " ++ cli.name ++ " is not installed"], []⟩
      | some (2, ls, as, _) => ⟨1, ls, as⟩   -- AI generation failed
      | some (1, ls, as, _) => ⟨0, ls, as⟩   -- review aborted (return 0)
      | some (_, ls, as, message) => runGpStage3 env branch skipPush ls as message

/-- Runtime behaviour of the function emitted by `generateGcAlias`
(commit-only variant). -/
def runGc (cli : CLIInfo) (env : GitEnv) (args : List String) : RunResult :=
  let pa := parseArgs args
  let reviewMode := pa.1
  let userMessage := pa.2
  if !env.gitInstalled then
    ⟨1, [cRED ++ "Error:" ++ cNC ++ " git is not installed"], []⟩
  else if !env.insideWorkTree then
    ⟨1, [cRED ++ "Error:" ++ cNC ++ " Not a git repository"], []⟩
  else if env.stagedQuiet then
    ⟨0, [cYELLOW ++ "Nothing to commit" ++ cNC ++ " - no staged changes",
         cDIM ++ "Stage changes first: git add <files>" ++ cNC], []⟩
  else
    let lBan :=
      [cBOLD ++ cBLUE ++ barLine ++ cNC,
       cBOLD ++ "📝 Git Commit with AI Message" ++ cNC,
       cBOLD ++ cBLUE ++ barLine ++ cNC]
    let msgStep : Option (Nat × List String × List GitAction × String) :=
      if !(userMessage = "") then
        some (0, lBan ++ ["", cGREEN ++ "✓" ++ cNC ++ " Using provided commit message"],
          [], userMessage)
      else if !env.cliOnPath then
        none
      else
        let stagedDiff := joinLines (env.stagedDiffLines.take 500)
        let prompt := gcPrompt stagedDiff
        let l2 := lBan ++
          ["", cYELLOW ++ "[1/2]" ++ cNC ++ " 🔍 Analyzing staged changes...",
           cYELLOW ++ "[2/2]" ++ cNC ++ " 🤖 Generating commit message with " ++
             cli.name ++ "...",
           cDIM ++ "     (this may take a few seconds...)" ++ cNC]
        if !(env.aiExit = 0) || env.aiStdout = "" then
          some (2, l2 ++ [cRED ++ "Error:" ++ cNC ++ " Failed to generate commit message",
            env.aiStderr], [.invokeAI prompt], "")
        else
          let l3 := l2 ++ ["", cGREEN ++ "Generated Commit Message:" ++ cNC, env.aiStdout]
          if reviewMode then
            let l4 := l3 ++ ["",
              cYELLOW ++ "Proceed with this commit message? [Y/n/e(dit)]:" ++ cNC ++ " "]
            if env.answerConfirm = "n" || env.answerConfirm = "N" then
              some (1, l4 ++ [cYELLOW ++ "Aborted." ++ cNC], [.invokeAI prompt], "")
            else if env.answerConfirm = "e" || env.answerConfirm = "E" then
              some (0, l4, [.invokeAI prompt], env.editedMessage)
            else
              some (0, l4, [.invokeAI prompt], env.aiStdout)
          else
            some (0, l3, [.invokeAI prompt], env.aiStdout)
    match msgStep with
    | none =>
      ⟨1, lBan ++ [cRED ++ "Error:" ++ cNC ++ " " ++ cli.name ++ " is not installed"], []⟩
    | some (2, ls, as, _) => ⟨1, ls, as⟩
    | some (1, ls, as, _) => ⟨0, ls, as⟩
    | some (_, ls, as, message) => runGcStage3 env ls as message


/-- Occurrence count of `p` in `s` (number of start positions). -/
def countOccur (p : List Char) : List Char → Nat
  | [] => if isPre p [] then 1 else 0
  | c :: cs => (if isPre p (c :: cs) then 1 else 0) + countOccur p cs

/-!
## Claims
-/

/-- **C9** — `detectShellProfile` is total with a deterministic fallback
order: a `$SHELL` mentioning zsh selects `~/.zshrc` with no existence check;
otherwise `~/.bashrc` if accessible, else `~/.bash_profile` if accessible,
else `~/.bashrc` as the default write target.  It always returns a value
(it is a total function with no error result). -/
theorem c9_detect_shell_profile (env : ShellEnv) :
    (occursb (ofStr "zsh") (ofStr env.shellVar) = true →
      detectShellProfile env = ("zsh", pathJoin env.home ".zshrc")) ∧
    (occursb (ofStr "zsh") (ofStr env.shellVar) = false →
      env.bashrcExists = true →
      detectShellProfile env = ("bash", pathJoin env.home ".bashrc")) ∧
    (occursb (ofStr "zsh") (ofStr env.shellVar) = false →
      env.bashrcExists = false → env.bashProfileExists = true →
      detectShellProfile env = ("bash", pathJoin env.home ".bash_profile")) ∧
    (occursb (ofStr "zsh") (ofStr env.shellVar) = false →
      env.bashrcExists = false → env.bashProfileExists = false →
      detectShellProfile env = ("bash", pathJoin env.home ".bashrc")) := by
  refine ⟨fun h1 => ?_, fun h1 h2 => ?_, fun h1 h2 h3 => ?_, fun h1 h2 h3 => ?_⟩
  · simp [detectShellProfile, h1]
  · simp [detectShellProfile, h1, h2]
  · simp [detectShellProfile, h1, h2, h3]
  · simp [detectShellProfile, h1, h2, h3]

theorem c9_witness :
    (occursb (ofStr "zsh") (ofStr "/bin/zsh") = true ∧
      detectShellProfile ⟨"/home/u", "/bin/zsh", false, false⟩ =
        ("zsh", "/home/u/.zshrc")) ∧
    (occursb (ofStr "zsh") (ofStr "/bin/bash") = false ∧
      detectShellProfile ⟨"/home/u", "/bin/bash", false, true⟩ =
        ("bash", "/home/u/.bash_profile")) :=
  ⟨⟨by decide, (c9_detect_shell_profile ⟨"/home/u", "/bin/zsh", false, false⟩).1
      (by decide)⟩,
   ⟨by decide, ((c9_detect_shell_profile ⟨"/home/u", "/bin/bash", false, true⟩).2.2.1
      (by decide) (by decide) (by decide))⟩⟩

/-- **C6, counterexample** — the claim's first criterion reads the *raw*
combined output length; the code trims it first.  With `stdout = " "`,
`stderr = ""` and exit code 1, the combined output has length 1, yet the
code classifies the run as a failure. -/
theorem c6_counterexample :
    (ofStr (" " ++ "")).length ≠ 0 ∧
    classifyClose (" ") ("") (some 1) =
      { success := false, output := none,
        error := some ("CLI exited with code 1") } := by
  constructor
  · decide
  · rfl

/-- **C6, amended** — `testHeadlessMode`'s close handler classifies in this
order: (1) if the combined stdout+stderr output is non-empty *after
lower-casing and trimming whitespace*, success, with stdout (or stderr when
stdout is empty) as the output; (2) otherwise, exit code zero gives success
with the synthetic "CLI responded successfully" message; (3) otherwise
failure with stderr, or the generic `CLI exited with code N` message when
stderr is empty. -/
theorem c6_classify_close (stdout stderr : String) (code : Option Nat) :
    (0 < (trimJs (toLowerAscii (ofStr stdout ++ ofStr stderr))).length →
      classifyClose stdout stderr code =
        { success := true
          output := some (if stdout = "" then stderr else stdout)
          error := none }) ∧
    ((trimJs (toLowerAscii (ofStr stdout ++ ofStr stderr))).length = 0 →
      code = some 0 →
      classifyClose stdout stderr code =
        { success := true, output := some ("CLI responded successfully")
          error := none }) ∧
    ((trimJs (toLowerAscii (ofStr stdout ++ ofStr stderr))).length = 0 →
      code ≠ some 0 →
      classifyClose stdout stderr code =
        { success := false, output := none
          error := some (if stderr = "" then "CLI exited with code " ++ codeText code
                         else stderr) }) := by
  refine ⟨?_, ?_, ?_⟩
  · intro h
    simp [classifyClose, h]
  · intro h hc
    simp [classifyClose, h, hc]
  · intro h hc
    simp [classifyClose, h, hc]

theorem c6_witness :
    0 < (trimJs (toLowerAscii (ofStr ("") ++ ofStr ("boom")))).length ∧
    classifyClose ("") ("boom") (some 3) =
      { success := true, output := some ("boom"), error := none } :=
  ⟨by decide,
   by
     have := (c6_classify_close ("") ("boom") (some 3)).1 (by decide)
     simpa using this⟩

/-- **C7** — command construction: the copilot provider has no model flag and
its rendered invocation is a constant containing no model token at all (in
the default builder branch an absent model flag omits the whole segment
rather than emitting an empty flag); the aider provider's extra flags are
appended verbatim exactly once, for every catalogued model. -/
theorem c7_build_cli_command :
    copilotCLI.modelFlag = none ∧
    (∀ m : String, buildCLICommand copilotCLI m = "copilot --prompt \"$prompt\"") ∧
    occursb (ofStr "--model") (ofStr "copilot --prompt \"$prompt\"") = false ∧
    (∀ (cli : CLIInfo) (m : String),
      cli.id ≠ "claude" → cli.id ≠ "gemini" → cli.id ≠ "copilot" →
      cli.id ≠ "opencode" → cli.id ≠ "aider" → cli.modelFlag = none →
      buildCLICommand cli m = cli.command ++ " " ++ cli.headlessFlag ++ " \"$prompt\" ") ∧
    aiderCLI.extraFlags = some ("--yes-always --no-auto-commits") ∧
    (∀ m : String, buildCLICommand aiderCLI m =
      "aider --message \"$prompt\" --model " ++ m ++ " --yes-always --no-auto-commits") ∧
    (∀ mc ∈ (aiderCLI.models.getD []),
      countOccur (ofStr ("--yes-always --no-auto-commits"))
        (ofStr (buildCLICommand aiderCLI mc.value)) = 1) := by
  refine ⟨rfl, ?_, by decide, ?_, rfl, ?_, ?_⟩
  · intro m
    rfl
  · intro cli m h1 h2 h3 h4 h5 h6
    simp [buildCLICommand, h1, h2, h3, h4, h5, h6]
  · intro m
    rfl
  · intro mc hmc
    simp only [aiderCLI, Option.getD] at hmc
    simp only [List.mem_cons, List.not_mem_nil, or_false] at hmc
    rcases hmc with rfl | rfl | rfl <;> decide

theorem c7_witness :
    ({ name := "gpt-5", value := "gpt-5", description := "advanced" } :
        ModelChoice) ∈ (aiderCLI.models.getD []) ∧
    countOccur (ofStr ("--yes-always --no-auto-commits"))
      (ofStr (buildCLICommand aiderCLI ("gpt-5"))) = 1 :=
  ⟨by decide,
   c7_build_cli_command.2.2.2.2.2.2
     { name := "gpt-5", value := "gpt-5", description := "advanced" } (by decide)⟩

/-- **C8** — backups are best-effort and never block installation:
`backupProfile` returns `none` on any error (missing source file or a failed
copy) instead of throwing, and `installAliases` behaves identically — same
result, same final profile text — whether or not the backup copy succeeds. -/
theorem c8_backup_best_effort :
    (∀ (fs : FS) (path : String) (nowMs : Nat),
      fs.profile = none → backupProfile fs path nowMs = none) ∧
    (∀ (fs : FS) (path : String) (nowMs : Nat),
      fs.backupOk = false → backupProfile fs path nowMs = none) ∧
    (∀ (env : ShellEnv) (fs : FS) (gp gc : List Char) (cli : CLIInfo)
       (model : String) (ow : Bool) (ts : List Char) (nowMs : Nat) (b1 b2 : Bool),
      (installAliases env { fs with backupOk := b1 } gp gc cli model ow ts nowMs).2 =
        (installAliases env { fs with backupOk := b2 } gp gc cli model ow ts nowMs).2 ∧
      (installAliases env { fs with backupOk := b1 } gp gc cli model ow ts nowMs).1.profile =
        (installAliases env { fs with backupOk := b2 } gp gc cli model ow ts nowMs).1.profile) ∧
    (∀ (env : ShellEnv) (fs : FS) (gp gc : List Char) (cli : CLIInfo)
       (model : String) (ts : List Char) (nowMs : Nat),
      aliasExistsFS fs gp = false → aliasExistsFS fs gc = false →
      fs.appendOk = true →
      (installAliases env fs gp gc cli model false ts nowMs).2 =
        .success (detectShellProfile env).1 (detectShellProfile env).2 ∧
      (installAliases env fs gp gc cli model false ts nowMs).1.profile =
        some (fs.profile.getD [] ++
          aliasContentBlock (generateGpAlias gp cli model)
            (generateGcAlias gc cli model) cli model ts)) := by
  refine ⟨?_, ?_, ?_, ?_⟩
  · intro fs path nowMs h
    simp [backupProfile, h]
  · intro fs path nowMs h
    unfold backupProfile
    cases fs.profile <;> simp [h]
  · intro env fs gp gc cli model ow ts nowMs b1 b2
    obtain ⟨p, bk, ap⟩ := fs
    cases p with
    | none =>
      by_cases how : ow <;> cases ap <;>
        simp [installAliases, aliasExistsFS, removeExistingAliasFS, how]
    | some c =>
      by_cases hgp : aliasExistsContent gp c <;>
        by_cases hgc : aliasExistsContent gc c <;>
        by_cases how : ow <;> cases ap <;>
        simp [installAliases, aliasExistsFS, removeExistingAliasFS, hgp, hgc, how]
  · intro env fs gp gc cli model ts nowMs h1 h2 h3
    unfold installAliases
    simp [h1, h2, h3]

theorem c8_witness :
    (FS.mk none true true).profile = none ∧
    backupProfile (FS.mk none true true) ("/p") 7 = none ∧
    aliasExistsFS (FS.mk (some []) true true) (ofStr "gp") = false ∧
    (installAliases ⟨"/h", "zsh", true, true⟩ (FS.mk (some []) true true)
      (ofStr "gp") (ofStr "gc") claudeCLI ("sonnet") false [] 0).2 =
      .success ("zsh") ("/h/.zshrc") := by
  refine ⟨rfl, c8_backup_best_effort.1 _ _ _ rfl, by decide, ?_⟩
  have h := (c8_backup_best_effort.2.2.2 ⟨"/h", "zsh", true, true⟩
    (FS.mk (some []) true true) (ofStr "gp") (ofStr "gc") claudeCLI ("sonnet")
    [] 0 (by decide) (by decide) rfl).1
  rw [h]
  rfl


/-- A git environment in a repository with nothing staged (used by C1). -/
def envEmptyStaged : GitEnv :=
  { gitInstalled := true, insideWorkTree := true, hasUnmerged := false
    currentBranch := "main", stagedQuiet := true, unstagedQuiet := true
    untrackedList := [], unpushedCount := 0, answerPushOnly := ""
    pushExistingOk := true, hasOrigin := true, cliOnPath := true
    stagedDiffLines := [], unstagedDiffLines := [], aiExit := 0
    aiStdout := "", aiStderr := "", answerConfirm := "", editedMessage := ""
    stagedQuietAfterAdd := true, commitOk := true, pushExit := 0
    pushOutput := "", upstreamPushOk := true }

/-- **C1, counterexample** — the claim says the commit-only workflow exits
with a *non-zero* status when the staged set is empty.  In a git repository
with git installed and nothing staged, the emitted `gc` function returns 0
(`return 0` after the "Nothing to commit" notice). -/
theorem c1_counterexample :
    (runGc claudeCLI envEmptyStaged []).exit = 0 ∧
    (runGc claudeCLI envEmptyStaged []).actions = [] := by
  constructor <;> rfl

/-- **C1, amended** — the commit-only workflow, in a repository whose staged
set is empty, terminates immediately with exit status *zero*: it prints the
two-notice message, performs no git action and no AI invocation, and offers
no alternative behaviour (no unpushed-commit offer exists in this variant).
-/
theorem c1_gc_empty_staged (cli : CLIInfo) (env : GitEnv) (args : List String)
    (h1 : env.gitInstalled = true) (h2 : env.insideWorkTree = true)
    (h3 : env.stagedQuiet = true) :
    runGc cli env args =
      { exit := 0
        lines := [cYELLOW ++ "Nothing to commit" ++ cNC ++ " - no staged changes",
                  cDIM ++ "Stage changes first: git add <files>" ++ cNC]
        actions := [] } := by
  unfold runGc
  simp [h1, h2, h3]

theorem c1_witness :
    envEmptyStaged.gitInstalled = true ∧ envEmptyStaged.insideWorkTree = true ∧
    envEmptyStaged.stagedQuiet = true ∧
    (runGc claudeCLI envEmptyStaged (["-r"])).exit = 0 ∧
    (runGc claudeCLI envEmptyStaged (["-r"])).actions = [] := by
  refine ⟨rfl, rfl, rfl, ?_, ?_⟩ <;>
    rw [c1_gc_empty_staged claudeCLI envEmptyStaged (["-r"]) rfl rfl rfl]


theorem runGpStage3_actions_head (env : GitEnv) (br : String) (sp : Bool)
    (ls : List String) (acts : List GitAction) (m : String) :
    (runGpStage3 env br sp ls acts m).actions.head? =
      (acts ++ [GitAction.addAll]).head? := by
  unfold runGpStage3
  dsimp only
  repeat' split
  all_goals simp [List.head?_append]

theorem runGcStage3_actions_head (env : GitEnv) (ls : List String)
    (acts : List GitAction) (m : String) :
    (runGcStage3 env ls acts m).actions.head? =
      (acts ++ [GitAction.commit m]).head? := by
  unfold runGcStage3
  dsimp only
  repeat' split
  all_goals simp [List.head?_append]

/-- A git environment with 51 untracked files and no user message, reaching
the AI message-source state (used by C4). -/
def envManyUntracked : GitEnv :=
  { gitInstalled := true, insideWorkTree := true, hasUnmerged := false
    currentBranch := "main", stagedQuiet := true, unstagedQuiet := true
    untrackedList := ["f1.txt", "f2.txt", "f3.txt", "f4.txt", "f5.txt", "f6.txt", "f7.txt", "f8.txt", "f9.txt", "f10.txt", "f11.txt", "f12.txt", "f13.txt", "f14.txt", "f15.txt", "f16.txt", "f17.txt", "f18.txt", "f19.txt", "f20.txt", "f21.txt", "f22.txt", "f23.txt", "f24.txt", "f25.txt", "f26.txt", "f27.txt", "f28.txt", "f29.txt", "f30.txt", "f31.txt", "f32.txt", "f33.txt", "f34.txt", "f35.txt", "f36.txt", "f37.txt", "f38.txt", "f39.txt", "f40.txt", "f41.txt", "f42.txt", "f43.txt", "f44.txt", "f45.txt", "f46.txt", "f47.txt", "f48.txt", "f49.txt", "f50.txt", "f51.txt"]
    unpushedCount := 0, answerPushOnly := "", pushExistingOk := true
    hasOrigin := true, cliOnPath := true, stagedDiffLines := []
    unstagedDiffLines := [], aiExit := 0, aiStdout := "msg", aiStderr := ""
    answerConfirm := "", editedMessage := "", stagedQuietAfterAdd := false
    commitOk := true, pushExit := 0, pushOutput := "", upstreamPushOk := true }

set_option maxRecDepth 40000 in
/-- **C4, counterexample** — the claim says the push-variant collects up to
500 lines of the untracked-file list; the code truncates that list at 50
lines (`head -50`).  With 51 untracked files, the prompt handed to the AI
provider carries only the first 50. -/
theorem c4_counterexample :
    envManyUntracked.untrackedList.length = 51 ∧
    (runGp claudeCLI envManyUntracked []).actions.head? =
      some (.invokeAI (gpPrompt
        (joinLines (envManyUntracked.stagedDiffLines.take 500))
        (joinLines (envManyUntracked.unstagedDiffLines.take 500))
        (joinLines (envManyUntracked.untrackedList.take 50)))) ∧
    (runGp claudeCLI envManyUntracked []).actions.head? ≠
      some (.invokeAI (gpPrompt
        (joinLines (envManyUntracked.stagedDiffLines.take 500))
        (joinLines (envManyUntracked.unstagedDiffLines.take 500))
        (joinLines (envManyUntracked.untrackedList.take 500)))) := by
  refine ⟨by decide, by decide, by decide⟩

/-- **C4, amended** — in the AI message-source state, the push-variant
workflow interpolates the first 500 lines of the staged diff, the first 500
lines of the unstaged diff, and the first **50** lines of the untracked-file
list into the prompt (and the commit-only variant the first 500 lines of
the staged diff); that prompt is what the provider invocation receives. -/
theorem c4_diff_truncation :
    (∀ (cli : CLIInfo) (env : GitEnv) (args : List String),
      (parseArgs args).2 = "" →
      env.gitInstalled = true → env.insideWorkTree = true →
      env.hasUnmerged = false → env.currentBranch ≠ "" →
      (env.stagedQuiet && env.unstagedQuiet &&
        decide (joinLines env.untrackedList = "")) = false →
      env.cliOnPath = true →
      (runGp cli env args).actions.head? =
        some (.invokeAI (gpPrompt
          (joinLines (env.stagedDiffLines.take 500))
          (joinLines (env.unstagedDiffLines.take 500))
          (joinLines (env.untrackedList.take 50))))) ∧
    (∀ (cli : CLIInfo) (env : GitEnv) (args : List String),
      (parseArgs args).2 = "" →
      env.gitInstalled = true → env.insideWorkTree = true →
      env.stagedQuiet = false → env.cliOnPath = true →
      (runGc cli env args).actions.head? =
        some (.invokeAI (gcPrompt (joinLines (env.stagedDiffLines.take 500))))) := by
  constructor
  · intro cli env args h0 h1 h2 h3 h4 h5 h6
    unfold runGp
    simp only [h0, h1, h2, h3, h4, h5, h6]
    simp only [Bool.not_true, Bool.false_eq_true, if_false, Bool.not_false,
      if_true, Bool.not_eq_true]
    by_cases hai : (!(env.aiExit = 0) || env.aiStdout = "") = true
    · simp [h4, h5, hai]
    · by_cases hrm : (parseArgs args).1 = true
      · by_cases hcn : (env.answerConfirm = "n" || env.answerConfirm = "N") = true
        · simp [h4, h5, hai, hrm, hcn]
        · by_cases hce : (env.answerConfirm = "e" || env.answerConfirm = "E") = true
          · simp [h4, h5, hai, hrm, hcn, hce, runGpStage3_actions_head]
          · simp [h4, h5, hai, hrm, hcn, hce, runGpStage3_actions_head]
      · simp [h4, h5, hai, hrm, runGpStage3_actions_head]
  · intro cli env args h0 h1 h2 h3 h6
    unfold runGc
    simp only [h0, h1, h2, h3, h6]
    by_cases hai : (!(env.aiExit = 0) || env.aiStdout = "") = true
    · simp [hai]
    · by_cases hrm : (parseArgs args).1 = true
      · by_cases hcn : (env.answerConfirm = "n" || env.answerConfirm = "N") = true
        · simp [hai, hrm, hcn]
        · by_cases hce : (env.answerConfirm = "e" || env.answerConfirm = "E") = true
          · simp [hai, hrm, hcn, hce, runGcStage3_actions_head]
          · simp [hai, hrm, hcn, hce, runGcStage3_actions_head]
      · simp [hai, hrm, runGcStage3_actions_head]

set_option maxRecDepth 40000 in
theorem c4_witness :
    (parseArgs []).2 = "" ∧
    (envManyUntracked.stagedQuiet && envManyUntracked.unstagedQuiet &&
      decide (joinLines envManyUntracked.untrackedList = "")) = false ∧
    (runGp claudeCLI envManyUntracked []).actions.head? =
      some (.invokeAI (gpPrompt
        (joinLines (envManyUntracked.stagedDiffLines.take 500))
        (joinLines (envManyUntracked.unstagedDiffLines.take 500))
        (joinLines (envManyUntracked.untrackedList.take 50)))) :=
  ⟨rfl, by decide,
   c4_diff_truncation.1 claudeCLI envManyUntracked [] rfl rfl rfl rfl
     (by decide) (by decide) rfl⟩


/-- **C5** — in the Push state of the push-variant workflow (here reached
with a user-supplied message, staged changes, a configured origin, a
successful commit, and a failing first push): if the push output contains
the `"no upstream"` signature, exactly one upstream-setting push is
attempted and the function does not fail; for any other failing output no
upstream-setting push happens, the raw push output is surfaced verbatim
(dim-wrapped, as the script echoes it), and the function exits non-zero. -/
theorem c5_push_upstream_fallback (cli : CLIInfo) (env : GitEnv)
    (args : List String)
    (h1 : env.gitInstalled = true) (h2 : env.insideWorkTree = true)
    (h3 : env.hasUnmerged = false) (h4 : env.currentBranch ≠ "")
    (h5 : env.stagedQuiet = false) (h6 : env.hasOrigin = true)
    (h7 : (parseArgs args).2 ≠ "") (h8 : env.stagedQuietAfterAdd = false)
    (h9 : env.commitOk = true) (h10 : env.pushExit ≠ 0) :
    (occursb (ofStr "no upstream") (ofStr env.pushOutput) = true →
      (runGp cli env args).actions =
        [.addAll, .commit (parseArgs args).2, .pushOrigin env.currentBranch,
         .pushSetUpstream env.currentBranch] ∧
      ((runGp cli env args).actions.count
        (GitAction.pushSetUpstream env.currentBranch)) = 1) ∧
    (occursb (ofStr "no upstream") (ofStr env.pushOutput) = false →
      (runGp cli env args).exit = 1 ∧
      (runGp cli env args).actions =
        [.addAll, .commit (parseArgs args).2, .pushOrigin env.currentBranch] ∧
      (cDIM ++ env.pushOutput ++ cNC) ∈ (runGp cli env args).lines) := by
  have hrun : runGp cli env args =
      runGpStage3 env env.currentBranch false
        ((if !env.hasOrigin then
            [cYELLOW ++ "Warning:" ++ cNC ++ " No remote 'origin' configured"]
          else []) ++
          [cBOLD ++ cBLUE ++ barLine ++ cNC,
           cBOLD ++ "🚀 Git Push with AI Commit Message" ++ cNC,
           cBOLD ++ cBLUE ++ barLine ++ cNC] ++
          ["", cGREEN ++ "✓" ++ cNC ++ " Using provided commit message"])
        [] (parseArgs args).2 := by
    unfold runGp
    simp [h1, h2, h3, h4, h5, h6, h7]
  constructor
  · intro hu
    rw [hrun]
    unfold runGpStage3
    simp [h8, h9, h10, hu]
  · intro hu
    rw [hrun]
    unfold runGpStage3
    simp [h8, h9, h10, hu]

/-- A git environment whose first push fails without an upstream configured
(used by the C5 witness). -/
def envNoUpstream : GitEnv :=
  { gitInstalled := true, insideWorkTree := true, hasUnmerged := false
    currentBranch := "main", stagedQuiet := false, unstagedQuiet := true
    untrackedList := [], unpushedCount := 0, answerPushOnly := ""
    pushExistingOk := true, hasOrigin := true, cliOnPath := true
    stagedDiffLines := [], unstagedDiffLines := [], aiExit := 0
    aiStdout := "", aiStderr := "", answerConfirm := "", editedMessage := ""
    stagedQuietAfterAdd := false, commitOk := true, pushExit := 128
    pushOutput := "fatal: The current branch main has no upstream branch."
    upstreamPushOk := true }

theorem c5_witness :
    occursb (ofStr "no upstream") (ofStr envNoUpstream.pushOutput) = true ∧
    (runGp claudeCLI envNoUpstream (["fix: a bug"])).actions =
      [.addAll, .commit ("fix: a bug"), .pushOrigin ("main"),
       .pushSetUpstream ("main")] ∧
    ((runGp claudeCLI envNoUpstream (["fix: a bug"])).actions.count
      (GitAction.pushSetUpstream ("main"))) = 1 := by
  have h := (c5_push_upstream_fallback claudeCLI envNoUpstream (["fix: a bug"])
    rfl rfl rfl (by decide) rfl rfl (by decide) rfl rfl (by decide)).1
    (by decide)
  exact ⟨by decide, h.1, h.2⟩


/-!
### Structural lemmas about the matchers and the newline cleanup

Used to settle the profile-mutation claims (C2, C3, C10).
-/

theorem stripPre_eq_some_iff {p s r : List Char} :
    stripPre p s = some r ↔ s = p ++ r := by
  constructor
  · intro hs
    induction p generalizing s with
    | nil => simp [stripPre] at hs; simp [hs]
    | cons c cs ih =>
      cases s with
      | nil => simp [stripPre] at hs
      | cons d ds =>
        by_cases hd : d = c
        · simp [stripPre, hd] at hs
          simp [hd, ih hs]
        · simp [stripPre, hd] at hs
  · rintro rfl
    exact stripPre_self_append p r

theorem anchoredAux_iff {p : List Char → Bool} : ∀ {s : List Char},
    anchoredAux p s = true ↔ ∃ u t, s = u ++ '\n' :: t ∧ p t = true := by
  intro s
  induction s with
  | nil =>
    constructor
    · intro h
      simp [anchoredAux] at h
    · rintro ⟨u, t, h, -⟩
      cases u <;> simp at h
  | cons c rest ih =>
    simp only [anchoredAux, Bool.or_eq_true, Bool.and_eq_true, decide_eq_true_eq]
    constructor
    · rintro (⟨rfl, hp⟩ | h)
      · exact ⟨[], rest, rfl, hp⟩
      · obtain ⟨u, t, rfl, hp⟩ := ih.mp h
        exact ⟨c :: u, t, rfl, hp⟩
    · rintro ⟨u, t, heq, hp⟩
      cases u with
      | nil =>
        simp only [List.nil_append] at heq
        injection heq with h1 h2
        subst h1; subst h2
        exact Or.inl ⟨rfl, hp⟩
      | cons d u2 =>
        simp only [List.cons_append] at heq
        injection heq with h1 h2
        subst h1; subst h2
        exact Or.inr (ih.mpr ⟨u2, t, rfl, hp⟩)

/-- Positions of the multiline `^`: either position 0 or right after a
newline. -/
theorem anchoredAny_iff {p : List Char → Bool} {s : List Char} :
    anchoredAny p s = true ↔
      p s = true ∨ ∃ u t, s = u ++ '\n' :: t ∧ p t = true := by
  unfold anchoredAny
  rw [Bool.or_eq_true]
  exact or_congr Iff.rfl anchoredAux_iff

theorem anchoredAux_intro {p : List Char → Bool} {t : List Char}
    (u : List Char) (h : p t = true) :
    anchoredAux p (u ++ '\n' :: t) = true := by
  induction u with
  | nil => simp [anchoredAux, h]
  | cons c cs ih => simp [anchoredAux, ih]


theorem expectChar_eq_some_iff {c : Char} {s r : List Char} :
    expectChar c s = some r ↔ s = c :: r := by
  cases s with
  | nil => simp [expectChar]
  | cons d rest =>
    unfold expectChar
    by_cases hd : d = c
    · subst hd
      simp
    · simp only [if_neg hd]
      constructor
      · intro h
        simp at h
      · intro h
        injection h with h1 h2
        exact absurd h1 hd

theorem dropWhile_all_append {p : Char → Bool} {a : List Char}
    (b : List Char) (h : ∀ c ∈ a, p c = true) :
    (a ++ b).dropWhile p = b.dropWhile p := by
  induction a with
  | nil => rfl
  | cons c cs ih =>
    have hc : p c = true := h c (by simp)
    simp only [List.cons_append, List.dropWhile_cons, hc, if_true]
    exact ih fun d hd => h d (by simp [hd])

theorem takeWhile_all_append {p : Char → Bool} {a : List Char}
    (b : List Char) (h : ∀ c ∈ a, p c = true) :
    (a ++ b).takeWhile p = a ++ b.takeWhile p := by
  induction a with
  | nil => rfl
  | cons c cs ih =>
    have hc : p c = true := h c (by simp)
    simp only [List.cons_append, List.takeWhile_cons, hc, if_true]
    rw [ih fun d hd => h d (by simp [hd])]

theorem dropWhile_cons_neg {p : Char → Bool} {c : Char} (x : List Char)
    (h : p c = false) : (c :: x).dropWhile p = c :: x := by
  simp [List.dropWhile_cons, h]

theorem takeWhile_cons_neg {p : Char → Bool} {c : Char} (x : List Char)
    (h : p c = false) : (c :: x).takeWhile p = [] := by
  simp [List.takeWhile_cons, h]

theorem alnum_not_ws {c : Char} (h : isAlnum c = true) : isWsChar c = false := by
  by_cases h1 : c = ' '
  · subst h1; simp [isAlnum] at h
  by_cases h2 : c = '\t'
  · subst h2; simp [isAlnum] at h
  by_cases h3 : c = '\n'
  · subst h3; simp [isAlnum] at h
  by_cases h4 : c = '\r'
  · subst h4; simp [isAlnum] at h
  by_cases h5 : c = '\x0b'
  · subst h5; simp [isAlnum] at h
  by_cases h6 : c = '\x0c'
  · subst h6; simp [isAlnum] at h
  simp [isWsChar, h1, h2, h3, h4, h5, h6]

theorem alnum_ne_nl {c : Char} (h : isAlnum c = true) : ¬(c = '\n') := by
  intro h1
  subst h1
  simp [isAlnum] at h

/-- Full characterization of the function-header pattern
`N\s*\(\s*\)\s*\{`. -/
theorem matchFuncHead_eq_some_iff {name t r : List Char} :
    matchFuncHead name t = some r ↔
      ∃ w1 w2 w3 : List Char,
        (∀ c ∈ w1, isWsChar c = true) ∧ (∀ c ∈ w2, isWsChar c = true) ∧
        (∀ c ∈ w3, isWsChar c = true) ∧
        t = name ++ (w1 ++ '(' :: (w2 ++ ')' :: (w3 ++ '\x7b' :: r))) := by
  constructor
  · intro h
    unfold matchFuncHead at h
    cases h0 : stripPre name t with
    | none => rw [h0] at h; simp at h
    | some s1 =>
      rw [h0] at h
      simp only [Option.some_bind] at h
      unfold matchParens at h
      cases h1 : expectChar '(' (s1.dropWhile isWsChar) with
      | none => rw [h1] at h; simp at h
      | some s2 =>
        rw [h1] at h
        simp only [Option.some_bind] at h
        cases h2 : expectChar ')' (s2.dropWhile isWsChar) with
        | none => rw [h2] at h; simp at h
        | some s3 =>
          rw [h2] at h
          simp only [Option.some_bind] at h
          refine ⟨s1.takeWhile isWsChar, s2.takeWhile isWsChar,
            s3.takeWhile isWsChar, ?_, ?_, ?_, ?_⟩
          · exact fun c hc => List.mem_takeWhile_imp hc
          · exact fun c hc => List.mem_takeWhile_imp hc
          · exact fun c hc => List.mem_takeWhile_imp hc
          · rw [stripPre_eq_some_iff.mp h0]
            congr 1
            rw [expectChar_eq_some_iff] at h1 h2 h
            calc s1 = s1.takeWhile isWsChar ++ s1.dropWhile isWsChar :=
                  (List.takeWhile_append_dropWhile isWsChar s1).symm
              _ = s1.takeWhile isWsChar ++ ('(' :: s2) := by rw [h1]
              _ = s1.takeWhile isWsChar ++ ('(' ::
                    (s2.takeWhile isWsChar ++ s2.dropWhile isWsChar)) := by
                  rw [List.takeWhile_append_dropWhile]
              _ = s1.takeWhile isWsChar ++ ('(' ::
                    (s2.takeWhile isWsChar ++ (')' :: s3))) := by rw [h2]
              _ = s1.takeWhile isWsChar ++ ('(' ::
                    (s2.takeWhile isWsChar ++ (')' ::
                      (s3.takeWhile isWsChar ++ s3.dropWhile isWsChar)))) := by
                  rw [List.takeWhile_append_dropWhile]
              _ = _ := by rw [h]
  · rintro ⟨w1, w2, w3, h1, h2, h3, rfl⟩
    unfold matchFuncHead
    rw [stripPre_self_append]
    simp only [Option.some_bind]
    unfold matchParens
    rw [dropWhile_all_append _ h1, dropWhile_cons_neg _ (by decide)]
    rw [show expectChar '(' ('(' :: (w2 ++ ')' :: (w3 ++ '\x7b' :: r))) =
      some (w2 ++ ')' :: (w3 ++ '\x7b' :: r)) from expectChar_eq_some_iff.mpr rfl]
    simp only [Option.some_bind]
    rw [dropWhile_all_append _ h2, dropWhile_cons_neg _ (by decide)]
    rw [show expectChar ')' (')' :: (w3 ++ '\x7b' :: r)) =
      some (w3 ++ '\x7b' :: r) from expectChar_eq_some_iff.mpr rfl]
    simp only [Option.some_bind]
    rw [dropWhile_all_append _ h3, dropWhile_cons_neg _ (by decide)]
    exact expectChar_eq_some_iff.mpr rfl


theorem collapse_cons_ne_nl (c : Char) (y : List Char) (hc : ¬(c = '\n')) :
    collapseNl (c :: y) = c :: collapseNl y := by
  simp only [collapseNl]
  rw [if_neg (fun h => hc h.1)]

theorem dropWhile_head_false {p : Char → Bool} {a : List Char} {g : Char}
    {w : List Char} (h : a.dropWhile p = g :: w) : p g = false := by
  induction a with
  | nil => simp [List.dropWhile] at h
  | cons e a2 ih =>
    rw [List.dropWhile_cons] at h
    by_cases hpe : p e = true
    · rw [if_pos hpe] at h
      exact ih h
    · rw [if_neg hpe] at h
      injection h with h1 _
      subst h1
      exact Bool.not_eq_true _ ▸ hpe

theorem dropWhile_append_first {p : Char → Bool} {a : List Char} {g : Char}
    {w : List Char} (b : List Char) (h : a.dropWhile p = g :: w) :
    (a ++ b).dropWhile p = (g :: w) ++ b := by
  induction a with
  | nil => simp [List.dropWhile] at h
  | cons e a2 ih =>
    rw [List.dropWhile_cons] at h
    rw [List.cons_append, List.dropWhile_cons]
    by_cases hpe : p e = true
    · rw [if_pos hpe] at h
      rw [if_pos hpe]
      exact ih h
    · rw [if_neg hpe] at h
      rw [if_neg hpe]
      injection h with h1 h2
      subst h1
      rw [h2]
      rfl

theorem takeWhile_append_first {p : Char → Bool} {a : List Char} {g : Char}
    {w : List Char} (b : List Char) (h : a.dropWhile p = g :: w) :
    (a ++ b).takeWhile p = a.takeWhile p := by
  induction a with
  | nil => simp [List.dropWhile] at h
  | cons e a2 ih =>
    rw [List.dropWhile_cons] at h
    rw [List.cons_append, List.takeWhile_cons, List.takeWhile_cons]
    by_cases hpe : p e = true
    · rw [if_pos hpe] at h
      rw [if_pos hpe, if_pos hpe, ih h]
    · rw [if_neg hpe, if_neg hpe]

theorem all_of_dropWhile_nil {p : Char → Bool} {a : List Char}
    (h : a.dropWhile p = []) : ∀ c ∈ a, p c = true := by
  induction a with
  | nil => simp
  | cons e a2 ih =>
    rw [List.dropWhile_cons] at h
    by_cases hpe : p e = true
    · rw [if_pos hpe] at h
      intro c hc
      rcases List.mem_cons.mp hc with rfl | hc
      · exact hpe
      · exact ih h c hc
    · rw [if_neg hpe] at h
      simp at h

theorem collapseNl_cons_eq (c : Char) (rest : List Char) :
    collapseNl (c :: rest) =
      if c = '\n' ∧ 2 ≤ (rest.takeWhile (fun x => decide (x = '\n'))).length then
        '\n' :: '\n' :: collapseNl (rest.dropWhile (fun x => decide (x = '\n')))
      else c :: collapseNl rest := by
  conv_lhs => rw [collapseNl]

/-- Passing a whitespace run followed by a non-newline character through the
newline cleanup leaves some whitespace run followed by the same character;
the cleanup then continues independently on the remainder. -/
theorem collapse_ws_mid : ∀ (n : Nat) (w : List Char), w.length ≤ n →
    (∀ d ∈ w, isWsChar d = true) → ∀ (c : Char) (y : List Char), ¬(c = '\n') →
    ∃ w', (∀ d ∈ w', isWsChar d = true) ∧
      collapseNl (w ++ c :: y) = w' ++ c :: collapseNl y := by
  intro n
  induction n with
  | zero =>
    intro w hw hws c y hc
    have hnil : w = [] := List.eq_nil_of_length_eq_zero (Nat.le_zero.mp hw)
    subst hnil
    exact ⟨[], by simp, by simp [collapse_cons_ne_nl _ _ hc]⟩
  | succ n ih =>
    intro w hw hws c y hc
    cases w with
    | nil => exact ⟨[], by simp, by simp [collapse_cons_ne_nl _ _ hc]⟩
    | cons d w2 =>
      have hw2 : w2.length ≤ n := by
        simp only [List.length_cons] at hw
        omega
      have hws2 : ∀ e ∈ w2, isWsChar e = true := fun e he => hws e (by simp [he])
      by_cases hd : d = '\n'
      · subst hd
        rw [List.cons_append, collapseNl_cons_eq]
        by_cases hrun : 2 ≤ ((w2 ++ c :: y).takeWhile
            (fun x => decide (x = '\n'))).length
        · rw [if_pos ⟨rfl, hrun⟩]
          cases hdw : w2.dropWhile (fun x => decide (x = '\n')) with
          | nil =>
            have hall := all_of_dropWhile_nil hdw
            have hdrop : (w2 ++ c :: y).dropWhile (fun x => decide (x = '\n')) =
                c :: y := by
              rw [dropWhile_all_append _ hall,
                dropWhile_cons_neg _ (by simp [hc])]
            rw [hdrop, collapse_cons_ne_nl _ _ hc]
            exact ⟨['\n', '\n'], by decide, rfl⟩
          | cons g w4 =>
            have hdrop : (w2 ++ c :: y).dropWhile (fun x => decide (x = '\n')) =
                (g :: w4) ++ c :: y := dropWhile_append_first _ hdw
            rw [hdrop]
            have hlen : (g :: w4).length ≤ n := by
              have hsub : (w2.dropWhile (fun x => decide (x = '\n'))).length ≤
                  w2.length := (List.dropWhile_sublist _).length_le
              rw [hdw] at hsub
              simp only [List.length_cons] at hsub ⊢
              omega
            have hmem : ∀ e ∈ g :: w4, isWsChar e = true := by
              intro e he
              exact hws2 e ((List.dropWhile_sublist _).subset (hdw ▸ he))
            obtain ⟨w', hw', heq⟩ := ih (g :: w4) hlen hmem c y hc
            rw [heq]
            exact ⟨'\n' :: '\n' :: w', by
              intro e he
              rcases List.mem_cons.mp he with rfl | he
              · decide
              rcases List.mem_cons.mp he with rfl | he
              · decide
              · exact hw' e he, rfl⟩
        · rw [if_neg (fun hcon => hrun hcon.2)]
          obtain ⟨w', hw', heq⟩ := ih w2 hw2 hws2 c y hc
          rw [heq]
          exact ⟨'\n' :: w', by
            intro e he
            rcases List.mem_cons.mp he with rfl | he
            · decide
            · exact hw' e he, rfl⟩
      · rw [List.cons_append, collapse_cons_ne_nl _ _ hd]
        obtain ⟨w', hw', heq⟩ := ih w2 hw2 hws2 c y hc
        rw [heq]
        refine ⟨d :: w', ?_, rfl⟩
        intro e he
        rcases List.mem_cons.mp he with rfl | he
        · exact hws e (by simp)
        · exact hw' e he

/-- The newline cleanup keeps a line boundary in front of a position whose
first character is not a newline. -/
theorem collapse_nl_anchor : ∀ (n : Nat) (u : List Char), u.length ≤ n →
    ∀ (d : Char) (t : List Char), ¬(d = '\n') →
    ∃ v, collapseNl (u ++ '\n' :: d :: t) = v ++ '\n' :: collapseNl (d :: t) := by
  intro n
  induction n with
  | zero =>
    intro u hu d t hd
    have hnil : u = [] := List.eq_nil_of_length_eq_zero (Nat.le_zero.mp hu)
    subst hnil
    refine ⟨[], ?_⟩
    have hcond : ¬('\n' = '\n' ∧ 2 ≤ ((d :: t).takeWhile
        (fun x => decide (x = '\n'))).length) := by
      rintro ⟨-, hrun⟩
      rw [takeWhile_cons_neg _ (by simp [hd])] at hrun
      simp at hrun
    rw [List.nil_append, collapseNl_cons_eq, if_neg hcond]
    rfl
  | succ n ih =>
    intro u hu d t hd
    cases u with
    | nil =>
      obtain ⟨v, hv⟩ := ih [] (by simp) d t hd
      exact ⟨v, hv⟩
    | cons e u2 =>
      have hu2 : u2.length ≤ n := by
        simp only [List.length_cons] at hu
        omega
      by_cases he : e = '\n'
      · subst he
        rw [List.cons_append, collapseNl_cons_eq]
        by_cases hrun : 2 ≤ ((u2 ++ '\n' :: d :: t).takeWhile
            (fun x => decide (x = '\n'))).length
        · rw [if_pos ⟨rfl, hrun⟩]
          cases hdw : u2.dropWhile (fun x => decide (x = '\n')) with
          | nil =>
            have hall := all_of_dropWhile_nil hdw
            have hdrop : (u2 ++ '\n' :: d :: t).dropWhile
                (fun x => decide (x = '\n')) = d :: t := by
              rw [dropWhile_all_append _ hall, List.dropWhile_cons,
                if_pos (by simp), dropWhile_cons_neg _ (by simp [hd])]
            rw [hdrop]
            exact ⟨['\n'], rfl⟩
          | cons g w4 =>
            have hdrop : (u2 ++ '\n' :: d :: t).dropWhile
                (fun x => decide (x = '\n')) = (g :: w4) ++ '\n' :: d :: t :=
              dropWhile_append_first _ hdw
            rw [hdrop]
            have hlen : (g :: w4).length ≤ n := by
              have hsub : (u2.dropWhile (fun x => decide (x = '\n'))).length ≤
                  u2.length := (List.dropWhile_sublist _).length_le
              rw [hdw] at hsub
              simp only [List.length_cons] at hsub ⊢
              omega
            obtain ⟨v, hv⟩ := ih (g :: w4) hlen d t hd
            rw [hv]
            exact ⟨'\n' :: '\n' :: v, rfl⟩
        · rw [if_neg (fun hcon => hrun hcon.2)]
          obtain ⟨v, hv⟩ := ih u2 hu2 d t hd
          rw [hv]
          exact ⟨'\n' :: v, rfl⟩
      · rw [List.cons_append, collapse_cons_ne_nl _ _ he]
        obtain ⟨v, hv⟩ := ih u2 hu2 d t hd
        rw [hv]
        exact ⟨e :: v, rfl⟩


theorem collapse_no_nl_append {a : List Char} (y : List Char)
    (h : ∀ c ∈ a, ¬(c = '\n')) : collapseNl (a ++ y) = a ++ collapseNl y := by
  induction a with
  | nil => rfl
  | cons c cs ih =>
    rw [List.cons_append, collapse_cons_ne_nl _ _ (h c (by simp)),
      ih (fun d hd => h d (by simp [hd]))]
    rfl

/-- The function-header match survives the newline cleanup. -/
theorem matchFuncHead_collapse {name t r : List Char}
    (hname : ∀ c ∈ name, isAlnum c = true)
    (h : matchFuncHead name t = some r) :
    ∃ r', matchFuncHead name (collapseNl t) = some r' := by
  obtain ⟨w1, w2, w3, hw1, hw2, hw3, rfl⟩ := matchFuncHead_eq_some_iff.mp h
  rw [collapse_no_nl_append _ (fun c hc => alnum_ne_nl (hname c hc))]
  obtain ⟨w1', hws1, he1⟩ := collapse_ws_mid (w1.length) w1 le_rfl hw1 '('
    (w2 ++ ')' :: (w3 ++ '\x7b' :: r)) (by decide)
  rw [he1]
  obtain ⟨w2', hws2, he2⟩ := collapse_ws_mid (w2.length) w2 le_rfl hw2 ')'
    (w3 ++ '\x7b' :: r) (by decide)
  rw [he2]
  obtain ⟨w3', hws3, he3⟩ := collapse_ws_mid (w3.length) w3 le_rfl hw3 '\x7b'
    r (by decide)
  rw [he3]
  exact ⟨collapseNl r, matchFuncHead_eq_some_iff.mpr
    ⟨w1', w2', w3', hws1, hws2, hws3, rfl⟩⟩

/-- The multiline function-header detection survives the newline cleanup. -/
theorem aliasExists_collapse {name s : List Char} (hne : name ≠ [])
    (hname : ∀ c ∈ name, isAlnum c = true)
    (h : aliasExistsContent name s = true) :
    aliasExistsContent name (collapseNl s) = true := by
  unfold aliasExistsContent at h ⊢
  rcases anchoredAny_iff.mp h with hp | ⟨u, t, rfl, hp⟩
  · unfold headMatch at hp ⊢
    rw [Option.isSome_iff_exists] at hp
    obtain ⟨r, hr⟩ := hp
    obtain ⟨r', hr'⟩ := matchFuncHead_collapse hname hr
    exact anchoredAny_iff.mpr (Or.inl (by simp [hr']))
  · unfold headMatch at hp
    rw [Option.isSome_iff_exists] at hp
    obtain ⟨r, hr⟩ := hp
    obtain ⟨w1, w2, w3, hw1, hw2, hw3, ht⟩ := matchFuncHead_eq_some_iff.mp hr
    cases name with
    | nil => exact absurd rfl hne
    | cons n0 name1 =>
      rw [List.cons_append] at ht
      subst ht
      have hn0 : ¬(n0 = '\n') := alnum_ne_nl (hname n0 (by simp))
      obtain ⟨v, hv⟩ := collapse_nl_anchor u.length u le_rfl n0
        (name1 ++ (w1 ++ '(' :: (w2 ++ ')' :: (w3 ++ '\x7b' :: r)))) hn0
      obtain ⟨r', hr'⟩ := matchFuncHead_collapse hname hr
      refine anchoredAny_iff.mpr (Or.inr
        ⟨v, collapseNl (n0 :: (name1 ++
          (w1 ++ '(' :: (w2 ++ ')' :: (w3 ++ '\x7b' :: r))))), hv, ?_⟩)
      unfold headMatch
      simp [hr']

/-- The function-header match extends under appending on the right. -/
theorem matchFuncHead_append {name t r : List Char} (b : List Char)
    (h : matchFuncHead name t = some r) :
    matchFuncHead name (t ++ b) = some (r ++ b) := by
  obtain ⟨w1, w2, w3, hw1, hw2, hw3, rfl⟩ := matchFuncHead_eq_some_iff.mp h
  refine matchFuncHead_eq_some_iff.mpr ⟨w1, w2, w3, hw1, hw2, hw3, ?_⟩
  simp

/-- The multiline function-header detection extends under appending. -/
theorem aliasExists_append {name a : List Char} (b : List Char)
    (h : aliasExistsContent name a = true) :
    aliasExistsContent name (a ++ b) = true := by
  unfold aliasExistsContent at h ⊢
  rcases anchoredAny_iff.mp h with hp | ⟨u, t, rfl, hp⟩
  · unfold headMatch at hp
    rw [Option.isSome_iff_exists] at hp
    obtain ⟨r, hr⟩ := hp
    exact anchoredAny_iff.mpr (Or.inl (by
      unfold headMatch
      simp [matchFuncHead_append b hr]))
  · unfold headMatch at hp
    rw [Option.isSome_iff_exists] at hp
    obtain ⟨r, hr⟩ := hp
    refine anchoredAny_iff.mpr (Or.inr ⟨u, t ++ b, by simp, ?_⟩)
    unfold headMatch
    simp [matchFuncHead_append b hr]

/-- The reload remover's line matcher fires exactly when the reload
detector's alias-line pattern fires. -/
theorem matchAliasLineAt_none_iff {name s : List Char} :
    matchAliasLineAt name s = none ↔ matchAliasHead name s = none := by
  unfold matchAliasLineAt
  cases h : matchAliasHead name s <;> simp

/-- If no line of the profile starts with `alias N=`, the reload remover is
the identity (before the newline cleanup). -/
theorem removeAnchoredGo_id {name : List Char} : ∀ (s : List Char) (b : Bool),
    (b = true → matchAliasHead name s = none) →
    anchoredAux (aliasHeadMatch name) s = false →
    removeAnchoredGo name b s = s := by
  intro s
  induction s with
  | nil => intro b _ _; unfold removeAnchoredGo; rfl
  | cons c rest ih =>
    intro b hb haux
    have haux1 : (c = '\n' → aliasHeadMatch name rest = false) ∧
        anchoredAux (aliasHeadMatch name) rest = false := by
      unfold anchoredAux at haux
      constructor
      · intro hc
        rcases Bool.or_eq_false_iff.mp haux with ⟨h1, -⟩
        rcases Bool.and_eq_false_iff.mp h1 with h2 | h2
        · subst hc
          simp at h2
        · exact h2
      · exact (Bool.or_eq_false_iff.mp haux).2
    have hrec : removeAnchoredGo name (c = '\n') rest = rest := by
      apply ih
      · intro hstart
        have hc : c = '\n' := by
          by_cases h : c = '\n'
          · exact h
          · simp [h] at hstart
        have := haux1.1 hc
        unfold aliasHeadMatch at this
        cases hm : matchAliasHead name rest with
        | none => rfl
        | some r => rw [hm] at this; simp at this
      · exact haux1.2
    unfold removeAnchoredGo
    cases b with
    | false =>
      simp only [Bool.false_eq_true, if_false]
      rw [hrec]
    | true =>
      simp only [if_true]
      rw [matchAliasLineAt_none_iff.mpr (hb rfl)]
      rw [hrec]

/-- `alias N=` matches at the front of the alias line the reload installer
appends. -/
theorem matchAliasHead_block {name : List Char} (r : List Char)
    (hne : name ≠ []) (hname : ∀ c ∈ name, isAlnum c = true) :
    matchAliasHead name (ofStr ("alias ") ++ (name ++ '=' :: r)) =
      some r := by
  cases name with
  | nil => exact absurd rfl hne
  | cons n0 name1 =>
    have hn0 : isWsChar n0 = false := alnum_not_ws (hname n0 (by simp))
    have hstep : ofStr ("alias ") ++ ((n0 :: name1) ++ '=' :: r) =
        ofStr ("alias") ++ (' ' :: ((n0 :: name1) ++ '=' :: r)) := rfl
    unfold matchAliasHead
    rw [hstep, stripPre_self_append]
    simp only [Option.some_bind]
    have htake : ((' ' :: ((n0 :: name1) ++ '=' :: r)).takeWhile
        isWsChar).isEmpty = false := by
      rw [List.takeWhile_cons]
      simp only [show isWsChar ' ' = true from rfl, if_true, List.isEmpty_cons]
    have hdrop : (' ' :: ((n0 :: name1) ++ '=' :: r)).dropWhile isWsChar =
        (n0 :: name1) ++ '=' :: r := by
      rw [List.dropWhile_cons]
      simp only [show isWsChar ' ' = true from rfl, if_true]
      exact dropWhile_cons_neg _ hn0
    simp only [htake, Bool.false_eq_true, if_false]
    rw [hdrop, stripPre_self_append]
    simp [expectChar]


/-- **C10** — detection and removal of the reload alias use different
grammars: the detector recognizes `alias N=` lines *and* `N() {` function
definitions, but the remover excises only `alias N=` lines.  Hence for
every profile in which the name is defined only as a function (the
function-header pattern matches, no `alias N=` line exists),
`installReloadAlias` with overwrite set leaves the function definition in
place — removal only performs the newline cleanup — and appends a new
`alias N=` line, so both definitions coexist in the resulting profile. -/
theorem c10_reload_remover_mismatch (env : ShellEnv) (fs : FS)
    (name content ts : List Char)
    (hp : fs.profile = some content) (happ : fs.appendOk = true)
    (hne : name ≠ []) (hname : ∀ c ∈ name, isAlnum c = true)
    (hf : aliasExistsContent name content = true)
    (ha : aliasLineExistsContent name content = false) :
    (installReloadAlias env fs name true ts).2 =
      InstallResult.success (detectShellProfile env).1 (detectShellProfile env).2 ∧
    (installReloadAlias env fs name true ts).1.profile =
      some (collapseNl content ++
        reloadBlock name (detectShellProfile env).2 ts) ∧
    aliasExistsContent name (collapseNl content ++
      reloadBlock name (detectShellProfile env).2 ts) = true ∧
    aliasLineExistsContent name (collapseNl content ++
      reloadBlock name (detectShellProfile env).2 ts) = true := by
  have hhead : matchAliasHead name content = none := by
    have h1 : aliasHeadMatch name content = false := by
      unfold aliasLineExistsContent anchoredAny at ha
      exact (Bool.or_eq_false_iff.mp ha).1
    unfold aliasHeadMatch at h1
    cases hm : matchAliasHead name content with
    | none => rfl
    | some r => rw [hm] at h1; simp at h1
  have haux : anchoredAux (aliasHeadMatch name) content = false := by
    unfold aliasLineExistsContent anchoredAny at ha
    exact (Bool.or_eq_false_iff.mp ha).2
  have hremove : removeReloadContent name content = collapseNl content := by
    unfold removeReloadContent
    rw [removeAnchoredGo_id content true (fun _ => hhead) haux]
  have hex : reloadAliasExistsFS fs name = true := by
    unfold reloadAliasExistsFS
    rw [hp]
    unfold reloadAliasExistsContent
    simp [hf]
  have hinst : installReloadAlias env fs name true ts =
      ({ fs with profile := some (collapseNl content ++
          reloadBlock name (detectShellProfile env).2 ts) },
        InstallResult.success (detectShellProfile env).1
          (detectShellProfile env).2) := by
    unfold installReloadAlias removeReloadFS
    rw [hp]
    simp only [hex, Bool.not_true, Bool.and_false, Bool.and_true, if_true,
      Bool.false_eq_true, if_false]
    simp [happ, hremove, hp]
  refine ⟨by rw [hinst], by rw [hinst], ?_, ?_⟩
  · exact aliasExists_append _ (aliasExists_collapse hne hname hf)
  · have hblock : reloadBlock name (detectShellProfile env).2 ts =
        (ofStr ("\n# ━━━━━━━━━━━━━━━━━━━━━━━━━━━━━━━━━━━━━━━━━━━━━━━━━━━\n# Shell Reload Alias - Added by @lvmk/quick-alias\n# Generated: ") ++
          ts ++ ofStr ("\n# ━━━━━━━━━━━━━━━━━━━━━━━━━━━━━━━━━━━━━━━━━━━━━━━━━━━")) ++
        '\n' :: (ofStr ("alias ") ++ (name ++ '=' ::
          (ofStr ("\"source ") ++ ofStr (detectShellProfile env).2 ++
            ofStr ("\"\n")))) := by
      unfold reloadBlock
      have h1 : ofStr ("\n# ━━━━━━━━━━━━━━━━━━━━━━━━━━━━━━━━━━━━━━━━━━━━━━━━━━━\nalias ") =
          ofStr ("\n# ━━━━━━━━━━━━━━━━━━━━━━━━━━━━━━━━━━━━━━━━━━━━━━━━━━━") ++
            '\n' :: ofStr ("alias ") := rfl
      have h2 : ofStr ("=\"source ") = '=' :: ofStr ("\"source ") := rfl
      rw [h1, h2]
      simp [List.append_assoc]
    unfold aliasLineExistsContent
    rw [hblock, ← List.append_assoc]
    refine anchoredAny_iff.mpr (Or.inr ⟨_, _, rfl, ?_⟩)
    unfold aliasHeadMatch
    rw [matchAliasHead_block _ hne hname]
    rfl

theorem c10_witness :
    aliasExistsContent (ofStr ("rl"))
      (ofStr ("rl() \x7b\n source ~/.zshrc\n\x7d\n")) = true ∧
    aliasLineExistsContent (ofStr ("rl"))
      (ofStr ("rl() \x7b\n source ~/.zshrc\n\x7d\n")) = false ∧
    aliasExistsContent (ofStr ("rl"))
      (collapseNl (ofStr ("rl() \x7b\n source ~/.zshrc\n\x7d\n")) ++
        reloadBlock (ofStr ("rl"))
          (detectShellProfile ⟨"/h", "zsh", true, true⟩).2 (ofStr ("T"))) = true ∧
    aliasLineExistsContent (ofStr ("rl"))
      (collapseNl (ofStr ("rl() \x7b\n source ~/.zshrc\n\x7d\n")) ++
        reloadBlock (ofStr ("rl"))
          (detectShellProfile ⟨"/h", "zsh", true, true⟩).2 (ofStr ("T"))) = true := by
  have h := c10_reload_remover_mismatch ⟨"/h", "zsh", true, true⟩
    ⟨some (ofStr ("rl() \x7b\n source ~/.zshrc\n\x7d\n")), true, true⟩
    (ofStr ("rl")) (ofStr ("rl() \x7b\n source ~/.zshrc\n\x7d\n")) (ofStr ("T"))
    rfl rfl (by decide) (by decide) (by decide) (by decide)
  exact ⟨by decide, by decide, h.2.2.1, h.2.2.2⟩


/-!
### Scanning lemmas for the global replacements (C2, C3)
-/

theorem removePat_nil {m : List Char → Option (List Char)}
    {hm : ∀ s r, m s = some r → r.length < s.length} :
    removePat m hm [] = [] := by
  rw [removePat]
  split
  · rename_i r heq
    exact absurd (hm _ _ heq) (by simp)
  · rfl

theorem removePat_match {m : List Char → Option (List Char)}
    {hm : ∀ s r, m s = some r → r.length < s.length} {s r : List Char}
    (h : m s = some r) : removePat m hm s = removePat m hm r := by
  rw [removePat]
  split
  · rename_i r' heq
    rw [h] at heq
    injection heq with heq
    rw [heq]
  · rename_i heq
    rw [h] at heq
    exact absurd heq (by simp)

theorem removePat_none_cons {m : List Char → Option (List Char)}
    {hm : ∀ s r, m s = some r → r.length < s.length} {c : Char}
    {rest : List Char} (h : m (c :: rest) = none) :
    removePat m hm (c :: rest) = c :: removePat m hm rest := by
  rw [removePat]
  split
  · rename_i r' heq
    rw [h] at heq
    exact absurd heq (by simp)
  · rfl

theorem removePat_id {m : List Char → Option (List Char)}
    {hm : ∀ s r, m s = some r → r.length < s.length} : ∀ {s : List Char},
    (∀ t ∈ s.tails, m t = none) → removePat m hm s = s := by
  intro s
  induction s with
  | nil => intro _; exact removePat_nil
  | cons c rest ih =>
    intro h
    rw [removePat_none_cons (h (c :: rest) (by
      rw [List.mem_tails]))]
    rw [ih fun t ht => h t (by
      rw [List.mem_tails] at ht ⊢
      exact ht.trans (List.suffix_cons c rest))]

theorem removePat_skip {m : List Char → Option (List Char)}
    {hm : ∀ s r, m s = some r → r.length < s.length} : ∀ {a : List Char}
    (b : List Char), (∀ t ∈ a.tails, t ≠ [] → m (t ++ b) = none) →
    removePat m hm (a ++ b) = a ++ removePat m hm b := by
  intro a
  induction a with
  | nil => intro b _; rfl
  | cons c rest ih =>
    intro b h
    have h1 : m ((c :: rest) ++ b) = none :=
      h (c :: rest) (by rw [List.mem_tails]) (by simp)
    rw [List.cons_append] at h1 ⊢
    rw [removePat_none_cons h1]
    rw [ih b fun t ht hne => h t (by
      rw [List.mem_tails] at ht ⊢
      exact ht.trans (List.suffix_cons c rest)) hne]
    rfl

/-- The lazy terminator search: the first `"\n}"` after a body free of that
sequence is the block's own terminator. -/
theorem findClose_skip : ∀ {b : List Char} (z : List Char),
    occursb (ofStr ("\n\x7d")) b = false →
    findClose (b ++ '\n' :: '\x7d' :: z) = some (skipOptNl z) := by
  intro b
  induction b with
  | nil =>
    intro z _
    rw [List.nil_append]
    unfold findClose
    simp
  | cons c b2 ih =>
    intro z hocc
    have hocc2 : occursb (ofStr ("\n\x7d")) b2 = false := by
      unfold occursb at hocc
      exact (Bool.or_eq_false_iff.mp hocc).2
    rw [List.cons_append]
    unfold findClose
    by_cases hc : c = '\n'
    · rw [if_pos hc]
      cases b2 with
      | nil =>
        simp only [List.nil_append]
        rw [if_neg (by decide)]
        simp [findClose]
      | cons d b3 =>
        simp only [List.cons_append]
        by_cases hd : d = '\x7d'
        · exfalso
          have hpre : isPre (ofStr ("\n\x7d")) (c :: d :: b3) = true := by
            rw [hc, hd]
            simp [isPre, ofStr, stripPre]
          unfold occursb at hocc
          rw [hpre] at hocc
          simp at hocc
        · rw [if_neg hd]
          have hih := ih z hocc2
          rw [List.cons_append] at hih
          exact hih
    · rw [if_neg hc]
      exact ih z hocc2

/-- `collapseNl` is the identity on text without three consecutive
newlines. -/
theorem collapseNl_id_of_no_triple : ∀ {s : List Char},
    occursb (ofStr ("\n\n\n")) s = false → collapseNl s = s := by
  intro s
  induction s with
  | nil =>
    intro _
    rw [collapseNl]
  | cons c rest ih =>
    intro h
    have h2 : occursb (ofStr ("\n\n\n")) rest = false := by
      unfold occursb at h
      exact (Bool.or_eq_false_iff.mp h).2
    by_cases hc : c = '\n'
    · subst hc
      rw [collapseNl_cons_eq]
      rw [if_neg ?_]
      · rw [ih h2]
      · rintro ⟨-, hrun⟩
        cases hr1 : rest with
        | nil => rw [hr1] at hrun; simp [List.takeWhile] at hrun
        | cons d rest2 =>
          rw [hr1, List.takeWhile_cons] at hrun
          by_cases hd : d = '\n'
          · rw [if_pos (by simp [hd])] at hrun
            cases hr2 : rest2 with
            | nil => rw [hr2] at hrun; simp [List.takeWhile] at hrun
            | cons e rest3 =>
              rw [hr2, List.takeWhile_cons] at hrun
              by_cases he : e = '\n'
              · have : isPre (ofStr ("\n\n\n")) ('\n' :: rest) = true := by
                  rw [hr1, hd, hr2, he]
                  simp [isPre, ofStr, stripPre]
                unfold occursb at h
                rw [this] at h
                simp at h
              · rw [if_neg (by simp [he])] at hrun
                simp at hrun
          · rw [if_neg (by simp [hd])] at hrun
            simp at hrun
    · rw [collapse_cons_ne_nl _ _ hc, ih h2]


/-- A bare named function block `N() {<body>\n}` as written in a profile. -/
def funcBlock (name body : List Char) : List Char :=
  name ++ ofStr ("() \x7b") ++ body ++ '\n' :: '\x7d' :: []

/-- The part of a rendered function after its name. -/
def PB (body : List Char) : List Char :=
  ofStr ("() \x7b") ++ (body ++ ['\n', '\x7d'])

/-- The bare pattern consumes exactly a well-formed block (body free of
`"\n}"`) together with the single newline after it. -/
theorem matchSimpleAt_block {name body : List Char} (z : List Char)
    (hb : occursb (ofStr ("\n\x7d")) body = false) :
    matchSimpleAt name (funcBlock name body ++ '\n' :: z) = some z := by
  have hshape : funcBlock name body ++ '\n' :: z =
      name ++ ([] ++ '(' :: ([] ++ ')' :: ([' '] ++ '\x7b' ::
        (body ++ '\n' :: '\x7d' :: '\n' :: z)))) := by
    unfold funcBlock
    rw [show ofStr ("() \x7b") = ['(', ')', ' ', '\x7b'] from rfl]
    simp
  rw [hshape]
  unfold matchSimpleAt
  rw [matchFuncHead_eq_some_iff.mpr ⟨[], [], [' '], by simp, by simp,
    by intro c hc; simp at hc; subst hc; rfl, rfl⟩]
  simp only [Option.some_bind]
  rw [show body ++ '\n' :: '\x7d' :: '\n' :: z =
    body ++ '\n' :: '\x7d' :: ('\n' :: z) from rfl]
  rw [findClose_skip ('\n' :: z) hb]
  rfl

/-- **C3, counterexample** — the claim allows removal to change unrelated
content only by collapsing runs of *three or more blank lines*.  The code
collapses runs of three or more newline *characters*, i.e. already two
consecutive blank lines.  In a profile with two blank lines between `foo`
and `bar` outside the removed block, removal rewrites that run, so the
content outside the matched block is not byte-identical as claimed. -/
theorem c3_counterexample :
    removeExistingAliasContent (ofStr ("gp"))
      (ofStr ("gp() \x7b\nx\n\x7d\nfoo\n\n\nbar\nother() \x7b\ny\n\x7d\n")) =
      ofStr ("foo\n\nbar\nother() \x7b\ny\n\x7d\n") ∧
    removeExistingAliasContent (ofStr ("gp"))
      (ofStr ("gp() \x7b\nx\n\x7d\nfoo\n\n\nbar\nother() \x7b\ny\n\x7d\n")) ≠
      ofStr ("foo\n\n\nbar\nother() \x7b\ny\n\x7d\n") := by
  have hshape : ofStr ("gp() \x7b\nx\n\x7d\nfoo\n\n\nbar\nother() \x7b\ny\n\x7d\n") =
      funcBlock (ofStr ("gp")) (ofStr ("\nx")) ++ '\n' ::
        ofStr ("foo\n\n\nbar\nother() \x7b\ny\n\x7d\n") := by decide
  have h1 : removeFC (ofStr ("gp"))
      (ofStr ("gp() \x7b\nx\n\x7d\nfoo\n\n\nbar\nother() \x7b\ny\n\x7d\n")) =
      ofStr ("gp() \x7b\nx\n\x7d\nfoo\n\n\nbar\nother() \x7b\ny\n\x7d\n") :=
    removePat_id (by decide)
  have h2 : removeSimple (ofStr ("gp"))
      (ofStr ("gp() \x7b\nx\n\x7d\nfoo\n\n\nbar\nother() \x7b\ny\n\x7d\n")) =
      ofStr ("foo\n\n\nbar\nother() \x7b\ny\n\x7d\n") := by
    rw [hshape]
    unfold removeSimple
    rw [removePat_match (matchSimpleAt_block
        (ofStr ("foo\n\n\nbar\nother() \x7b\ny\n\x7d\n")) (by decide)),
      removePat_id (by decide)]
  have hc : collapseNl (ofStr ("foo\n\n\nbar\nother() \x7b\ny\n\x7d\n")) =
      ofStr ("foo\n\nbar\nother() \x7b\ny\n\x7d\n") := by
    rw [show ofStr ("foo\n\n\nbar\nother() \x7b\ny\n\x7d\n") =
      ofStr ("foo") ++ '\n' :: '\n' :: '\n' ::
        ofStr ("bar\nother() \x7b\ny\n\x7d\n") from by decide]
    rw [collapse_no_nl_append _ (by decide)]
    rw [collapseNl_cons_eq]
    rw [if_pos (by decide)]
    rw [show ((('\n' :: '\n' :: ofStr ("bar\nother() \x7b\ny\n\x7d\n")).dropWhile
      (fun x => decide (x = '\n')))) = ofStr ("bar\nother() \x7b\ny\n\x7d\n")
      from by decide]
    rw [collapseNl_id_of_no_triple (by decide)]
    decide
  have hmain : removeExistingAliasContent (ofStr ("gp"))
      (ofStr ("gp() \x7b\nx\n\x7d\nfoo\n\n\nbar\nother() \x7b\ny\n\x7d\n")) =
      ofStr ("foo\n\nbar\nother() \x7b\ny\n\x7d\n") := by
    unfold removeExistingAliasContent
    rw [h1, h2, hc]
  refine ⟨hmain, ?_⟩
  rw [hmain]
  decide

/-- **C3, amended** — for a profile `pre ++ B₁ ++ "\n" ++ mid ++ B₂ ++ post`
holding two named function blocks, where the comment-anchored pattern fires
nowhere, the bare pattern for the removed name fires neither inside `pre`
(with its continuation) nor anywhere after the removed block (in particular
`B₂` is not matched), and the removed block's body contains no `"\n}"`:
removal excises exactly `B₁` and the newline following it, and the only
other transformation is collapsing every run of three or more consecutive
newline characters (two or more blank lines) to one blank line; when the
remainder contains no such run — in particular in `B₂` and at the excision
seam — the remainder, `B₂` included, is byte-identical. -/
theorem c3_removal_frame (n1 n2 b1 b2 pre mid post : List Char)
    (hfc : ∀ t ∈ (pre ++ (funcBlock n1 b1 ++ '\n' ::
      (mid ++ funcBlock n2 b2 ++ post))).tails, matchFuncCommentAt n1 t = none)
    (hpre : ∀ t ∈ pre.tails, t ≠ [] → matchSimpleAt n1 (t ++ (funcBlock n1 b1 ++
      '\n' :: (mid ++ funcBlock n2 b2 ++ post))) = none)
    (hb1 : occursb (ofStr ("\n\x7d")) b1 = false)
    (hrest : ∀ t ∈ (mid ++ funcBlock n2 b2 ++ post).tails,
      matchSimpleAt n1 t = none) :
    removeExistingAliasContent n1 (pre ++ (funcBlock n1 b1 ++ '\n' ::
        (mid ++ funcBlock n2 b2 ++ post))) =
      collapseNl (pre ++ (mid ++ funcBlock n2 b2 ++ post)) ∧
    (occursb (ofStr ("\n\n\n")) (pre ++ (mid ++ funcBlock n2 b2 ++ post)) = false →
      removeExistingAliasContent n1 (pre ++ (funcBlock n1 b1 ++ '\n' ::
          (mid ++ funcBlock n2 b2 ++ post))) =
        pre ++ (mid ++ funcBlock n2 b2 ++ post)) := by
  have h1 : removeFC n1 (pre ++ (funcBlock n1 b1 ++ '\n' ::
      (mid ++ funcBlock n2 b2 ++ post))) =
      pre ++ (funcBlock n1 b1 ++ '\n' :: (mid ++ funcBlock n2 b2 ++ post)) :=
    removePat_id hfc
  have h2 : removeSimple n1 (pre ++ (funcBlock n1 b1 ++ '\n' ::
      (mid ++ funcBlock n2 b2 ++ post))) =
      pre ++ (mid ++ funcBlock n2 b2 ++ post) := by
    unfold removeSimple
    rw [removePat_skip _ hpre,
      removePat_match (matchSimpleAt_block (mid ++ funcBlock n2 b2 ++ post) hb1),
      removePat_id hrest]
  have hmain : removeExistingAliasContent n1 (pre ++ (funcBlock n1 b1 ++ '\n' ::
      (mid ++ funcBlock n2 b2 ++ post))) =
      collapseNl (pre ++ (mid ++ funcBlock n2 b2 ++ post)) := by
    unfold removeExistingAliasContent
    rw [h1, h2]
  exact ⟨hmain, fun hno => by rw [hmain, collapseNl_id_of_no_triple hno]⟩

theorem c3_witness :
    (∀ t ∈ (([] : List Char) ++ (funcBlock (ofStr ("gp")) (ofStr ("\nx")) ++ '\n' ::
      (ofStr ("keep me\n") ++ funcBlock (ofStr ("other")) (ofStr ("\ny")) ++
        ofStr ("\n")))).tails, matchFuncCommentAt (ofStr ("gp")) t = none) ∧
    removeExistingAliasContent (ofStr ("gp"))
      (([] : List Char) ++ (funcBlock (ofStr ("gp")) (ofStr ("\nx")) ++ '\n' ::
        (ofStr ("keep me\n") ++ funcBlock (ofStr ("other")) (ofStr ("\ny")) ++
          ofStr ("\n")))) =
      ([] : List Char) ++ (ofStr ("keep me\n") ++
        funcBlock (ofStr ("other")) (ofStr ("\ny")) ++ ofStr ("\n")) := by
  constructor
  · decide
  · exact (c3_removal_frame (ofStr ("gp")) (ofStr ("other")) (ofStr ("\nx"))
      (ofStr ("\ny")) [] (ofStr ("keep me\n")) (ofStr ("\n"))
      (by decide) (by decide) (by decide) (by decide)).2 (by decide)


/-!
### Substring localisation

Tools to transport `occursb`-freeness and prefix tests across list
concatenation, so that facts about an 11 KB rendered template can be
assembled from bounded per-chunk computations.
-/

theorem isPre_append_long {q x : List Char} (r : List Char)
    (h : q.length ≤ x.length) : isPre q (x ++ r) = isPre q x := by
  induction q generalizing x with
  | nil => simp [isPre, stripPre]
  | cons c q' ih =>
    cases x with
    | nil => simp at h
    | cons d x' =>
      by_cases hd : d = c
      · simp only [List.cons_append, isPre, stripPre, hd, if_pos rfl]
        exact ih (Nat.le_of_succ_le_succ h)
      · simp [isPre, stripPre, hd]

theorem isPre_cons_ne {x c : Char} {q s : List Char} (h : ¬(c = x)) :
    isPre (x :: q) (c :: s) = false := by
  simp [isPre, stripPre, h]

theorem isPre_single {y : Char} (s : List Char) : isPre [y] s = headIs y s := by
  cases s with
  | nil => rfl
  | cons d r =>
    by_cases hd : d = y
    · simp [isPre, stripPre, headIs, hd]
    · simp [isPre, stripPre, headIs, hd]

theorem isPre_pair {x y c : Char} {C : List Char} :
    isPre [x, y] (c :: C) = ((c = x) && headIs y C) := by
  by_cases hc : c = x
  · simp [isPre, stripPre, hc, ← isPre_single, isPre]
  · simp [isPre, stripPre, hc]

theorem endsIn_intro (u q : List Char) : endsIn q (u ++ q) = true := by
  unfold endsIn
  rw [List.reverse_append]
  exact isPre_iff.mpr ⟨u.reverse, rfl⟩

theorem endsIn_iff {q a : List Char} : endsIn q a = true ↔ ∃ u, a = u ++ q := by
  constructor
  · intro h
    rcases isPre_iff.mp h with ⟨r, hr⟩
    refine ⟨r.reverse, ?_⟩
    have := congrArg List.reverse hr
    simpa using this
  · rintro ⟨u, rfl⟩
    exact endsIn_intro u q

theorem endsIn_append_long {q y : List Char} (x : List Char)
    (h : q.length ≤ y.length) : endsIn q (x ++ y) = endsIn q y := by
  unfold endsIn
  rw [List.reverse_append]
  exact isPre_append_long x.reverse (by simpa using h)

theorem occursb_self_append {p : List Char} (y : List Char) (hp : p ≠ []) :
    occursb p (p ++ y) = true := by
  cases p with
  | nil => exact absurd rfl hp
  | cons c cs =>
    have : isPre (c :: cs) ((c :: cs) ++ y) = true := isPre_iff.mpr ⟨y, rfl⟩
    rw [List.cons_append] at this ⊢
    simp [occursb, this]

theorem occursb_mid {p : List Char} (x y : List Char) (hp : p ≠ []) :
    occursb p (x ++ p ++ y) = true := by
  rw [List.append_assoc]
  exact occursb_append_right x _ (occursb_self_append y hp)

theorem occursb_iff {p s : List Char} :
    occursb p s = true ↔ ∃ u v, s = u ++ p ++ v := by
  induction s with
  | nil =>
    simp only [occursb]
    constructor
    · intro h
      rcases isPre_iff.mp h with ⟨r, hr⟩
      exact ⟨[], r, by simpa using hr⟩
    · rintro ⟨u, v, huv⟩
      have hu : u = [] := by
        cases u with
        | nil => rfl
        | cons a b => simp at huv
      subst hu
      have hp : p = [] := by
        cases p with
        | nil => rfl
        | cons a b => simp at huv
      subst hp
      simp [isPre, stripPre]
  | cons c cs ih =>
    simp only [occursb, Bool.or_eq_true]
    constructor
    · rintro (h | h)
      · rcases isPre_iff.mp h with ⟨r, hr⟩
        exact ⟨[], r, by simpa using hr⟩
      · rcases ih.mp h with ⟨u, v, huv⟩
        exact ⟨c :: u, v, by simp [huv]⟩
    · rintro ⟨u, v, huv⟩
      cases u with
      | nil =>
        left
        exact isPre_iff.mpr ⟨v, by simpa using huv⟩
      | cons a u' =>
        right
        rw [List.cons_append, List.cons_append] at huv
        injection huv with h1 h2
        exact ih.mpr ⟨u', v, h2⟩

theorem suffix_append_cases {t A B : List Char} (h : t <:+ A ++ B) :
    (∃ v, v <:+ A ∧ v ≠ [] ∧ t = v ++ B) ∨ t <:+ B := by
  induction A with
  | nil => right; simpa using h
  | cons c A' ih =>
    rw [List.cons_append] at h
    rcases List.suffix_cons_iff.mp h with h | h
    · exact Or.inl ⟨c :: A', List.suffix_refl _, by simp, by rw [h, List.cons_append]⟩
    · rcases ih h with ⟨v, hv, hne, ht⟩ | h
      · exact Or.inl ⟨v, hv.trans (List.suffix_cons c A'), hne, ht⟩
      · exact Or.inr h

theorem occursb_append_split {p A B : List Char} (hp : p ≠ [])
    (h : occursb p (A ++ B) = true) :
    occursb p A = true ∨ occursb p B = true ∨
      ∃ k, 0 < k ∧ k < p.length ∧ endsIn (p.take k) A = true ∧
        isPre (p.drop k) B = true := by
  rcases occursb_iff.mp h with ⟨u, v, huv⟩
  rcases List.append_eq_append_iff.mp huv.symm with ⟨w, hw1, hw2⟩ | ⟨w, hw1, hw2⟩
  · -- A = (u ++ p) ++ w : occurrence inside A
    left
    rw [hw1]
    exact occursb_mid u w hp
  · -- u ++ p = A ++ w, B = w ++ v
    rcases List.append_eq_append_iff.mp hw1 with ⟨z, hz1, hz2⟩ | ⟨z, hz1, hz2⟩
    · -- A = u ++ z, p = z ++ w
      cases z with
      | nil =>
        right; left
        rw [List.nil_append] at hz2
        rw [hw2, ← hz2]
        exact occursb_self_append v hp
      | cons z0 z' =>
        cases w with
        | nil =>
          left
          rw [List.append_nil] at hz2
          rw [hz1, ← hz2]
          exact occursb_of_tail_isPre (⟨u, rfl⟩ : p <:+ u ++ p)
            (isPre_iff.mpr ⟨[], by simp⟩)
        | cons w0 w' =>
          right; right
          refine ⟨(z0 :: z').length, by simp, ?_, ?_, ?_⟩
          · rw [hz2]
            simp [List.length_append]
          · rw [hz2, List.take_left, hz1]
            exact endsIn_intro u _
          · rw [hz2, List.drop_left, hw2]
            exact isPre_iff.mpr ⟨v, rfl⟩
    · -- u = A ++ z, w = z ++ p : occurrence inside B
      right; left
      rw [hw2, hz2, List.append_assoc]
      exact occursb_append_right z _ (occursb_self_append v hp)

/-- Workhorse: substring-freeness across a concatenation, with a decidable
boundary obligation for each strict split of the pattern. -/
theorem occursb_chain {p A B : List Char} (hp : p ≠ [])
    (hA : occursb p A = false) (hB : occursb p B = false)
    (hj : ∀ k, 0 < k → k < p.length → endsIn (p.take k) A = false ∨
      isPre (p.drop k) B = false) :
    occursb p (A ++ B) = false := by
  by_contra hcon
  have h := occursb_append_split hp (by
    cases h : occursb p (A ++ B) with
    | true => rfl
    | false => exact absurd h hcon)
  rcases h with h | h | ⟨k, hk0, hkl, he, hi⟩
  · rw [hA] at h; exact absurd h (by simp)
  · rw [hB] at h; exact absurd h (by simp)
  · rcases hj k hk0 hkl with h | h
    · rw [he] at h; exact absurd h (by simp)
    · rw [hi] at h; exact absurd h (by simp)

theorem occursb_prefix {p a : List Char} (b : List Char)
    (h : occursb p (a ++ b) = false) : occursb p a = false := by
  by_contra hcon
  have : occursb p (a ++ b) = true := occursb_append_left a b (by
    cases h2 : occursb p a with
    | true => rfl
    | false => exact absurd h2 hcon)
  rw [h] at this
  exact absurd this (by simp)

theorem occursb_suffix {p b : List Char} (a : List Char)
    (h : occursb p (a ++ b) = false) : occursb p b = false := by
  by_contra hcon
  have : occursb p (a ++ b) = true := occursb_append_right a b (by
    cases h2 : occursb p b with
    | true => rfl
    | false => exact absurd h2 hcon)
  rw [h] at this
  exact absurd this (by simp)

/-- A nonempty suffix of a region free of the two-character pattern, with a
continuation whose head cannot complete a straddling occurrence, does not
start with the pattern. -/
theorem isPre_pair_tails {x y : Char} {A C : List Char}
    (hA : occursb [x, y] A = false) (hC : headIs y C = false) :
    ∀ v, v <:+ A → v ≠ [] → isPre [x, y] (v ++ C) = false := by
  intro v hv hne
  cases v with
  | nil => exact absurd rfl hne
  | cons a v' =>
    cases v' with
    | nil =>
      rw [List.cons_append, List.nil_append, isPre_pair]
      simp [hC]
    | cons b v'' =>
      by_cases hpre : isPre [x, y] (a :: b :: v'') = true
      · exact absurd (occursb_of_tail_isPre hv hpre) (by simp [hA])
      · have hlong : isPre [x, y] ((a :: b :: v'') ++ C) =
            isPre [x, y] (a :: b :: v'') := isPre_append_long C (by simp)
        rw [hlong]
        cases h2 : isPre [x, y] (a :: b :: v'') with
        | true => exact absurd h2 hpre
        | false => rfl


/-!
### Structure of the rendered templates and the appended block
-/

theorem gpT_eq : gpT = gpL1 ++ '\n' :: (provL ++ '\n' ::
    funcBlock (ofStr ("gp")) bodyGp) := by
  unfold gpT generateGpAlias gpL1 provL funcBlock bodyGp
  simp only [show ofStr claudeCLI.name = ofStr ("Claude Code") from rfl,
    show (ofStr ("\n") : List Char) = ['\n'] from rfl,
    show (ofStr ("\n\x7d") : List Char) = ['\n', '\x7d'] from rfl,
    List.append_assoc, List.singleton_append, List.cons_append]
  rfl

theorem gcT_eq : gcT = gcL1 ++ '\n' :: (provL ++ '\n' ::
    funcBlock (ofStr ("gc")) bodyGc) := by
  unfold gcT generateGcAlias gcL1 provL funcBlock bodyGc
  simp only [show ofStr claudeCLI.name = ofStr ("Claude Code") from rfl,
    show (ofStr ("\n") : List Char) = ['\n'] from rfl,
    show (ofStr ("\n\x7d") : List Char) = ['\n', '\x7d'] from rfl,
    List.append_assoc, List.singleton_append, List.cons_append]
  rfl

theorem block_eq (ts : List Char) :
    aliasContentBlock gpT gcT claudeCLI "sonnet" ts =
      bannerOf ts ++ (gpT ++ ('\n' :: '\n' :: (gcT ++ ['\n']))) := by
  unfold aliasContentBlock bannerOf
  simp only [show ofStr claudeCLI.name = ofStr ("Claude Code") from rfl,
    show (ofStr ("\n") : List Char) = ['\n'] from rfl,
    show (ofStr ("\n\n") : List Char) = ['\n', '\n'] from rfl,
    List.append_assoc, List.singleton_append, List.cons_append]
  rfl



/-!
### Occurrence-freeness of the rendered template bodies
-/

set_option maxRecDepth 400000 in
theorem occ_gp_bodyGp : occursb (ofStr ("gp")) bodyGp = false := by
  unfold bodyGp gpBody
  have h1 : occursb (ofStr ("gp")) (ofStr ("\n    local GREEN=$'\\033[0;32m'\n    local YELLOW=$'\\033[1;33m'\n    local BLUE=$'\\033[0;34m'\n    local RED=$'\\033[0;31m'\n    local NC=$'\\033[0m'\n    local BOLD=$'\\033[1m'\n    local DIM=$'\\033[2m'\n    \n    local review_mode=false\n    local user_message=\"\"\n    \n    if [[ \"$1\" == \"-r\" ]]; then\n        review_mode=true\n        shift\n        user_message=\"$*\"\n    else\n        user_message=\"$*\"\n    fi\n\n    if ! command -v git &> /dev/null; then\n        echo \"$\x7bRED\x7dError:$\x7bNC\x7d git is not installed\"\n        return 1\n    fi\n\n    if ! git rev-parse --is-inside-work-tree > /dev/null 2>&1; then\n        echo \"$\x7bRED\x7dError:$\x7bNC\x7d Not a git repository\"\n        return 1\n    fi\n\n    if git ls-files -u | grep -q .; then\n        echo \"$\x7bRED\x7dError:$\x7bNC\x7d Unresolved merge conflicts\"\n        return 1\n    fi\n\n    local current_branch=$(git branch --show-current 2>/dev/null)\n    if [ -z \"$current_branch\" ]; then\n        echo \"$\x7bRED\x7dError:$\x7bNC\x7d Detached HEAD state\"\n        return 1\n    fi\n\n    local has_staged=false\n    local has_unstaged=false\n    local has_untracked=false\n    \n    ! git diff --cached --quiet && has_staged=true\n    ! git diff --quiet && has_unstaged=true\n    [ -n \"$(git ls-files --others --exclude-standard 2>/dev/null)\" ] && has_untracked=true\n\n    if [ \"$has_staged\" = false ] && [ \"$has_unstaged\" = false ] && [ \"$has_untracked\" = false ]; then\n        echo \"$\x7bYELLOW\x7dNothing to commit$\x7bNC\x7d - working tree clean\"\n        local unpushed=$(git log @\x7bu\x7d.. --oneline 2>/dev/null | wc -l | tr -d ' ')\n        if [ \"$unpushed\" -gt 0 ] 2>/dev/null; then\n")) = false := by decide
  have h2 : occursb (ofStr ("gp")) (ofStr ("\n    local GREEN=$'\\033[0;32m'\n    local YELLOW=$'\\033[1;33m'\n    local BLUE=$'\\033[0;34m'\n    local RED=$'\\033[0;31m'\n    local NC=$'\\033[0m'\n    local BOLD=$'\\033[1m'\n    local DIM=$'\\033[2m'\n    \n    local review_mode=false\n    local user_message=\"\"\n    \n    if [[ \"$1\" == \"-r\" ]]; then\n        review_mode=true\n        shift\n        user_message=\"$*\"\n    else\n        user_message=\"$*\"\n    fi\n\n    if ! command -v git &> /dev/null; then\n        echo \"$\x7bRED\x7dError:$\x7bNC\x7d git is not installed\"\n        return 1\n    fi\n\n    if ! git rev-parse --is-inside-work-tree > /dev/null 2>&1; then\n        echo \"$\x7bRED\x7dError:$\x7bNC\x7d Not a git repository\"\n        return 1\n    fi\n\n    if git ls-files -u | grep -q .; then\n        echo \"$\x7bRED\x7dError:$\x7bNC\x7d Unresolved merge conflicts\"\n        return 1\n    fi\n\n    local current_branch=$(git branch --show-current 2>/dev/null)\n    if [ -z \"$current_branch\" ]; then\n        echo \"$\x7bRED\x7dError:$\x7bNC\x7d Detached HEAD state\"\n        return 1\n    fi\n\n    local has_staged=false\n    local has_unstaged=false\n    local has_untracked=false\n    \n    ! git diff --cached --quiet && has_staged=true\n    ! git diff --quiet && has_unstaged=true\n    [ -n \"$(git ls-files --others --exclude-standard 2>/dev/null)\" ] && has_untracked=true\n\n    if [ \"$has_staged\" = false ] && [ \"$has_unstaged\" = false ] && [ \"$has_untracked\" = false ]; then\n        echo \"$\x7bYELLOW\x7dNothing to commit$\x7bNC\x7d - working tree clean\"\n        local unpushed=$(git log @\x7bu\x7d.. --oneline 2>/dev/null | wc -l | tr -d ' ')\n        if [ \"$unpushed\" -gt 0 ] 2>/dev/null; then\n") ++ ofStr ("            echo \"$\x7bDIM\x7dYou have $\x7bunpushed\x7d unpushed commit(s)$\x7bNC\x7d\"\n            echo -n \"$\x7bYELLOW\x7dPush existing commits? [Y/n]:$\x7bNC\x7d \"\n            read push_only\n            if [[ ! \"$push_only\" =~ ^[nN] ]]; then\n                git push origin \"$current_branch\" 2>&1 && echo \"$\x7bGREEN\x7d✓ Pushed$\x7bNC\x7d\"\n            fi\n        fi\n        return 0\n    fi\n\n    if ! git remote get-url origin > /dev/null 2>&1; then\n        echo \"$\x7bYELLOW\x7dWarning:$\x7bNC\x7d No remote 'origin' configured\"\n        local skip_push=true\n    else\n        local skip_push=false\n    fi\n\n    echo \"$\x7bBOLD\x7d$\x7bBLUE\x7d━━━━━━━━━━━━━━━━━━━━━━━━━━━━━━━━━━━━━━━━━━━━━━━━━━━$\x7bNC\x7d\"\n    echo \"$\x7bBOLD\x7d🚀 Git Push with AI Commit Message$\x7bNC\x7d\"\n    echo \"$\x7bBOLD\x7d$\x7bBLUE\x7d━━━━━━━━━━━━━━━━━━━━━━━━━━━━━━━━━━━━━━━━━━━━━━━━━━━$\x7bNC\x7d\"\n\n    local commit_message=\"\"\n    \n    if [ -n \"$user_message\" ]; then\n        echo \"\"\n        echo \"$\x7bGREEN\x7d✓$\x7bNC\x7d Using provided commit message\"\n        commit_message=\"$user_message\"\n    else\n        if ! command -v ")) = false :=
    occursb_chain (by decide) h1 (by decide)
      (by
        intro k hk0 hkl
        rw [show List.length (ofStr ("gp")) = 2 from rfl] at hkl
        have hk : k = 1 := by omega
        subst hk
        exact Or.inl (by decide))
  have h3 : occursb (ofStr ("gp")) (ofStr ("\n    local GREEN=$'\\033[0;32m'\n    local YELLOW=$'\\033[1;33m'\n    local BLUE=$'\\033[0;34m'\n    local RED=$'\\033[0;31m'\n    local NC=$'\\033[0m'\n    local BOLD=$'\\033[1m'\n    local DIM=$'\\033[2m'\n    \n    local review_mode=false\n    local user_message=\"\"\n    \n    if [[ \"$1\" == \"-r\" ]]; then\n        review_mode=true\n        shift\n        user_message=\"$*\"\n    else\n        user_message=\"$*\"\n    fi\n\n    if ! command -v git &> /dev/null; then\n        echo \"$\x7bRED\x7dError:$\x7bNC\x7d git is not installed\"\n        return 1\n    fi\n\n    if ! git rev-parse --is-inside-work-tree > /dev/null 2>&1; then\n        echo \"$\x7bRED\x7dError:$\x7bNC\x7d Not a git repository\"\n        return 1\n    fi\n\n    if git ls-files -u | grep -q .; then\n        echo \"$\x7bRED\x7dError:$\x7bNC\x7d Unresolved merge conflicts\"\n        return 1\n    fi\n\n    local current_branch=$(git branch --show-current 2>/dev/null)\n    if [ -z \"$current_branch\" ]; then\n        echo \"$\x7bRED\x7dError:$\x7bNC\x7d Detached HEAD state\"\n        return 1\n    fi\n\n    local has_staged=false\n    local has_unstaged=false\n    local has_untracked=false\n    \n    ! git diff --cached --quiet && has_staged=true\n    ! git diff --quiet && has_unstaged=true\n    [ -n \"$(git ls-files --others --exclude-standard 2>/dev/null)\" ] && has_untracked=true\n\n    if [ \"$has_staged\" = false ] && [ \"$has_unstaged\" = false ] && [ \"$has_untracked\" = false ]; then\n        echo \"$\x7bYELLOW\x7dNothing to commit$\x7bNC\x7d - working tree clean\"\n        local unpushed=$(git log @\x7bu\x7d.. --oneline 2>/dev/null | wc -l | tr -d ' ')\n        if [ \"$unpushed\" -gt 0 ] 2>/dev/null; then\n") ++ ofStr ("            echo \"$\x7bDIM\x7dYou have $\x7bunpushed\x7d unpushed commit(s)$\x7bNC\x7d\"\n            echo -n \"$\x7bYELLOW\x7dPush existing commits? [Y/n]:$\x7bNC\x7d \"\n            read push_only\n            if [[ ! \"$push_only\" =~ ^[nN] ]]; then\n                git push origin \"$current_branch\" 2>&1 && echo \"$\x7bGREEN\x7d✓ Pushed$\x7bNC\x7d\"\n            fi\n        fi\n        return 0\n    fi\n\n    if ! git remote get-url origin > /dev/null 2>&1; then\n        echo \"$\x7bYELLOW\x7dWarning:$\x7bNC\x7d No remote 'origin' configured\"\n        local skip_push=true\n    else\n        local skip_push=false\n    fi\n\n    echo \"$\x7bBOLD\x7d$\x7bBLUE\x7d━━━━━━━━━━━━━━━━━━━━━━━━━━━━━━━━━━━━━━━━━━━━━━━━━━━$\x7bNC\x7d\"\n    echo \"$\x7bBOLD\x7d🚀 Git Push with AI Commit Message$\x7bNC\x7d\"\n    echo \"$\x7bBOLD\x7d$\x7bBLUE\x7d━━━━━━━━━━━━━━━━━━━━━━━━━━━━━━━━━━━━━━━━━━━━━━━━━━━$\x7bNC\x7d\"\n\n    local commit_message=\"\"\n    \n    if [ -n \"$user_message\" ]; then\n        echo \"\"\n        echo \"$\x7bGREEN\x7d✓$\x7bNC\x7d Using provided commit message\"\n        commit_message=\"$user_message\"\n    else\n        if ! command -v ") ++ ofStr claudeCLI.command) = false :=
    occursb_chain (by decide) h2 (by decide)
      (by
        intro k hk0 hkl
        rw [show List.length (ofStr ("gp")) = 2 from rfl] at hkl
        have hk : k = 1 := by omega
        subst hk
        exact Or.inl (by rw [endsIn_append_long _ (by decide)]; decide))
  have h4 : occursb (ofStr ("gp")) (ofStr ("\n    local GREEN=$'\\033[0;32m'\n    local YELLOW=$'\\033[1;33m'\n    local BLUE=$'\\033[0;34m'\n    local RED=$'\\033[0;31m'\n    local NC=$'\\033[0m'\n    local BOLD=$'\\033[1m'\n    local DIM=$'\\033[2m'\n    \n    local review_mode=false\n    local user_message=\"\"\n    \n    if [[ \"$1\" == \"-r\" ]]; then\n        review_mode=true\n        shift\n        user_message=\"$*\"\n    else\n        user_message=\"$*\"\n    fi\n\n    if ! command -v git &> /dev/null; then\n        echo \"$\x7bRED\x7dError:$\x7bNC\x7d git is not installed\"\n        return 1\n    fi\n\n    if ! git rev-parse --is-inside-work-tree > /dev/null 2>&1; then\n        echo \"$\x7bRED\x7dError:$\x7bNC\x7d Not a git repository\"\n        return 1\n    fi\n\n    if git ls-files -u | grep -q .; then\n        echo \"$\x7bRED\x7dError:$\x7bNC\x7d Unresolved merge conflicts\"\n        return 1\n    fi\n\n    local current_branch=$(git branch --show-current 2>/dev/null)\n    if [ -z \"$current_branch\" ]; then\n        echo \"$\x7bRED\x7dError:$\x7bNC\x7d Detached HEAD state\"\n        return 1\n    fi\n\n    local has_staged=false\n    local has_unstaged=false\n    local has_untracked=false\n    \n    ! git diff --cached --quiet && has_staged=true\n    ! git diff --quiet && has_unstaged=true\n    [ -n \"$(git ls-files --others --exclude-standard 2>/dev/null)\" ] && has_untracked=true\n\n    if [ \"$has_staged\" = false ] && [ \"$has_unstaged\" = false ] && [ \"$has_untracked\" = false ]; then\n        echo \"$\x7bYELLOW\x7dNothing to commit$\x7bNC\x7d - working tree clean\"\n        local unpushed=$(git log @\x7bu\x7d.. --oneline 2>/dev/null | wc -l | tr -d ' ')\n        if [ \"$unpushed\" -gt 0 ] 2>/dev/null; then\n") ++ ofStr ("            echo \"$\x7bDIM\x7dYou have $\x7bunpushed\x7d unpushed commit(s)$\x7bNC\x7d\"\n            echo -n \"$\x7bYELLOW\x7dPush existing commits? [Y/n]:$\x7bNC\x7d \"\n            read push_only\n            if [[ ! \"$push_only\" =~ ^[nN] ]]; then\n                git push origin \"$current_branch\" 2>&1 && echo \"$\x7bGREEN\x7d✓ Pushed$\x7bNC\x7d\"\n            fi\n        fi\n        return 0\n    fi\n\n    if ! git remote get-url origin > /dev/null 2>&1; then\n        echo \"$\x7bYELLOW\x7dWarning:$\x7bNC\x7d No remote 'origin' configured\"\n        local skip_push=true\n    else\n        local skip_push=false\n    fi\n\n    echo \"$\x7bBOLD\x7d$\x7bBLUE\x7d━━━━━━━━━━━━━━━━━━━━━━━━━━━━━━━━━━━━━━━━━━━━━━━━━━━$\x7bNC\x7d\"\n    echo \"$\x7bBOLD\x7d🚀 Git Push with AI Commit Message$\x7bNC\x7d\"\n    echo \"$\x7bBOLD\x7d$\x7bBLUE\x7d━━━━━━━━━━━━━━━━━━━━━━━━━━━━━━━━━━━━━━━━━━━━━━━━━━━$\x7bNC\x7d\"\n\n    local commit_message=\"\"\n    \n    if [ -n \"$user_message\" ]; then\n        echo \"\"\n        echo \"$\x7bGREEN\x7d✓$\x7bNC\x7d Using provided commit message\"\n        commit_message=\"$user_message\"\n    else\n        if ! command -v ") ++ ofStr claudeCLI.command ++ ofStr (" &> /dev/null; then\n            echo \"$\x7bRED\x7dError:$\x7bNC\x7d ")) = false :=
    occursb_chain (by decide) h3 (by decide)
      (by
        intro k hk0 hkl
        rw [show List.length (ofStr ("gp")) = 2 from rfl] at hkl
        have hk : k = 1 := by omega
        subst hk
        exact Or.inl (by rw [endsIn_append_long _ (by decide)]; decide))
  have h5 : occursb (ofStr ("gp")) (ofStr ("\n    local GREEN=$'\\033[0;32m'\n    local YELLOW=$'\\033[1;33m'\n    local BLUE=$'\\033[0;34m'\n    local RED=$'\\033[0;31m'\n    local NC=$'\\033[0m'\n    local BOLD=$'\\033[1m'\n    local DIM=$'\\033[2m'\n    \n    local review_mode=false\n    local user_message=\"\"\n    \n    if [[ \"$1\" == \"-r\" ]]; then\n        review_mode=true\n        shift\n        user_message=\"$*\"\n    else\n        user_message=\"$*\"\n    fi\n\n    if ! command -v git &> /dev/null; then\n        echo \"$\x7bRED\x7dError:$\x7bNC\x7d git is not installed\"\n        return 1\n    fi\n\n    if ! git rev-parse --is-inside-work-tree > /dev/null 2>&1; then\n        echo \"$\x7bRED\x7dError:$\x7bNC\x7d Not a git repository\"\n        return 1\n    fi\n\n    if git ls-files -u | grep -q .; then\n        echo \"$\x7bRED\x7dError:$\x7bNC\x7d Unresolved merge conflicts\"\n        return 1\n    fi\n\n    local current_branch=$(git branch --show-current 2>/dev/null)\n    if [ -z \"$current_branch\" ]; then\n        echo \"$\x7bRED\x7dError:$\x7bNC\x7d Detached HEAD state\"\n        return 1\n    fi\n\n    local has_staged=false\n    local has_unstaged=false\n    local has_untracked=false\n    \n    ! git diff --cached --quiet && has_staged=true\n    ! git diff --quiet && has_unstaged=true\n    [ -n \"$(git ls-files --others --exclude-standard 2>/dev/null)\" ] && has_untracked=true\n\n    if [ \"$has_staged\" = false ] && [ \"$has_unstaged\" = false ] && [ \"$has_untracked\" = false ]; then\n        echo \"$\x7bYELLOW\x7dNothing to commit$\x7bNC\x7d - working tree clean\"\n        local unpushed=$(git log @\x7bu\x7d.. --oneline 2>/dev/null | wc -l | tr -d ' ')\n        if [ \"$unpushed\" -gt 0 ] 2>/dev/null; then\n") ++ ofStr ("            echo \"$\x7bDIM\x7dYou have $\x7bunpushed\x7d unpushed commit(s)$\x7bNC\x7d\"\n            echo -n \"$\x7bYELLOW\x7dPush existing commits? [Y/n]:$\x7bNC\x7d \"\n            read push_only\n            if [[ ! \"$push_only\" =~ ^[nN] ]]; then\n                git push origin \"$current_branch\" 2>&1 && echo \"$\x7bGREEN\x7d✓ Pushed$\x7bNC\x7d\"\n            fi\n        fi\n        return 0\n    fi\n\n    if ! git remote get-url origin > /dev/null 2>&1; then\n        echo \"$\x7bYELLOW\x7dWarning:$\x7bNC\x7d No remote 'origin' configured\"\n        local skip_push=true\n    else\n        local skip_push=false\n    fi\n\n    echo \"$\x7bBOLD\x7d$\x7bBLUE\x7d━━━━━━━━━━━━━━━━━━━━━━━━━━━━━━━━━━━━━━━━━━━━━━━━━━━$\x7bNC\x7d\"\n    echo \"$\x7bBOLD\x7d🚀 Git Push with AI Commit Message$\x7bNC\x7d\"\n    echo \"$\x7bBOLD\x7d$\x7bBLUE\x7d━━━━━━━━━━━━━━━━━━━━━━━━━━━━━━━━━━━━━━━━━━━━━━━━━━━$\x7bNC\x7d\"\n\n    local commit_message=\"\"\n    \n    if [ -n \"$user_message\" ]; then\n        echo \"\"\n        echo \"$\x7bGREEN\x7d✓$\x7bNC\x7d Using provided commit message\"\n        commit_message=\"$user_message\"\n    else\n        if ! command -v ") ++ ofStr claudeCLI.command ++ ofStr (" &> /dev/null; then\n            echo \"$\x7bRED\x7dError:$\x7bNC\x7d ") ++ ofStr claudeCLI.name) = false :=
    occursb_chain (by decide) h4 (by decide)
      (by
        intro k hk0 hkl
        rw [show List.length (ofStr ("gp")) = 2 from rfl] at hkl
        have hk : k = 1 := by omega
        subst hk
        exact Or.inl (by rw [endsIn_append_long _ (by decide)]; decide))
  have h6 : occursb (ofStr ("gp")) (ofStr ("\n    local GREEN=$'\\033[0;32m'\n    local YELLOW=$'\\033[1;33m'\n    local BLUE=$'\\033[0;34m'\n    local RED=$'\\033[0;31m'\n    local NC=$'\\033[0m'\n    local BOLD=$'\\033[1m'\n    local DIM=$'\\033[2m'\n    \n    local review_mode=false\n    local user_message=\"\"\n    \n    if [[ \"$1\" == \"-r\" ]]; then\n        review_mode=true\n        shift\n        user_message=\"$*\"\n    else\n        user_message=\"$*\"\n    fi\n\n    if ! command -v git &> /dev/null; then\n        echo \"$\x7bRED\x7dError:$\x7bNC\x7d git is not installed\"\n        return 1\n    fi\n\n    if ! git rev-parse --is-inside-work-tree > /dev/null 2>&1; then\n        echo \"$\x7bRED\x7dError:$\x7bNC\x7d Not a git repository\"\n        return 1\n    fi\n\n    if git ls-files -u | grep -q .; then\n        echo \"$\x7bRED\x7dError:$\x7bNC\x7d Unresolved merge conflicts\"\n        return 1\n    fi\n\n    local current_branch=$(git branch --show-current 2>/dev/null)\n    if [ -z \"$current_branch\" ]; then\n        echo \"$\x7bRED\x7dError:$\x7bNC\x7d Detached HEAD state\"\n        return 1\n    fi\n\n    local has_staged=false\n    local has_unstaged=false\n    local has_untracked=false\n    \n    ! git diff --cached --quiet && has_staged=true\n    ! git diff --quiet && has_unstaged=true\n    [ -n \"$(git ls-files --others --exclude-standard 2>/dev/null)\" ] && has_untracked=true\n\n    if [ \"$has_staged\" = false ] && [ \"$has_unstaged\" = false ] && [ \"$has_untracked\" = false ]; then\n        echo \"$\x7bYELLOW\x7dNothing to commit$\x7bNC\x7d - working tree clean\"\n        local unpushed=$(git log @\x7bu\x7d.. --oneline 2>/dev/null | wc -l | tr -d ' ')\n        if [ \"$unpushed\" -gt 0 ] 2>/dev/null; then\n") ++ ofStr ("            echo \"$\x7bDIM\x7dYou have $\x7bunpushed\x7d unpushed commit(s)$\x7bNC\x7d\"\n            echo -n \"$\x7bYELLOW\x7dPush existing commits? [Y/n]:$\x7bNC\x7d \"\n            read push_only\n            if [[ ! \"$push_only\" =~ ^[nN] ]]; then\n                git push origin \"$current_branch\" 2>&1 && echo \"$\x7bGREEN\x7d✓ Pushed$\x7bNC\x7d\"\n            fi\n        fi\n        return 0\n    fi\n\n    if ! git remote get-url origin > /dev/null 2>&1; then\n        echo \"$\x7bYELLOW\x7dWarning:$\x7bNC\x7d No remote 'origin' configured\"\n        local skip_push=true\n    else\n        local skip_push=false\n    fi\n\n    echo \"$\x7bBOLD\x7d$\x7bBLUE\x7d━━━━━━━━━━━━━━━━━━━━━━━━━━━━━━━━━━━━━━━━━━━━━━━━━━━$\x7bNC\x7d\"\n    echo \"$\x7bBOLD\x7d🚀 Git Push with AI Commit Message$\x7bNC\x7d\"\n    echo \"$\x7bBOLD\x7d$\x7bBLUE\x7d━━━━━━━━━━━━━━━━━━━━━━━━━━━━━━━━━━━━━━━━━━━━━━━━━━━$\x7bNC\x7d\"\n\n    local commit_message=\"\"\n    \n    if [ -n \"$user_message\" ]; then\n        echo \"\"\n        echo \"$\x7bGREEN\x7d✓$\x7bNC\x7d Using provided commit message\"\n        commit_message=\"$user_message\"\n    else\n        if ! command -v ") ++ ofStr claudeCLI.command ++ ofStr (" &> /dev/null; then\n            echo \"$\x7bRED\x7dError:$\x7bNC\x7d ") ++ ofStr claudeCLI.name ++ ofStr (" is not installed\"\n            return 1\n        fi\n\n        echo \"\"\n        echo \"$\x7bYELLOW\x7d[1/4]$\x7bNC\x7d 🔍 Analyzing git changes...\"\n    \n        local staged_diff=$(git diff --cached 2>/dev/null | head -500)\n        local unstaged_diff=$(git diff 2>/dev/null | head -500)\n        local untracked_files=$(git ls-files --others --exclude-standard 2>/dev/null | head -50)\n    \n        local prompt=\"Analyze the following git changes and generate a commit message following the Conventional Commits specification with bullet-point changelog style.\n\n## Commit Message Format:\n<type>(<scope>): <short summary>\n\n- <bullet point describing a specific change>\n- <bullet point describing another change>\n\n## Types: feat, fix, docs, style, refactor, perf, test, build, ci, chore, revert\n\n## Rules:\n1. Subject line: max 50 chars, imperative mood, no period\n2. Body uses bullet points (- ) to list specific changes\n3. Each bullet should be concise and actionable\n\n## Git Changes:\n\n### Staged Changes:\n$\x7bstaged_diff:-\\\"(none)\\\"\x7d\n\n### Unstaged Changes:\n$\x7bunstaged_diff:-\\\"(none)\\\"\x7d\n\n### Untracked Files:\n$\x7buntracked_files:-\\\"(none)\\\"\x7d\n\nOUTPUT ONLY THE COMMIT MESSAGE, nothing else.\"\n\n        echo \"$\x7bYELLOW\x7d[2/4]$\x7bNC\x7d 🤖 Generating commit message with ")) = false :=
    occursb_chain (by decide) h5 (by decide)
      (by
        intro k hk0 hkl
        rw [show List.length (ofStr ("gp")) = 2 from rfl] at hkl
        have hk : k = 1 := by omega
        subst hk
        exact Or.inl (by rw [endsIn_append_long _ (by decide)]; decide))
  have h7 : occursb (ofStr ("gp")) (ofStr ("\n    local GREEN=$'\\033[0;32m'\n    local YELLOW=$'\\033[1;33m'\n    local BLUE=$'\\033[0;34m'\n    local RED=$'\\033[0;31m'\n    local NC=$'\\033[0m'\n    local BOLD=$'\\033[1m'\n    local DIM=$'\\033[2m'\n    \n    local review_mode=false\n    local user_message=\"\"\n    \n    if [[ \"$1\" == \"-r\" ]]; then\n        review_mode=true\n        shift\n        user_message=\"$*\"\n    else\n        user_message=\"$*\"\n    fi\n\n    if ! command -v git &> /dev/null; then\n        echo \"$\x7bRED\x7dError:$\x7bNC\x7d git is not installed\"\n        return 1\n    fi\n\n    if ! git rev-parse --is-inside-work-tree > /dev/null 2>&1; then\n        echo \"$\x7bRED\x7dError:$\x7bNC\x7d Not a git repository\"\n        return 1\n    fi\n\n    if git ls-files -u | grep -q .; then\n        echo \"$\x7bRED\x7dError:$\x7bNC\x7d Unresolved merge conflicts\"\n        return 1\n    fi\n\n    local current_branch=$(git branch --show-current 2>/dev/null)\n    if [ -z \"$current_branch\" ]; then\n        echo \"$\x7bRED\x7dError:$\x7bNC\x7d Detached HEAD state\"\n        return 1\n    fi\n\n    local has_staged=false\n    local has_unstaged=false\n    local has_untracked=false\n    \n    ! git diff --cached --quiet && has_staged=true\n    ! git diff --quiet && has_unstaged=true\n    [ -n \"$(git ls-files --others --exclude-standard 2>/dev/null)\" ] && has_untracked=true\n\n    if [ \"$has_staged\" = false ] && [ \"$has_unstaged\" = false ] && [ \"$has_untracked\" = false ]; then\n        echo \"$\x7bYELLOW\x7dNothing to commit$\x7bNC\x7d - working tree clean\"\n        local unpushed=$(git log @\x7bu\x7d.. --oneline 2>/dev/null | wc -l | tr -d ' ')\n        if [ \"$unpushed\" -gt 0 ] 2>/dev/null; then\n") ++ ofStr ("            echo \"$\x7bDIM\x7dYou have $\x7bunpushed\x7d unpushed commit(s)$\x7bNC\x7d\"\n            echo -n \"$\x7bYELLOW\x7dPush existing commits? [Y/n]:$\x7bNC\x7d \"\n            read push_only\n            if [[ ! \"$push_only\" =~ ^[nN] ]]; then\n                git push origin \"$current_branch\" 2>&1 && echo \"$\x7bGREEN\x7d✓ Pushed$\x7bNC\x7d\"\n            fi\n        fi\n        return 0\n    fi\n\n    if ! git remote get-url origin > /dev/null 2>&1; then\n        echo \"$\x7bYELLOW\x7dWarning:$\x7bNC\x7d No remote 'origin' configured\"\n        local skip_push=true\n    else\n        local skip_push=false\n    fi\n\n    echo \"$\x7bBOLD\x7d$\x7bBLUE\x7d━━━━━━━━━━━━━━━━━━━━━━━━━━━━━━━━━━━━━━━━━━━━━━━━━━━$\x7bNC\x7d\"\n    echo \"$\x7bBOLD\x7d🚀 Git Push with AI Commit Message$\x7bNC\x7d\"\n    echo \"$\x7bBOLD\x7d$\x7bBLUE\x7d━━━━━━━━━━━━━━━━━━━━━━━━━━━━━━━━━━━━━━━━━━━━━━━━━━━$\x7bNC\x7d\"\n\n    local commit_message=\"\"\n    \n    if [ -n \"$user_message\" ]; then\n        echo \"\"\n        echo \"$\x7bGREEN\x7d✓$\x7bNC\x7d Using provided commit message\"\n        commit_message=\"$user_message\"\n    else\n        if ! command -v ") ++ ofStr claudeCLI.command ++ ofStr (" &> /dev/null; then\n            echo \"$\x7bRED\x7dError:$\x7bNC\x7d ") ++ ofStr claudeCLI.name ++ ofStr (" is not installed\"\n            return 1\n        fi\n\n        echo \"\"\n        echo \"$\x7bYELLOW\x7d[1/4]$\x7bNC\x7d 🔍 Analyzing git changes...\"\n    \n        local staged_diff=$(git diff --cached 2>/dev/null | head -500)\n        local unstaged_diff=$(git diff 2>/dev/null | head -500)\n        local untracked_files=$(git ls-files --others --exclude-standard 2>/dev/null | head -50)\n    \n        local prompt=\"Analyze the following git changes and generate a commit message following the Conventional Commits specification with bullet-point changelog style.\n\n## Commit Message Format:\n<type>(<scope>): <short summary>\n\n- <bullet point describing a specific change>\n- <bullet point describing another change>\n\n## Types: feat, fix, docs, style, refactor, perf, test, build, ci, chore, revert\n\n## Rules:\n1. Subject line: max 50 chars, imperative mood, no period\n2. Body uses bullet points (- ) to list specific changes\n3. Each bullet should be concise and actionable\n\n## Git Changes:\n\n### Staged Changes:\n$\x7bstaged_diff:-\\\"(none)\\\"\x7d\n\n### Unstaged Changes:\n$\x7bunstaged_diff:-\\\"(none)\\\"\x7d\n\n### Untracked Files:\n$\x7buntracked_files:-\\\"(none)\\\"\x7d\n\nOUTPUT ONLY THE COMMIT MESSAGE, nothing else.\"\n\n        echo \"$\x7bYELLOW\x7d[2/4]$\x7bNC\x7d 🤖 Generating commit message with ") ++ ofStr claudeCLI.name) = false :=
    occursb_chain (by decide) h6 (by decide)
      (by
        intro k hk0 hkl
        rw [show List.length (ofStr ("gp")) = 2 from rfl] at hkl
        have hk : k = 1 := by omega
        subst hk
        exact Or.inl (by rw [endsIn_append_long _ (by decide)]; decide))
  have h8 : occursb (ofStr ("gp")) (ofStr ("\n    local GREEN=$'\\033[0;32m'\n    local YELLOW=$'\\033[1;33m'\n    local BLUE=$'\\033[0;34m'\n    local RED=$'\\033[0;31m'\n    local NC=$'\\033[0m'\n    local BOLD=$'\\033[1m'\n    local DIM=$'\\033[2m'\n    \n    local review_mode=false\n    local user_message=\"\"\n    \n    if [[ \"$1\" == \"-r\" ]]; then\n        review_mode=true\n        shift\n        user_message=\"$*\"\n    else\n        user_message=\"$*\"\n    fi\n\n    if ! command -v git &> /dev/null; then\n        echo \"$\x7bRED\x7dError:$\x7bNC\x7d git is not installed\"\n        return 1\n    fi\n\n    if ! git rev-parse --is-inside-work-tree > /dev/null 2>&1; then\n        echo \"$\x7bRED\x7dError:$\x7bNC\x7d Not a git repository\"\n        return 1\n    fi\n\n    if git ls-files -u | grep -q .; then\n        echo \"$\x7bRED\x7dError:$\x7bNC\x7d Unresolved merge conflicts\"\n        return 1\n    fi\n\n    local current_branch=$(git branch --show-current 2>/dev/null)\n    if [ -z \"$current_branch\" ]; then\n        echo \"$\x7bRED\x7dError:$\x7bNC\x7d Detached HEAD state\"\n        return 1\n    fi\n\n    local has_staged=false\n    local has_unstaged=false\n    local has_untracked=false\n    \n    ! git diff --cached --quiet && has_staged=true\n    ! git diff --quiet && has_unstaged=true\n    [ -n \"$(git ls-files --others --exclude-standard 2>/dev/null)\" ] && has_untracked=true\n\n    if [ \"$has_staged\" = false ] && [ \"$has_unstaged\" = false ] && [ \"$has_untracked\" = false ]; then\n        echo \"$\x7bYELLOW\x7dNothing to commit$\x7bNC\x7d - working tree clean\"\n        local unpushed=$(git log @\x7bu\x7d.. --oneline 2>/dev/null | wc -l | tr -d ' ')\n        if [ \"$unpushed\" -gt 0 ] 2>/dev/null; then\n") ++ ofStr ("            echo \"$\x7bDIM\x7dYou have $\x7bunpushed\x7d unpushed commit(s)$\x7bNC\x7d\"\n            echo -n \"$\x7bYELLOW\x7dPush existing commits? [Y/n]:$\x7bNC\x7d \"\n            read push_only\n            if [[ ! \"$push_only\" =~ ^[nN] ]]; then\n                git push origin \"$current_branch\" 2>&1 && echo \"$\x7bGREEN\x7d✓ Pushed$\x7bNC\x7d\"\n            fi\n        fi\n        return 0\n    fi\n\n    if ! git remote get-url origin > /dev/null 2>&1; then\n        echo \"$\x7bYELLOW\x7dWarning:$\x7bNC\x7d No remote 'origin' configured\"\n        local skip_push=true\n    else\n        local skip_push=false\n    fi\n\n    echo \"$\x7bBOLD\x7d$\x7bBLUE\x7d━━━━━━━━━━━━━━━━━━━━━━━━━━━━━━━━━━━━━━━━━━━━━━━━━━━$\x7bNC\x7d\"\n    echo \"$\x7bBOLD\x7d🚀 Git Push with AI Commit Message$\x7bNC\x7d\"\n    echo \"$\x7bBOLD\x7d$\x7bBLUE\x7d━━━━━━━━━━━━━━━━━━━━━━━━━━━━━━━━━━━━━━━━━━━━━━━━━━━$\x7bNC\x7d\"\n\n    local commit_message=\"\"\n    \n    if [ -n \"$user_message\" ]; then\n        echo \"\"\n        echo \"$\x7bGREEN\x7d✓$\x7bNC\x7d Using provided commit message\"\n        commit_message=\"$user_message\"\n    else\n        if ! command -v ") ++ ofStr claudeCLI.command ++ ofStr (" &> /dev/null; then\n            echo \"$\x7bRED\x7dError:$\x7bNC\x7d ") ++ ofStr claudeCLI.name ++ ofStr (" is not installed\"\n            return 1\n        fi\n\n        echo \"\"\n        echo \"$\x7bYELLOW\x7d[1/4]$\x7bNC\x7d 🔍 Analyzing git changes...\"\n    \n        local staged_diff=$(git diff --cached 2>/dev/null | head -500)\n        local unstaged_diff=$(git diff 2>/dev/null | head -500)\n        local untracked_files=$(git ls-files --others --exclude-standard 2>/dev/null | head -50)\n    \n        local prompt=\"Analyze the following git changes and generate a commit message following the Conventional Commits specification with bullet-point changelog style.\n\n## Commit Message Format:\n<type>(<scope>): <short summary>\n\n- <bullet point describing a specific change>\n- <bullet point describing another change>\n\n## Types: feat, fix, docs, style, refactor, perf, test, build, ci, chore, revert\n\n## Rules:\n1. Subject line: max 50 chars, imperative mood, no period\n2. Body uses bullet points (- ) to list specific changes\n3. Each bullet should be concise and actionable\n\n## Git Changes:\n\n### Staged Changes:\n$\x7bstaged_diff:-\\\"(none)\\\"\x7d\n\n### Unstaged Changes:\n$\x7bunstaged_diff:-\\\"(none)\\\"\x7d\n\n### Untracked Files:\n$\x7buntracked_files:-\\\"(none)\\\"\x7d\n\nOUTPUT ONLY THE COMMIT MESSAGE, nothing else.\"\n\n        echo \"$\x7bYELLOW\x7d[2/4]$\x7bNC\x7d 🤖 Generating commit message with ") ++ ofStr claudeCLI.name ++ ofStr ("...\"\n        echo \"$\x7bDIM\x7d     (this may take a few seconds...)$\x7bNC\x7d\"\n    \n        local temp_file=$(mktemp)\n        local error_file=$(mktemp)\n    \n        ")) = false :=
    occursb_chain (by decide) h7 (by decide)
      (by
        intro k hk0 hkl
        rw [show List.length (ofStr ("gp")) = 2 from rfl] at hkl
        have hk : k = 1 := by omega
        subst hk
        exact Or.inl (by rw [endsIn_append_long _ (by decide)]; decide))
  have h9 : occursb (ofStr ("gp")) (ofStr ("\n    local GREEN=$'\\033[0;32m'\n    local YELLOW=$'\\033[1;33m'\n    local BLUE=$'\\033[0;34m'\n    local RED=$'\\033[0;31m'\n    local NC=$'\\033[0m'\n    local BOLD=$'\\033[1m'\n    local DIM=$'\\033[2m'\n    \n    local review_mode=false\n    local user_message=\"\"\n    \n    if [[ \"$1\" == \"-r\" ]]; then\n        review_mode=true\n        shift\n        user_message=\"$*\"\n    else\n        user_message=\"$*\"\n    fi\n\n    if ! command -v git &> /dev/null; then\n        echo \"$\x7bRED\x7dError:$\x7bNC\x7d git is not installed\"\n        return 1\n    fi\n\n    if ! git rev-parse --is-inside-work-tree > /dev/null 2>&1; then\n        echo \"$\x7bRED\x7dError:$\x7bNC\x7d Not a git repository\"\n        return 1\n    fi\n\n    if git ls-files -u | grep -q .; then\n        echo \"$\x7bRED\x7dError:$\x7bNC\x7d Unresolved merge conflicts\"\n        return 1\n    fi\n\n    local current_branch=$(git branch --show-current 2>/dev/null)\n    if [ -z \"$current_branch\" ]; then\n        echo \"$\x7bRED\x7dError:$\x7bNC\x7d Detached HEAD state\"\n        return 1\n    fi\n\n    local has_staged=false\n    local has_unstaged=false\n    local has_untracked=false\n    \n    ! git diff --cached --quiet && has_staged=true\n    ! git diff --quiet && has_unstaged=true\n    [ -n \"$(git ls-files --others --exclude-standard 2>/dev/null)\" ] && has_untracked=true\n\n    if [ \"$has_staged\" = false ] && [ \"$has_unstaged\" = false ] && [ \"$has_untracked\" = false ]; then\n        echo \"$\x7bYELLOW\x7dNothing to commit$\x7bNC\x7d - working tree clean\"\n        local unpushed=$(git log @\x7bu\x7d.. --oneline 2>/dev/null | wc -l | tr -d ' ')\n        if [ \"$unpushed\" -gt 0 ] 2>/dev/null; then\n") ++ ofStr ("            echo \"$\x7bDIM\x7dYou have $\x7bunpushed\x7d unpushed commit(s)$\x7bNC\x7d\"\n            echo -n \"$\x7bYELLOW\x7dPush existing commits? [Y/n]:$\x7bNC\x7d \"\n            read push_only\n            if [[ ! \"$push_only\" =~ ^[nN] ]]; then\n                git push origin \"$current_branch\" 2>&1 && echo \"$\x7bGREEN\x7d✓ Pushed$\x7bNC\x7d\"\n            fi\n        fi\n        return 0\n    fi\n\n    if ! git remote get-url origin > /dev/null 2>&1; then\n        echo \"$\x7bYELLOW\x7dWarning:$\x7bNC\x7d No remote 'origin' configured\"\n        local skip_push=true\n    else\n        local skip_push=false\n    fi\n\n    echo \"$\x7bBOLD\x7d$\x7bBLUE\x7d━━━━━━━━━━━━━━━━━━━━━━━━━━━━━━━━━━━━━━━━━━━━━━━━━━━$\x7bNC\x7d\"\n    echo \"$\x7bBOLD\x7d🚀 Git Push with AI Commit Message$\x7bNC\x7d\"\n    echo \"$\x7bBOLD\x7d$\x7bBLUE\x7d━━━━━━━━━━━━━━━━━━━━━━━━━━━━━━━━━━━━━━━━━━━━━━━━━━━$\x7bNC\x7d\"\n\n    local commit_message=\"\"\n    \n    if [ -n \"$user_message\" ]; then\n        echo \"\"\n        echo \"$\x7bGREEN\x7d✓$\x7bNC\x7d Using provided commit message\"\n        commit_message=\"$user_message\"\n    else\n        if ! command -v ") ++ ofStr claudeCLI.command ++ ofStr (" &> /dev/null; then\n            echo \"$\x7bRED\x7dError:$\x7bNC\x7d ") ++ ofStr claudeCLI.name ++ ofStr (" is not installed\"\n            return 1\n        fi\n\n        echo \"\"\n        echo \"$\x7bYELLOW\x7d[1/4]$\x7bNC\x7d 🔍 Analyzing git changes...\"\n    \n        local staged_diff=$(git diff --cached 2>/dev/null | head -500)\n        local unstaged_diff=$(git diff 2>/dev/null | head -500)\n        local untracked_files=$(git ls-files --others --exclude-standard 2>/dev/null | head -50)\n    \n        local prompt=\"Analyze the following git changes and generate a commit message following the Conventional Commits specification with bullet-point changelog style.\n\n## Commit Message Format:\n<type>(<scope>): <short summary>\n\n- <bullet point describing a specific change>\n- <bullet point describing another change>\n\n## Types: feat, fix, docs, style, refactor, perf, test, build, ci, chore, revert\n\n## Rules:\n1. Subject line: max 50 chars, imperative mood, no period\n2. Body uses bullet points (- ) to list specific changes\n3. Each bullet should be concise and actionable\n\n## Git Changes:\n\n### Staged Changes:\n$\x7bstaged_diff:-\\\"(none)\\\"\x7d\n\n### Unstaged Changes:\n$\x7bunstaged_diff:-\\\"(none)\\\"\x7d\n\n### Untracked Files:\n$\x7buntracked_files:-\\\"(none)\\\"\x7d\n\nOUTPUT ONLY THE COMMIT MESSAGE, nothing else.\"\n\n        echo \"$\x7bYELLOW\x7d[2/4]$\x7bNC\x7d 🤖 Generating commit message with ") ++ ofStr claudeCLI.name ++ ofStr ("...\"\n        echo \"$\x7bDIM\x7d     (this may take a few seconds...)$\x7bNC\x7d\"\n    \n        local temp_file=$(mktemp)\n        local error_file=$(mktemp)\n    \n        ") ++ ofStr (buildCLICommand claudeCLI "sonnet")) = false :=
    occursb_chain (by decide) h8 (by decide)
      (by
        intro k hk0 hkl
        rw [show List.length (ofStr ("gp")) = 2 from rfl] at hkl
        have hk : k = 1 := by omega
        subst hk
        exact Or.inl (by rw [endsIn_append_long _ (by decide)]; decide))
  have h10 : occursb (ofStr ("gp")) (ofStr ("\n    local GREEN=$'\\033[0;32m'\n    local YELLOW=$'\\033[1;33m'\n    local BLUE=$'\\033[0;34m'\n    local RED=$'\\033[0;31m'\n    local NC=$'\\033[0m'\n    local BOLD=$'\\033[1m'\n    local DIM=$'\\033[2m'\n    \n    local review_mode=false\n    local user_message=\"\"\n    \n    if [[ \"$1\" == \"-r\" ]]; then\n        review_mode=true\n        shift\n        user_message=\"$*\"\n    else\n        user_message=\"$*\"\n    fi\n\n    if ! command -v git &> /dev/null; then\n        echo \"$\x7bRED\x7dError:$\x7bNC\x7d git is not installed\"\n        return 1\n    fi\n\n    if ! git rev-parse --is-inside-work-tree > /dev/null 2>&1; then\n        echo \"$\x7bRED\x7dError:$\x7bNC\x7d Not a git repository\"\n        return 1\n    fi\n\n    if git ls-files -u | grep -q .; then\n        echo \"$\x7bRED\x7dError:$\x7bNC\x7d Unresolved merge conflicts\"\n        return 1\n    fi\n\n    local current_branch=$(git branch --show-current 2>/dev/null)\n    if [ -z \"$current_branch\" ]; then\n        echo \"$\x7bRED\x7dError:$\x7bNC\x7d Detached HEAD state\"\n        return 1\n    fi\n\n    local has_staged=false\n    local has_unstaged=false\n    local has_untracked=false\n    \n    ! git diff --cached --quiet && has_staged=true\n    ! git diff --quiet && has_unstaged=true\n    [ -n \"$(git ls-files --others --exclude-standard 2>/dev/null)\" ] && has_untracked=true\n\n    if [ \"$has_staged\" = false ] && [ \"$has_unstaged\" = false ] && [ \"$has_untracked\" = false ]; then\n        echo \"$\x7bYELLOW\x7dNothing to commit$\x7bNC\x7d - working tree clean\"\n        local unpushed=$(git log @\x7bu\x7d.. --oneline 2>/dev/null | wc -l | tr -d ' ')\n        if [ \"$unpushed\" -gt 0 ] 2>/dev/null; then\n") ++ ofStr ("            echo \"$\x7bDIM\x7dYou have $\x7bunpushed\x7d unpushed commit(s)$\x7bNC\x7d\"\n            echo -n \"$\x7bYELLOW\x7dPush existing commits? [Y/n]:$\x7bNC\x7d \"\n            read push_only\n            if [[ ! \"$push_only\" =~ ^[nN] ]]; then\n                git push origin \"$current_branch\" 2>&1 && echo \"$\x7bGREEN\x7d✓ Pushed$\x7bNC\x7d\"\n            fi\n        fi\n        return 0\n    fi\n\n    if ! git remote get-url origin > /dev/null 2>&1; then\n        echo \"$\x7bYELLOW\x7dWarning:$\x7bNC\x7d No remote 'origin' configured\"\n        local skip_push=true\n    else\n        local skip_push=false\n    fi\n\n    echo \"$\x7bBOLD\x7d$\x7bBLUE\x7d━━━━━━━━━━━━━━━━━━━━━━━━━━━━━━━━━━━━━━━━━━━━━━━━━━━$\x7bNC\x7d\"\n    echo \"$\x7bBOLD\x7d🚀 Git Push with AI Commit Message$\x7bNC\x7d\"\n    echo \"$\x7bBOLD\x7d$\x7bBLUE\x7d━━━━━━━━━━━━━━━━━━━━━━━━━━━━━━━━━━━━━━━━━━━━━━━━━━━$\x7bNC\x7d\"\n\n    local commit_message=\"\"\n    \n    if [ -n \"$user_message\" ]; then\n        echo \"\"\n        echo \"$\x7bGREEN\x7d✓$\x7bNC\x7d Using provided commit message\"\n        commit_message=\"$user_message\"\n    else\n        if ! command -v ") ++ ofStr claudeCLI.command ++ ofStr (" &> /dev/null; then\n            echo \"$\x7bRED\x7dError:$\x7bNC\x7d ") ++ ofStr claudeCLI.name ++ ofStr (" is not installed\"\n            return 1\n        fi\n\n        echo \"\"\n        echo \"$\x7bYELLOW\x7d[1/4]$\x7bNC\x7d 🔍 Analyzing git changes...\"\n    \n        local staged_diff=$(git diff --cached 2>/dev/null | head -500)\n        local unstaged_diff=$(git diff 2>/dev/null | head -500)\n        local untracked_files=$(git ls-files --others --exclude-standard 2>/dev/null | head -50)\n    \n        local prompt=\"Analyze the following git changes and generate a commit message following the Conventional Commits specification with bullet-point changelog style.\n\n## Commit Message Format:\n<type>(<scope>): <short summary>\n\n- <bullet point describing a specific change>\n- <bullet point describing another change>\n\n## Types: feat, fix, docs, style, refactor, perf, test, build, ci, chore, revert\n\n## Rules:\n1. Subject line: max 50 chars, imperative mood, no period\n2. Body uses bullet points (- ) to list specific changes\n3. Each bullet should be concise and actionable\n\n## Git Changes:\n\n### Staged Changes:\n$\x7bstaged_diff:-\\\"(none)\\\"\x7d\n\n### Unstaged Changes:\n$\x7bunstaged_diff:-\\\"(none)\\\"\x7d\n\n### Untracked Files:\n$\x7buntracked_files:-\\\"(none)\\\"\x7d\n\nOUTPUT ONLY THE COMMIT MESSAGE, nothing else.\"\n\n        echo \"$\x7bYELLOW\x7d[2/4]$\x7bNC\x7d 🤖 Generating commit message with ") ++ ofStr claudeCLI.name ++ ofStr ("...\"\n        echo \"$\x7bDIM\x7d     (this may take a few seconds...)$\x7bNC\x7d\"\n    \n        local temp_file=$(mktemp)\n        local error_file=$(mktemp)\n    \n        ") ++ ofStr (buildCLICommand claudeCLI "sonnet") ++ ofStr (" > \"$temp_file\" 2> \"$error_file\"\n        local exit_code=$?\n    \n        if [ $exit_code -ne 0 ] || [ ! -s \"$temp_file\" ]; then\n            echo \"$\x7bRED\x7dError:$\x7bNC\x7d Failed to generate commit message\"\n            cat \"$error_file\" 2>/dev/null\n            rm -f \"$temp_file\" \"$error_file\"\n            return 1\n        fi\n    \n        commit_message=$(cat \"$temp_file\")\n        rm -f \"$temp_file\" \"$error_file\"\n    \n        echo \"\"\n        echo \"$\x7bGREEN\x7dGenerated Commit Message:$\x7bNC\x7d\"\n        echo \"$commit_message\"\n    \n        if [ \"$review_mode\" = true ]; then\n            echo \"\"\n            echo -n \"$\x7bYELLOW\x7dProceed with this commit message? [Y/n/e(dit)]:$\x7bNC\x7d \"\n            read confirm\n    \n            case \"$confirm\" in\n                [nN]) echo \"$\x7bYELLOW\x7dAborted.$\x7bNC\x7d\"; return 0 ;;\n                [eE])\n                    local edit_file=$(mktemp)\n                    echo \"$commit_message\" > \"$edit_file\"\n                    $\x7bEDITOR:-vim\x7d \"$edit_file\"\n                    commit_message=$(cat \"$edit_file\")\n                    rm -f \"$edit_file\"\n                    ;;\n            esac\n        fi\n    fi\n\n    echo \"\"\n    echo \"$\x7bYELLOW\x7d[3/4]$\x7bNC\x7d 📦 Staging and committing changes...\"\n    \n    git add -A\n    \n    if git diff --cached --quiet; then\n        echo \"$\x7bYELLOW\x7dNothing to commit$\x7bNC\x7d\"\n        return 0\n    fi\n    \n    if ! git commit -m \"$commit_message\" 2>&1; then\n        echo \"$\x7bRED\x7dError:$\x7bNC\x7d Failed to commit\"\n        return 1\n    fi\n    \n    echo \"$\x7bGREEN\x7d✓$\x7bNC\x7d Changes committed\"\n\n    if [ \"$skip_push\" = true ]; then\n")) = false :=
    occursb_chain (by decide) h9 (by decide)
      (by
        intro k hk0 hkl
        rw [show List.length (ofStr ("gp")) = 2 from rfl] at hkl
        have hk : k = 1 := by omega
        subst hk
        exact Or.inl (by rw [endsIn_append_long _ (by decide)]; decide))
  have h11 : occursb (ofStr ("gp")) (ofStr ("\n    local GREEN=$'\\033[0;32m'\n    local YELLOW=$'\\033[1;33m'\n    local BLUE=$'\\033[0;34m'\n    local RED=$'\\033[0;31m'\n    local NC=$'\\033[0m'\n    local BOLD=$'\\033[1m'\n    local DIM=$'\\033[2m'\n    \n    local review_mode=false\n    local user_message=\"\"\n    \n    if [[ \"$1\" == \"-r\" ]]; then\n        review_mode=true\n        shift\n        user_message=\"$*\"\n    else\n        user_message=\"$*\"\n    fi\n\n    if ! command -v git &> /dev/null; then\n        echo \"$\x7bRED\x7dError:$\x7bNC\x7d git is not installed\"\n        return 1\n    fi\n\n    if ! git rev-parse --is-inside-work-tree > /dev/null 2>&1; then\n        echo \"$\x7bRED\x7dError:$\x7bNC\x7d Not a git repository\"\n        return 1\n    fi\n\n    if git ls-files -u | grep -q .; then\n        echo \"$\x7bRED\x7dError:$\x7bNC\x7d Unresolved merge conflicts\"\n        return 1\n    fi\n\n    local current_branch=$(git branch --show-current 2>/dev/null)\n    if [ -z \"$current_branch\" ]; then\n        echo \"$\x7bRED\x7dError:$\x7bNC\x7d Detached HEAD state\"\n        return 1\n    fi\n\n    local has_staged=false\n    local has_unstaged=false\n    local has_untracked=false\n    \n    ! git diff --cached --quiet && has_staged=true\n    ! git diff --quiet && has_unstaged=true\n    [ -n \"$(git ls-files --others --exclude-standard 2>/dev/null)\" ] && has_untracked=true\n\n    if [ \"$has_staged\" = false ] && [ \"$has_unstaged\" = false ] && [ \"$has_untracked\" = false ]; then\n        echo \"$\x7bYELLOW\x7dNothing to commit$\x7bNC\x7d - working tree clean\"\n        local unpushed=$(git log @\x7bu\x7d.. --oneline 2>/dev/null | wc -l | tr -d ' ')\n        if [ \"$unpushed\" -gt 0 ] 2>/dev/null; then\n") ++ ofStr ("            echo \"$\x7bDIM\x7dYou have $\x7bunpushed\x7d unpushed commit(s)$\x7bNC\x7d\"\n            echo -n \"$\x7bYELLOW\x7dPush existing commits? [Y/n]:$\x7bNC\x7d \"\n            read push_only\n            if [[ ! \"$push_only\" =~ ^[nN] ]]; then\n                git push origin \"$current_branch\" 2>&1 && echo \"$\x7bGREEN\x7d✓ Pushed$\x7bNC\x7d\"\n            fi\n        fi\n        return 0\n    fi\n\n    if ! git remote get-url origin > /dev/null 2>&1; then\n        echo \"$\x7bYELLOW\x7dWarning:$\x7bNC\x7d No remote 'origin' configured\"\n        local skip_push=true\n    else\n        local skip_push=false\n    fi\n\n    echo \"$\x7bBOLD\x7d$\x7bBLUE\x7d━━━━━━━━━━━━━━━━━━━━━━━━━━━━━━━━━━━━━━━━━━━━━━━━━━━$\x7bNC\x7d\"\n    echo \"$\x7bBOLD\x7d🚀 Git Push with AI Commit Message$\x7bNC\x7d\"\n    echo \"$\x7bBOLD\x7d$\x7bBLUE\x7d━━━━━━━━━━━━━━━━━━━━━━━━━━━━━━━━━━━━━━━━━━━━━━━━━━━$\x7bNC\x7d\"\n\n    local commit_message=\"\"\n    \n    if [ -n \"$user_message\" ]; then\n        echo \"\"\n        echo \"$\x7bGREEN\x7d✓$\x7bNC\x7d Using provided commit message\"\n        commit_message=\"$user_message\"\n    else\n        if ! command -v ") ++ ofStr claudeCLI.command ++ ofStr (" &> /dev/null; then\n            echo \"$\x7bRED\x7dError:$\x7bNC\x7d ") ++ ofStr claudeCLI.name ++ ofStr (" is not installed\"\n            return 1\n        fi\n\n        echo \"\"\n        echo \"$\x7bYELLOW\x7d[1/4]$\x7bNC\x7d 🔍 Analyzing git changes...\"\n    \n        local staged_diff=$(git diff --cached 2>/dev/null | head -500)\n        local unstaged_diff=$(git diff 2>/dev/null | head -500)\n        local untracked_files=$(git ls-files --others --exclude-standard 2>/dev/null | head -50)\n    \n        local prompt=\"Analyze the following git changes and generate a commit message following the Conventional Commits specification with bullet-point changelog style.\n\n## Commit Message Format:\n<type>(<scope>): <short summary>\n\n- <bullet point describing a specific change>\n- <bullet point describing another change>\n\n## Types: feat, fix, docs, style, refactor, perf, test, build, ci, chore, revert\n\n## Rules:\n1. Subject line: max 50 chars, imperative mood, no period\n2. Body uses bullet points (- ) to list specific changes\n3. Each bullet should be concise and actionable\n\n## Git Changes:\n\n### Staged Changes:\n$\x7bstaged_diff:-\\\"(none)\\\"\x7d\n\n### Unstaged Changes:\n$\x7bunstaged_diff:-\\\"(none)\\\"\x7d\n\n### Untracked Files:\n$\x7buntracked_files:-\\\"(none)\\\"\x7d\n\nOUTPUT ONLY THE COMMIT MESSAGE, nothing else.\"\n\n        echo \"$\x7bYELLOW\x7d[2/4]$\x7bNC\x7d 🤖 Generating commit message with ") ++ ofStr claudeCLI.name ++ ofStr ("...\"\n        echo \"$\x7bDIM\x7d     (this may take a few seconds...)$\x7bNC\x7d\"\n    \n        local temp_file=$(mktemp)\n        local error_file=$(mktemp)\n    \n        ") ++ ofStr (buildCLICommand claudeCLI "sonnet") ++ ofStr (" > \"$temp_file\" 2> \"$error_file\"\n        local exit_code=$?\n    \n        if [ $exit_code -ne 0 ] || [ ! -s \"$temp_file\" ]; then\n            echo \"$\x7bRED\x7dError:$\x7bNC\x7d Failed to generate commit message\"\n            cat \"$error_file\" 2>/dev/null\n            rm -f \"$temp_file\" \"$error_file\"\n            return 1\n        fi\n    \n        commit_message=$(cat \"$temp_file\")\n        rm -f \"$temp_file\" \"$error_file\"\n    \n        echo \"\"\n        echo \"$\x7bGREEN\x7dGenerated Commit Message:$\x7bNC\x7d\"\n        echo \"$commit_message\"\n    \n        if [ \"$review_mode\" = true ]; then\n            echo \"\"\n            echo -n \"$\x7bYELLOW\x7dProceed with this commit message? [Y/n/e(dit)]:$\x7bNC\x7d \"\n            read confirm\n    \n            case \"$confirm\" in\n                [nN]) echo \"$\x7bYELLOW\x7dAborted.$\x7bNC\x7d\"; return 0 ;;\n                [eE])\n                    local edit_file=$(mktemp)\n                    echo \"$commit_message\" > \"$edit_file\"\n                    $\x7bEDITOR:-vim\x7d \"$edit_file\"\n                    commit_message=$(cat \"$edit_file\")\n                    rm -f \"$edit_file\"\n                    ;;\n            esac\n        fi\n    fi\n\n    echo \"\"\n    echo \"$\x7bYELLOW\x7d[3/4]$\x7bNC\x7d 📦 Staging and committing changes...\"\n    \n    git add -A\n    \n    if git diff --cached --quiet; then\n        echo \"$\x7bYELLOW\x7dNothing to commit$\x7bNC\x7d\"\n        return 0\n    fi\n    \n    if ! git commit -m \"$commit_message\" 2>&1; then\n        echo \"$\x7bRED\x7dError:$\x7bNC\x7d Failed to commit\"\n        return 1\n    fi\n    \n    echo \"$\x7bGREEN\x7d✓$\x7bNC\x7d Changes committed\"\n\n    if [ \"$skip_push\" = true ]; then\n") ++ ofStr ("        echo \"$\x7bYELLOW\x7dSkipping push$\x7bNC\x7d - no remote\"\n        echo \"$\x7bBOLD\x7d$\x7bGREEN\x7d✨ Done!$\x7bNC\x7d\"\n        return 0\n    fi\n\n    echo \"\"\n    echo \"$\x7bYELLOW\x7d[4/4]$\x7bNC\x7d 🚀 Pushing to remote...\"\n    \n    local push_output\n    push_output=$(git push origin \"$current_branch\" 2>&1)\n    local push_exit=$?\n    \n    if [ $push_exit -eq 0 ]; then\n        echo \"$\x7bGREEN\x7d✓ Pushed to origin/$current_branch$\x7bNC\x7d\"\n        local mr_url=$(echo \"$push_output\" | grep -oE 'https?://[^ ]+' | grep -iE '(merge|pull)' | head -1)\n        if [ -n \"$mr_url\" ]; then\n            echo \"\"\n            echo \"$\x7bBLUE\x7d📎 Create Merge Request:$\x7bNC\x7d\"\n            echo \"   $\x7bBOLD\x7d$mr_url$\x7bNC\x7d\"\n        fi\n    else\n        if echo \"$push_output\" | grep -q \"no upstream\"; then\n            git push --set-upstream origin \"$current_branch\" 2>&1 && echo \"$\x7bGREEN\x7d✓ Pushed$\x7bNC\x7d\"\n        else\n            echo \"$\x7bRED\x7dError:$\x7bNC\x7d Push failed\"\n            echo \"$\x7bDIM\x7d$push_output$\x7bNC\x7d\"\n            return 1\n        fi\n    fi\n\n    echo \"\"\n    echo \"$\x7bBOLD\x7d$\x7bGREEN\x7d━━━━━━━━━━━━━━━━━━━━━━━━━━━━━━━━━━━━━━━━━━━━━━━━━━━$\x7bNC\x7d\"\n    echo \"$\x7bBOLD\x7d$\x7bGREEN\x7d✨ Done!$\x7bNC\x7d\"\n    echo \"$\x7bBOLD\x7d$\x7bGREEN\x7d━━━━━━━━━━━━━━━━━━━━━━━━━━━━━━━━━━━━━━━━━━━━━━━━━━━$\x7bNC\x7d\"")) = false :=
    occursb_chain (by decide) h10 (by decide)
      (by
        intro k hk0 hkl
        rw [show List.length (ofStr ("gp")) = 2 from rfl] at hkl
        have hk : k = 1 := by omega
        subst hk
        exact Or.inl (by rw [endsIn_append_long _ (by decide)]; decide))
  exact h11

set_option maxRecDepth 400000 in
theorem occ_gc_bodyGp : occursb (ofStr ("gc")) bodyGp = false := by
  unfold bodyGp gpBody
  have h1 : occursb (ofStr ("gc")) (ofStr ("\n    local GREEN=$'\\033[0;32m'\n    local YELLOW=$'\\033[1;33m'\n    local BLUE=$'\\033[0;34m'\n    local RED=$'\\033[0;31m'\n    local NC=$'\\033[0m'\n    local BOLD=$'\\033[1m'\n    local DIM=$'\\033[2m'\n    \n    local review_mode=false\n    local user_message=\"\"\n    \n    if [[ \"$1\" == \"-r\" ]]; then\n        review_mode=true\n        shift\n        user_message=\"$*\"\n    else\n        user_message=\"$*\"\n    fi\n\n    if ! command -v git &> /dev/null; then\n        echo \"$\x7bRED\x7dError:$\x7bNC\x7d git is not installed\"\n        return 1\n    fi\n\n    if ! git rev-parse --is-inside-work-tree > /dev/null 2>&1; then\n        echo \"$\x7bRED\x7dError:$\x7bNC\x7d Not a git repository\"\n        return 1\n    fi\n\n    if git ls-files -u | grep -q .; then\n        echo \"$\x7bRED\x7dError:$\x7bNC\x7d Unresolved merge conflicts\"\n        return 1\n    fi\n\n    local current_branch=$(git branch --show-current 2>/dev/null)\n    if [ -z \"$current_branch\" ]; then\n        echo \"$\x7bRED\x7dError:$\x7bNC\x7d Detached HEAD state\"\n        return 1\n    fi\n\n    local has_staged=false\n    local has_unstaged=false\n    local has_untracked=false\n    \n    ! git diff --cached --quiet && has_staged=true\n    ! git diff --quiet && has_unstaged=true\n    [ -n \"$(git ls-files --others --exclude-standard 2>/dev/null)\" ] && has_untracked=true\n\n    if [ \"$has_staged\" = false ] && [ \"$has_unstaged\" = false ] && [ \"$has_untracked\" = false ]; then\n        echo \"$\x7bYELLOW\x7dNothing to commit$\x7bNC\x7d - working tree clean\"\n        local unpushed=$(git log @\x7bu\x7d.. --oneline 2>/dev/null | wc -l | tr -d ' ')\n        if [ \"$unpushed\" -gt 0 ] 2>/dev/null; then\n")) = false := by decide
  have h2 : occursb (ofStr ("gc")) (ofStr ("\n    local GREEN=$'\\033[0;32m'\n    local YELLOW=$'\\033[1;33m'\n    local BLUE=$'\\033[0;34m'\n    local RED=$'\\033[0;31m'\n    local NC=$'\\033[0m'\n    local BOLD=$'\\033[1m'\n    local DIM=$'\\033[2m'\n    \n    local review_mode=false\n    local user_message=\"\"\n    \n    if [[ \"$1\" == \"-r\" ]]; then\n        review_mode=true\n        shift\n        user_message=\"$*\"\n    else\n        user_message=\"$*\"\n    fi\n\n    if ! command -v git &> /dev/null; then\n        echo \"$\x7bRED\x7dError:$\x7bNC\x7d git is not installed\"\n        return 1\n    fi\n\n    if ! git rev-parse --is-inside-work-tree > /dev/null 2>&1; then\n        echo \"$\x7bRED\x7dError:$\x7bNC\x7d Not a git repository\"\n        return 1\n    fi\n\n    if git ls-files -u | grep -q .; then\n        echo \"$\x7bRED\x7dError:$\x7bNC\x7d Unresolved merge conflicts\"\n        return 1\n    fi\n\n    local current_branch=$(git branch --show-current 2>/dev/null)\n    if [ -z \"$current_branch\" ]; then\n        echo \"$\x7bRED\x7dError:$\x7bNC\x7d Detached HEAD state\"\n        return 1\n    fi\n\n    local has_staged=false\n    local has_unstaged=false\n    local has_untracked=false\n    \n    ! git diff --cached --quiet && has_staged=true\n    ! git diff --quiet && has_unstaged=true\n    [ -n \"$(git ls-files --others --exclude-standard 2>/dev/null)\" ] && has_untracked=true\n\n    if [ \"$has_staged\" = false ] && [ \"$has_unstaged\" = false ] && [ \"$has_untracked\" = false ]; then\n        echo \"$\x7bYELLOW\x7dNothing to commit$\x7bNC\x7d - working tree clean\"\n        local unpushed=$(git log @\x7bu\x7d.. --oneline 2>/dev/null | wc -l | tr -d ' ')\n        if [ \"$unpushed\" -gt 0 ] 2>/dev/null; then\n") ++ ofStr ("            echo \"$\x7bDIM\x7dYou have $\x7bunpushed\x7d unpushed commit(s)$\x7bNC\x7d\"\n            echo -n \"$\x7bYELLOW\x7dPush existing commits? [Y/n]:$\x7bNC\x7d \"\n            read push_only\n            if [[ ! \"$push_only\" =~ ^[nN] ]]; then\n                git push origin \"$current_branch\" 2>&1 && echo \"$\x7bGREEN\x7d✓ Pushed$\x7bNC\x7d\"\n            fi\n        fi\n        return 0\n    fi\n\n    if ! git remote get-url origin > /dev/null 2>&1; then\n        echo \"$\x7bYELLOW\x7dWarning:$\x7bNC\x7d No remote 'origin' configured\"\n        local skip_push=true\n    else\n        local skip_push=false\n    fi\n\n    echo \"$\x7bBOLD\x7d$\x7bBLUE\x7d━━━━━━━━━━━━━━━━━━━━━━━━━━━━━━━━━━━━━━━━━━━━━━━━━━━$\x7bNC\x7d\"\n    echo \"$\x7bBOLD\x7d🚀 Git Push with AI Commit Message$\x7bNC\x7d\"\n    echo \"$\x7bBOLD\x7d$\x7bBLUE\x7d━━━━━━━━━━━━━━━━━━━━━━━━━━━━━━━━━━━━━━━━━━━━━━━━━━━$\x7bNC\x7d\"\n\n    local commit_message=\"\"\n    \n    if [ -n \"$user_message\" ]; then\n        echo \"\"\n        echo \"$\x7bGREEN\x7d✓$\x7bNC\x7d Using provided commit message\"\n        commit_message=\"$user_message\"\n    else\n        if ! command -v ")) = false :=
    occursb_chain (by decide) h1 (by decide)
      (by
        intro k hk0 hkl
        rw [show List.length (ofStr ("gc")) = 2 from rfl] at hkl
        have hk : k = 1 := by omega
        subst hk
        exact Or.inl (by decide))
  have h3 : occursb (ofStr ("gc")) (ofStr ("\n    local GREEN=$'\\033[0;32m'\n    local YELLOW=$'\\033[1;33m'\n    local BLUE=$'\\033[0;34m'\n    local RED=$'\\033[0;31m'\n    local NC=$'\\033[0m'\n    local BOLD=$'\\033[1m'\n    local DIM=$'\\033[2m'\n    \n    local review_mode=false\n    local user_message=\"\"\n    \n    if [[ \"$1\" == \"-r\" ]]; then\n        review_mode=true\n        shift\n        user_message=\"$*\"\n    else\n        user_message=\"$*\"\n    fi\n\n    if ! command -v git &> /dev/null; then\n        echo \"$\x7bRED\x7dError:$\x7bNC\x7d git is not installed\"\n        return 1\n    fi\n\n    if ! git rev-parse --is-inside-work-tree > /dev/null 2>&1; then\n        echo \"$\x7bRED\x7dError:$\x7bNC\x7d Not a git repository\"\n        return 1\n    fi\n\n    if git ls-files -u | grep -q .; then\n        echo \"$\x7bRED\x7dError:$\x7bNC\x7d Unresolved merge conflicts\"\n        return 1\n    fi\n\n    local current_branch=$(git branch --show-current 2>/dev/null)\n    if [ -z \"$current_branch\" ]; then\n        echo \"$\x7bRED\x7dError:$\x7bNC\x7d Detached HEAD state\"\n        return 1\n    fi\n\n    local has_staged=false\n    local has_unstaged=false\n    local has_untracked=false\n    \n    ! git diff --cached --quiet && has_staged=true\n    ! git diff --quiet && has_unstaged=true\n    [ -n \"$(git ls-files --others --exclude-standard 2>/dev/null)\" ] && has_untracked=true\n\n    if [ \"$has_staged\" = false ] && [ \"$has_unstaged\" = false ] && [ \"$has_untracked\" = false ]; then\n        echo \"$\x7bYELLOW\x7dNothing to commit$\x7bNC\x7d - working tree clean\"\n        local unpushed=$(git log @\x7bu\x7d.. --oneline 2>/dev/null | wc -l | tr -d ' ')\n        if [ \"$unpushed\" -gt 0 ] 2>/dev/null; then\n") ++ ofStr ("            echo \"$\x7bDIM\x7dYou have $\x7bunpushed\x7d unpushed commit(s)$\x7bNC\x7d\"\n            echo -n \"$\x7bYELLOW\x7dPush existing commits? [Y/n]:$\x7bNC\x7d \"\n            read push_only\n            if [[ ! \"$push_only\" =~ ^[nN] ]]; then\n                git push origin \"$current_branch\" 2>&1 && echo \"$\x7bGREEN\x7d✓ Pushed$\x7bNC\x7d\"\n            fi\n        fi\n        return 0\n    fi\n\n    if ! git remote get-url origin > /dev/null 2>&1; then\n        echo \"$\x7bYELLOW\x7dWarning:$\x7bNC\x7d No remote 'origin' configured\"\n        local skip_push=true\n    else\n        local skip_push=false\n    fi\n\n    echo \"$\x7bBOLD\x7d$\x7bBLUE\x7d━━━━━━━━━━━━━━━━━━━━━━━━━━━━━━━━━━━━━━━━━━━━━━━━━━━$\x7bNC\x7d\"\n    echo \"$\x7bBOLD\x7d🚀 Git Push with AI Commit Message$\x7bNC\x7d\"\n    echo \"$\x7bBOLD\x7d$\x7bBLUE\x7d━━━━━━━━━━━━━━━━━━━━━━━━━━━━━━━━━━━━━━━━━━━━━━━━━━━$\x7bNC\x7d\"\n\n    local commit_message=\"\"\n    \n    if [ -n \"$user_message\" ]; then\n        echo \"\"\n        echo \"$\x7bGREEN\x7d✓$\x7bNC\x7d Using provided commit message\"\n        commit_message=\"$user_message\"\n    else\n        if ! command -v ") ++ ofStr claudeCLI.command) = false :=
    occursb_chain (by decide) h2 (by decide)
      (by
        intro k hk0 hkl
        rw [show List.length (ofStr ("gc")) = 2 from rfl] at hkl
        have hk : k = 1 := by omega
        subst hk
        exact Or.inl (by rw [endsIn_append_long _ (by decide)]; decide))
  have h4 : occursb (ofStr ("gc")) (ofStr ("\n    local GREEN=$'\\033[0;32m'\n    local YELLOW=$'\\033[1;33m'\n    local BLUE=$'\\033[0;34m'\n    local RED=$'\\033[0;31m'\n    local NC=$'\\033[0m'\n    local BOLD=$'\\033[1m'\n    local DIM=$'\\033[2m'\n    \n    local review_mode=false\n    local user_message=\"\"\n    \n    if [[ \"$1\" == \"-r\" ]]; then\n        review_mode=true\n        shift\n        user_message=\"$*\"\n    else\n        user_message=\"$*\"\n    fi\n\n    if ! command -v git &> /dev/null; then\n        echo \"$\x7bRED\x7dError:$\x7bNC\x7d git is not installed\"\n        return 1\n    fi\n\n    if ! git rev-parse --is-inside-work-tree > /dev/null 2>&1; then\n        echo \"$\x7bRED\x7dError:$\x7bNC\x7d Not a git repository\"\n        return 1\n    fi\n\n    if git ls-files -u | grep -q .; then\n        echo \"$\x7bRED\x7dError:$\x7bNC\x7d Unresolved merge conflicts\"\n        return 1\n    fi\n\n    local current_branch=$(git branch --show-current 2>/dev/null)\n    if [ -z \"$current_branch\" ]; then\n        echo \"$\x7bRED\x7dError:$\x7bNC\x7d Detached HEAD state\"\n        return 1\n    fi\n\n    local has_staged=false\n    local has_unstaged=false\n    local has_untracked=false\n    \n    ! git diff --cached --quiet && has_staged=true\n    ! git diff --quiet && has_unstaged=true\n    [ -n \"$(git ls-files --others --exclude-standard 2>/dev/null)\" ] && has_untracked=true\n\n    if [ \"$has_staged\" = false ] && [ \"$has_unstaged\" = false ] && [ \"$has_untracked\" = false ]; then\n        echo \"$\x7bYELLOW\x7dNothing to commit$\x7bNC\x7d - working tree clean\"\n        local unpushed=$(git log @\x7bu\x7d.. --oneline 2>/dev/null | wc -l | tr -d ' ')\n        if [ \"$unpushed\" -gt 0 ] 2>/dev/null; then\n") ++ ofStr ("            echo \"$\x7bDIM\x7dYou have $\x7bunpushed\x7d unpushed commit(s)$\x7bNC\x7d\"\n            echo -n \"$\x7bYELLOW\x7dPush existing commits? [Y/n]:$\x7bNC\x7d \"\n            read push_only\n            if [[ ! \"$push_only\" =~ ^[nN] ]]; then\n                git push origin \"$current_branch\" 2>&1 && echo \"$\x7bGREEN\x7d✓ Pushed$\x7bNC\x7d\"\n            fi\n        fi\n        return 0\n    fi\n\n    if ! git remote get-url origin > /dev/null 2>&1; then\n        echo \"$\x7bYELLOW\x7dWarning:$\x7bNC\x7d No remote 'origin' configured\"\n        local skip_push=true\n    else\n        local skip_push=false\n    fi\n\n    echo \"$\x7bBOLD\x7d$\x7bBLUE\x7d━━━━━━━━━━━━━━━━━━━━━━━━━━━━━━━━━━━━━━━━━━━━━━━━━━━$\x7bNC\x7d\"\n    echo \"$\x7bBOLD\x7d🚀 Git Push with AI Commit Message$\x7bNC\x7d\"\n    echo \"$\x7bBOLD\x7d$\x7bBLUE\x7d━━━━━━━━━━━━━━━━━━━━━━━━━━━━━━━━━━━━━━━━━━━━━━━━━━━$\x7bNC\x7d\"\n\n    local commit_message=\"\"\n    \n    if [ -n \"$user_message\" ]; then\n        echo \"\"\n        echo \"$\x7bGREEN\x7d✓$\x7bNC\x7d Using provided commit message\"\n        commit_message=\"$user_message\"\n    else\n        if ! command -v ") ++ ofStr claudeCLI.command ++ ofStr (" &> /dev/null; then\n            echo \"$\x7bRED\x7dError:$\x7bNC\x7d ")) = false :=
    occursb_chain (by decide) h3 (by decide)
      (by
        intro k hk0 hkl
        rw [show List.length (ofStr ("gc")) = 2 from rfl] at hkl
        have hk : k = 1 := by omega
        subst hk
        exact Or.inl (by rw [endsIn_append_long _ (by decide)]; decide))
  have h5 : occursb (ofStr ("gc")) (ofStr ("\n    local GREEN=$'\\033[0;32m'\n    local YELLOW=$'\\033[1;33m'\n    local BLUE=$'\\033[0;34m'\n    local RED=$'\\033[0;31m'\n    local NC=$'\\033[0m'\n    local BOLD=$'\\033[1m'\n    local DIM=$'\\033[2m'\n    \n    local review_mode=false\n    local user_message=\"\"\n    \n    if [[ \"$1\" == \"-r\" ]]; then\n        review_mode=true\n        shift\n        user_message=\"$*\"\n    else\n        user_message=\"$*\"\n    fi\n\n    if ! command -v git &> /dev/null; then\n        echo \"$\x7bRED\x7dError:$\x7bNC\x7d git is not installed\"\n        return 1\n    fi\n\n    if ! git rev-parse --is-inside-work-tree > /dev/null 2>&1; then\n        echo \"$\x7bRED\x7dError:$\x7bNC\x7d Not a git repository\"\n        return 1\n    fi\n\n    if git ls-files -u | grep -q .; then\n        echo \"$\x7bRED\x7dError:$\x7bNC\x7d Unresolved merge conflicts\"\n        return 1\n    fi\n\n    local current_branch=$(git branch --show-current 2>/dev/null)\n    if [ -z \"$current_branch\" ]; then\n        echo \"$\x7bRED\x7dError:$\x7bNC\x7d Detached HEAD state\"\n        return 1\n    fi\n\n    local has_staged=false\n    local has_unstaged=false\n    local has_untracked=false\n    \n    ! git diff --cached --quiet && has_staged=true\n    ! git diff --quiet && has_unstaged=true\n    [ -n \"$(git ls-files --others --exclude-standard 2>/dev/null)\" ] && has_untracked=true\n\n    if [ \"$has_staged\" = false ] && [ \"$has_unstaged\" = false ] && [ \"$has_untracked\" = false ]; then\n        echo \"$\x7bYELLOW\x7dNothing to commit$\x7bNC\x7d - working tree clean\"\n        local unpushed=$(git log @\x7bu\x7d.. --oneline 2>/dev/null | wc -l | tr -d ' ')\n        if [ \"$unpushed\" -gt 0 ] 2>/dev/null; then\n") ++ ofStr ("            echo \"$\x7bDIM\x7dYou have $\x7bunpushed\x7d unpushed commit(s)$\x7bNC\x7d\"\n            echo -n \"$\x7bYELLOW\x7dPush existing commits? [Y/n]:$\x7bNC\x7d \"\n            read push_only\n            if [[ ! \"$push_only\" =~ ^[nN] ]]; then\n                git push origin \"$current_branch\" 2>&1 && echo \"$\x7bGREEN\x7d✓ Pushed$\x7bNC\x7d\"\n            fi\n        fi\n        return 0\n    fi\n\n    if ! git remote get-url origin > /dev/null 2>&1; then\n        echo \"$\x7bYELLOW\x7dWarning:$\x7bNC\x7d No remote 'origin' configured\"\n        local skip_push=true\n    else\n        local skip_push=false\n    fi\n\n    echo \"$\x7bBOLD\x7d$\x7bBLUE\x7d━━━━━━━━━━━━━━━━━━━━━━━━━━━━━━━━━━━━━━━━━━━━━━━━━━━$\x7bNC\x7d\"\n    echo \"$\x7bBOLD\x7d🚀 Git Push with AI Commit Message$\x7bNC\x7d\"\n    echo \"$\x7bBOLD\x7d$\x7bBLUE\x7d━━━━━━━━━━━━━━━━━━━━━━━━━━━━━━━━━━━━━━━━━━━━━━━━━━━$\x7bNC\x7d\"\n\n    local commit_message=\"\"\n    \n    if [ -n \"$user_message\" ]; then\n        echo \"\"\n        echo \"$\x7bGREEN\x7d✓$\x7bNC\x7d Using provided commit message\"\n        commit_message=\"$user_message\"\n    else\n        if ! command -v ") ++ ofStr claudeCLI.command ++ ofStr (" &> /dev/null; then\n            echo \"$\x7bRED\x7dError:$\x7bNC\x7d ") ++ ofStr claudeCLI.name) = false :=
    occursb_chain (by decide) h4 (by decide)
      (by
        intro k hk0 hkl
        rw [show List.length (ofStr ("gc")) = 2 from rfl] at hkl
        have hk : k = 1 := by omega
        subst hk
        exact Or.inl (by rw [endsIn_append_long _ (by decide)]; decide))
  have h6 : occursb (ofStr ("gc")) (ofStr ("\n    local GREEN=$'\\033[0;32m'\n    local YELLOW=$'\\033[1;33m'\n    local BLUE=$'\\033[0;34m'\n    local RED=$'\\033[0;31m'\n    local NC=$'\\033[0m'\n    local BOLD=$'\\033[1m'\n    local DIM=$'\\033[2m'\n    \n    local review_mode=false\n    local user_message=\"\"\n    \n    if [[ \"$1\" == \"-r\" ]]; then\n        review_mode=true\n        shift\n        user_message=\"$*\"\n    else\n        user_message=\"$*\"\n    fi\n\n    if ! command -v git &> /dev/null; then\n        echo \"$\x7bRED\x7dError:$\x7bNC\x7d git is not installed\"\n        return 1\n    fi\n\n    if ! git rev-parse --is-inside-work-tree > /dev/null 2>&1; then\n        echo \"$\x7bRED\x7dError:$\x7bNC\x7d Not a git repository\"\n        return 1\n    fi\n\n    if git ls-files -u | grep -q .; then\n        echo \"$\x7bRED\x7dError:$\x7bNC\x7d Unresolved merge conflicts\"\n        return 1\n    fi\n\n    local current_branch=$(git branch --show-current 2>/dev/null)\n    if [ -z \"$current_branch\" ]; then\n        echo \"$\x7bRED\x7dError:$\x7bNC\x7d Detached HEAD state\"\n        return 1\n    fi\n\n    local has_staged=false\n    local has_unstaged=false\n    local has_untracked=false\n    \n    ! git diff --cached --quiet && has_staged=true\n    ! git diff --quiet && has_unstaged=true\n    [ -n \"$(git ls-files --others --exclude-standard 2>/dev/null)\" ] && has_untracked=true\n\n    if [ \"$has_staged\" = false ] && [ \"$has_unstaged\" = false ] && [ \"$has_untracked\" = false ]; then\n        echo \"$\x7bYELLOW\x7dNothing to commit$\x7bNC\x7d - working tree clean\"\n        local unpushed=$(git log @\x7bu\x7d.. --oneline 2>/dev/null | wc -l | tr -d ' ')\n        if [ \"$unpushed\" -gt 0 ] 2>/dev/null; then\n") ++ ofStr ("            echo \"$\x7bDIM\x7dYou have $\x7bunpushed\x7d unpushed commit(s)$\x7bNC\x7d\"\n            echo -n \"$\x7bYELLOW\x7dPush existing commits? [Y/n]:$\x7bNC\x7d \"\n            read push_only\n            if [[ ! \"$push_only\" =~ ^[nN] ]]; then\n                git push origin \"$current_branch\" 2>&1 && echo \"$\x7bGREEN\x7d✓ Pushed$\x7bNC\x7d\"\n            fi\n        fi\n        return 0\n    fi\n\n    if ! git remote get-url origin > /dev/null 2>&1; then\n        echo \"$\x7bYELLOW\x7dWarning:$\x7bNC\x7d No remote 'origin' configured\"\n        local skip_push=true\n    else\n        local skip_push=false\n    fi\n\n    echo \"$\x7bBOLD\x7d$\x7bBLUE\x7d━━━━━━━━━━━━━━━━━━━━━━━━━━━━━━━━━━━━━━━━━━━━━━━━━━━$\x7bNC\x7d\"\n    echo \"$\x7bBOLD\x7d🚀 Git Push with AI Commit Message$\x7bNC\x7d\"\n    echo \"$\x7bBOLD\x7d$\x7bBLUE\x7d━━━━━━━━━━━━━━━━━━━━━━━━━━━━━━━━━━━━━━━━━━━━━━━━━━━$\x7bNC\x7d\"\n\n    local commit_message=\"\"\n    \n    if [ -n \"$user_message\" ]; then\n        echo \"\"\n        echo \"$\x7bGREEN\x7d✓$\x7bNC\x7d Using provided commit message\"\n        commit_message=\"$user_message\"\n    else\n        if ! command -v ") ++ ofStr claudeCLI.command ++ ofStr (" &> /dev/null; then\n            echo \"$\x7bRED\x7dError:$\x7bNC\x7d ") ++ ofStr claudeCLI.name ++ ofStr (" is not installed\"\n            return 1\n        fi\n\n        echo \"\"\n        echo \"$\x7bYELLOW\x7d[1/4]$\x7bNC\x7d 🔍 Analyzing git changes...\"\n    \n        local staged_diff=$(git diff --cached 2>/dev/null | head -500)\n        local unstaged_diff=$(git diff 2>/dev/null | head -500)\n        local untracked_files=$(git ls-files --others --exclude-standard 2>/dev/null | head -50)\n    \n        local prompt=\"Analyze the following git changes and generate a commit message following the Conventional Commits specification with bullet-point changelog style.\n\n## Commit Message Format:\n<type>(<scope>): <short summary>\n\n- <bullet point describing a specific change>\n- <bullet point describing another change>\n\n## Types: feat, fix, docs, style, refactor, perf, test, build, ci, chore, revert\n\n## Rules:\n1. Subject line: max 50 chars, imperative mood, no period\n2. Body uses bullet points (- ) to list specific changes\n3. Each bullet should be concise and actionable\n\n## Git Changes:\n\n### Staged Changes:\n$\x7bstaged_diff:-\\\"(none)\\\"\x7d\n\n### Unstaged Changes:\n$\x7bunstaged_diff:-\\\"(none)\\\"\x7d\n\n### Untracked Files:\n$\x7buntracked_files:-\\\"(none)\\\"\x7d\n\nOUTPUT ONLY THE COMMIT MESSAGE, nothing else.\"\n\n        echo \"$\x7bYELLOW\x7d[2/4]$\x7bNC\x7d 🤖 Generating commit message with ")) = false :=
    occursb_chain (by decide) h5 (by decide)
      (by
        intro k hk0 hkl
        rw [show List.length (ofStr ("gc")) = 2 from rfl] at hkl
        have hk : k = 1 := by omega
        subst hk
        exact Or.inl (by rw [endsIn_append_long _ (by decide)]; decide))
  have h7 : occursb (ofStr ("gc")) (ofStr ("\n    local GREEN=$'\\033[0;32m'\n    local YELLOW=$'\\033[1;33m'\n    local BLUE=$'\\033[0;34m'\n    local RED=$'\\033[0;31m'\n    local NC=$'\\033[0m'\n    local BOLD=$'\\033[1m'\n    local DIM=$'\\033[2m'\n    \n    local review_mode=false\n    local user_message=\"\"\n    \n    if [[ \"$1\" == \"-r\" ]]; then\n        review_mode=true\n        shift\n        user_message=\"$*\"\n    else\n        user_message=\"$*\"\n    fi\n\n    if ! command -v git &> /dev/null; then\n        echo \"$\x7bRED\x7dError:$\x7bNC\x7d git is not installed\"\n        return 1\n    fi\n\n    if ! git rev-parse --is-inside-work-tree > /dev/null 2>&1; then\n        echo \"$\x7bRED\x7dError:$\x7bNC\x7d Not a git repository\"\n        return 1\n    fi\n\n    if git ls-files -u | grep -q .; then\n        echo \"$\x7bRED\x7dError:$\x7bNC\x7d Unresolved merge conflicts\"\n        return 1\n    fi\n\n    local current_branch=$(git branch --show-current 2>/dev/null)\n    if [ -z \"$current_branch\" ]; then\n        echo \"$\x7bRED\x7dError:$\x7bNC\x7d Detached HEAD state\"\n        return 1\n    fi\n\n    local has_staged=false\n    local has_unstaged=false\n    local has_untracked=false\n    \n    ! git diff --cached --quiet && has_staged=true\n    ! git diff --quiet && has_unstaged=true\n    [ -n \"$(git ls-files --others --exclude-standard 2>/dev/null)\" ] && has_untracked=true\n\n    if [ \"$has_staged\" = false ] && [ \"$has_unstaged\" = false ] && [ \"$has_untracked\" = false ]; then\n        echo \"$\x7bYELLOW\x7dNothing to commit$\x7bNC\x7d - working tree clean\"\n        local unpushed=$(git log @\x7bu\x7d.. --oneline 2>/dev/null | wc -l | tr -d ' ')\n        if [ \"$unpushed\" -gt 0 ] 2>/dev/null; then\n") ++ ofStr ("            echo \"$\x7bDIM\x7dYou have $\x7bunpushed\x7d unpushed commit(s)$\x7bNC\x7d\"\n            echo -n \"$\x7bYELLOW\x7dPush existing commits? [Y/n]:$\x7bNC\x7d \"\n            read push_only\n            if [[ ! \"$push_only\" =~ ^[nN] ]]; then\n                git push origin \"$current_branch\" 2>&1 && echo \"$\x7bGREEN\x7d✓ Pushed$\x7bNC\x7d\"\n            fi\n        fi\n        return 0\n    fi\n\n    if ! git remote get-url origin > /dev/null 2>&1; then\n        echo \"$\x7bYELLOW\x7dWarning:$\x7bNC\x7d No remote 'origin' configured\"\n        local skip_push=true\n    else\n        local skip_push=false\n    fi\n\n    echo \"$\x7bBOLD\x7d$\x7bBLUE\x7d━━━━━━━━━━━━━━━━━━━━━━━━━━━━━━━━━━━━━━━━━━━━━━━━━━━$\x7bNC\x7d\"\n    echo \"$\x7bBOLD\x7d🚀 Git Push with AI Commit Message$\x7bNC\x7d\"\n    echo \"$\x7bBOLD\x7d$\x7bBLUE\x7d━━━━━━━━━━━━━━━━━━━━━━━━━━━━━━━━━━━━━━━━━━━━━━━━━━━$\x7bNC\x7d\"\n\n    local commit_message=\"\"\n    \n    if [ -n \"$user_message\" ]; then\n        echo \"\"\n        echo \"$\x7bGREEN\x7d✓$\x7bNC\x7d Using provided commit message\"\n        commit_message=\"$user_message\"\n    else\n        if ! command -v ") ++ ofStr claudeCLI.command ++ ofStr (" &> /dev/null; then\n            echo \"$\x7bRED\x7dError:$\x7bNC\x7d ") ++ ofStr claudeCLI.name ++ ofStr (" is not installed\"\n            return 1\n        fi\n\n        echo \"\"\n        echo \"$\x7bYELLOW\x7d[1/4]$\x7bNC\x7d 🔍 Analyzing git changes...\"\n    \n        local staged_diff=$(git diff --cached 2>/dev/null | head -500)\n        local unstaged_diff=$(git diff 2>/dev/null | head -500)\n        local untracked_files=$(git ls-files --others --exclude-standard 2>/dev/null | head -50)\n    \n        local prompt=\"Analyze the following git changes and generate a commit message following the Conventional Commits specification with bullet-point changelog style.\n\n## Commit Message Format:\n<type>(<scope>): <short summary>\n\n- <bullet point describing a specific change>\n- <bullet point describing another change>\n\n## Types: feat, fix, docs, style, refactor, perf, test, build, ci, chore, revert\n\n## Rules:\n1. Subject line: max 50 chars, imperative mood, no period\n2. Body uses bullet points (- ) to list specific changes\n3. Each bullet should be concise and actionable\n\n## Git Changes:\n\n### Staged Changes:\n$\x7bstaged_diff:-\\\"(none)\\\"\x7d\n\n### Unstaged Changes:\n$\x7bunstaged_diff:-\\\"(none)\\\"\x7d\n\n### Untracked Files:\n$\x7buntracked_files:-\\\"(none)\\\"\x7d\n\nOUTPUT ONLY THE COMMIT MESSAGE, nothing else.\"\n\n        echo \"$\x7bYELLOW\x7d[2/4]$\x7bNC\x7d 🤖 Generating commit message with ") ++ ofStr claudeCLI.name) = false :=
    occursb_chain (by decide) h6 (by decide)
      (by
        intro k hk0 hkl
        rw [show List.length (ofStr ("gc")) = 2 from rfl] at hkl
        have hk : k = 1 := by omega
        subst hk
        exact Or.inl (by rw [endsIn_append_long _ (by decide)]; decide))
  have h8 : occursb (ofStr ("gc")) (ofStr ("\n    local GREEN=$'\\033[0;32m'\n    local YELLOW=$'\\033[1;33m'\n    local BLUE=$'\\033[0;34m'\n    local RED=$'\\033[0;31m'\n    local NC=$'\\033[0m'\n    local BOLD=$'\\033[1m'\n    local DIM=$'\\033[2m'\n    \n    local review_mode=false\n    local user_message=\"\"\n    \n    if [[ \"$1\" == \"-r\" ]]; then\n        review_mode=true\n        shift\n        user_message=\"$*\"\n    else\n        user_message=\"$*\"\n    fi\n\n    if ! command -v git &> /dev/null; then\n        echo \"$\x7bRED\x7dError:$\x7bNC\x7d git is not installed\"\n        return 1\n    fi\n\n    if ! git rev-parse --is-inside-work-tree > /dev/null 2>&1; then\n        echo \"$\x7bRED\x7dError:$\x7bNC\x7d Not a git repository\"\n        return 1\n    fi\n\n    if git ls-files -u | grep -q .; then\n        echo \"$\x7bRED\x7dError:$\x7bNC\x7d Unresolved merge conflicts\"\n        return 1\n    fi\n\n    local current_branch=$(git branch --show-current 2>/dev/null)\n    if [ -z \"$current_branch\" ]; then\n        echo \"$\x7bRED\x7dError:$\x7bNC\x7d Detached HEAD state\"\n        return 1\n    fi\n\n    local has_staged=false\n    local has_unstaged=false\n    local has_untracked=false\n    \n    ! git diff --cached --quiet && has_staged=true\n    ! git diff --quiet && has_unstaged=true\n    [ -n \"$(git ls-files --others --exclude-standard 2>/dev/null)\" ] && has_untracked=true\n\n    if [ \"$has_staged\" = false ] && [ \"$has_unstaged\" = false ] && [ \"$has_untracked\" = false ]; then\n        echo \"$\x7bYELLOW\x7dNothing to commit$\x7bNC\x7d - working tree clean\"\n        local unpushed=$(git log @\x7bu\x7d.. --oneline 2>/dev/null | wc -l | tr -d ' ')\n        if [ \"$unpushed\" -gt 0 ] 2>/dev/null; then\n") ++ ofStr ("            echo \"$\x7bDIM\x7dYou have $\x7bunpushed\x7d unpushed commit(s)$\x7bNC\x7d\"\n            echo -n \"$\x7bYELLOW\x7dPush existing commits? [Y/n]:$\x7bNC\x7d \"\n            read push_only\n            if [[ ! \"$push_only\" =~ ^[nN] ]]; then\n                git push origin \"$current_branch\" 2>&1 && echo \"$\x7bGREEN\x7d✓ Pushed$\x7bNC\x7d\"\n            fi\n        fi\n        return 0\n    fi\n\n    if ! git remote get-url origin > /dev/null 2>&1; then\n        echo \"$\x7bYELLOW\x7dWarning:$\x7bNC\x7d No remote 'origin' configured\"\n        local skip_push=true\n    else\n        local skip_push=false\n    fi\n\n    echo \"$\x7bBOLD\x7d$\x7bBLUE\x7d━━━━━━━━━━━━━━━━━━━━━━━━━━━━━━━━━━━━━━━━━━━━━━━━━━━$\x7bNC\x7d\"\n    echo \"$\x7bBOLD\x7d🚀 Git Push with AI Commit Message$\x7bNC\x7d\"\n    echo \"$\x7bBOLD\x7d$\x7bBLUE\x7d━━━━━━━━━━━━━━━━━━━━━━━━━━━━━━━━━━━━━━━━━━━━━━━━━━━$\x7bNC\x7d\"\n\n    local commit_message=\"\"\n    \n    if [ -n \"$user_message\" ]; then\n        echo \"\"\n        echo \"$\x7bGREEN\x7d✓$\x7bNC\x7d Using provided commit message\"\n        commit_message=\"$user_message\"\n    else\n        if ! command -v ") ++ ofStr claudeCLI.command ++ ofStr (" &> /dev/null; then\n            echo \"$\x7bRED\x7dError:$\x7bNC\x7d ") ++ ofStr claudeCLI.name ++ ofStr (" is not installed\"\n            return 1\n        fi\n\n        echo \"\"\n        echo \"$\x7bYELLOW\x7d[1/4]$\x7bNC\x7d 🔍 Analyzing git changes...\"\n    \n        local staged_diff=$(git diff --cached 2>/dev/null | head -500)\n        local unstaged_diff=$(git diff 2>/dev/null | head -500)\n        local untracked_files=$(git ls-files --others --exclude-standard 2>/dev/null | head -50)\n    \n        local prompt=\"Analyze the following git changes and generate a commit message following the Conventional Commits specification with bullet-point changelog style.\n\n## Commit Message Format:\n<type>(<scope>): <short summary>\n\n- <bullet point describing a specific change>\n- <bullet point describing another change>\n\n## Types: feat, fix, docs, style, refactor, perf, test, build, ci, chore, revert\n\n## Rules:\n1. Subject line: max 50 chars, imperative mood, no period\n2. Body uses bullet points (- ) to list specific changes\n3. Each bullet should be concise and actionable\n\n## Git Changes:\n\n### Staged Changes:\n$\x7bstaged_diff:-\\\"(none)\\\"\x7d\n\n### Unstaged Changes:\n$\x7bunstaged_diff:-\\\"(none)\\\"\x7d\n\n### Untracked Files:\n$\x7buntracked_files:-\\\"(none)\\\"\x7d\n\nOUTPUT ONLY THE COMMIT MESSAGE, nothing else.\"\n\n        echo \"$\x7bYELLOW\x7d[2/4]$\x7bNC\x7d 🤖 Generating commit message with ") ++ ofStr claudeCLI.name ++ ofStr ("...\"\n        echo \"$\x7bDIM\x7d     (this may take a few seconds...)$\x7bNC\x7d\"\n    \n        local temp_file=$(mktemp)\n        local error_file=$(mktemp)\n    \n        ")) = false :=
    occursb_chain (by decide) h7 (by decide)
      (by
        intro k hk0 hkl
        rw [show List.length (ofStr ("gc")) = 2 from rfl] at hkl
        have hk : k = 1 := by omega
        subst hk
        exact Or.inl (by rw [endsIn_append_long _ (by decide)]; decide))
  have h9 : occursb (ofStr ("gc")) (ofStr ("\n    local GREEN=$'\\033[0;32m'\n    local YELLOW=$'\\033[1;33m'\n    local BLUE=$'\\033[0;34m'\n    local RED=$'\\033[0;31m'\n    local NC=$'\\033[0m'\n    local BOLD=$'\\033[1m'\n    local DIM=$'\\033[2m'\n    \n    local review_mode=false\n    local user_message=\"\"\n    \n    if [[ \"$1\" == \"-r\" ]]; then\n        review_mode=true\n        shift\n        user_message=\"$*\"\n    else\n        user_message=\"$*\"\n    fi\n\n    if ! command -v git &> /dev/null; then\n        echo \"$\x7bRED\x7dError:$\x7bNC\x7d git is not installed\"\n        return 1\n    fi\n\n    if ! git rev-parse --is-inside-work-tree > /dev/null 2>&1; then\n        echo \"$\x7bRED\x7dError:$\x7bNC\x7d Not a git repository\"\n        return 1\n    fi\n\n    if git ls-files -u | grep -q .; then\n        echo \"$\x7bRED\x7dError:$\x7bNC\x7d Unresolved merge conflicts\"\n        return 1\n    fi\n\n    local current_branch=$(git branch --show-current 2>/dev/null)\n    if [ -z \"$current_branch\" ]; then\n        echo \"$\x7bRED\x7dError:$\x7bNC\x7d Detached HEAD state\"\n        return 1\n    fi\n\n    local has_staged=false\n    local has_unstaged=false\n    local has_untracked=false\n    \n    ! git diff --cached --quiet && has_staged=true\n    ! git diff --quiet && has_unstaged=true\n    [ -n \"$(git ls-files --others --exclude-standard 2>/dev/null)\" ] && has_untracked=true\n\n    if [ \"$has_staged\" = false ] && [ \"$has_unstaged\" = false ] && [ \"$has_untracked\" = false ]; then\n        echo \"$\x7bYELLOW\x7dNothing to commit$\x7bNC\x7d - working tree clean\"\n        local unpushed=$(git log @\x7bu\x7d.. --oneline 2>/dev/null | wc -l | tr -d ' ')\n        if [ \"$unpushed\" -gt 0 ] 2>/dev/null; then\n") ++ ofStr ("            echo \"$\x7bDIM\x7dYou have $\x7bunpushed\x7d unpushed commit(s)$\x7bNC\x7d\"\n            echo -n \"$\x7bYELLOW\x7dPush existing commits? [Y/n]:$\x7bNC\x7d \"\n            read push_only\n            if [[ ! \"$push_only\" =~ ^[nN] ]]; then\n                git push origin \"$current_branch\" 2>&1 && echo \"$\x7bGREEN\x7d✓ Pushed$\x7bNC\x7d\"\n            fi\n        fi\n        return 0\n    fi\n\n    if ! git remote get-url origin > /dev/null 2>&1; then\n        echo \"$\x7bYELLOW\x7dWarning:$\x7bNC\x7d No remote 'origin' configured\"\n        local skip_push=true\n    else\n        local skip_push=false\n    fi\n\n    echo \"$\x7bBOLD\x7d$\x7bBLUE\x7d━━━━━━━━━━━━━━━━━━━━━━━━━━━━━━━━━━━━━━━━━━━━━━━━━━━$\x7bNC\x7d\"\n    echo \"$\x7bBOLD\x7d🚀 Git Push with AI Commit Message$\x7bNC\x7d\"\n    echo \"$\x7bBOLD\x7d$\x7bBLUE\x7d━━━━━━━━━━━━━━━━━━━━━━━━━━━━━━━━━━━━━━━━━━━━━━━━━━━$\x7bNC\x7d\"\n\n    local commit_message=\"\"\n    \n    if [ -n \"$user_message\" ]; then\n        echo \"\"\n        echo \"$\x7bGREEN\x7d✓$\x7bNC\x7d Using provided commit message\"\n        commit_message=\"$user_message\"\n    else\n        if ! command -v ") ++ ofStr claudeCLI.command ++ ofStr (" &> /dev/null; then\n            echo \"$\x7bRED\x7dError:$\x7bNC\x7d ") ++ ofStr claudeCLI.name ++ ofStr (" is not installed\"\n            return 1\n        fi\n\n        echo \"\"\n        echo \"$\x7bYELLOW\x7d[1/4]$\x7bNC\x7d 🔍 Analyzing git changes...\"\n    \n        local staged_diff=$(git diff --cached 2>/dev/null | head -500)\n        local unstaged_diff=$(git diff 2>/dev/null | head -500)\n        local untracked_files=$(git ls-files --others --exclude-standard 2>/dev/null | head -50)\n    \n        local prompt=\"Analyze the following git changes and generate a commit message following the Conventional Commits specification with bullet-point changelog style.\n\n## Commit Message Format:\n<type>(<scope>): <short summary>\n\n- <bullet point describing a specific change>\n- <bullet point describing another change>\n\n## Types: feat, fix, docs, style, refactor, perf, test, build, ci, chore, revert\n\n## Rules:\n1. Subject line: max 50 chars, imperative mood, no period\n2. Body uses bullet points (- ) to list specific changes\n3. Each bullet should be concise and actionable\n\n## Git Changes:\n\n### Staged Changes:\n$\x7bstaged_diff:-\\\"(none)\\\"\x7d\n\n### Unstaged Changes:\n$\x7bunstaged_diff:-\\\"(none)\\\"\x7d\n\n### Untracked Files:\n$\x7buntracked_files:-\\\"(none)\\\"\x7d\n\nOUTPUT ONLY THE COMMIT MESSAGE, nothing else.\"\n\n        echo \"$\x7bYELLOW\x7d[2/4]$\x7bNC\x7d 🤖 Generating commit message with ") ++ ofStr claudeCLI.name ++ ofStr ("...\"\n        echo \"$\x7bDIM\x7d     (this may take a few seconds...)$\x7bNC\x7d\"\n    \n        local temp_file=$(mktemp)\n        local error_file=$(mktemp)\n    \n        ") ++ ofStr (buildCLICommand claudeCLI "sonnet")) = false :=
    occursb_chain (by decide) h8 (by decide)
      (by
        intro k hk0 hkl
        rw [show List.length (ofStr ("gc")) = 2 from rfl] at hkl
        have hk : k = 1 := by omega
        subst hk
        exact Or.inl (by rw [endsIn_append_long _ (by decide)]; decide))
  have h10 : occursb (ofStr ("gc")) (ofStr ("\n    local GREEN=$'\\033[0;32m'\n    local YELLOW=$'\\033[1;33m'\n    local BLUE=$'\\033[0;34m'\n    local RED=$'\\033[0;31m'\n    local NC=$'\\033[0m'\n    local BOLD=$'\\033[1m'\n    local DIM=$'\\033[2m'\n    \n    local review_mode=false\n    local user_message=\"\"\n    \n    if [[ \"$1\" == \"-r\" ]]; then\n        review_mode=true\n        shift\n        user_message=\"$*\"\n    else\n        user_message=\"$*\"\n    fi\n\n    if ! command -v git &> /dev/null; then\n        echo \"$\x7bRED\x7dError:$\x7bNC\x7d git is not installed\"\n        return 1\n    fi\n\n    if ! git rev-parse --is-inside-work-tree > /dev/null 2>&1; then\n        echo \"$\x7bRED\x7dError:$\x7bNC\x7d Not a git repository\"\n        return 1\n    fi\n\n    if git ls-files -u | grep -q .; then\n        echo \"$\x7bRED\x7dError:$\x7bNC\x7d Unresolved merge conflicts\"\n        return 1\n    fi\n\n    local current_branch=$(git branch --show-current 2>/dev/null)\n    if [ -z \"$current_branch\" ]; then\n        echo \"$\x7bRED\x7dError:$\x7bNC\x7d Detached HEAD state\"\n        return 1\n    fi\n\n    local has_staged=false\n    local has_unstaged=false\n    local has_untracked=false\n    \n    ! git diff --cached --quiet && has_staged=true\n    ! git diff --quiet && has_unstaged=true\n    [ -n \"$(git ls-files --others --exclude-standard 2>/dev/null)\" ] && has_untracked=true\n\n    if [ \"$has_staged\" = false ] && [ \"$has_unstaged\" = false ] && [ \"$has_untracked\" = false ]; then\n        echo \"$\x7bYELLOW\x7dNothing to commit$\x7bNC\x7d - working tree clean\"\n        local unpushed=$(git log @\x7bu\x7d.. --oneline 2>/dev/null | wc -l | tr -d ' ')\n        if [ \"$unpushed\" -gt 0 ] 2>/dev/null; then\n") ++ ofStr ("            echo \"$\x7bDIM\x7dYou have $\x7bunpushed\x7d unpushed commit(s)$\x7bNC\x7d\"\n            echo -n \"$\x7bYELLOW\x7dPush existing commits? [Y/n]:$\x7bNC\x7d \"\n            read push_only\n            if [[ ! \"$push_only\" =~ ^[nN] ]]; then\n                git push origin \"$current_branch\" 2>&1 && echo \"$\x7bGREEN\x7d✓ Pushed$\x7bNC\x7d\"\n            fi\n        fi\n        return 0\n    fi\n\n    if ! git remote get-url origin > /dev/null 2>&1; then\n        echo \"$\x7bYELLOW\x7dWarning:$\x7bNC\x7d No remote 'origin' configured\"\n        local skip_push=true\n    else\n        local skip_push=false\n    fi\n\n    echo \"$\x7bBOLD\x7d$\x7bBLUE\x7d━━━━━━━━━━━━━━━━━━━━━━━━━━━━━━━━━━━━━━━━━━━━━━━━━━━$\x7bNC\x7d\"\n    echo \"$\x7bBOLD\x7d🚀 Git Push with AI Commit Message$\x7bNC\x7d\"\n    echo \"$\x7bBOLD\x7d$\x7bBLUE\x7d━━━━━━━━━━━━━━━━━━━━━━━━━━━━━━━━━━━━━━━━━━━━━━━━━━━$\x7bNC\x7d\"\n\n    local commit_message=\"\"\n    \n    if [ -n \"$user_message\" ]; then\n        echo \"\"\n        echo \"$\x7bGREEN\x7d✓$\x7bNC\x7d Using provided commit message\"\n        commit_message=\"$user_message\"\n    else\n        if ! command -v ") ++ ofStr claudeCLI.command ++ ofStr (" &> /dev/null; then\n            echo \"$\x7bRED\x7dError:$\x7bNC\x7d ") ++ ofStr claudeCLI.name ++ ofStr (" is not installed\"\n            return 1\n        fi\n\n        echo \"\"\n        echo \"$\x7bYELLOW\x7d[1/4]$\x7bNC\x7d 🔍 Analyzing git changes...\"\n    \n        local staged_diff=$(git diff --cached 2>/dev/null | head -500)\n        local unstaged_diff=$(git diff 2>/dev/null | head -500)\n        local untracked_files=$(git ls-files --others --exclude-standard 2>/dev/null | head -50)\n    \n        local prompt=\"Analyze the following git changes and generate a commit message following the Conventional Commits specification with bullet-point changelog style.\n\n## Commit Message Format:\n<type>(<scope>): <short summary>\n\n- <bullet point describing a specific change>\n- <bullet point describing another change>\n\n## Types: feat, fix, docs, style, refactor, perf, test, build, ci, chore, revert\n\n## Rules:\n1. Subject line: max 50 chars, imperative mood, no period\n2. Body uses bullet points (- ) to list specific changes\n3. Each bullet should be concise and actionable\n\n## Git Changes:\n\n### Staged Changes:\n$\x7bstaged_diff:-\\\"(none)\\\"\x7d\n\n### Unstaged Changes:\n$\x7bunstaged_diff:-\\\"(none)\\\"\x7d\n\n### Untracked Files:\n$\x7buntracked_files:-\\\"(none)\\\"\x7d\n\nOUTPUT ONLY THE COMMIT MESSAGE, nothing else.\"\n\n        echo \"$\x7bYELLOW\x7d[2/4]$\x7bNC\x7d 🤖 Generating commit message with ") ++ ofStr claudeCLI.name ++ ofStr ("...\"\n        echo \"$\x7bDIM\x7d     (this may take a few seconds...)$\x7bNC\x7d\"\n    \n        local temp_file=$(mktemp)\n        local error_file=$(mktemp)\n    \n        ") ++ ofStr (buildCLICommand claudeCLI "sonnet") ++ ofStr (" > \"$temp_file\" 2> \"$error_file\"\n        local exit_code=$?\n    \n        if [ $exit_code -ne 0 ] || [ ! -s \"$temp_file\" ]; then\n            echo \"$\x7bRED\x7dError:$\x7bNC\x7d Failed to generate commit message\"\n            cat \"$error_file\" 2>/dev/null\n            rm -f \"$temp_file\" \"$error_file\"\n            return 1\n        fi\n    \n        commit_message=$(cat \"$temp_file\")\n        rm -f \"$temp_file\" \"$error_file\"\n    \n        echo \"\"\n        echo \"$\x7bGREEN\x7dGenerated Commit Message:$\x7bNC\x7d\"\n        echo \"$commit_message\"\n    \n        if [ \"$review_mode\" = true ]; then\n            echo \"\"\n            echo -n \"$\x7bYELLOW\x7dProceed with this commit message? [Y/n/e(dit)]:$\x7bNC\x7d \"\n            read confirm\n    \n            case \"$confirm\" in\n                [nN]) echo \"$\x7bYELLOW\x7dAborted.$\x7bNC\x7d\"; return 0 ;;\n                [eE])\n                    local edit_file=$(mktemp)\n                    echo \"$commit_message\" > \"$edit_file\"\n                    $\x7bEDITOR:-vim\x7d \"$edit_file\"\n                    commit_message=$(cat \"$edit_file\")\n                    rm -f \"$edit_file\"\n                    ;;\n            esac\n        fi\n    fi\n\n    echo \"\"\n    echo \"$\x7bYELLOW\x7d[3/4]$\x7bNC\x7d 📦 Staging and committing changes...\"\n    \n    git add -A\n    \n    if git diff --cached --quiet; then\n        echo \"$\x7bYELLOW\x7dNothing to commit$\x7bNC\x7d\"\n        return 0\n    fi\n    \n    if ! git commit -m \"$commit_message\" 2>&1; then\n        echo \"$\x7bRED\x7dError:$\x7bNC\x7d Failed to commit\"\n        return 1\n    fi\n    \n    echo \"$\x7bGREEN\x7d✓$\x7bNC\x7d Changes committed\"\n\n    if [ \"$skip_push\" = true ]; then\n")) = false :=
    occursb_chain (by decide) h9 (by decide)
      (by
        intro k hk0 hkl
        rw [show List.length (ofStr ("gc")) = 2 from rfl] at hkl
        have hk : k = 1 := by omega
        subst hk
        exact Or.inl (by rw [endsIn_append_long _ (by decide)]; decide))
  have h11 : occursb (ofStr ("gc")) (ofStr ("\n    local GREEN=$'\\033[0;32m'\n    local YELLOW=$'\\033[1;33m'\n    local BLUE=$'\\033[0;34m'\n    local RED=$'\\033[0;31m'\n    local NC=$'\\033[0m'\n    local BOLD=$'\\033[1m'\n    local DIM=$'\\033[2m'\n    \n    local review_mode=false\n    local user_message=\"\"\n    \n    if [[ \"$1\" == \"-r\" ]]; then\n        review_mode=true\n        shift\n        user_message=\"$*\"\n    else\n        user_message=\"$*\"\n    fi\n\n    if ! command -v git &> /dev/null; then\n        echo \"$\x7bRED\x7dError:$\x7bNC\x7d git is not installed\"\n        return 1\n    fi\n\n    if ! git rev-parse --is-inside-work-tree > /dev/null 2>&1; then\n        echo \"$\x7bRED\x7dError:$\x7bNC\x7d Not a git repository\"\n        return 1\n    fi\n\n    if git ls-files -u | grep -q .; then\n        echo \"$\x7bRED\x7dError:$\x7bNC\x7d Unresolved merge conflicts\"\n        return 1\n    fi\n\n    local current_branch=$(git branch --show-current 2>/dev/null)\n    if [ -z \"$current_branch\" ]; then\n        echo \"$\x7bRED\x7dError:$\x7bNC\x7d Detached HEAD state\"\n        return 1\n    fi\n\n    local has_staged=false\n    local has_unstaged=false\n    local has_untracked=false\n    \n    ! git diff --cached --quiet && has_staged=true\n    ! git diff --quiet && has_unstaged=true\n    [ -n \"$(git ls-files --others --exclude-standard 2>/dev/null)\" ] && has_untracked=true\n\n    if [ \"$has_staged\" = false ] && [ \"$has_unstaged\" = false ] && [ \"$has_untracked\" = false ]; then\n        echo \"$\x7bYELLOW\x7dNothing to commit$\x7bNC\x7d - working tree clean\"\n        local unpushed=$(git log @\x7bu\x7d.. --oneline 2>/dev/null | wc -l | tr -d ' ')\n        if [ \"$unpushed\" -gt 0 ] 2>/dev/null; then\n") ++ ofStr ("            echo \"$\x7bDIM\x7dYou have $\x7bunpushed\x7d unpushed commit(s)$\x7bNC\x7d\"\n            echo -n \"$\x7bYELLOW\x7dPush existing commits? [Y/n]:$\x7bNC\x7d \"\n            read push_only\n            if [[ ! \"$push_only\" =~ ^[nN] ]]; then\n                git push origin \"$current_branch\" 2>&1 && echo \"$\x7bGREEN\x7d✓ Pushed$\x7bNC\x7d\"\n            fi\n        fi\n        return 0\n    fi\n\n    if ! git remote get-url origin > /dev/null 2>&1; then\n        echo \"$\x7bYELLOW\x7dWarning:$\x7bNC\x7d No remote 'origin' configured\"\n        local skip_push=true\n    else\n        local skip_push=false\n    fi\n\n    echo \"$\x7bBOLD\x7d$\x7bBLUE\x7d━━━━━━━━━━━━━━━━━━━━━━━━━━━━━━━━━━━━━━━━━━━━━━━━━━━$\x7bNC\x7d\"\n    echo \"$\x7bBOLD\x7d🚀 Git Push with AI Commit Message$\x7bNC\x7d\"\n    echo \"$\x7bBOLD\x7d$\x7bBLUE\x7d━━━━━━━━━━━━━━━━━━━━━━━━━━━━━━━━━━━━━━━━━━━━━━━━━━━$\x7bNC\x7d\"\n\n    local commit_message=\"\"\n    \n    if [ -n \"$user_message\" ]; then\n        echo \"\"\n        echo \"$\x7bGREEN\x7d✓$\x7bNC\x7d Using provided commit message\"\n        commit_message=\"$user_message\"\n    else\n        if ! command -v ") ++ ofStr claudeCLI.command ++ ofStr (" &> /dev/null; then\n            echo \"$\x7bRED\x7dError:$\x7bNC\x7d ") ++ ofStr claudeCLI.name ++ ofStr (" is not installed\"\n            return 1\n        fi\n\n        echo \"\"\n        echo \"$\x7bYELLOW\x7d[1/4]$\x7bNC\x7d 🔍 Analyzing git changes...\"\n    \n        local staged_diff=$(git diff --cached 2>/dev/null | head -500)\n        local unstaged_diff=$(git diff 2>/dev/null | head -500)\n        local untracked_files=$(git ls-files --others --exclude-standard 2>/dev/null | head -50)\n    \n        local prompt=\"Analyze the following git changes and generate a commit message following the Conventional Commits specification with bullet-point changelog style.\n\n## Commit Message Format:\n<type>(<scope>): <short summary>\n\n- <bullet point describing a specific change>\n- <bullet point describing another change>\n\n## Types: feat, fix, docs, style, refactor, perf, test, build, ci, chore, revert\n\n## Rules:\n1. Subject line: max 50 chars, imperative mood, no period\n2. Body uses bullet points (- ) to list specific changes\n3. Each bullet should be concise and actionable\n\n## Git Changes:\n\n### Staged Changes:\n$\x7bstaged_diff:-\\\"(none)\\\"\x7d\n\n### Unstaged Changes:\n$\x7bunstaged_diff:-\\\"(none)\\\"\x7d\n\n### Untracked Files:\n$\x7buntracked_files:-\\\"(none)\\\"\x7d\n\nOUTPUT ONLY THE COMMIT MESSAGE, nothing else.\"\n\n        echo \"$\x7bYELLOW\x7d[2/4]$\x7bNC\x7d 🤖 Generating commit message with ") ++ ofStr claudeCLI.name ++ ofStr ("...\"\n        echo \"$\x7bDIM\x7d     (this may take a few seconds...)$\x7bNC\x7d\"\n    \n        local temp_file=$(mktemp)\n        local error_file=$(mktemp)\n    \n        ") ++ ofStr (buildCLICommand claudeCLI "sonnet") ++ ofStr (" > \"$temp_file\" 2> \"$error_file\"\n        local exit_code=$?\n    \n        if [ $exit_code -ne 0 ] || [ ! -s \"$temp_file\" ]; then\n            echo \"$\x7bRED\x7dError:$\x7bNC\x7d Failed to generate commit message\"\n            cat \"$error_file\" 2>/dev/null\n            rm -f \"$temp_file\" \"$error_file\"\n            return 1\n        fi\n    \n        commit_message=$(cat \"$temp_file\")\n        rm -f \"$temp_file\" \"$error_file\"\n    \n        echo \"\"\n        echo \"$\x7bGREEN\x7dGenerated Commit Message:$\x7bNC\x7d\"\n        echo \"$commit_message\"\n    \n        if [ \"$review_mode\" = true ]; then\n            echo \"\"\n            echo -n \"$\x7bYELLOW\x7dProceed with this commit message? [Y/n/e(dit)]:$\x7bNC\x7d \"\n            read confirm\n    \n            case \"$confirm\" in\n                [nN]) echo \"$\x7bYELLOW\x7dAborted.$\x7bNC\x7d\"; return 0 ;;\n                [eE])\n                    local edit_file=$(mktemp)\n                    echo \"$commit_message\" > \"$edit_file\"\n                    $\x7bEDITOR:-vim\x7d \"$edit_file\"\n                    commit_message=$(cat \"$edit_file\")\n                    rm -f \"$edit_file\"\n                    ;;\n            esac\n        fi\n    fi\n\n    echo \"\"\n    echo \"$\x7bYELLOW\x7d[3/4]$\x7bNC\x7d 📦 Staging and committing changes...\"\n    \n    git add -A\n    \n    if git diff --cached --quiet; then\n        echo \"$\x7bYELLOW\x7dNothing to commit$\x7bNC\x7d\"\n        return 0\n    fi\n    \n    if ! git commit -m \"$commit_message\" 2>&1; then\n        echo \"$\x7bRED\x7dError:$\x7bNC\x7d Failed to commit\"\n        return 1\n    fi\n    \n    echo \"$\x7bGREEN\x7d✓$\x7bNC\x7d Changes committed\"\n\n    if [ \"$skip_push\" = true ]; then\n") ++ ofStr ("        echo \"$\x7bYELLOW\x7dSkipping push$\x7bNC\x7d - no remote\"\n        echo \"$\x7bBOLD\x7d$\x7bGREEN\x7d✨ Done!$\x7bNC\x7d\"\n        return 0\n    fi\n\n    echo \"\"\n    echo \"$\x7bYELLOW\x7d[4/4]$\x7bNC\x7d 🚀 Pushing to remote...\"\n    \n    local push_output\n    push_output=$(git push origin \"$current_branch\" 2>&1)\n    local push_exit=$?\n    \n    if [ $push_exit -eq 0 ]; then\n        echo \"$\x7bGREEN\x7d✓ Pushed to origin/$current_branch$\x7bNC\x7d\"\n        local mr_url=$(echo \"$push_output\" | grep -oE 'https?://[^ ]+' | grep -iE '(merge|pull)' | head -1)\n        if [ -n \"$mr_url\" ]; then\n            echo \"\"\n            echo \"$\x7bBLUE\x7d📎 Create Merge Request:$\x7bNC\x7d\"\n            echo \"   $\x7bBOLD\x7d$mr_url$\x7bNC\x7d\"\n        fi\n    else\n        if echo \"$push_output\" | grep -q \"no upstream\"; then\n            git push --set-upstream origin \"$current_branch\" 2>&1 && echo \"$\x7bGREEN\x7d✓ Pushed$\x7bNC\x7d\"\n        else\n            echo \"$\x7bRED\x7dError:$\x7bNC\x7d Push failed\"\n            echo \"$\x7bDIM\x7d$push_output$\x7bNC\x7d\"\n            return 1\n        fi\n    fi\n\n    echo \"\"\n    echo \"$\x7bBOLD\x7d$\x7bGREEN\x7d━━━━━━━━━━━━━━━━━━━━━━━━━━━━━━━━━━━━━━━━━━━━━━━━━━━$\x7bNC\x7d\"\n    echo \"$\x7bBOLD\x7d$\x7bGREEN\x7d✨ Done!$\x7bNC\x7d\"\n    echo \"$\x7bBOLD\x7d$\x7bGREEN\x7d━━━━━━━━━━━━━━━━━━━━━━━━━━━━━━━━━━━━━━━━━━━━━━━━━━━$\x7bNC\x7d\"")) = false :=
    occursb_chain (by decide) h10 (by decide)
      (by
        intro k hk0 hkl
        rw [show List.length (ofStr ("gc")) = 2 from rfl] at hkl
        have hk : k = 1 := by omega
        subst hk
        exact Or.inl (by rw [endsIn_append_long _ (by decide)]; decide))
  exact h11

set_option maxRecDepth 400000 in
theorem occ_nb_bodyGp : occursb (ofStr ("\n\x7d")) bodyGp = false := by
  unfold bodyGp gpBody
  have h1 : occursb (ofStr ("\n\x7d")) (ofStr ("\n    local GREEN=$'\\033[0;32m'\n    local YELLOW=$'\\033[1;33m'\n    local BLUE=$'\\033[0;34m'\n    local RED=$'\\033[0;31m'\n    local NC=$'\\033[0m'\n    local BOLD=$'\\033[1m'\n    local DIM=$'\\033[2m'\n    \n    local review_mode=false\n    local user_message=\"\"\n    \n    if [[ \"$1\" == \"-r\" ]]; then\n        review_mode=true\n        shift\n        user_message=\"$*\"\n    else\n        user_message=\"$*\"\n    fi\n\n    if ! command -v git &> /dev/null; then\n        echo \"$\x7bRED\x7dError:$\x7bNC\x7d git is not installed\"\n        return 1\n    fi\n\n    if ! git rev-parse --is-inside-work-tree > /dev/null 2>&1; then\n        echo \"$\x7bRED\x7dError:$\x7bNC\x7d Not a git repository\"\n        return 1\n    fi\n\n    if git ls-files -u | grep -q .; then\n        echo \"$\x7bRED\x7dError:$\x7bNC\x7d Unresolved merge conflicts\"\n        return 1\n    fi\n\n    local current_branch=$(git branch --show-current 2>/dev/null)\n    if [ -z \"$current_branch\" ]; then\n        echo \"$\x7bRED\x7dError:$\x7bNC\x7d Detached HEAD state\"\n        return 1\n    fi\n\n    local has_staged=false\n    local has_unstaged=false\n    local has_untracked=false\n    \n    ! git diff --cached --quiet && has_staged=true\n    ! git diff --quiet && has_unstaged=true\n    [ -n \"$(git ls-files --others --exclude-standard 2>/dev/null)\" ] && has_untracked=true\n\n    if [ \"$has_staged\" = false ] && [ \"$has_unstaged\" = false ] && [ \"$has_untracked\" = false ]; then\n        echo \"$\x7bYELLOW\x7dNothing to commit$\x7bNC\x7d - working tree clean\"\n        local unpushed=$(git log @\x7bu\x7d.. --oneline 2>/dev/null | wc -l | tr -d ' ')\n        if [ \"$unpushed\" -gt 0 ] 2>/dev/null; then\n")) = false := by decide
  have h2 : occursb (ofStr ("\n\x7d")) (ofStr ("\n    local GREEN=$'\\033[0;32m'\n    local YELLOW=$'\\033[1;33m'\n    local BLUE=$'\\033[0;34m'\n    local RED=$'\\033[0;31m'\n    local NC=$'\\033[0m'\n    local BOLD=$'\\033[1m'\n    local DIM=$'\\033[2m'\n    \n    local review_mode=false\n    local user_message=\"\"\n    \n    if [[ \"$1\" == \"-r\" ]]; then\n        review_mode=true\n        shift\n        user_message=\"$*\"\n    else\n        user_message=\"$*\"\n    fi\n\n    if ! command -v git &> /dev/null; then\n        echo \"$\x7bRED\x7dError:$\x7bNC\x7d git is not installed\"\n        return 1\n    fi\n\n    if ! git rev-parse --is-inside-work-tree > /dev/null 2>&1; then\n        echo \"$\x7bRED\x7dError:$\x7bNC\x7d Not a git repository\"\n        return 1\n    fi\n\n    if git ls-files -u | grep -q .; then\n        echo \"$\x7bRED\x7dError:$\x7bNC\x7d Unresolved merge conflicts\"\n        return 1\n    fi\n\n    local current_branch=$(git branch --show-current 2>/dev/null)\n    if [ -z \"$current_branch\" ]; then\n        echo \"$\x7bRED\x7dError:$\x7bNC\x7d Detached HEAD state\"\n        return 1\n    fi\n\n    local has_staged=false\n    local has_unstaged=false\n    local has_untracked=false\n    \n    ! git diff --cached --quiet && has_staged=true\n    ! git diff --quiet && has_unstaged=true\n    [ -n \"$(git ls-files --others --exclude-standard 2>/dev/null)\" ] && has_untracked=true\n\n    if [ \"$has_staged\" = false ] && [ \"$has_unstaged\" = false ] && [ \"$has_untracked\" = false ]; then\n        echo \"$\x7bYELLOW\x7dNothing to commit$\x7bNC\x7d - working tree clean\"\n        local unpushed=$(git log @\x7bu\x7d.. --oneline 2>/dev/null | wc -l | tr -d ' ')\n        if [ \"$unpushed\" -gt 0 ] 2>/dev/null; then\n") ++ ofStr ("            echo \"$\x7bDIM\x7dYou have $\x7bunpushed\x7d unpushed commit(s)$\x7bNC\x7d\"\n            echo -n \"$\x7bYELLOW\x7dPush existing commits? [Y/n]:$\x7bNC\x7d \"\n            read push_only\n            if [[ ! \"$push_only\" =~ ^[nN] ]]; then\n                git push origin \"$current_branch\" 2>&1 && echo \"$\x7bGREEN\x7d✓ Pushed$\x7bNC\x7d\"\n            fi\n        fi\n        return 0\n    fi\n\n    if ! git remote get-url origin > /dev/null 2>&1; then\n        echo \"$\x7bYELLOW\x7dWarning:$\x7bNC\x7d No remote 'origin' configured\"\n        local skip_push=true\n    else\n        local skip_push=false\n    fi\n\n    echo \"$\x7bBOLD\x7d$\x7bBLUE\x7d━━━━━━━━━━━━━━━━━━━━━━━━━━━━━━━━━━━━━━━━━━━━━━━━━━━$\x7bNC\x7d\"\n    echo \"$\x7bBOLD\x7d🚀 Git Push with AI Commit Message$\x7bNC\x7d\"\n    echo \"$\x7bBOLD\x7d$\x7bBLUE\x7d━━━━━━━━━━━━━━━━━━━━━━━━━━━━━━━━━━━━━━━━━━━━━━━━━━━$\x7bNC\x7d\"\n\n    local commit_message=\"\"\n    \n    if [ -n \"$user_message\" ]; then\n        echo \"\"\n        echo \"$\x7bGREEN\x7d✓$\x7bNC\x7d Using provided commit message\"\n        commit_message=\"$user_message\"\n    else\n        if ! command -v ")) = false :=
    occursb_chain (by decide) h1 (by decide)
      (by
        intro k hk0 hkl
        rw [show List.length (ofStr ("\n\x7d")) = 2 from rfl] at hkl
        have hk : k = 1 := by omega
        subst hk
        exact Or.inr (by decide))
  have h3 : occursb (ofStr ("\n\x7d")) (ofStr ("\n    local GREEN=$'\\033[0;32m'\n    local YELLOW=$'\\033[1;33m'\n    local BLUE=$'\\033[0;34m'\n    local RED=$'\\033[0;31m'\n    local NC=$'\\033[0m'\n    local BOLD=$'\\033[1m'\n    local DIM=$'\\033[2m'\n    \n    local review_mode=false\n    local user_message=\"\"\n    \n    if [[ \"$1\" == \"-r\" ]]; then\n        review_mode=true\n        shift\n        user_message=\"$*\"\n    else\n        user_message=\"$*\"\n    fi\n\n    if ! command -v git &> /dev/null; then\n        echo \"$\x7bRED\x7dError:$\x7bNC\x7d git is not installed\"\n        return 1\n    fi\n\n    if ! git rev-parse --is-inside-work-tree > /dev/null 2>&1; then\n        echo \"$\x7bRED\x7dError:$\x7bNC\x7d Not a git repository\"\n        return 1\n    fi\n\n    if git ls-files -u | grep -q .; then\n        echo \"$\x7bRED\x7dError:$\x7bNC\x7d Unresolved merge conflicts\"\n        return 1\n    fi\n\n    local current_branch=$(git branch --show-current 2>/dev/null)\n    if [ -z \"$current_branch\" ]; then\n        echo \"$\x7bRED\x7dError:$\x7bNC\x7d Detached HEAD state\"\n        return 1\n    fi\n\n    local has_staged=false\n    local has_unstaged=false\n    local has_untracked=false\n    \n    ! git diff --cached --quiet && has_staged=true\n    ! git diff --quiet && has_unstaged=true\n    [ -n \"$(git ls-files --others --exclude-standard 2>/dev/null)\" ] && has_untracked=true\n\n    if [ \"$has_staged\" = false ] && [ \"$has_unstaged\" = false ] && [ \"$has_untracked\" = false ]; then\n        echo \"$\x7bYELLOW\x7dNothing to commit$\x7bNC\x7d - working tree clean\"\n        local unpushed=$(git log @\x7bu\x7d.. --oneline 2>/dev/null | wc -l | tr -d ' ')\n        if [ \"$unpushed\" -gt 0 ] 2>/dev/null; then\n") ++ ofStr ("            echo \"$\x7bDIM\x7dYou have $\x7bunpushed\x7d unpushed commit(s)$\x7bNC\x7d\"\n            echo -n \"$\x7bYELLOW\x7dPush existing commits? [Y/n]:$\x7bNC\x7d \"\n            read push_only\n            if [[ ! \"$push_only\" =~ ^[nN] ]]; then\n                git push origin \"$current_branch\" 2>&1 && echo \"$\x7bGREEN\x7d✓ Pushed$\x7bNC\x7d\"\n            fi\n        fi\n        return 0\n    fi\n\n    if ! git remote get-url origin > /dev/null 2>&1; then\n        echo \"$\x7bYELLOW\x7dWarning:$\x7bNC\x7d No remote 'origin' configured\"\n        local skip_push=true\n    else\n        local skip_push=false\n    fi\n\n    echo \"$\x7bBOLD\x7d$\x7bBLUE\x7d━━━━━━━━━━━━━━━━━━━━━━━━━━━━━━━━━━━━━━━━━━━━━━━━━━━$\x7bNC\x7d\"\n    echo \"$\x7bBOLD\x7d🚀 Git Push with AI Commit Message$\x7bNC\x7d\"\n    echo \"$\x7bBOLD\x7d$\x7bBLUE\x7d━━━━━━━━━━━━━━━━━━━━━━━━━━━━━━━━━━━━━━━━━━━━━━━━━━━$\x7bNC\x7d\"\n\n    local commit_message=\"\"\n    \n    if [ -n \"$user_message\" ]; then\n        echo \"\"\n        echo \"$\x7bGREEN\x7d✓$\x7bNC\x7d Using provided commit message\"\n        commit_message=\"$user_message\"\n    else\n        if ! command -v ") ++ ofStr claudeCLI.command) = false :=
    occursb_chain (by decide) h2 (by decide)
      (by
        intro k hk0 hkl
        rw [show List.length (ofStr ("\n\x7d")) = 2 from rfl] at hkl
        have hk : k = 1 := by omega
        subst hk
        exact Or.inl (by rw [endsIn_append_long _ (by decide)]; decide))
  have h4 : occursb (ofStr ("\n\x7d")) (ofStr ("\n    local GREEN=$'\\033[0;32m'\n    local YELLOW=$'\\033[1;33m'\n    local BLUE=$'\\033[0;34m'\n    local RED=$'\\033[0;31m'\n    local NC=$'\\033[0m'\n    local BOLD=$'\\033[1m'\n    local DIM=$'\\033[2m'\n    \n    local review_mode=false\n    local user_message=\"\"\n    \n    if [[ \"$1\" == \"-r\" ]]; then\n        review_mode=true\n        shift\n        user_message=\"$*\"\n    else\n        user_message=\"$*\"\n    fi\n\n    if ! command -v git &> /dev/null; then\n        echo \"$\x7bRED\x7dError:$\x7bNC\x7d git is not installed\"\n        return 1\n    fi\n\n    if ! git rev-parse --is-inside-work-tree > /dev/null 2>&1; then\n        echo \"$\x7bRED\x7dError:$\x7bNC\x7d Not a git repository\"\n        return 1\n    fi\n\n    if git ls-files -u | grep -q .; then\n        echo \"$\x7bRED\x7dError:$\x7bNC\x7d Unresolved merge conflicts\"\n        return 1\n    fi\n\n    local current_branch=$(git branch --show-current 2>/dev/null)\n    if [ -z \"$current_branch\" ]; then\n        echo \"$\x7bRED\x7dError:$\x7bNC\x7d Detached HEAD state\"\n        return 1\n    fi\n\n    local has_staged=false\n    local has_unstaged=false\n    local has_untracked=false\n    \n    ! git diff --cached --quiet && has_staged=true\n    ! git diff --quiet && has_unstaged=true\n    [ -n \"$(git ls-files --others --exclude-standard 2>/dev/null)\" ] && has_untracked=true\n\n    if [ \"$has_staged\" = false ] && [ \"$has_unstaged\" = false ] && [ \"$has_untracked\" = false ]; then\n        echo \"$\x7bYELLOW\x7dNothing to commit$\x7bNC\x7d - working tree clean\"\n        local unpushed=$(git log @\x7bu\x7d.. --oneline 2>/dev/null | wc -l | tr -d ' ')\n        if [ \"$unpushed\" -gt 0 ] 2>/dev/null; then\n") ++ ofStr ("            echo \"$\x7bDIM\x7dYou have $\x7bunpushed\x7d unpushed commit(s)$\x7bNC\x7d\"\n            echo -n \"$\x7bYELLOW\x7dPush existing commits? [Y/n]:$\x7bNC\x7d \"\n            read push_only\n            if [[ ! \"$push_only\" =~ ^[nN] ]]; then\n                git push origin \"$current_branch\" 2>&1 && echo \"$\x7bGREEN\x7d✓ Pushed$\x7bNC\x7d\"\n            fi\n        fi\n        return 0\n    fi\n\n    if ! git remote get-url origin > /dev/null 2>&1; then\n        echo \"$\x7bYELLOW\x7dWarning:$\x7bNC\x7d No remote 'origin' configured\"\n        local skip_push=true\n    else\n        local skip_push=false\n    fi\n\n    echo \"$\x7bBOLD\x7d$\x7bBLUE\x7d━━━━━━━━━━━━━━━━━━━━━━━━━━━━━━━━━━━━━━━━━━━━━━━━━━━$\x7bNC\x7d\"\n    echo \"$\x7bBOLD\x7d🚀 Git Push with AI Commit Message$\x7bNC\x7d\"\n    echo \"$\x7bBOLD\x7d$\x7bBLUE\x7d━━━━━━━━━━━━━━━━━━━━━━━━━━━━━━━━━━━━━━━━━━━━━━━━━━━$\x7bNC\x7d\"\n\n    local commit_message=\"\"\n    \n    if [ -n \"$user_message\" ]; then\n        echo \"\"\n        echo \"$\x7bGREEN\x7d✓$\x7bNC\x7d Using provided commit message\"\n        commit_message=\"$user_message\"\n    else\n        if ! command -v ") ++ ofStr claudeCLI.command ++ ofStr (" &> /dev/null; then\n            echo \"$\x7bRED\x7dError:$\x7bNC\x7d ")) = false :=
    occursb_chain (by decide) h3 (by decide)
      (by
        intro k hk0 hkl
        rw [show List.length (ofStr ("\n\x7d")) = 2 from rfl] at hkl
        have hk : k = 1 := by omega
        subst hk
        exact Or.inl (by rw [endsIn_append_long _ (by decide)]; decide))
  have h5 : occursb (ofStr ("\n\x7d")) (ofStr ("\n    local GREEN=$'\\033[0;32m'\n    local YELLOW=$'\\033[1;33m'\n    local BLUE=$'\\033[0;34m'\n    local RED=$'\\033[0;31m'\n    local NC=$'\\033[0m'\n    local BOLD=$'\\033[1m'\n    local DIM=$'\\033[2m'\n    \n    local review_mode=false\n    local user_message=\"\"\n    \n    if [[ \"$1\" == \"-r\" ]]; then\n        review_mode=true\n        shift\n        user_message=\"$*\"\n    else\n        user_message=\"$*\"\n    fi\n\n    if ! command -v git &> /dev/null; then\n        echo \"$\x7bRED\x7dError:$\x7bNC\x7d git is not installed\"\n        return 1\n    fi\n\n    if ! git rev-parse --is-inside-work-tree > /dev/null 2>&1; then\n        echo \"$\x7bRED\x7dError:$\x7bNC\x7d Not a git repository\"\n        return 1\n    fi\n\n    if git ls-files -u | grep -q .; then\n        echo \"$\x7bRED\x7dError:$\x7bNC\x7d Unresolved merge conflicts\"\n        return 1\n    fi\n\n    local current_branch=$(git branch --show-current 2>/dev/null)\n    if [ -z \"$current_branch\" ]; then\n        echo \"$\x7bRED\x7dError:$\x7bNC\x7d Detached HEAD state\"\n        return 1\n    fi\n\n    local has_staged=false\n    local has_unstaged=false\n    local has_untracked=false\n    \n    ! git diff --cached --quiet && has_staged=true\n    ! git diff --quiet && has_unstaged=true\n    [ -n \"$(git ls-files --others --exclude-standard 2>/dev/null)\" ] && has_untracked=true\n\n    if [ \"$has_staged\" = false ] && [ \"$has_unstaged\" = false ] && [ \"$has_untracked\" = false ]; then\n        echo \"$\x7bYELLOW\x7dNothing to commit$\x7bNC\x7d - working tree clean\"\n        local unpushed=$(git log @\x7bu\x7d.. --oneline 2>/dev/null | wc -l | tr -d ' ')\n        if [ \"$unpushed\" -gt 0 ] 2>/dev/null; then\n") ++ ofStr ("            echo \"$\x7bDIM\x7dYou have $\x7bunpushed\x7d unpushed commit(s)$\x7bNC\x7d\"\n            echo -n \"$\x7bYELLOW\x7dPush existing commits? [Y/n]:$\x7bNC\x7d \"\n            read push_only\n            if [[ ! \"$push_only\" =~ ^[nN] ]]; then\n                git push origin \"$current_branch\" 2>&1 && echo \"$\x7bGREEN\x7d✓ Pushed$\x7bNC\x7d\"\n            fi\n        fi\n        return 0\n    fi\n\n    if ! git remote get-url origin > /dev/null 2>&1; then\n        echo \"$\x7bYELLOW\x7dWarning:$\x7bNC\x7d No remote 'origin' configured\"\n        local skip_push=true\n    else\n        local skip_push=false\n    fi\n\n    echo \"$\x7bBOLD\x7d$\x7bBLUE\x7d━━━━━━━━━━━━━━━━━━━━━━━━━━━━━━━━━━━━━━━━━━━━━━━━━━━$\x7bNC\x7d\"\n    echo \"$\x7bBOLD\x7d🚀 Git Push with AI Commit Message$\x7bNC\x7d\"\n    echo \"$\x7bBOLD\x7d$\x7bBLUE\x7d━━━━━━━━━━━━━━━━━━━━━━━━━━━━━━━━━━━━━━━━━━━━━━━━━━━$\x7bNC\x7d\"\n\n    local commit_message=\"\"\n    \n    if [ -n \"$user_message\" ]; then\n        echo \"\"\n        echo \"$\x7bGREEN\x7d✓$\x7bNC\x7d Using provided commit message\"\n        commit_message=\"$user_message\"\n    else\n        if ! command -v ") ++ ofStr claudeCLI.command ++ ofStr (" &> /dev/null; then\n            echo \"$\x7bRED\x7dError:$\x7bNC\x7d ") ++ ofStr claudeCLI.name) = false :=
    occursb_chain (by decide) h4 (by decide)
      (by
        intro k hk0 hkl
        rw [show List.length (ofStr ("\n\x7d")) = 2 from rfl] at hkl
        have hk : k = 1 := by omega
        subst hk
        exact Or.inl (by rw [endsIn_append_long _ (by decide)]; decide))
  have h6 : occursb (ofStr ("\n\x7d")) (ofStr ("\n    local GREEN=$'\\033[0;32m'\n    local YELLOW=$'\\033[1;33m'\n    local BLUE=$'\\033[0;34m'\n    local RED=$'\\033[0;31m'\n    local NC=$'\\033[0m'\n    local BOLD=$'\\033[1m'\n    local DIM=$'\\033[2m'\n    \n    local review_mode=false\n    local user_message=\"\"\n    \n    if [[ \"$1\" == \"-r\" ]]; then\n        review_mode=true\n        shift\n        user_message=\"$*\"\n    else\n        user_message=\"$*\"\n    fi\n\n    if ! command -v git &> /dev/null; then\n        echo \"$\x7bRED\x7dError:$\x7bNC\x7d git is not installed\"\n        return 1\n    fi\n\n    if ! git rev-parse --is-inside-work-tree > /dev/null 2>&1; then\n        echo \"$\x7bRED\x7dError:$\x7bNC\x7d Not a git repository\"\n        return 1\n    fi\n\n    if git ls-files -u | grep -q .; then\n        echo \"$\x7bRED\x7dError:$\x7bNC\x7d Unresolved merge conflicts\"\n        return 1\n    fi\n\n    local current_branch=$(git branch --show-current 2>/dev/null)\n    if [ -z \"$current_branch\" ]; then\n        echo \"$\x7bRED\x7dError:$\x7bNC\x7d Detached HEAD state\"\n        return 1\n    fi\n\n    local has_staged=false\n    local has_unstaged=false\n    local has_untracked=false\n    \n    ! git diff --cached --quiet && has_staged=true\n    ! git diff --quiet && has_unstaged=true\n    [ -n \"$(git ls-files --others --exclude-standard 2>/dev/null)\" ] && has_untracked=true\n\n    if [ \"$has_staged\" = false ] && [ \"$has_unstaged\" = false ] && [ \"$has_untracked\" = false ]; then\n        echo \"$\x7bYELLOW\x7dNothing to commit$\x7bNC\x7d - working tree clean\"\n        local unpushed=$(git log @\x7bu\x7d.. --oneline 2>/dev/null | wc -l | tr -d ' ')\n        if [ \"$unpushed\" -gt 0 ] 2>/dev/null; then\n") ++ ofStr ("            echo \"$\x7bDIM\x7dYou have $\x7bunpushed\x7d unpushed commit(s)$\x7bNC\x7d\"\n            echo -n \"$\x7bYELLOW\x7dPush existing commits? [Y/n]:$\x7bNC\x7d \"\n            read push_only\n            if [[ ! \"$push_only\" =~ ^[nN] ]]; then\n                git push origin \"$current_branch\" 2>&1 && echo \"$\x7bGREEN\x7d✓ Pushed$\x7bNC\x7d\"\n            fi\n        fi\n        return 0\n    fi\n\n    if ! git remote get-url origin > /dev/null 2>&1; then\n        echo \"$\x7bYELLOW\x7dWarning:$\x7bNC\x7d No remote 'origin' configured\"\n        local skip_push=true\n    else\n        local skip_push=false\n    fi\n\n    echo \"$\x7bBOLD\x7d$\x7bBLUE\x7d━━━━━━━━━━━━━━━━━━━━━━━━━━━━━━━━━━━━━━━━━━━━━━━━━━━$\x7bNC\x7d\"\n    echo \"$\x7bBOLD\x7d🚀 Git Push with AI Commit Message$\x7bNC\x7d\"\n    echo \"$\x7bBOLD\x7d$\x7bBLUE\x7d━━━━━━━━━━━━━━━━━━━━━━━━━━━━━━━━━━━━━━━━━━━━━━━━━━━$\x7bNC\x7d\"\n\n    local commit_message=\"\"\n    \n    if [ -n \"$user_message\" ]; then\n        echo \"\"\n        echo \"$\x7bGREEN\x7d✓$\x7bNC\x7d Using provided commit message\"\n        commit_message=\"$user_message\"\n    else\n        if ! command -v ") ++ ofStr claudeCLI.command ++ ofStr (" &> /dev/null; then\n            echo \"$\x7bRED\x7dError:$\x7bNC\x7d ") ++ ofStr claudeCLI.name ++ ofStr (" is not installed\"\n            return 1\n        fi\n\n        echo \"\"\n        echo \"$\x7bYELLOW\x7d[1/4]$\x7bNC\x7d 🔍 Analyzing git changes...\"\n    \n        local staged_diff=$(git diff --cached 2>/dev/null | head -500)\n        local unstaged_diff=$(git diff 2>/dev/null | head -500)\n        local untracked_files=$(git ls-files --others --exclude-standard 2>/dev/null | head -50)\n    \n        local prompt=\"Analyze the following git changes and generate a commit message following the Conventional Commits specification with bullet-point changelog style.\n\n## Commit Message Format:\n<type>(<scope>): <short summary>\n\n- <bullet point describing a specific change>\n- <bullet point describing another change>\n\n## Types: feat, fix, docs, style, refactor, perf, test, build, ci, chore, revert\n\n## Rules:\n1. Subject line: max 50 chars, imperative mood, no period\n2. Body uses bullet points (- ) to list specific changes\n3. Each bullet should be concise and actionable\n\n## Git Changes:\n\n### Staged Changes:\n$\x7bstaged_diff:-\\\"(none)\\\"\x7d\n\n### Unstaged Changes:\n$\x7bunstaged_diff:-\\\"(none)\\\"\x7d\n\n### Untracked Files:\n$\x7buntracked_files:-\\\"(none)\\\"\x7d\n\nOUTPUT ONLY THE COMMIT MESSAGE, nothing else.\"\n\n        echo \"$\x7bYELLOW\x7d[2/4]$\x7bNC\x7d 🤖 Generating commit message with ")) = false :=
    occursb_chain (by decide) h5 (by decide)
      (by
        intro k hk0 hkl
        rw [show List.length (ofStr ("\n\x7d")) = 2 from rfl] at hkl
        have hk : k = 1 := by omega
        subst hk
        exact Or.inl (by rw [endsIn_append_long _ (by decide)]; decide))
  have h7 : occursb (ofStr ("\n\x7d")) (ofStr ("\n    local GREEN=$'\\033[0;32m'\n    local YELLOW=$'\\033[1;33m'\n    local BLUE=$'\\033[0;34m'\n    local RED=$'\\033[0;31m'\n    local NC=$'\\033[0m'\n    local BOLD=$'\\033[1m'\n    local DIM=$'\\033[2m'\n    \n    local review_mode=false\n    local user_message=\"\"\n    \n    if [[ \"$1\" == \"-r\" ]]; then\n        review_mode=true\n        shift\n        user_message=\"$*\"\n    else\n        user_message=\"$*\"\n    fi\n\n    if ! command -v git &> /dev/null; then\n        echo \"$\x7bRED\x7dError:$\x7bNC\x7d git is not installed\"\n        return 1\n    fi\n\n    if ! git rev-parse --is-inside-work-tree > /dev/null 2>&1; then\n        echo \"$\x7bRED\x7dError:$\x7bNC\x7d Not a git repository\"\n        return 1\n    fi\n\n    if git ls-files -u | grep -q .; then\n        echo \"$\x7bRED\x7dError:$\x7bNC\x7d Unresolved merge conflicts\"\n        return 1\n    fi\n\n    local current_branch=$(git branch --show-current 2>/dev/null)\n    if [ -z \"$current_branch\" ]; then\n        echo \"$\x7bRED\x7dError:$\x7bNC\x7d Detached HEAD state\"\n        return 1\n    fi\n\n    local has_staged=false\n    local has_unstaged=false\n    local has_untracked=false\n    \n    ! git diff --cached --quiet && has_staged=true\n    ! git diff --quiet && has_unstaged=true\n    [ -n \"$(git ls-files --others --exclude-standard 2>/dev/null)\" ] && has_untracked=true\n\n    if [ \"$has_staged\" = false ] && [ \"$has_unstaged\" = false ] && [ \"$has_untracked\" = false ]; then\n        echo \"$\x7bYELLOW\x7dNothing to commit$\x7bNC\x7d - working tree clean\"\n        local unpushed=$(git log @\x7bu\x7d.. --oneline 2>/dev/null | wc -l | tr -d ' ')\n        if [ \"$unpushed\" -gt 0 ] 2>/dev/null; then\n") ++ ofStr ("            echo \"$\x7bDIM\x7dYou have $\x7bunpushed\x7d unpushed commit(s)$\x7bNC\x7d\"\n            echo -n \"$\x7bYELLOW\x7dPush existing commits? [Y/n]:$\x7bNC\x7d \"\n            read push_only\n            if [[ ! \"$push_only\" =~ ^[nN] ]]; then\n                git push origin \"$current_branch\" 2>&1 && echo \"$\x7bGREEN\x7d✓ Pushed$\x7bNC\x7d\"\n            fi\n        fi\n        return 0\n    fi\n\n    if ! git remote get-url origin > /dev/null 2>&1; then\n        echo \"$\x7bYELLOW\x7dWarning:$\x7bNC\x7d No remote 'origin' configured\"\n        local skip_push=true\n    else\n        local skip_push=false\n    fi\n\n    echo \"$\x7bBOLD\x7d$\x7bBLUE\x7d━━━━━━━━━━━━━━━━━━━━━━━━━━━━━━━━━━━━━━━━━━━━━━━━━━━$\x7bNC\x7d\"\n    echo \"$\x7bBOLD\x7d🚀 Git Push with AI Commit Message$\x7bNC\x7d\"\n    echo \"$\x7bBOLD\x7d$\x7bBLUE\x7d━━━━━━━━━━━━━━━━━━━━━━━━━━━━━━━━━━━━━━━━━━━━━━━━━━━$\x7bNC\x7d\"\n\n    local commit_message=\"\"\n    \n    if [ -n \"$user_message\" ]; then\n        echo \"\"\n        echo \"$\x7bGREEN\x7d✓$\x7bNC\x7d Using provided commit message\"\n        commit_message=\"$user_message\"\n    else\n        if ! command -v ") ++ ofStr claudeCLI.command ++ ofStr (" &> /dev/null; then\n            echo \"$\x7bRED\x7dError:$\x7bNC\x7d ") ++ ofStr claudeCLI.name ++ ofStr (" is not installed\"\n            return 1\n        fi\n\n        echo \"\"\n        echo \"$\x7bYELLOW\x7d[1/4]$\x7bNC\x7d 🔍 Analyzing git changes...\"\n    \n        local staged_diff=$(git diff --cached 2>/dev/null | head -500)\n        local unstaged_diff=$(git diff 2>/dev/null | head -500)\n        local untracked_files=$(git ls-files --others --exclude-standard 2>/dev/null | head -50)\n    \n        local prompt=\"Analyze the following git changes and generate a commit message following the Conventional Commits specification with bullet-point changelog style.\n\n## Commit Message Format:\n<type>(<scope>): <short summary>\n\n- <bullet point describing a specific change>\n- <bullet point describing another change>\n\n## Types: feat, fix, docs, style, refactor, perf, test, build, ci, chore, revert\n\n## Rules:\n1. Subject line: max 50 chars, imperative mood, no period\n2. Body uses bullet points (- ) to list specific changes\n3. Each bullet should be concise and actionable\n\n## Git Changes:\n\n### Staged Changes:\n$\x7bstaged_diff:-\\\"(none)\\\"\x7d\n\n### Unstaged Changes:\n$\x7bunstaged_diff:-\\\"(none)\\\"\x7d\n\n### Untracked Files:\n$\x7buntracked_files:-\\\"(none)\\\"\x7d\n\nOUTPUT ONLY THE COMMIT MESSAGE, nothing else.\"\n\n        echo \"$\x7bYELLOW\x7d[2/4]$\x7bNC\x7d 🤖 Generating commit message with ") ++ ofStr claudeCLI.name) = false :=
    occursb_chain (by decide) h6 (by decide)
      (by
        intro k hk0 hkl
        rw [show List.length (ofStr ("\n\x7d")) = 2 from rfl] at hkl
        have hk : k = 1 := by omega
        subst hk
        exact Or.inl (by rw [endsIn_append_long _ (by decide)]; decide))
  have h8 : occursb (ofStr ("\n\x7d")) (ofStr ("\n    local GREEN=$'\\033[0;32m'\n    local YELLOW=$'\\033[1;33m'\n    local BLUE=$'\\033[0;34m'\n    local RED=$'\\033[0;31m'\n    local NC=$'\\033[0m'\n    local BOLD=$'\\033[1m'\n    local DIM=$'\\033[2m'\n    \n    local review_mode=false\n    local user_message=\"\"\n    \n    if [[ \"$1\" == \"-r\" ]]; then\n        review_mode=true\n        shift\n        user_message=\"$*\"\n    else\n        user_message=\"$*\"\n    fi\n\n    if ! command -v git &> /dev/null; then\n        echo \"$\x7bRED\x7dError:$\x7bNC\x7d git is not installed\"\n        return 1\n    fi\n\n    if ! git rev-parse --is-inside-work-tree > /dev/null 2>&1; then\n        echo \"$\x7bRED\x7dError:$\x7bNC\x7d Not a git repository\"\n        return 1\n    fi\n\n    if git ls-files -u | grep -q .; then\n        echo \"$\x7bRED\x7dError:$\x7bNC\x7d Unresolved merge conflicts\"\n        return 1\n    fi\n\n    local current_branch=$(git branch --show-current 2>/dev/null)\n    if [ -z \"$current_branch\" ]; then\n        echo \"$\x7bRED\x7dError:$\x7bNC\x7d Detached HEAD state\"\n        return 1\n    fi\n\n    local has_staged=false\n    local has_unstaged=false\n    local has_untracked=false\n    \n    ! git diff --cached --quiet && has_staged=true\n    ! git diff --quiet && has_unstaged=true\n    [ -n \"$(git ls-files --others --exclude-standard 2>/dev/null)\" ] && has_untracked=true\n\n    if [ \"$has_staged\" = false ] && [ \"$has_unstaged\" = false ] && [ \"$has_untracked\" = false ]; then\n        echo \"$\x7bYELLOW\x7dNothing to commit$\x7bNC\x7d - working tree clean\"\n        local unpushed=$(git log @\x7bu\x7d.. --oneline 2>/dev/null | wc -l | tr -d ' ')\n        if [ \"$unpushed\" -gt 0 ] 2>/dev/null; then\n") ++ ofStr ("            echo \"$\x7bDIM\x7dYou have $\x7bunpushed\x7d unpushed commit(s)$\x7bNC\x7d\"\n            echo -n \"$\x7bYELLOW\x7dPush existing commits? [Y/n]:$\x7bNC\x7d \"\n            read push_only\n            if [[ ! \"$push_only\" =~ ^[nN] ]]; then\n                git push origin \"$current_branch\" 2>&1 && echo \"$\x7bGREEN\x7d✓ Pushed$\x7bNC\x7d\"\n            fi\n        fi\n        return 0\n    fi\n\n    if ! git remote get-url origin > /dev/null 2>&1; then\n        echo \"$\x7bYELLOW\x7dWarning:$\x7bNC\x7d No remote 'origin' configured\"\n        local skip_push=true\n    else\n        local skip_push=false\n    fi\n\n    echo \"$\x7bBOLD\x7d$\x7bBLUE\x7d━━━━━━━━━━━━━━━━━━━━━━━━━━━━━━━━━━━━━━━━━━━━━━━━━━━$\x7bNC\x7d\"\n    echo \"$\x7bBOLD\x7d🚀 Git Push with AI Commit Message$\x7bNC\x7d\"\n    echo \"$\x7bBOLD\x7d$\x7bBLUE\x7d━━━━━━━━━━━━━━━━━━━━━━━━━━━━━━━━━━━━━━━━━━━━━━━━━━━$\x7bNC\x7d\"\n\n    local commit_message=\"\"\n    \n    if [ -n \"$user_message\" ]; then\n        echo \"\"\n        echo \"$\x7bGREEN\x7d✓$\x7bNC\x7d Using provided commit message\"\n        commit_message=\"$user_message\"\n    else\n        if ! command -v ") ++ ofStr claudeCLI.command ++ ofStr (" &> /dev/null; then\n            echo \"$\x7bRED\x7dError:$\x7bNC\x7d ") ++ ofStr claudeCLI.name ++ ofStr (" is not installed\"\n            return 1\n        fi\n\n        echo \"\"\n        echo \"$\x7bYELLOW\x7d[1/4]$\x7bNC\x7d 🔍 Analyzing git changes...\"\n    \n        local staged_diff=$(git diff --cached 2>/dev/null | head -500)\n        local unstaged_diff=$(git diff 2>/dev/null | head -500)\n        local untracked_files=$(git ls-files --others --exclude-standard 2>/dev/null | head -50)\n    \n        local prompt=\"Analyze the following git changes and generate a commit message following the Conventional Commits specification with bullet-point changelog style.\n\n## Commit Message Format:\n<type>(<scope>): <short summary>\n\n- <bullet point describing a specific change>\n- <bullet point describing another change>\n\n## Types: feat, fix, docs, style, refactor, perf, test, build, ci, chore, revert\n\n## Rules:\n1. Subject line: max 50 chars, imperative mood, no period\n2. Body uses bullet points (- ) to list specific changes\n3. Each bullet should be concise and actionable\n\n## Git Changes:\n\n### Staged Changes:\n$\x7bstaged_diff:-\\\"(none)\\\"\x7d\n\n### Unstaged Changes:\n$\x7bunstaged_diff:-\\\"(none)\\\"\x7d\n\n### Untracked Files:\n$\x7buntracked_files:-\\\"(none)\\\"\x7d\n\nOUTPUT ONLY THE COMMIT MESSAGE, nothing else.\"\n\n        echo \"$\x7bYELLOW\x7d[2/4]$\x7bNC\x7d 🤖 Generating commit message with ") ++ ofStr claudeCLI.name ++ ofStr ("...\"\n        echo \"$\x7bDIM\x7d     (this may take a few seconds...)$\x7bNC\x7d\"\n    \n        local temp_file=$(mktemp)\n        local error_file=$(mktemp)\n    \n        ")) = false :=
    occursb_chain (by decide) h7 (by decide)
      (by
        intro k hk0 hkl
        rw [show List.length (ofStr ("\n\x7d")) = 2 from rfl] at hkl
        have hk : k = 1 := by omega
        subst hk
        exact Or.inl (by rw [endsIn_append_long _ (by decide)]; decide))
  have h9 : occursb (ofStr ("\n\x7d")) (ofStr ("\n    local GREEN=$'\\033[0;32m'\n    local YELLOW=$'\\033[1;33m'\n    local BLUE=$'\\033[0;34m'\n    local RED=$'\\033[0;31m'\n    local NC=$'\\033[0m'\n    local BOLD=$'\\033[1m'\n    local DIM=$'\\033[2m'\n    \n    local review_mode=false\n    local user_message=\"\"\n    \n    if [[ \"$1\" == \"-r\" ]]; then\n        review_mode=true\n        shift\n        user_message=\"$*\"\n    else\n        user_message=\"$*\"\n    fi\n\n    if ! command -v git &> /dev/null; then\n        echo \"$\x7bRED\x7dError:$\x7bNC\x7d git is not installed\"\n        return 1\n    fi\n\n    if ! git rev-parse --is-inside-work-tree > /dev/null 2>&1; then\n        echo \"$\x7bRED\x7dError:$\x7bNC\x7d Not a git repository\"\n        return 1\n    fi\n\n    if git ls-files -u | grep -q .; then\n        echo \"$\x7bRED\x7dError:$\x7bNC\x7d Unresolved merge conflicts\"\n        return 1\n    fi\n\n    local current_branch=$(git branch --show-current 2>/dev/null)\n    if [ -z \"$current_branch\" ]; then\n        echo \"$\x7bRED\x7dError:$\x7bNC\x7d Detached HEAD state\"\n        return 1\n    fi\n\n    local has_staged=false\n    local has_unstaged=false\n    local has_untracked=false\n    \n    ! git diff --cached --quiet && has_staged=true\n    ! git diff --quiet && has_unstaged=true\n    [ -n \"$(git ls-files --others --exclude-standard 2>/dev/null)\" ] && has_untracked=true\n\n    if [ \"$has_staged\" = false ] && [ \"$has_unstaged\" = false ] && [ \"$has_untracked\" = false ]; then\n        echo \"$\x7bYELLOW\x7dNothing to commit$\x7bNC\x7d - working tree clean\"\n        local unpushed=$(git log @\x7bu\x7d.. --oneline 2>/dev/null | wc -l | tr -d ' ')\n        if [ \"$unpushed\" -gt 0 ] 2>/dev/null; then\n") ++ ofStr ("            echo \"$\x7bDIM\x7dYou have $\x7bunpushed\x7d unpushed commit(s)$\x7bNC\x7d\"\n            echo -n \"$\x7bYELLOW\x7dPush existing commits? [Y/n]:$\x7bNC\x7d \"\n            read push_only\n            if [[ ! \"$push_only\" =~ ^[nN] ]]; then\n                git push origin \"$current_branch\" 2>&1 && echo \"$\x7bGREEN\x7d✓ Pushed$\x7bNC\x7d\"\n            fi\n        fi\n        return 0\n    fi\n\n    if ! git remote get-url origin > /dev/null 2>&1; then\n        echo \"$\x7bYELLOW\x7dWarning:$\x7bNC\x7d No remote 'origin' configured\"\n        local skip_push=true\n    else\n        local skip_push=false\n    fi\n\n    echo \"$\x7bBOLD\x7d$\x7bBLUE\x7d━━━━━━━━━━━━━━━━━━━━━━━━━━━━━━━━━━━━━━━━━━━━━━━━━━━$\x7bNC\x7d\"\n    echo \"$\x7bBOLD\x7d🚀 Git Push with AI Commit Message$\x7bNC\x7d\"\n    echo \"$\x7bBOLD\x7d$\x7bBLUE\x7d━━━━━━━━━━━━━━━━━━━━━━━━━━━━━━━━━━━━━━━━━━━━━━━━━━━$\x7bNC\x7d\"\n\n    local commit_message=\"\"\n    \n    if [ -n \"$user_message\" ]; then\n        echo \"\"\n        echo \"$\x7bGREEN\x7d✓$\x7bNC\x7d Using provided commit message\"\n        commit_message=\"$user_message\"\n    else\n        if ! command -v ") ++ ofStr claudeCLI.command ++ ofStr (" &> /dev/null; then\n            echo \"$\x7bRED\x7dError:$\x7bNC\x7d ") ++ ofStr claudeCLI.name ++ ofStr (" is not installed\"\n            return 1\n        fi\n\n        echo \"\"\n        echo \"$\x7bYELLOW\x7d[1/4]$\x7bNC\x7d 🔍 Analyzing git changes...\"\n    \n        local staged_diff=$(git diff --cached 2>/dev/null | head -500)\n        local unstaged_diff=$(git diff 2>/dev/null | head -500)\n        local untracked_files=$(git ls-files --others --exclude-standard 2>/dev/null | head -50)\n    \n        local prompt=\"Analyze the following git changes and generate a commit message following the Conventional Commits specification with bullet-point changelog style.\n\n## Commit Message Format:\n<type>(<scope>): <short summary>\n\n- <bullet point describing a specific change>\n- <bullet point describing another change>\n\n## Types: feat, fix, docs, style, refactor, perf, test, build, ci, chore, revert\n\n## Rules:\n1. Subject line: max 50 chars, imperative mood, no period\n2. Body uses bullet points (- ) to list specific changes\n3. Each bullet should be concise and actionable\n\n## Git Changes:\n\n### Staged Changes:\n$\x7bstaged_diff:-\\\"(none)\\\"\x7d\n\n### Unstaged Changes:\n$\x7bunstaged_diff:-\\\"(none)\\\"\x7d\n\n### Untracked Files:\n$\x7buntracked_files:-\\\"(none)\\\"\x7d\n\nOUTPUT ONLY THE COMMIT MESSAGE, nothing else.\"\n\n        echo \"$\x7bYELLOW\x7d[2/4]$\x7bNC\x7d 🤖 Generating commit message with ") ++ ofStr claudeCLI.name ++ ofStr ("...\"\n        echo \"$\x7bDIM\x7d     (this may take a few seconds...)$\x7bNC\x7d\"\n    \n        local temp_file=$(mktemp)\n        local error_file=$(mktemp)\n    \n        ") ++ ofStr (buildCLICommand claudeCLI "sonnet")) = false :=
    occursb_chain (by decide) h8 (by decide)
      (by
        intro k hk0 hkl
        rw [show List.length (ofStr ("\n\x7d")) = 2 from rfl] at hkl
        have hk : k = 1 := by omega
        subst hk
        exact Or.inl (by rw [endsIn_append_long _ (by decide)]; decide))
  have h10 : occursb (ofStr ("\n\x7d")) (ofStr ("\n    local GREEN=$'\\033[0;32m'\n    local YELLOW=$'\\033[1;33m'\n    local BLUE=$'\\033[0;34m'\n    local RED=$'\\033[0;31m'\n    local NC=$'\\033[0m'\n    local BOLD=$'\\033[1m'\n    local DIM=$'\\033[2m'\n    \n    local review_mode=false\n    local user_message=\"\"\n    \n    if [[ \"$1\" == \"-r\" ]]; then\n        review_mode=true\n        shift\n        user_message=\"$*\"\n    else\n        user_message=\"$*\"\n    fi\n\n    if ! command -v git &> /dev/null; then\n        echo \"$\x7bRED\x7dError:$\x7bNC\x7d git is not installed\"\n        return 1\n    fi\n\n    if ! git rev-parse --is-inside-work-tree > /dev/null 2>&1; then\n        echo \"$\x7bRED\x7dError:$\x7bNC\x7d Not a git repository\"\n        return 1\n    fi\n\n    if git ls-files -u | grep -q .; then\n        echo \"$\x7bRED\x7dError:$\x7bNC\x7d Unresolved merge conflicts\"\n        return 1\n    fi\n\n    local current_branch=$(git branch --show-current 2>/dev/null)\n    if [ -z \"$current_branch\" ]; then\n        echo \"$\x7bRED\x7dError:$\x7bNC\x7d Detached HEAD state\"\n        return 1\n    fi\n\n    local has_staged=false\n    local has_unstaged=false\n    local has_untracked=false\n    \n    ! git diff --cached --quiet && has_staged=true\n    ! git diff --quiet && has_unstaged=true\n    [ -n \"$(git ls-files --others --exclude-standard 2>/dev/null)\" ] && has_untracked=true\n\n    if [ \"$has_staged\" = false ] && [ \"$has_unstaged\" = false ] && [ \"$has_untracked\" = false ]; then\n        echo \"$\x7bYELLOW\x7dNothing to commit$\x7bNC\x7d - working tree clean\"\n        local unpushed=$(git log @\x7bu\x7d.. --oneline 2>/dev/null | wc -l | tr -d ' ')\n        if [ \"$unpushed\" -gt 0 ] 2>/dev/null; then\n") ++ ofStr ("            echo \"$\x7bDIM\x7dYou have $\x7bunpushed\x7d unpushed commit(s)$\x7bNC\x7d\"\n            echo -n \"$\x7bYELLOW\x7dPush existing commits? [Y/n]:$\x7bNC\x7d \"\n            read push_only\n            if [[ ! \"$push_only\" =~ ^[nN] ]]; then\n                git push origin \"$current_branch\" 2>&1 && echo \"$\x7bGREEN\x7d✓ Pushed$\x7bNC\x7d\"\n            fi\n        fi\n        return 0\n    fi\n\n    if ! git remote get-url origin > /dev/null 2>&1; then\n        echo \"$\x7bYELLOW\x7dWarning:$\x7bNC\x7d No remote 'origin' configured\"\n        local skip_push=true\n    else\n        local skip_push=false\n    fi\n\n    echo \"$\x7bBOLD\x7d$\x7bBLUE\x7d━━━━━━━━━━━━━━━━━━━━━━━━━━━━━━━━━━━━━━━━━━━━━━━━━━━$\x7bNC\x7d\"\n    echo \"$\x7bBOLD\x7d🚀 Git Push with AI Commit Message$\x7bNC\x7d\"\n    echo \"$\x7bBOLD\x7d$\x7bBLUE\x7d━━━━━━━━━━━━━━━━━━━━━━━━━━━━━━━━━━━━━━━━━━━━━━━━━━━$\x7bNC\x7d\"\n\n    local commit_message=\"\"\n    \n    if [ -n \"$user_message\" ]; then\n        echo \"\"\n        echo \"$\x7bGREEN\x7d✓$\x7bNC\x7d Using provided commit message\"\n        commit_message=\"$user_message\"\n    else\n        if ! command -v ") ++ ofStr claudeCLI.command ++ ofStr (" &> /dev/null; then\n            echo \"$\x7bRED\x7dError:$\x7bNC\x7d ") ++ ofStr claudeCLI.name ++ ofStr (" is not installed\"\n            return 1\n        fi\n\n        echo \"\"\n        echo \"$\x7bYELLOW\x7d[1/4]$\x7bNC\x7d 🔍 Analyzing git changes...\"\n    \n        local staged_diff=$(git diff --cached 2>/dev/null | head -500)\n        local unstaged_diff=$(git diff 2>/dev/null | head -500)\n        local untracked_files=$(git ls-files --others --exclude-standard 2>/dev/null | head -50)\n    \n        local prompt=\"Analyze the following git changes and generate a commit message following the Conventional Commits specification with bullet-point changelog style.\n\n## Commit Message Format:\n<type>(<scope>): <short summary>\n\n- <bullet point describing a specific change>\n- <bullet point describing another change>\n\n## Types: feat, fix, docs, style, refactor, perf, test, build, ci, chore, revert\n\n## Rules:\n1. Subject line: max 50 chars, imperative mood, no period\n2. Body uses bullet points (- ) to list specific changes\n3. Each bullet should be concise and actionable\n\n## Git Changes:\n\n### Staged Changes:\n$\x7bstaged_diff:-\\\"(none)\\\"\x7d\n\n### Unstaged Changes:\n$\x7bunstaged_diff:-\\\"(none)\\\"\x7d\n\n### Untracked Files:\n$\x7buntracked_files:-\\\"(none)\\\"\x7d\n\nOUTPUT ONLY THE COMMIT MESSAGE, nothing else.\"\n\n        echo \"$\x7bYELLOW\x7d[2/4]$\x7bNC\x7d 🤖 Generating commit message with ") ++ ofStr claudeCLI.name ++ ofStr ("...\"\n        echo \"$\x7bDIM\x7d     (this may take a few seconds...)$\x7bNC\x7d\"\n    \n        local temp_file=$(mktemp)\n        local error_file=$(mktemp)\n    \n        ") ++ ofStr (buildCLICommand claudeCLI "sonnet") ++ ofStr (" > \"$temp_file\" 2> \"$error_file\"\n        local exit_code=$?\n    \n        if [ $exit_code -ne 0 ] || [ ! -s \"$temp_file\" ]; then\n            echo \"$\x7bRED\x7dError:$\x7bNC\x7d Failed to generate commit message\"\n            cat \"$error_file\" 2>/dev/null\n            rm -f \"$temp_file\" \"$error_file\"\n            return 1\n        fi\n    \n        commit_message=$(cat \"$temp_file\")\n        rm -f \"$temp_file\" \"$error_file\"\n    \n        echo \"\"\n        echo \"$\x7bGREEN\x7dGenerated Commit Message:$\x7bNC\x7d\"\n        echo \"$commit_message\"\n    \n        if [ \"$review_mode\" = true ]; then\n            echo \"\"\n            echo -n \"$\x7bYELLOW\x7dProceed with this commit message? [Y/n/e(dit)]:$\x7bNC\x7d \"\n            read confirm\n    \n            case \"$confirm\" in\n                [nN]) echo \"$\x7bYELLOW\x7dAborted.$\x7bNC\x7d\"; return 0 ;;\n                [eE])\n                    local edit_file=$(mktemp)\n                    echo \"$commit_message\" > \"$edit_file\"\n                    $\x7bEDITOR:-vim\x7d \"$edit_file\"\n                    commit_message=$(cat \"$edit_file\")\n                    rm -f \"$edit_file\"\n                    ;;\n            esac\n        fi\n    fi\n\n    echo \"\"\n    echo \"$\x7bYELLOW\x7d[3/4]$\x7bNC\x7d 📦 Staging and committing changes...\"\n    \n    git add -A\n    \n    if git diff --cached --quiet; then\n        echo \"$\x7bYELLOW\x7dNothing to commit$\x7bNC\x7d\"\n        return 0\n    fi\n    \n    if ! git commit -m \"$commit_message\" 2>&1; then\n        echo \"$\x7bRED\x7dError:$\x7bNC\x7d Failed to commit\"\n        return 1\n    fi\n    \n    echo \"$\x7bGREEN\x7d✓$\x7bNC\x7d Changes committed\"\n\n    if [ \"$skip_push\" = true ]; then\n")) = false :=
    occursb_chain (by decide) h9 (by decide)
      (by
        intro k hk0 hkl
        rw [show List.length (ofStr ("\n\x7d")) = 2 from rfl] at hkl
        have hk : k = 1 := by omega
        subst hk
        exact Or.inl (by rw [endsIn_append_long _ (by decide)]; decide))
  have h11 : occursb (ofStr ("\n\x7d")) (ofStr ("\n    local GREEN=$'\\033[0;32m'\n    local YELLOW=$'\\033[1;33m'\n    local BLUE=$'\\033[0;34m'\n    local RED=$'\\033[0;31m'\n    local NC=$'\\033[0m'\n    local BOLD=$'\\033[1m'\n    local DIM=$'\\033[2m'\n    \n    local review_mode=false\n    local user_message=\"\"\n    \n    if [[ \"$1\" == \"-r\" ]]; then\n        review_mode=true\n        shift\n        user_message=\"$*\"\n    else\n        user_message=\"$*\"\n    fi\n\n    if ! command -v git &> /dev/null; then\n        echo \"$\x7bRED\x7dError:$\x7bNC\x7d git is not installed\"\n        return 1\n    fi\n\n    if ! git rev-parse --is-inside-work-tree > /dev/null 2>&1; then\n        echo \"$\x7bRED\x7dError:$\x7bNC\x7d Not a git repository\"\n        return 1\n    fi\n\n    if git ls-files -u | grep -q .; then\n        echo \"$\x7bRED\x7dError:$\x7bNC\x7d Unresolved merge conflicts\"\n        return 1\n    fi\n\n    local current_branch=$(git branch --show-current 2>/dev/null)\n    if [ -z \"$current_branch\" ]; then\n        echo \"$\x7bRED\x7dError:$\x7bNC\x7d Detached HEAD state\"\n        return 1\n    fi\n\n    local has_staged=false\n    local has_unstaged=false\n    local has_untracked=false\n    \n    ! git diff --cached --quiet && has_staged=true\n    ! git diff --quiet && has_unstaged=true\n    [ -n \"$(git ls-files --others --exclude-standard 2>/dev/null)\" ] && has_untracked=true\n\n    if [ \"$has_staged\" = false ] && [ \"$has_unstaged\" = false ] && [ \"$has_untracked\" = false ]; then\n        echo \"$\x7bYELLOW\x7dNothing to commit$\x7bNC\x7d - working tree clean\"\n        local unpushed=$(git log @\x7bu\x7d.. --oneline 2>/dev/null | wc -l | tr -d ' ')\n        if [ \"$unpushed\" -gt 0 ] 2>/dev/null; then\n") ++ ofStr ("            echo \"$\x7bDIM\x7dYou have $\x7bunpushed\x7d unpushed commit(s)$\x7bNC\x7d\"\n            echo -n \"$\x7bYELLOW\x7dPush existing commits? [Y/n]:$\x7bNC\x7d \"\n            read push_only\n            if [[ ! \"$push_only\" =~ ^[nN] ]]; then\n                git push origin \"$current_branch\" 2>&1 && echo \"$\x7bGREEN\x7d✓ Pushed$\x7bNC\x7d\"\n            fi\n        fi\n        return 0\n    fi\n\n    if ! git remote get-url origin > /dev/null 2>&1; then\n        echo \"$\x7bYELLOW\x7dWarning:$\x7bNC\x7d No remote 'origin' configured\"\n        local skip_push=true\n    else\n        local skip_push=false\n    fi\n\n    echo \"$\x7bBOLD\x7d$\x7bBLUE\x7d━━━━━━━━━━━━━━━━━━━━━━━━━━━━━━━━━━━━━━━━━━━━━━━━━━━$\x7bNC\x7d\"\n    echo \"$\x7bBOLD\x7d🚀 Git Push with AI Commit Message$\x7bNC\x7d\"\n    echo \"$\x7bBOLD\x7d$\x7bBLUE\x7d━━━━━━━━━━━━━━━━━━━━━━━━━━━━━━━━━━━━━━━━━━━━━━━━━━━$\x7bNC\x7d\"\n\n    local commit_message=\"\"\n    \n    if [ -n \"$user_message\" ]; then\n        echo \"\"\n        echo \"$\x7bGREEN\x7d✓$\x7bNC\x7d Using provided commit message\"\n        commit_message=\"$user_message\"\n    else\n        if ! command -v ") ++ ofStr claudeCLI.command ++ ofStr (" &> /dev/null; then\n            echo \"$\x7bRED\x7dError:$\x7bNC\x7d ") ++ ofStr claudeCLI.name ++ ofStr (" is not installed\"\n            return 1\n        fi\n\n        echo \"\"\n        echo \"$\x7bYELLOW\x7d[1/4]$\x7bNC\x7d 🔍 Analyzing git changes...\"\n    \n        local staged_diff=$(git diff --cached 2>/dev/null | head -500)\n        local unstaged_diff=$(git diff 2>/dev/null | head -500)\n        local untracked_files=$(git ls-files --others --exclude-standard 2>/dev/null | head -50)\n    \n        local prompt=\"Analyze the following git changes and generate a commit message following the Conventional Commits specification with bullet-point changelog style.\n\n## Commit Message Format:\n<type>(<scope>): <short summary>\n\n- <bullet point describing a specific change>\n- <bullet point describing another change>\n\n## Types: feat, fix, docs, style, refactor, perf, test, build, ci, chore, revert\n\n## Rules:\n1. Subject line: max 50 chars, imperative mood, no period\n2. Body uses bullet points (- ) to list specific changes\n3. Each bullet should be concise and actionable\n\n## Git Changes:\n\n### Staged Changes:\n$\x7bstaged_diff:-\\\"(none)\\\"\x7d\n\n### Unstaged Changes:\n$\x7bunstaged_diff:-\\\"(none)\\\"\x7d\n\n### Untracked Files:\n$\x7buntracked_files:-\\\"(none)\\\"\x7d\n\nOUTPUT ONLY THE COMMIT MESSAGE, nothing else.\"\n\n        echo \"$\x7bYELLOW\x7d[2/4]$\x7bNC\x7d 🤖 Generating commit message with ") ++ ofStr claudeCLI.name ++ ofStr ("...\"\n        echo \"$\x7bDIM\x7d     (this may take a few seconds...)$\x7bNC\x7d\"\n    \n        local temp_file=$(mktemp)\n        local error_file=$(mktemp)\n    \n        ") ++ ofStr (buildCLICommand claudeCLI "sonnet") ++ ofStr (" > \"$temp_file\" 2> \"$error_file\"\n        local exit_code=$?\n    \n        if [ $exit_code -ne 0 ] || [ ! -s \"$temp_file\" ]; then\n            echo \"$\x7bRED\x7dError:$\x7bNC\x7d Failed to generate commit message\"\n            cat \"$error_file\" 2>/dev/null\n            rm -f \"$temp_file\" \"$error_file\"\n            return 1\n        fi\n    \n        commit_message=$(cat \"$temp_file\")\n        rm -f \"$temp_file\" \"$error_file\"\n    \n        echo \"\"\n        echo \"$\x7bGREEN\x7dGenerated Commit Message:$\x7bNC\x7d\"\n        echo \"$commit_message\"\n    \n        if [ \"$review_mode\" = true ]; then\n            echo \"\"\n            echo -n \"$\x7bYELLOW\x7dProceed with this commit message? [Y/n/e(dit)]:$\x7bNC\x7d \"\n            read confirm\n    \n            case \"$confirm\" in\n                [nN]) echo \"$\x7bYELLOW\x7dAborted.$\x7bNC\x7d\"; return 0 ;;\n                [eE])\n                    local edit_file=$(mktemp)\n                    echo \"$commit_message\" > \"$edit_file\"\n                    $\x7bEDITOR:-vim\x7d \"$edit_file\"\n                    commit_message=$(cat \"$edit_file\")\n                    rm -f \"$edit_file\"\n                    ;;\n            esac\n        fi\n    fi\n\n    echo \"\"\n    echo \"$\x7bYELLOW\x7d[3/4]$\x7bNC\x7d 📦 Staging and committing changes...\"\n    \n    git add -A\n    \n    if git diff --cached --quiet; then\n        echo \"$\x7bYELLOW\x7dNothing to commit$\x7bNC\x7d\"\n        return 0\n    fi\n    \n    if ! git commit -m \"$commit_message\" 2>&1; then\n        echo \"$\x7bRED\x7dError:$\x7bNC\x7d Failed to commit\"\n        return 1\n    fi\n    \n    echo \"$\x7bGREEN\x7d✓$\x7bNC\x7d Changes committed\"\n\n    if [ \"$skip_push\" = true ]; then\n") ++ ofStr ("        echo \"$\x7bYELLOW\x7dSkipping push$\x7bNC\x7d - no remote\"\n        echo \"$\x7bBOLD\x7d$\x7bGREEN\x7d✨ Done!$\x7bNC\x7d\"\n        return 0\n    fi\n\n    echo \"\"\n    echo \"$\x7bYELLOW\x7d[4/4]$\x7bNC\x7d 🚀 Pushing to remote...\"\n    \n    local push_output\n    push_output=$(git push origin \"$current_branch\" 2>&1)\n    local push_exit=$?\n    \n    if [ $push_exit -eq 0 ]; then\n        echo \"$\x7bGREEN\x7d✓ Pushed to origin/$current_branch$\x7bNC\x7d\"\n        local mr_url=$(echo \"$push_output\" | grep -oE 'https?://[^ ]+' | grep -iE '(merge|pull)' | head -1)\n        if [ -n \"$mr_url\" ]; then\n            echo \"\"\n            echo \"$\x7bBLUE\x7d📎 Create Merge Request:$\x7bNC\x7d\"\n            echo \"   $\x7bBOLD\x7d$mr_url$\x7bNC\x7d\"\n        fi\n    else\n        if echo \"$push_output\" | grep -q \"no upstream\"; then\n            git push --set-upstream origin \"$current_branch\" 2>&1 && echo \"$\x7bGREEN\x7d✓ Pushed$\x7bNC\x7d\"\n        else\n            echo \"$\x7bRED\x7dError:$\x7bNC\x7d Push failed\"\n            echo \"$\x7bDIM\x7d$push_output$\x7bNC\x7d\"\n            return 1\n        fi\n    fi\n\n    echo \"\"\n    echo \"$\x7bBOLD\x7d$\x7bGREEN\x7d━━━━━━━━━━━━━━━━━━━━━━━━━━━━━━━━━━━━━━━━━━━━━━━━━━━$\x7bNC\x7d\"\n    echo \"$\x7bBOLD\x7d$\x7bGREEN\x7d✨ Done!$\x7bNC\x7d\"\n    echo \"$\x7bBOLD\x7d$\x7bGREEN\x7d━━━━━━━━━━━━━━━━━━━━━━━━━━━━━━━━━━━━━━━━━━━━━━━━━━━$\x7bNC\x7d\"")) = false :=
    occursb_chain (by decide) h10 (by decide)
      (by
        intro k hk0 hkl
        rw [show List.length (ofStr ("\n\x7d")) = 2 from rfl] at hkl
        have hk : k = 1 := by omega
        subst hk
        exact Or.inr (by decide))
  exact h11

set_option maxRecDepth 400000 in
theorem occ_tri_bodyGp : occursb (ofStr ("\n\n\n")) bodyGp = false := by
  unfold bodyGp gpBody
  have h1 : occursb (ofStr ("\n\n\n")) (ofStr ("\n    local GREEN=$'\\033[0;32m'\n    local YELLOW=$'\\033[1;33m'\n    local BLUE=$'\\033[0;34m'\n    local RED=$'\\033[0;31m'\n    local NC=$'\\033[0m'\n    local BOLD=$'\\033[1m'\n    local DIM=$'\\033[2m'\n    \n    local review_mode=false\n    local user_message=\"\"\n    \n    if [[ \"$1\" == \"-r\" ]]; then\n        review_mode=true\n        shift\n        user_message=\"$*\"\n    else\n        user_message=\"$*\"\n    fi\n\n    if ! command -v git &> /dev/null; then\n        echo \"$\x7bRED\x7dError:$\x7bNC\x7d git is not installed\"\n        return 1\n    fi\n\n    if ! git rev-parse --is-inside-work-tree > /dev/null 2>&1; then\n        echo \"$\x7bRED\x7dError:$\x7bNC\x7d Not a git repository\"\n        return 1\n    fi\n\n    if git ls-files -u | grep -q .; then\n        echo \"$\x7bRED\x7dError:$\x7bNC\x7d Unresolved merge conflicts\"\n        return 1\n    fi\n\n    local current_branch=$(git branch --show-current 2>/dev/null)\n    if [ -z \"$current_branch\" ]; then\n        echo \"$\x7bRED\x7dError:$\x7bNC\x7d Detached HEAD state\"\n        return 1\n    fi\n\n    local has_staged=false\n    local has_unstaged=false\n    local has_untracked=false\n    \n    ! git diff --cached --quiet && has_staged=true\n    ! git diff --quiet && has_unstaged=true\n    [ -n \"$(git ls-files --others --exclude-standard 2>/dev/null)\" ] && has_untracked=true\n\n    if [ \"$has_staged\" = false ] && [ \"$has_unstaged\" = false ] && [ \"$has_untracked\" = false ]; then\n        echo \"$\x7bYELLOW\x7dNothing to commit$\x7bNC\x7d - working tree clean\"\n        local unpushed=$(git log @\x7bu\x7d.. --oneline 2>/dev/null | wc -l | tr -d ' ')\n        if [ \"$unpushed\" -gt 0 ] 2>/dev/null; then\n")) = false := by decide
  have h2 : occursb (ofStr ("\n\n\n")) (ofStr ("\n    local GREEN=$'\\033[0;32m'\n    local YELLOW=$'\\033[1;33m'\n    local BLUE=$'\\033[0;34m'\n    local RED=$'\\033[0;31m'\n    local NC=$'\\033[0m'\n    local BOLD=$'\\033[1m'\n    local DIM=$'\\033[2m'\n    \n    local review_mode=false\n    local user_message=\"\"\n    \n    if [[ \"$1\" == \"-r\" ]]; then\n        review_mode=true\n        shift\n        user_message=\"$*\"\n    else\n        user_message=\"$*\"\n    fi\n\n    if ! command -v git &> /dev/null; then\n        echo \"$\x7bRED\x7dError:$\x7bNC\x7d git is not installed\"\n        return 1\n    fi\n\n    if ! git rev-parse --is-inside-work-tree > /dev/null 2>&1; then\n        echo \"$\x7bRED\x7dError:$\x7bNC\x7d Not a git repository\"\n        return 1\n    fi\n\n    if git ls-files -u | grep -q .; then\n        echo \"$\x7bRED\x7dError:$\x7bNC\x7d Unresolved merge conflicts\"\n        return 1\n    fi\n\n    local current_branch=$(git branch --show-current 2>/dev/null)\n    if [ -z \"$current_branch\" ]; then\n        echo \"$\x7bRED\x7dError:$\x7bNC\x7d Detached HEAD state\"\n        return 1\n    fi\n\n    local has_staged=false\n    local has_unstaged=false\n    local has_untracked=false\n    \n    ! git diff --cached --quiet && has_staged=true\n    ! git diff --quiet && has_unstaged=true\n    [ -n \"$(git ls-files --others --exclude-standard 2>/dev/null)\" ] && has_untracked=true\n\n    if [ \"$has_staged\" = false ] && [ \"$has_unstaged\" = false ] && [ \"$has_untracked\" = false ]; then\n        echo \"$\x7bYELLOW\x7dNothing to commit$\x7bNC\x7d - working tree clean\"\n        local unpushed=$(git log @\x7bu\x7d.. --oneline 2>/dev/null | wc -l | tr -d ' ')\n        if [ \"$unpushed\" -gt 0 ] 2>/dev/null; then\n") ++ ofStr ("            echo \"$\x7bDIM\x7dYou have $\x7bunpushed\x7d unpushed commit(s)$\x7bNC\x7d\"\n            echo -n \"$\x7bYELLOW\x7dPush existing commits? [Y/n]:$\x7bNC\x7d \"\n            read push_only\n            if [[ ! \"$push_only\" =~ ^[nN] ]]; then\n                git push origin \"$current_branch\" 2>&1 && echo \"$\x7bGREEN\x7d✓ Pushed$\x7bNC\x7d\"\n            fi\n        fi\n        return 0\n    fi\n\n    if ! git remote get-url origin > /dev/null 2>&1; then\n        echo \"$\x7bYELLOW\x7dWarning:$\x7bNC\x7d No remote 'origin' configured\"\n        local skip_push=true\n    else\n        local skip_push=false\n    fi\n\n    echo \"$\x7bBOLD\x7d$\x7bBLUE\x7d━━━━━━━━━━━━━━━━━━━━━━━━━━━━━━━━━━━━━━━━━━━━━━━━━━━$\x7bNC\x7d\"\n    echo \"$\x7bBOLD\x7d🚀 Git Push with AI Commit Message$\x7bNC\x7d\"\n    echo \"$\x7bBOLD\x7d$\x7bBLUE\x7d━━━━━━━━━━━━━━━━━━━━━━━━━━━━━━━━━━━━━━━━━━━━━━━━━━━$\x7bNC\x7d\"\n\n    local commit_message=\"\"\n    \n    if [ -n \"$user_message\" ]; then\n        echo \"\"\n        echo \"$\x7bGREEN\x7d✓$\x7bNC\x7d Using provided commit message\"\n        commit_message=\"$user_message\"\n    else\n        if ! command -v ")) = false :=
    occursb_chain (by decide) h1 (by decide)
      (by
        intro k hk0 hkl
        rw [show List.length (ofStr ("\n\n\n")) = 3 from rfl] at hkl
        have hk : k = 1 ∨ k = 2 := by omega
        rcases hk with hk | hk <;> subst hk
        · exact Or.inr (by decide)
        · exact Or.inl (by decide))
  have h3 : occursb (ofStr ("\n\n\n")) (ofStr ("\n    local GREEN=$'\\033[0;32m'\n    local YELLOW=$'\\033[1;33m'\n    local BLUE=$'\\033[0;34m'\n    local RED=$'\\033[0;31m'\n    local NC=$'\\033[0m'\n    local BOLD=$'\\033[1m'\n    local DIM=$'\\033[2m'\n    \n    local review_mode=false\n    local user_message=\"\"\n    \n    if [[ \"$1\" == \"-r\" ]]; then\n        review_mode=true\n        shift\n        user_message=\"$*\"\n    else\n        user_message=\"$*\"\n    fi\n\n    if ! command -v git &> /dev/null; then\n        echo \"$\x7bRED\x7dError:$\x7bNC\x7d git is not installed\"\n        return 1\n    fi\n\n    if ! git rev-parse --is-inside-work-tree > /dev/null 2>&1; then\n        echo \"$\x7bRED\x7dError:$\x7bNC\x7d Not a git repository\"\n        return 1\n    fi\n\n    if git ls-files -u | grep -q .; then\n        echo \"$\x7bRED\x7dError:$\x7bNC\x7d Unresolved merge conflicts\"\n        return 1\n    fi\n\n    local current_branch=$(git branch --show-current 2>/dev/null)\n    if [ -z \"$current_branch\" ]; then\n        echo \"$\x7bRED\x7dError:$\x7bNC\x7d Detached HEAD state\"\n        return 1\n    fi\n\n    local has_staged=false\n    local has_unstaged=false\n    local has_untracked=false\n    \n    ! git diff --cached --quiet && has_staged=true\n    ! git diff --quiet && has_unstaged=true\n    [ -n \"$(git ls-files --others --exclude-standard 2>/dev/null)\" ] && has_untracked=true\n\n    if [ \"$has_staged\" = false ] && [ \"$has_unstaged\" = false ] && [ \"$has_untracked\" = false ]; then\n        echo \"$\x7bYELLOW\x7dNothing to commit$\x7bNC\x7d - working tree clean\"\n        local unpushed=$(git log @\x7bu\x7d.. --oneline 2>/dev/null | wc -l | tr -d ' ')\n        if [ \"$unpushed\" -gt 0 ] 2>/dev/null; then\n") ++ ofStr ("            echo \"$\x7bDIM\x7dYou have $\x7bunpushed\x7d unpushed commit(s)$\x7bNC\x7d\"\n            echo -n \"$\x7bYELLOW\x7dPush existing commits? [Y/n]:$\x7bNC\x7d \"\n            read push_only\n            if [[ ! \"$push_only\" =~ ^[nN] ]]; then\n                git push origin \"$current_branch\" 2>&1 && echo \"$\x7bGREEN\x7d✓ Pushed$\x7bNC\x7d\"\n            fi\n        fi\n        return 0\n    fi\n\n    if ! git remote get-url origin > /dev/null 2>&1; then\n        echo \"$\x7bYELLOW\x7dWarning:$\x7bNC\x7d No remote 'origin' configured\"\n        local skip_push=true\n    else\n        local skip_push=false\n    fi\n\n    echo \"$\x7bBOLD\x7d$\x7bBLUE\x7d━━━━━━━━━━━━━━━━━━━━━━━━━━━━━━━━━━━━━━━━━━━━━━━━━━━$\x7bNC\x7d\"\n    echo \"$\x7bBOLD\x7d🚀 Git Push with AI Commit Message$\x7bNC\x7d\"\n    echo \"$\x7bBOLD\x7d$\x7bBLUE\x7d━━━━━━━━━━━━━━━━━━━━━━━━━━━━━━━━━━━━━━━━━━━━━━━━━━━$\x7bNC\x7d\"\n\n    local commit_message=\"\"\n    \n    if [ -n \"$user_message\" ]; then\n        echo \"\"\n        echo \"$\x7bGREEN\x7d✓$\x7bNC\x7d Using provided commit message\"\n        commit_message=\"$user_message\"\n    else\n        if ! command -v ") ++ ofStr claudeCLI.command) = false :=
    occursb_chain (by decide) h2 (by decide)
      (by
        intro k hk0 hkl
        rw [show List.length (ofStr ("\n\n\n")) = 3 from rfl] at hkl
        have hk : k = 1 ∨ k = 2 := by omega
        rcases hk with hk | hk <;> subst hk
        · exact Or.inl (by rw [endsIn_append_long _ (by decide)]; decide)
        · exact Or.inl (by rw [endsIn_append_long _ (by decide)]; decide))
  have h4 : occursb (ofStr ("\n\n\n")) (ofStr ("\n    local GREEN=$'\\033[0;32m'\n    local YELLOW=$'\\033[1;33m'\n    local BLUE=$'\\033[0;34m'\n    local RED=$'\\033[0;31m'\n    local NC=$'\\033[0m'\n    local BOLD=$'\\033[1m'\n    local DIM=$'\\033[2m'\n    \n    local review_mode=false\n    local user_message=\"\"\n    \n    if [[ \"$1\" == \"-r\" ]]; then\n        review_mode=true\n        shift\n        user_message=\"$*\"\n    else\n        user_message=\"$*\"\n    fi\n\n    if ! command -v git &> /dev/null; then\n        echo \"$\x7bRED\x7dError:$\x7bNC\x7d git is not installed\"\n        return 1\n    fi\n\n    if ! git rev-parse --is-inside-work-tree > /dev/null 2>&1; then\n        echo \"$\x7bRED\x7dError:$\x7bNC\x7d Not a git repository\"\n        return 1\n    fi\n\n    if git ls-files -u | grep -q .; then\n        echo \"$\x7bRED\x7dError:$\x7bNC\x7d Unresolved merge conflicts\"\n        return 1\n    fi\n\n    local current_branch=$(git branch --show-current 2>/dev/null)\n    if [ -z \"$current_branch\" ]; then\n        echo \"$\x7bRED\x7dError:$\x7bNC\x7d Detached HEAD state\"\n        return 1\n    fi\n\n    local has_staged=false\n    local has_unstaged=false\n    local has_untracked=false\n    \n    ! git diff --cached --quiet && has_staged=true\n    ! git diff --quiet && has_unstaged=true\n    [ -n \"$(git ls-files --others --exclude-standard 2>/dev/null)\" ] && has_untracked=true\n\n    if [ \"$has_staged\" = false ] && [ \"$has_unstaged\" = false ] && [ \"$has_untracked\" = false ]; then\n        echo \"$\x7bYELLOW\x7dNothing to commit$\x7bNC\x7d - working tree clean\"\n        local unpushed=$(git log @\x7bu\x7d.. --oneline 2>/dev/null | wc -l | tr -d ' ')\n        if [ \"$unpushed\" -gt 0 ] 2>/dev/null; then\n") ++ ofStr ("            echo \"$\x7bDIM\x7dYou have $\x7bunpushed\x7d unpushed commit(s)$\x7bNC\x7d\"\n            echo -n \"$\x7bYELLOW\x7dPush existing commits? [Y/n]:$\x7bNC\x7d \"\n            read push_only\n            if [[ ! \"$push_only\" =~ ^[nN] ]]; then\n                git push origin \"$current_branch\" 2>&1 && echo \"$\x7bGREEN\x7d✓ Pushed$\x7bNC\x7d\"\n            fi\n        fi\n        return 0\n    fi\n\n    if ! git remote get-url origin > /dev/null 2>&1; then\n        echo \"$\x7bYELLOW\x7dWarning:$\x7bNC\x7d No remote 'origin' configured\"\n        local skip_push=true\n    else\n        local skip_push=false\n    fi\n\n    echo \"$\x7bBOLD\x7d$\x7bBLUE\x7d━━━━━━━━━━━━━━━━━━━━━━━━━━━━━━━━━━━━━━━━━━━━━━━━━━━$\x7bNC\x7d\"\n    echo \"$\x7bBOLD\x7d🚀 Git Push with AI Commit Message$\x7bNC\x7d\"\n    echo \"$\x7bBOLD\x7d$\x7bBLUE\x7d━━━━━━━━━━━━━━━━━━━━━━━━━━━━━━━━━━━━━━━━━━━━━━━━━━━$\x7bNC\x7d\"\n\n    local commit_message=\"\"\n    \n    if [ -n \"$user_message\" ]; then\n        echo \"\"\n        echo \"$\x7bGREEN\x7d✓$\x7bNC\x7d Using provided commit message\"\n        commit_message=\"$user_message\"\n    else\n        if ! command -v ") ++ ofStr claudeCLI.command ++ ofStr (" &> /dev/null; then\n            echo \"$\x7bRED\x7dError:$\x7bNC\x7d ")) = false :=
    occursb_chain (by decide) h3 (by decide)
      (by
        intro k hk0 hkl
        rw [show List.length (ofStr ("\n\n\n")) = 3 from rfl] at hkl
        have hk : k = 1 ∨ k = 2 := by omega
        rcases hk with hk | hk <;> subst hk
        · exact Or.inl (by rw [endsIn_append_long _ (by decide)]; decide)
        · exact Or.inl (by rw [endsIn_append_long _ (by decide)]; decide))
  have h5 : occursb (ofStr ("\n\n\n")) (ofStr ("\n    local GREEN=$'\\033[0;32m'\n    local YELLOW=$'\\033[1;33m'\n    local BLUE=$'\\033[0;34m'\n    local RED=$'\\033[0;31m'\n    local NC=$'\\033[0m'\n    local BOLD=$'\\033[1m'\n    local DIM=$'\\033[2m'\n    \n    local review_mode=false\n    local user_message=\"\"\n    \n    if [[ \"$1\" == \"-r\" ]]; then\n        review_mode=true\n        shift\n        user_message=\"$*\"\n    else\n        user_message=\"$*\"\n    fi\n\n    if ! command -v git &> /dev/null; then\n        echo \"$\x7bRED\x7dError:$\x7bNC\x7d git is not installed\"\n        return 1\n    fi\n\n    if ! git rev-parse --is-inside-work-tree > /dev/null 2>&1; then\n        echo \"$\x7bRED\x7dError:$\x7bNC\x7d Not a git repository\"\n        return 1\n    fi\n\n    if git ls-files -u | grep -q .; then\n        echo \"$\x7bRED\x7dError:$\x7bNC\x7d Unresolved merge conflicts\"\n        return 1\n    fi\n\n    local current_branch=$(git branch --show-current 2>/dev/null)\n    if [ -z \"$current_branch\" ]; then\n        echo \"$\x7bRED\x7dError:$\x7bNC\x7d Detached HEAD state\"\n        return 1\n    fi\n\n    local has_staged=false\n    local has_unstaged=false\n    local has_untracked=false\n    \n    ! git diff --cached --quiet && has_staged=true\n    ! git diff --quiet && has_unstaged=true\n    [ -n \"$(git ls-files --others --exclude-standard 2>/dev/null)\" ] && has_untracked=true\n\n    if [ \"$has_staged\" = false ] && [ \"$has_unstaged\" = false ] && [ \"$has_untracked\" = false ]; then\n        echo \"$\x7bYELLOW\x7dNothing to commit$\x7bNC\x7d - working tree clean\"\n        local unpushed=$(git log @\x7bu\x7d.. --oneline 2>/dev/null | wc -l | tr -d ' ')\n        if [ \"$unpushed\" -gt 0 ] 2>/dev/null; then\n") ++ ofStr ("            echo \"$\x7bDIM\x7dYou have $\x7bunpushed\x7d unpushed commit(s)$\x7bNC\x7d\"\n            echo -n \"$\x7bYELLOW\x7dPush existing commits? [Y/n]:$\x7bNC\x7d \"\n            read push_only\n            if [[ ! \"$push_only\" =~ ^[nN] ]]; then\n                git push origin \"$current_branch\" 2>&1 && echo \"$\x7bGREEN\x7d✓ Pushed$\x7bNC\x7d\"\n            fi\n        fi\n        return 0\n    fi\n\n    if ! git remote get-url origin > /dev/null 2>&1; then\n        echo \"$\x7bYELLOW\x7dWarning:$\x7bNC\x7d No remote 'origin' configured\"\n        local skip_push=true\n    else\n        local skip_push=false\n    fi\n\n    echo \"$\x7bBOLD\x7d$\x7bBLUE\x7d━━━━━━━━━━━━━━━━━━━━━━━━━━━━━━━━━━━━━━━━━━━━━━━━━━━$\x7bNC\x7d\"\n    echo \"$\x7bBOLD\x7d🚀 Git Push with AI Commit Message$\x7bNC\x7d\"\n    echo \"$\x7bBOLD\x7d$\x7bBLUE\x7d━━━━━━━━━━━━━━━━━━━━━━━━━━━━━━━━━━━━━━━━━━━━━━━━━━━$\x7bNC\x7d\"\n\n    local commit_message=\"\"\n    \n    if [ -n \"$user_message\" ]; then\n        echo \"\"\n        echo \"$\x7bGREEN\x7d✓$\x7bNC\x7d Using provided commit message\"\n        commit_message=\"$user_message\"\n    else\n        if ! command -v ") ++ ofStr claudeCLI.command ++ ofStr (" &> /dev/null; then\n            echo \"$\x7bRED\x7dError:$\x7bNC\x7d ") ++ ofStr claudeCLI.name) = false :=
    occursb_chain (by decide) h4 (by decide)
      (by
        intro k hk0 hkl
        rw [show List.length (ofStr ("\n\n\n")) = 3 from rfl] at hkl
        have hk : k = 1 ∨ k = 2 := by omega
        rcases hk with hk | hk <;> subst hk
        · exact Or.inl (by rw [endsIn_append_long _ (by decide)]; decide)
        · exact Or.inl (by rw [endsIn_append_long _ (by decide)]; decide))
  have h6 : occursb (ofStr ("\n\n\n")) (ofStr ("\n    local GREEN=$'\\033[0;32m'\n    local YELLOW=$'\\033[1;33m'\n    local BLUE=$'\\033[0;34m'\n    local RED=$'\\033[0;31m'\n    local NC=$'\\033[0m'\n    local BOLD=$'\\033[1m'\n    local DIM=$'\\033[2m'\n    \n    local review_mode=false\n    local user_message=\"\"\n    \n    if [[ \"$1\" == \"-r\" ]]; then\n        review_mode=true\n        shift\n        user_message=\"$*\"\n    else\n        user_message=\"$*\"\n    fi\n\n    if ! command -v git &> /dev/null; then\n        echo \"$\x7bRED\x7dError:$\x7bNC\x7d git is not installed\"\n        return 1\n    fi\n\n    if ! git rev-parse --is-inside-work-tree > /dev/null 2>&1; then\n        echo \"$\x7bRED\x7dError:$\x7bNC\x7d Not a git repository\"\n        return 1\n    fi\n\n    if git ls-files -u | grep -q .; then\n        echo \"$\x7bRED\x7dError:$\x7bNC\x7d Unresolved merge conflicts\"\n        return 1\n    fi\n\n    local current_branch=$(git branch --show-current 2>/dev/null)\n    if [ -z \"$current_branch\" ]; then\n        echo \"$\x7bRED\x7dError:$\x7bNC\x7d Detached HEAD state\"\n        return 1\n    fi\n\n    local has_staged=false\n    local has_unstaged=false\n    local has_untracked=false\n    \n    ! git diff --cached --quiet && has_staged=true\n    ! git diff --quiet && has_unstaged=true\n    [ -n \"$(git ls-files --others --exclude-standard 2>/dev/null)\" ] && has_untracked=true\n\n    if [ \"$has_staged\" = false ] && [ \"$has_unstaged\" = false ] && [ \"$has_untracked\" = false ]; then\n        echo \"$\x7bYELLOW\x7dNothing to commit$\x7bNC\x7d - working tree clean\"\n        local unpushed=$(git log @\x7bu\x7d.. --oneline 2>/dev/null | wc -l | tr -d ' ')\n        if [ \"$unpushed\" -gt 0 ] 2>/dev/null; then\n") ++ ofStr ("            echo \"$\x7bDIM\x7dYou have $\x7bunpushed\x7d unpushed commit(s)$\x7bNC\x7d\"\n            echo -n \"$\x7bYELLOW\x7dPush existing commits? [Y/n]:$\x7bNC\x7d \"\n            read push_only\n            if [[ ! \"$push_only\" =~ ^[nN] ]]; then\n                git push origin \"$current_branch\" 2>&1 && echo \"$\x7bGREEN\x7d✓ Pushed$\x7bNC\x7d\"\n            fi\n        fi\n        return 0\n    fi\n\n    if ! git remote get-url origin > /dev/null 2>&1; then\n        echo \"$\x7bYELLOW\x7dWarning:$\x7bNC\x7d No remote 'origin' configured\"\n        local skip_push=true\n    else\n        local skip_push=false\n    fi\n\n    echo \"$\x7bBOLD\x7d$\x7bBLUE\x7d━━━━━━━━━━━━━━━━━━━━━━━━━━━━━━━━━━━━━━━━━━━━━━━━━━━$\x7bNC\x7d\"\n    echo \"$\x7bBOLD\x7d🚀 Git Push with AI Commit Message$\x7bNC\x7d\"\n    echo \"$\x7bBOLD\x7d$\x7bBLUE\x7d━━━━━━━━━━━━━━━━━━━━━━━━━━━━━━━━━━━━━━━━━━━━━━━━━━━$\x7bNC\x7d\"\n\n    local commit_message=\"\"\n    \n    if [ -n \"$user_message\" ]; then\n        echo \"\"\n        echo \"$\x7bGREEN\x7d✓$\x7bNC\x7d Using provided commit message\"\n        commit_message=\"$user_message\"\n    else\n        if ! command -v ") ++ ofStr claudeCLI.command ++ ofStr (" &> /dev/null; then\n            echo \"$\x7bRED\x7dError:$\x7bNC\x7d ") ++ ofStr claudeCLI.name ++ ofStr (" is not installed\"\n            return 1\n        fi\n\n        echo \"\"\n        echo \"$\x7bYELLOW\x7d[1/4]$\x7bNC\x7d 🔍 Analyzing git changes...\"\n    \n        local staged_diff=$(git diff --cached 2>/dev/null | head -500)\n        local unstaged_diff=$(git diff 2>/dev/null | head -500)\n        local untracked_files=$(git ls-files --others --exclude-standard 2>/dev/null | head -50)\n    \n        local prompt=\"Analyze the following git changes and generate a commit message following the Conventional Commits specification with bullet-point changelog style.\n\n## Commit Message Format:\n<type>(<scope>): <short summary>\n\n- <bullet point describing a specific change>\n- <bullet point describing another change>\n\n## Types: feat, fix, docs, style, refactor, perf, test, build, ci, chore, revert\n\n## Rules:\n1. Subject line: max 50 chars, imperative mood, no period\n2. Body uses bullet points (- ) to list specific changes\n3. Each bullet should be concise and actionable\n\n## Git Changes:\n\n### Staged Changes:\n$\x7bstaged_diff:-\\\"(none)\\\"\x7d\n\n### Unstaged Changes:\n$\x7bunstaged_diff:-\\\"(none)\\\"\x7d\n\n### Untracked Files:\n$\x7buntracked_files:-\\\"(none)\\\"\x7d\n\nOUTPUT ONLY THE COMMIT MESSAGE, nothing else.\"\n\n        echo \"$\x7bYELLOW\x7d[2/4]$\x7bNC\x7d 🤖 Generating commit message with ")) = false :=
    occursb_chain (by decide) h5 (by decide)
      (by
        intro k hk0 hkl
        rw [show List.length (ofStr ("\n\n\n")) = 3 from rfl] at hkl
        have hk : k = 1 ∨ k = 2 := by omega
        rcases hk with hk | hk <;> subst hk
        · exact Or.inl (by rw [endsIn_append_long _ (by decide)]; decide)
        · exact Or.inl (by rw [endsIn_append_long _ (by decide)]; decide))
  have h7 : occursb (ofStr ("\n\n\n")) (ofStr ("\n    local GREEN=$'\\033[0;32m'\n    local YELLOW=$'\\033[1;33m'\n    local BLUE=$'\\033[0;34m'\n    local RED=$'\\033[0;31m'\n    local NC=$'\\033[0m'\n    local BOLD=$'\\033[1m'\n    local DIM=$'\\033[2m'\n    \n    local review_mode=false\n    local user_message=\"\"\n    \n    if [[ \"$1\" == \"-r\" ]]; then\n        review_mode=true\n        shift\n        user_message=\"$*\"\n    else\n        user_message=\"$*\"\n    fi\n\n    if ! command -v git &> /dev/null; then\n        echo \"$\x7bRED\x7dError:$\x7bNC\x7d git is not installed\"\n        return 1\n    fi\n\n    if ! git rev-parse --is-inside-work-tree > /dev/null 2>&1; then\n        echo \"$\x7bRED\x7dError:$\x7bNC\x7d Not a git repository\"\n        return 1\n    fi\n\n    if git ls-files -u | grep -q .; then\n        echo \"$\x7bRED\x7dError:$\x7bNC\x7d Unresolved merge conflicts\"\n        return 1\n    fi\n\n    local current_branch=$(git branch --show-current 2>/dev/null)\n    if [ -z \"$current_branch\" ]; then\n        echo \"$\x7bRED\x7dError:$\x7bNC\x7d Detached HEAD state\"\n        return 1\n    fi\n\n    local has_staged=false\n    local has_unstaged=false\n    local has_untracked=false\n    \n    ! git diff --cached --quiet && has_staged=true\n    ! git diff --quiet && has_unstaged=true\n    [ -n \"$(git ls-files --others --exclude-standard 2>/dev/null)\" ] && has_untracked=true\n\n    if [ \"$has_staged\" = false ] && [ \"$has_unstaged\" = false ] && [ \"$has_untracked\" = false ]; then\n        echo \"$\x7bYELLOW\x7dNothing to commit$\x7bNC\x7d - working tree clean\"\n        local unpushed=$(git log @\x7bu\x7d.. --oneline 2>/dev/null | wc -l | tr -d ' ')\n        if [ \"$unpushed\" -gt 0 ] 2>/dev/null; then\n") ++ ofStr ("            echo \"$\x7bDIM\x7dYou have $\x7bunpushed\x7d unpushed commit(s)$\x7bNC\x7d\"\n            echo -n \"$\x7bYELLOW\x7dPush existing commits? [Y/n]:$\x7bNC\x7d \"\n            read push_only\n            if [[ ! \"$push_only\" =~ ^[nN] ]]; then\n                git push origin \"$current_branch\" 2>&1 && echo \"$\x7bGREEN\x7d✓ Pushed$\x7bNC\x7d\"\n            fi\n        fi\n        return 0\n    fi\n\n    if ! git remote get-url origin > /dev/null 2>&1; then\n        echo \"$\x7bYELLOW\x7dWarning:$\x7bNC\x7d No remote 'origin' configured\"\n        local skip_push=true\n    else\n        local skip_push=false\n    fi\n\n    echo \"$\x7bBOLD\x7d$\x7bBLUE\x7d━━━━━━━━━━━━━━━━━━━━━━━━━━━━━━━━━━━━━━━━━━━━━━━━━━━$\x7bNC\x7d\"\n    echo \"$\x7bBOLD\x7d🚀 Git Push with AI Commit Message$\x7bNC\x7d\"\n    echo \"$\x7bBOLD\x7d$\x7bBLUE\x7d━━━━━━━━━━━━━━━━━━━━━━━━━━━━━━━━━━━━━━━━━━━━━━━━━━━$\x7bNC\x7d\"\n\n    local commit_message=\"\"\n    \n    if [ -n \"$user_message\" ]; then\n        echo \"\"\n        echo \"$\x7bGREEN\x7d✓$\x7bNC\x7d Using provided commit message\"\n        commit_message=\"$user_message\"\n    else\n        if ! command -v ") ++ ofStr claudeCLI.command ++ ofStr (" &> /dev/null; then\n            echo \"$\x7bRED\x7dError:$\x7bNC\x7d ") ++ ofStr claudeCLI.name ++ ofStr (" is not installed\"\n            return 1\n        fi\n\n        echo \"\"\n        echo \"$\x7bYELLOW\x7d[1/4]$\x7bNC\x7d 🔍 Analyzing git changes...\"\n    \n        local staged_diff=$(git diff --cached 2>/dev/null | head -500)\n        local unstaged_diff=$(git diff 2>/dev/null | head -500)\n        local untracked_files=$(git ls-files --others --exclude-standard 2>/dev/null | head -50)\n    \n        local prompt=\"Analyze the following git changes and generate a commit message following the Conventional Commits specification with bullet-point changelog style.\n\n## Commit Message Format:\n<type>(<scope>): <short summary>\n\n- <bullet point describing a specific change>\n- <bullet point describing another change>\n\n## Types: feat, fix, docs, style, refactor, perf, test, build, ci, chore, revert\n\n## Rules:\n1. Subject line: max 50 chars, imperative mood, no period\n2. Body uses bullet points (- ) to list specific changes\n3. Each bullet should be concise and actionable\n\n## Git Changes:\n\n### Staged Changes:\n$\x7bstaged_diff:-\\\"(none)\\\"\x7d\n\n### Unstaged Changes:\n$\x7bunstaged_diff:-\\\"(none)\\\"\x7d\n\n### Untracked Files:\n$\x7buntracked_files:-\\\"(none)\\\"\x7d\n\nOUTPUT ONLY THE COMMIT MESSAGE, nothing else.\"\n\n        echo \"$\x7bYELLOW\x7d[2/4]$\x7bNC\x7d 🤖 Generating commit message with ") ++ ofStr claudeCLI.name) = false :=
    occursb_chain (by decide) h6 (by decide)
      (by
        intro k hk0 hkl
        rw [show List.length (ofStr ("\n\n\n")) = 3 from rfl] at hkl
        have hk : k = 1 ∨ k = 2 := by omega
        rcases hk with hk | hk <;> subst hk
        · exact Or.inl (by rw [endsIn_append_long _ (by decide)]; decide)
        · exact Or.inl (by rw [endsIn_append_long _ (by decide)]; decide))
  have h8 : occursb (ofStr ("\n\n\n")) (ofStr ("\n    local GREEN=$'\\033[0;32m'\n    local YELLOW=$'\\033[1;33m'\n    local BLUE=$'\\033[0;34m'\n    local RED=$'\\033[0;31m'\n    local NC=$'\\033[0m'\n    local BOLD=$'\\033[1m'\n    local DIM=$'\\033[2m'\n    \n    local review_mode=false\n    local user_message=\"\"\n    \n    if [[ \"$1\" == \"-r\" ]]; then\n        review_mode=true\n        shift\n        user_message=\"$*\"\n    else\n        user_message=\"$*\"\n    fi\n\n    if ! command -v git &> /dev/null; then\n        echo \"$\x7bRED\x7dError:$\x7bNC\x7d git is not installed\"\n        return 1\n    fi\n\n    if ! git rev-parse --is-inside-work-tree > /dev/null 2>&1; then\n        echo \"$\x7bRED\x7dError:$\x7bNC\x7d Not a git repository\"\n        return 1\n    fi\n\n    if git ls-files -u | grep -q .; then\n        echo \"$\x7bRED\x7dError:$\x7bNC\x7d Unresolved merge conflicts\"\n        return 1\n    fi\n\n    local current_branch=$(git branch --show-current 2>/dev/null)\n    if [ -z \"$current_branch\" ]; then\n        echo \"$\x7bRED\x7dError:$\x7bNC\x7d Detached HEAD state\"\n        return 1\n    fi\n\n    local has_staged=false\n    local has_unstaged=false\n    local has_untracked=false\n    \n    ! git diff --cached --quiet && has_staged=true\n    ! git diff --quiet && has_unstaged=true\n    [ -n \"$(git ls-files --others --exclude-standard 2>/dev/null)\" ] && has_untracked=true\n\n    if [ \"$has_staged\" = false ] && [ \"$has_unstaged\" = false ] && [ \"$has_untracked\" = false ]; then\n        echo \"$\x7bYELLOW\x7dNothing to commit$\x7bNC\x7d - working tree clean\"\n        local unpushed=$(git log @\x7bu\x7d.. --oneline 2>/dev/null | wc -l | tr -d ' ')\n        if [ \"$unpushed\" -gt 0 ] 2>/dev/null; then\n") ++ ofStr ("            echo \"$\x7bDIM\x7dYou have $\x7bunpushed\x7d unpushed commit(s)$\x7bNC\x7d\"\n            echo -n \"$\x7bYELLOW\x7dPush existing commits? [Y/n]:$\x7bNC\x7d \"\n            read push_only\n            if [[ ! \"$push_only\" =~ ^[nN] ]]; then\n                git push origin \"$current_branch\" 2>&1 && echo \"$\x7bGREEN\x7d✓ Pushed$\x7bNC\x7d\"\n            fi\n        fi\n        return 0\n    fi\n\n    if ! git remote get-url origin > /dev/null 2>&1; then\n        echo \"$\x7bYELLOW\x7dWarning:$\x7bNC\x7d No remote 'origin' configured\"\n        local skip_push=true\n    else\n        local skip_push=false\n    fi\n\n    echo \"$\x7bBOLD\x7d$\x7bBLUE\x7d━━━━━━━━━━━━━━━━━━━━━━━━━━━━━━━━━━━━━━━━━━━━━━━━━━━$\x7bNC\x7d\"\n    echo \"$\x7bBOLD\x7d🚀 Git Push with AI Commit Message$\x7bNC\x7d\"\n    echo \"$\x7bBOLD\x7d$\x7bBLUE\x7d━━━━━━━━━━━━━━━━━━━━━━━━━━━━━━━━━━━━━━━━━━━━━━━━━━━$\x7bNC\x7d\"\n\n    local commit_message=\"\"\n    \n    if [ -n \"$user_message\" ]; then\n        echo \"\"\n        echo \"$\x7bGREEN\x7d✓$\x7bNC\x7d Using provided commit message\"\n        commit_message=\"$user_message\"\n    else\n        if ! command -v ") ++ ofStr claudeCLI.command ++ ofStr (" &> /dev/null; then\n            echo \"$\x7bRED\x7dError:$\x7bNC\x7d ") ++ ofStr claudeCLI.name ++ ofStr (" is not installed\"\n            return 1\n        fi\n\n        echo \"\"\n        echo \"$\x7bYELLOW\x7d[1/4]$\x7bNC\x7d 🔍 Analyzing git changes...\"\n    \n        local staged_diff=$(git diff --cached 2>/dev/null | head -500)\n        local unstaged_diff=$(git diff 2>/dev/null | head -500)\n        local untracked_files=$(git ls-files --others --exclude-standard 2>/dev/null | head -50)\n    \n        local prompt=\"Analyze the following git changes and generate a commit message following the Conventional Commits specification with bullet-point changelog style.\n\n## Commit Message Format:\n<type>(<scope>): <short summary>\n\n- <bullet point describing a specific change>\n- <bullet point describing another change>\n\n## Types: feat, fix, docs, style, refactor, perf, test, build, ci, chore, revert\n\n## Rules:\n1. Subject line: max 50 chars, imperative mood, no period\n2. Body uses bullet points (- ) to list specific changes\n3. Each bullet should be concise and actionable\n\n## Git Changes:\n\n### Staged Changes:\n$\x7bstaged_diff:-\\\"(none)\\\"\x7d\n\n### Unstaged Changes:\n$\x7bunstaged_diff:-\\\"(none)\\\"\x7d\n\n### Untracked Files:\n$\x7buntracked_files:-\\\"(none)\\\"\x7d\n\nOUTPUT ONLY THE COMMIT MESSAGE, nothing else.\"\n\n        echo \"$\x7bYELLOW\x7d[2/4]$\x7bNC\x7d 🤖 Generating commit message with ") ++ ofStr claudeCLI.name ++ ofStr ("...\"\n        echo \"$\x7bDIM\x7d     (this may take a few seconds...)$\x7bNC\x7d\"\n    \n        local temp_file=$(mktemp)\n        local error_file=$(mktemp)\n    \n        ")) = false :=
    occursb_chain (by decide) h7 (by decide)
      (by
        intro k hk0 hkl
        rw [show List.length (ofStr ("\n\n\n")) = 3 from rfl] at hkl
        have hk : k = 1 ∨ k = 2 := by omega
        rcases hk with hk | hk <;> subst hk
        · exact Or.inl (by rw [endsIn_append_long _ (by decide)]; decide)
        · exact Or.inl (by rw [endsIn_append_long _ (by decide)]; decide))
  have h9 : occursb (ofStr ("\n\n\n")) (ofStr ("\n    local GREEN=$'\\033[0;32m'\n    local YELLOW=$'\\033[1;33m'\n    local BLUE=$'\\033[0;34m'\n    local RED=$'\\033[0;31m'\n    local NC=$'\\033[0m'\n    local BOLD=$'\\033[1m'\n    local DIM=$'\\033[2m'\n    \n    local review_mode=false\n    local user_message=\"\"\n    \n    if [[ \"$1\" == \"-r\" ]]; then\n        review_mode=true\n        shift\n        user_message=\"$*\"\n    else\n        user_message=\"$*\"\n    fi\n\n    if ! command -v git &> /dev/null; then\n        echo \"$\x7bRED\x7dError:$\x7bNC\x7d git is not installed\"\n        return 1\n    fi\n\n    if ! git rev-parse --is-inside-work-tree > /dev/null 2>&1; then\n        echo \"$\x7bRED\x7dError:$\x7bNC\x7d Not a git repository\"\n        return 1\n    fi\n\n    if git ls-files -u | grep -q .; then\n        echo \"$\x7bRED\x7dError:$\x7bNC\x7d Unresolved merge conflicts\"\n        return 1\n    fi\n\n    local current_branch=$(git branch --show-current 2>/dev/null)\n    if [ -z \"$current_branch\" ]; then\n        echo \"$\x7bRED\x7dError:$\x7bNC\x7d Detached HEAD state\"\n        return 1\n    fi\n\n    local has_staged=false\n    local has_unstaged=false\n    local has_untracked=false\n    \n    ! git diff --cached --quiet && has_staged=true\n    ! git diff --quiet && has_unstaged=true\n    [ -n \"$(git ls-files --others --exclude-standard 2>/dev/null)\" ] && has_untracked=true\n\n    if [ \"$has_staged\" = false ] && [ \"$has_unstaged\" = false ] && [ \"$has_untracked\" = false ]; then\n        echo \"$\x7bYELLOW\x7dNothing to commit$\x7bNC\x7d - working tree clean\"\n        local unpushed=$(git log @\x7bu\x7d.. --oneline 2>/dev/null | wc -l | tr -d ' ')\n        if [ \"$unpushed\" -gt 0 ] 2>/dev/null; then\n") ++ ofStr ("            echo \"$\x7bDIM\x7dYou have $\x7bunpushed\x7d unpushed commit(s)$\x7bNC\x7d\"\n            echo -n \"$\x7bYELLOW\x7dPush existing commits? [Y/n]:$\x7bNC\x7d \"\n            read push_only\n            if [[ ! \"$push_only\" =~ ^[nN] ]]; then\n                git push origin \"$current_branch\" 2>&1 && echo \"$\x7bGREEN\x7d✓ Pushed$\x7bNC\x7d\"\n            fi\n        fi\n        return 0\n    fi\n\n    if ! git remote get-url origin > /dev/null 2>&1; then\n        echo \"$\x7bYELLOW\x7dWarning:$\x7bNC\x7d No remote 'origin' configured\"\n        local skip_push=true\n    else\n        local skip_push=false\n    fi\n\n    echo \"$\x7bBOLD\x7d$\x7bBLUE\x7d━━━━━━━━━━━━━━━━━━━━━━━━━━━━━━━━━━━━━━━━━━━━━━━━━━━$\x7bNC\x7d\"\n    echo \"$\x7bBOLD\x7d🚀 Git Push with AI Commit Message$\x7bNC\x7d\"\n    echo \"$\x7bBOLD\x7d$\x7bBLUE\x7d━━━━━━━━━━━━━━━━━━━━━━━━━━━━━━━━━━━━━━━━━━━━━━━━━━━$\x7bNC\x7d\"\n\n    local commit_message=\"\"\n    \n    if [ -n \"$user_message\" ]; then\n        echo \"\"\n        echo \"$\x7bGREEN\x7d✓$\x7bNC\x7d Using provided commit message\"\n        commit_message=\"$user_message\"\n    else\n        if ! command -v ") ++ ofStr claudeCLI.command ++ ofStr (" &> /dev/null; then\n            echo \"$\x7bRED\x7dError:$\x7bNC\x7d ") ++ ofStr claudeCLI.name ++ ofStr (" is not installed\"\n            return 1\n        fi\n\n        echo \"\"\n        echo \"$\x7bYELLOW\x7d[1/4]$\x7bNC\x7d 🔍 Analyzing git changes...\"\n    \n        local staged_diff=$(git diff --cached 2>/dev/null | head -500)\n        local unstaged_diff=$(git diff 2>/dev/null | head -500)\n        local untracked_files=$(git ls-files --others --exclude-standard 2>/dev/null | head -50)\n    \n        local prompt=\"Analyze the following git changes and generate a commit message following the Conventional Commits specification with bullet-point changelog style.\n\n## Commit Message Format:\n<type>(<scope>): <short summary>\n\n- <bullet point describing a specific change>\n- <bullet point describing another change>\n\n## Types: feat, fix, docs, style, refactor, perf, test, build, ci, chore, revert\n\n## Rules:\n1. Subject line: max 50 chars, imperative mood, no period\n2. Body uses bullet points (- ) to list specific changes\n3. Each bullet should be concise and actionable\n\n## Git Changes:\n\n### Staged Changes:\n$\x7bstaged_diff:-\\\"(none)\\\"\x7d\n\n### Unstaged Changes:\n$\x7bunstaged_diff:-\\\"(none)\\\"\x7d\n\n### Untracked Files:\n$\x7buntracked_files:-\\\"(none)\\\"\x7d\n\nOUTPUT ONLY THE COMMIT MESSAGE, nothing else.\"\n\n        echo \"$\x7bYELLOW\x7d[2/4]$\x7bNC\x7d 🤖 Generating commit message with ") ++ ofStr claudeCLI.name ++ ofStr ("...\"\n        echo \"$\x7bDIM\x7d     (this may take a few seconds...)$\x7bNC\x7d\"\n    \n        local temp_file=$(mktemp)\n        local error_file=$(mktemp)\n    \n        ") ++ ofStr (buildCLICommand claudeCLI "sonnet")) = false :=
    occursb_chain (by decide) h8 (by decide)
      (by
        intro k hk0 hkl
        rw [show List.length (ofStr ("\n\n\n")) = 3 from rfl] at hkl
        have hk : k = 1 ∨ k = 2 := by omega
        rcases hk with hk | hk <;> subst hk
        · exact Or.inl (by rw [endsIn_append_long _ (by decide)]; decide)
        · exact Or.inl (by rw [endsIn_append_long _ (by decide)]; decide))
  have h10 : occursb (ofStr ("\n\n\n")) (ofStr ("\n    local GREEN=$'\\033[0;32m'\n    local YELLOW=$'\\033[1;33m'\n    local BLUE=$'\\033[0;34m'\n    local RED=$'\\033[0;31m'\n    local NC=$'\\033[0m'\n    local BOLD=$'\\033[1m'\n    local DIM=$'\\033[2m'\n    \n    local review_mode=false\n    local user_message=\"\"\n    \n    if [[ \"$1\" == \"-r\" ]]; then\n        review_mode=true\n        shift\n        user_message=\"$*\"\n    else\n        user_message=\"$*\"\n    fi\n\n    if ! command -v git &> /dev/null; then\n        echo \"$\x7bRED\x7dError:$\x7bNC\x7d git is not installed\"\n        return 1\n    fi\n\n    if ! git rev-parse --is-inside-work-tree > /dev/null 2>&1; then\n        echo \"$\x7bRED\x7dError:$\x7bNC\x7d Not a git repository\"\n        return 1\n    fi\n\n    if git ls-files -u | grep -q .; then\n        echo \"$\x7bRED\x7dError:$\x7bNC\x7d Unresolved merge conflicts\"\n        return 1\n    fi\n\n    local current_branch=$(git branch --show-current 2>/dev/null)\n    if [ -z \"$current_branch\" ]; then\n        echo \"$\x7bRED\x7dError:$\x7bNC\x7d Detached HEAD state\"\n        return 1\n    fi\n\n    local has_staged=false\n    local has_unstaged=false\n    local has_untracked=false\n    \n    ! git diff --cached --quiet && has_staged=true\n    ! git diff --quiet && has_unstaged=true\n    [ -n \"$(git ls-files --others --exclude-standard 2>/dev/null)\" ] && has_untracked=true\n\n    if [ \"$has_staged\" = false ] && [ \"$has_unstaged\" = false ] && [ \"$has_untracked\" = false ]; then\n        echo \"$\x7bYELLOW\x7dNothing to commit$\x7bNC\x7d - working tree clean\"\n        local unpushed=$(git log @\x7bu\x7d.. --oneline 2>/dev/null | wc -l | tr -d ' ')\n        if [ \"$unpushed\" -gt 0 ] 2>/dev/null; then\n") ++ ofStr ("            echo \"$\x7bDIM\x7dYou have $\x7bunpushed\x7d unpushed commit(s)$\x7bNC\x7d\"\n            echo -n \"$\x7bYELLOW\x7dPush existing commits? [Y/n]:$\x7bNC\x7d \"\n            read push_only\n            if [[ ! \"$push_only\" =~ ^[nN] ]]; then\n                git push origin \"$current_branch\" 2>&1 && echo \"$\x7bGREEN\x7d✓ Pushed$\x7bNC\x7d\"\n            fi\n        fi\n        return 0\n    fi\n\n    if ! git remote get-url origin > /dev/null 2>&1; then\n        echo \"$\x7bYELLOW\x7dWarning:$\x7bNC\x7d No remote 'origin' configured\"\n        local skip_push=true\n    else\n        local skip_push=false\n    fi\n\n    echo \"$\x7bBOLD\x7d$\x7bBLUE\x7d━━━━━━━━━━━━━━━━━━━━━━━━━━━━━━━━━━━━━━━━━━━━━━━━━━━$\x7bNC\x7d\"\n    echo \"$\x7bBOLD\x7d🚀 Git Push with AI Commit Message$\x7bNC\x7d\"\n    echo \"$\x7bBOLD\x7d$\x7bBLUE\x7d━━━━━━━━━━━━━━━━━━━━━━━━━━━━━━━━━━━━━━━━━━━━━━━━━━━$\x7bNC\x7d\"\n\n    local commit_message=\"\"\n    \n    if [ -n \"$user_message\" ]; then\n        echo \"\"\n        echo \"$\x7bGREEN\x7d✓$\x7bNC\x7d Using provided commit message\"\n        commit_message=\"$user_message\"\n    else\n        if ! command -v ") ++ ofStr claudeCLI.command ++ ofStr (" &> /dev/null; then\n            echo \"$\x7bRED\x7dError:$\x7bNC\x7d ") ++ ofStr claudeCLI.name ++ ofStr (" is not installed\"\n            return 1\n        fi\n\n        echo \"\"\n        echo \"$\x7bYELLOW\x7d[1/4]$\x7bNC\x7d 🔍 Analyzing git changes...\"\n    \n        local staged_diff=$(git diff --cached 2>/dev/null | head -500)\n        local unstaged_diff=$(git diff 2>/dev/null | head -500)\n        local untracked_files=$(git ls-files --others --exclude-standard 2>/dev/null | head -50)\n    \n        local prompt=\"Analyze the following git changes and generate a commit message following the Conventional Commits specification with bullet-point changelog style.\n\n## Commit Message Format:\n<type>(<scope>): <short summary>\n\n- <bullet point describing a specific change>\n- <bullet point describing another change>\n\n## Types: feat, fix, docs, style, refactor, perf, test, build, ci, chore, revert\n\n## Rules:\n1. Subject line: max 50 chars, imperative mood, no period\n2. Body uses bullet points (- ) to list specific changes\n3. Each bullet should be concise and actionable\n\n## Git Changes:\n\n### Staged Changes:\n$\x7bstaged_diff:-\\\"(none)\\\"\x7d\n\n### Unstaged Changes:\n$\x7bunstaged_diff:-\\\"(none)\\\"\x7d\n\n### Untracked Files:\n$\x7buntracked_files:-\\\"(none)\\\"\x7d\n\nOUTPUT ONLY THE COMMIT MESSAGE, nothing else.\"\n\n        echo \"$\x7bYELLOW\x7d[2/4]$\x7bNC\x7d 🤖 Generating commit message with ") ++ ofStr claudeCLI.name ++ ofStr ("...\"\n        echo \"$\x7bDIM\x7d     (this may take a few seconds...)$\x7bNC\x7d\"\n    \n        local temp_file=$(mktemp)\n        local error_file=$(mktemp)\n    \n        ") ++ ofStr (buildCLICommand claudeCLI "sonnet") ++ ofStr (" > \"$temp_file\" 2> \"$error_file\"\n        local exit_code=$?\n    \n        if [ $exit_code -ne 0 ] || [ ! -s \"$temp_file\" ]; then\n            echo \"$\x7bRED\x7dError:$\x7bNC\x7d Failed to generate commit message\"\n            cat \"$error_file\" 2>/dev/null\n            rm -f \"$temp_file\" \"$error_file\"\n            return 1\n        fi\n    \n        commit_message=$(cat \"$temp_file\")\n        rm -f \"$temp_file\" \"$error_file\"\n    \n        echo \"\"\n        echo \"$\x7bGREEN\x7dGenerated Commit Message:$\x7bNC\x7d\"\n        echo \"$commit_message\"\n    \n        if [ \"$review_mode\" = true ]; then\n            echo \"\"\n            echo -n \"$\x7bYELLOW\x7dProceed with this commit message? [Y/n/e(dit)]:$\x7bNC\x7d \"\n            read confirm\n    \n            case \"$confirm\" in\n                [nN]) echo \"$\x7bYELLOW\x7dAborted.$\x7bNC\x7d\"; return 0 ;;\n                [eE])\n                    local edit_file=$(mktemp)\n                    echo \"$commit_message\" > \"$edit_file\"\n                    $\x7bEDITOR:-vim\x7d \"$edit_file\"\n                    commit_message=$(cat \"$edit_file\")\n                    rm -f \"$edit_file\"\n                    ;;\n            esac\n        fi\n    fi\n\n    echo \"\"\n    echo \"$\x7bYELLOW\x7d[3/4]$\x7bNC\x7d 📦 Staging and committing changes...\"\n    \n    git add -A\n    \n    if git diff --cached --quiet; then\n        echo \"$\x7bYELLOW\x7dNothing to commit$\x7bNC\x7d\"\n        return 0\n    fi\n    \n    if ! git commit -m \"$commit_message\" 2>&1; then\n        echo \"$\x7bRED\x7dError:$\x7bNC\x7d Failed to commit\"\n        return 1\n    fi\n    \n    echo \"$\x7bGREEN\x7d✓$\x7bNC\x7d Changes committed\"\n\n    if [ \"$skip_push\" = true ]; then\n")) = false :=
    occursb_chain (by decide) h9 (by decide)
      (by
        intro k hk0 hkl
        rw [show List.length (ofStr ("\n\n\n")) = 3 from rfl] at hkl
        have hk : k = 1 ∨ k = 2 := by omega
        rcases hk with hk | hk <;> subst hk
        · exact Or.inl (by rw [endsIn_append_long _ (by decide)]; decide)
        · exact Or.inl (by rw [endsIn_append_long _ (by decide)]; decide))
  have h11 : occursb (ofStr ("\n\n\n")) (ofStr ("\n    local GREEN=$'\\033[0;32m'\n    local YELLOW=$'\\033[1;33m'\n    local BLUE=$'\\033[0;34m'\n    local RED=$'\\033[0;31m'\n    local NC=$'\\033[0m'\n    local BOLD=$'\\033[1m'\n    local DIM=$'\\033[2m'\n    \n    local review_mode=false\n    local user_message=\"\"\n    \n    if [[ \"$1\" == \"-r\" ]]; then\n        review_mode=true\n        shift\n        user_message=\"$*\"\n    else\n        user_message=\"$*\"\n    fi\n\n    if ! command -v git &> /dev/null; then\n        echo \"$\x7bRED\x7dError:$\x7bNC\x7d git is not installed\"\n        return 1\n    fi\n\n    if ! git rev-parse --is-inside-work-tree > /dev/null 2>&1; then\n        echo \"$\x7bRED\x7dError:$\x7bNC\x7d Not a git repository\"\n        return 1\n    fi\n\n    if git ls-files -u | grep -q .; then\n        echo \"$\x7bRED\x7dError:$\x7bNC\x7d Unresolved merge conflicts\"\n        return 1\n    fi\n\n    local current_branch=$(git branch --show-current 2>/dev/null)\n    if [ -z \"$current_branch\" ]; then\n        echo \"$\x7bRED\x7dError:$\x7bNC\x7d Detached HEAD state\"\n        return 1\n    fi\n\n    local has_staged=false\n    local has_unstaged=false\n    local has_untracked=false\n    \n    ! git diff --cached --quiet && has_staged=true\n    ! git diff --quiet && has_unstaged=true\n    [ -n \"$(git ls-files --others --exclude-standard 2>/dev/null)\" ] && has_untracked=true\n\n    if [ \"$has_staged\" = false ] && [ \"$has_unstaged\" = false ] && [ \"$has_untracked\" = false ]; then\n        echo \"$\x7bYELLOW\x7dNothing to commit$\x7bNC\x7d - working tree clean\"\n        local unpushed=$(git log @\x7bu\x7d.. --oneline 2>/dev/null | wc -l | tr -d ' ')\n        if [ \"$unpushed\" -gt 0 ] 2>/dev/null; then\n") ++ ofStr ("            echo \"$\x7bDIM\x7dYou have $\x7bunpushed\x7d unpushed commit(s)$\x7bNC\x7d\"\n            echo -n \"$\x7bYELLOW\x7dPush existing commits? [Y/n]:$\x7bNC\x7d \"\n            read push_only\n            if [[ ! \"$push_only\" =~ ^[nN] ]]; then\n                git push origin \"$current_branch\" 2>&1 && echo \"$\x7bGREEN\x7d✓ Pushed$\x7bNC\x7d\"\n            fi\n        fi\n        return 0\n    fi\n\n    if ! git remote get-url origin > /dev/null 2>&1; then\n        echo \"$\x7bYELLOW\x7dWarning:$\x7bNC\x7d No remote 'origin' configured\"\n        local skip_push=true\n    else\n        local skip_push=false\n    fi\n\n    echo \"$\x7bBOLD\x7d$\x7bBLUE\x7d━━━━━━━━━━━━━━━━━━━━━━━━━━━━━━━━━━━━━━━━━━━━━━━━━━━$\x7bNC\x7d\"\n    echo \"$\x7bBOLD\x7d🚀 Git Push with AI Commit Message$\x7bNC\x7d\"\n    echo \"$\x7bBOLD\x7d$\x7bBLUE\x7d━━━━━━━━━━━━━━━━━━━━━━━━━━━━━━━━━━━━━━━━━━━━━━━━━━━$\x7bNC\x7d\"\n\n    local commit_message=\"\"\n    \n    if [ -n \"$user_message\" ]; then\n        echo \"\"\n        echo \"$\x7bGREEN\x7d✓$\x7bNC\x7d Using provided commit message\"\n        commit_message=\"$user_message\"\n    else\n        if ! command -v ") ++ ofStr claudeCLI.command ++ ofStr (" &> /dev/null; then\n            echo \"$\x7bRED\x7dError:$\x7bNC\x7d ") ++ ofStr claudeCLI.name ++ ofStr (" is not installed\"\n            return 1\n        fi\n\n        echo \"\"\n        echo \"$\x7bYELLOW\x7d[1/4]$\x7bNC\x7d 🔍 Analyzing git changes...\"\n    \n        local staged_diff=$(git diff --cached 2>/dev/null | head -500)\n        local unstaged_diff=$(git diff 2>/dev/null | head -500)\n        local untracked_files=$(git ls-files --others --exclude-standard 2>/dev/null | head -50)\n    \n        local prompt=\"Analyze the following git changes and generate a commit message following the Conventional Commits specification with bullet-point changelog style.\n\n## Commit Message Format:\n<type>(<scope>): <short summary>\n\n- <bullet point describing a specific change>\n- <bullet point describing another change>\n\n## Types: feat, fix, docs, style, refactor, perf, test, build, ci, chore, revert\n\n## Rules:\n1. Subject line: max 50 chars, imperative mood, no period\n2. Body uses bullet points (- ) to list specific changes\n3. Each bullet should be concise and actionable\n\n## Git Changes:\n\n### Staged Changes:\n$\x7bstaged_diff:-\\\"(none)\\\"\x7d\n\n### Unstaged Changes:\n$\x7bunstaged_diff:-\\\"(none)\\\"\x7d\n\n### Untracked Files:\n$\x7buntracked_files:-\\\"(none)\\\"\x7d\n\nOUTPUT ONLY THE COMMIT MESSAGE, nothing else.\"\n\n        echo \"$\x7bYELLOW\x7d[2/4]$\x7bNC\x7d 🤖 Generating commit message with ") ++ ofStr claudeCLI.name ++ ofStr ("...\"\n        echo \"$\x7bDIM\x7d     (this may take a few seconds...)$\x7bNC\x7d\"\n    \n        local temp_file=$(mktemp)\n        local error_file=$(mktemp)\n    \n        ") ++ ofStr (buildCLICommand claudeCLI "sonnet") ++ ofStr (" > \"$temp_file\" 2> \"$error_file\"\n        local exit_code=$?\n    \n        if [ $exit_code -ne 0 ] || [ ! -s \"$temp_file\" ]; then\n            echo \"$\x7bRED\x7dError:$\x7bNC\x7d Failed to generate commit message\"\n            cat \"$error_file\" 2>/dev/null\n            rm -f \"$temp_file\" \"$error_file\"\n            return 1\n        fi\n    \n        commit_message=$(cat \"$temp_file\")\n        rm -f \"$temp_file\" \"$error_file\"\n    \n        echo \"\"\n        echo \"$\x7bGREEN\x7dGenerated Commit Message:$\x7bNC\x7d\"\n        echo \"$commit_message\"\n    \n        if [ \"$review_mode\" = true ]; then\n            echo \"\"\n            echo -n \"$\x7bYELLOW\x7dProceed with this commit message? [Y/n/e(dit)]:$\x7bNC\x7d \"\n            read confirm\n    \n            case \"$confirm\" in\n                [nN]) echo \"$\x7bYELLOW\x7dAborted.$\x7bNC\x7d\"; return 0 ;;\n                [eE])\n                    local edit_file=$(mktemp)\n                    echo \"$commit_message\" > \"$edit_file\"\n                    $\x7bEDITOR:-vim\x7d \"$edit_file\"\n                    commit_message=$(cat \"$edit_file\")\n                    rm -f \"$edit_file\"\n                    ;;\n            esac\n        fi\n    fi\n\n    echo \"\"\n    echo \"$\x7bYELLOW\x7d[3/4]$\x7bNC\x7d 📦 Staging and committing changes...\"\n    \n    git add -A\n    \n    if git diff --cached --quiet; then\n        echo \"$\x7bYELLOW\x7dNothing to commit$\x7bNC\x7d\"\n        return 0\n    fi\n    \n    if ! git commit -m \"$commit_message\" 2>&1; then\n        echo \"$\x7bRED\x7dError:$\x7bNC\x7d Failed to commit\"\n        return 1\n    fi\n    \n    echo \"$\x7bGREEN\x7d✓$\x7bNC\x7d Changes committed\"\n\n    if [ \"$skip_push\" = true ]; then\n") ++ ofStr ("        echo \"$\x7bYELLOW\x7dSkipping push$\x7bNC\x7d - no remote\"\n        echo \"$\x7bBOLD\x7d$\x7bGREEN\x7d✨ Done!$\x7bNC\x7d\"\n        return 0\n    fi\n\n    echo \"\"\n    echo \"$\x7bYELLOW\x7d[4/4]$\x7bNC\x7d 🚀 Pushing to remote...\"\n    \n    local push_output\n    push_output=$(git push origin \"$current_branch\" 2>&1)\n    local push_exit=$?\n    \n    if [ $push_exit -eq 0 ]; then\n        echo \"$\x7bGREEN\x7d✓ Pushed to origin/$current_branch$\x7bNC\x7d\"\n        local mr_url=$(echo \"$push_output\" | grep -oE 'https?://[^ ]+' | grep -iE '(merge|pull)' | head -1)\n        if [ -n \"$mr_url\" ]; then\n            echo \"\"\n            echo \"$\x7bBLUE\x7d📎 Create Merge Request:$\x7bNC\x7d\"\n            echo \"   $\x7bBOLD\x7d$mr_url$\x7bNC\x7d\"\n        fi\n    else\n        if echo \"$push_output\" | grep -q \"no upstream\"; then\n            git push --set-upstream origin \"$current_branch\" 2>&1 && echo \"$\x7bGREEN\x7d✓ Pushed$\x7bNC\x7d\"\n        else\n            echo \"$\x7bRED\x7dError:$\x7bNC\x7d Push failed\"\n            echo \"$\x7bDIM\x7d$push_output$\x7bNC\x7d\"\n            return 1\n        fi\n    fi\n\n    echo \"\"\n    echo \"$\x7bBOLD\x7d$\x7bGREEN\x7d━━━━━━━━━━━━━━━━━━━━━━━━━━━━━━━━━━━━━━━━━━━━━━━━━━━$\x7bNC\x7d\"\n    echo \"$\x7bBOLD\x7d$\x7bGREEN\x7d✨ Done!$\x7bNC\x7d\"\n    echo \"$\x7bBOLD\x7d$\x7bGREEN\x7d━━━━━━━━━━━━━━━━━━━━━━━━━━━━━━━━━━━━━━━━━━━━━━━━━━━$\x7bNC\x7d\"")) = false :=
    occursb_chain (by decide) h10 (by decide)
      (by
        intro k hk0 hkl
        rw [show List.length (ofStr ("\n\n\n")) = 3 from rfl] at hkl
        have hk : k = 1 ∨ k = 2 := by omega
        rcases hk with hk | hk <;> subst hk
        · exact Or.inr (by decide)
        · exact Or.inl (by rw [endsIn_append_long _ (by decide)]; decide))
  exact h11

set_option maxRecDepth 400000 in
theorem ends_g_bodyGp : endsIn (ofStr ("g")) bodyGp = false := by
  unfold bodyGp gpBody
  rw [endsIn_append_long _ (by decide)]
  decide

set_option maxRecDepth 400000 in
theorem ends_nl_bodyGp : endsIn (ofStr ("\n")) bodyGp = false := by
  unfold bodyGp gpBody
  rw [endsIn_append_long _ (by decide)]
  decide

set_option maxRecDepth 400000 in
theorem ends_nl2_bodyGp : endsIn (ofStr ("\n\n")) bodyGp = false := by
  unfold bodyGp gpBody
  rw [endsIn_append_long _ (by decide)]
  decide

set_option maxRecDepth 400000 in
theorem occ_gp_bodyGc : occursb (ofStr ("gp")) bodyGc = false := by
  unfold bodyGc gcBody
  have h1 : occursb (ofStr ("gp")) (ofStr ("\n    local GREEN=$'\\033[0;32m'\n    local YELLOW=$'\\033[1;33m'\n    local BLUE=$'\\033[0;34m'\n    local RED=$'\\033[0;31m'\n    local NC=$'\\033[0m'\n    local BOLD=$'\\033[1m'\n    local DIM=$'\\033[2m'\n    \n    local review_mode=false\n    local user_message=\"\"\n    \n    if [[ \"$1\" == \"-r\" ]]; then\n        review_mode=true\n        shift\n        user_message=\"$*\"\n    else\n        user_message=\"$*\"\n    fi\n\n    if ! command -v git &> /dev/null; then\n        echo \"$\x7bRED\x7dError:$\x7bNC\x7d git is not installed\"\n        return 1\n    fi\n\n    if ! git rev-parse --is-inside-work-tree > /dev/null 2>&1; then\n        echo \"$\x7bRED\x7dError:$\x7bNC\x7d Not a git repository\"\n        return 1\n    fi\n\n    if git diff --cached --quiet; then\n        echo \"$\x7bYELLOW\x7dNothing to commit$\x7bNC\x7d - no staged changes\"\n        echo \"$\x7bDIM\x7dStage changes first: git add <files>$\x7bNC\x7d\"\n        return 0\n    fi\n\n    echo \"$\x7bBOLD\x7d$\x7bBLUE\x7d━━━━━━━━━━━━━━━━━━━━━━━━━━━━━━━━━━━━━━━━━━━━━━━━━━━$\x7bNC\x7d\"\n    echo \"$\x7bBOLD\x7d📝 Git Commit with AI Message$\x7bNC\x7d\"\n    echo \"$\x7bBOLD\x7d$\x7bBLUE\x7d━━━━━━━━━━━━━━━━━━━━━━━━━━━━━━━━━━━━━━━━━━━━━━━━━━━$\x7bNC\x7d\"\n\n    local commit_message=\"\"\n    \n    if [ -n \"$user_message\" ]; then\n        echo \"\"\n        echo \"$\x7bGREEN\x7d✓$\x7bNC\x7d Using provided commit message\"\n        commit_message=\"$user_message\"\n    else\n        if ! command -v ")) = false := by decide
  have h2 : occursb (ofStr ("gp")) (ofStr ("\n    local GREEN=$'\\033[0;32m'\n    local YELLOW=$'\\033[1;33m'\n    local BLUE=$'\\033[0;34m'\n    local RED=$'\\033[0;31m'\n    local NC=$'\\033[0m'\n    local BOLD=$'\\033[1m'\n    local DIM=$'\\033[2m'\n    \n    local review_mode=false\n    local user_message=\"\"\n    \n    if [[ \"$1\" == \"-r\" ]]; then\n        review_mode=true\n        shift\n        user_message=\"$*\"\n    else\n        user_message=\"$*\"\n    fi\n\n    if ! command -v git &> /dev/null; then\n        echo \"$\x7bRED\x7dError:$\x7bNC\x7d git is not installed\"\n        return 1\n    fi\n\n    if ! git rev-parse --is-inside-work-tree > /dev/null 2>&1; then\n        echo \"$\x7bRED\x7dError:$\x7bNC\x7d Not a git repository\"\n        return 1\n    fi\n\n    if git diff --cached --quiet; then\n        echo \"$\x7bYELLOW\x7dNothing to commit$\x7bNC\x7d - no staged changes\"\n        echo \"$\x7bDIM\x7dStage changes first: git add <files>$\x7bNC\x7d\"\n        return 0\n    fi\n\n    echo \"$\x7bBOLD\x7d$\x7bBLUE\x7d━━━━━━━━━━━━━━━━━━━━━━━━━━━━━━━━━━━━━━━━━━━━━━━━━━━$\x7bNC\x7d\"\n    echo \"$\x7bBOLD\x7d📝 Git Commit with AI Message$\x7bNC\x7d\"\n    echo \"$\x7bBOLD\x7d$\x7bBLUE\x7d━━━━━━━━━━━━━━━━━━━━━━━━━━━━━━━━━━━━━━━━━━━━━━━━━━━$\x7bNC\x7d\"\n\n    local commit_message=\"\"\n    \n    if [ -n \"$user_message\" ]; then\n        echo \"\"\n        echo \"$\x7bGREEN\x7d✓$\x7bNC\x7d Using provided commit message\"\n        commit_message=\"$user_message\"\n    else\n        if ! command -v ") ++ ofStr claudeCLI.command) = false :=
    occursb_chain (by decide) h1 (by decide)
      (by
        intro k hk0 hkl
        rw [show List.length (ofStr ("gp")) = 2 from rfl] at hkl
        have hk : k = 1 := by omega
        subst hk
        exact Or.inl (by decide))
  have h3 : occursb (ofStr ("gp")) (ofStr ("\n    local GREEN=$'\\033[0;32m'\n    local YELLOW=$'\\033[1;33m'\n    local BLUE=$'\\033[0;34m'\n    local RED=$'\\033[0;31m'\n    local NC=$'\\033[0m'\n    local BOLD=$'\\033[1m'\n    local DIM=$'\\033[2m'\n    \n    local review_mode=false\n    local user_message=\"\"\n    \n    if [[ \"$1\" == \"-r\" ]]; then\n        review_mode=true\n        shift\n        user_message=\"$*\"\n    else\n        user_message=\"$*\"\n    fi\n\n    if ! command -v git &> /dev/null; then\n        echo \"$\x7bRED\x7dError:$\x7bNC\x7d git is not installed\"\n        return 1\n    fi\n\n    if ! git rev-parse --is-inside-work-tree > /dev/null 2>&1; then\n        echo \"$\x7bRED\x7dError:$\x7bNC\x7d Not a git repository\"\n        return 1\n    fi\n\n    if git diff --cached --quiet; then\n        echo \"$\x7bYELLOW\x7dNothing to commit$\x7bNC\x7d - no staged changes\"\n        echo \"$\x7bDIM\x7dStage changes first: git add <files>$\x7bNC\x7d\"\n        return 0\n    fi\n\n    echo \"$\x7bBOLD\x7d$\x7bBLUE\x7d━━━━━━━━━━━━━━━━━━━━━━━━━━━━━━━━━━━━━━━━━━━━━━━━━━━$\x7bNC\x7d\"\n    echo \"$\x7bBOLD\x7d📝 Git Commit with AI Message$\x7bNC\x7d\"\n    echo \"$\x7bBOLD\x7d$\x7bBLUE\x7d━━━━━━━━━━━━━━━━━━━━━━━━━━━━━━━━━━━━━━━━━━━━━━━━━━━$\x7bNC\x7d\"\n\n    local commit_message=\"\"\n    \n    if [ -n \"$user_message\" ]; then\n        echo \"\"\n        echo \"$\x7bGREEN\x7d✓$\x7bNC\x7d Using provided commit message\"\n        commit_message=\"$user_message\"\n    else\n        if ! command -v ") ++ ofStr claudeCLI.command ++ ofStr (" &> /dev/null; then\n            echo \"$\x7bRED\x7dError:$\x7bNC\x7d ")) = false :=
    occursb_chain (by decide) h2 (by decide)
      (by
        intro k hk0 hkl
        rw [show List.length (ofStr ("gp")) = 2 from rfl] at hkl
        have hk : k = 1 := by omega
        subst hk
        exact Or.inl (by rw [endsIn_append_long _ (by decide)]; decide))
  have h4 : occursb (ofStr ("gp")) (ofStr ("\n    local GREEN=$'\\033[0;32m'\n    local YELLOW=$'\\033[1;33m'\n    local BLUE=$'\\033[0;34m'\n    local RED=$'\\033[0;31m'\n    local NC=$'\\033[0m'\n    local BOLD=$'\\033[1m'\n    local DIM=$'\\033[2m'\n    \n    local review_mode=false\n    local user_message=\"\"\n    \n    if [[ \"$1\" == \"-r\" ]]; then\n        review_mode=true\n        shift\n        user_message=\"$*\"\n    else\n        user_message=\"$*\"\n    fi\n\n    if ! command -v git &> /dev/null; then\n        echo \"$\x7bRED\x7dError:$\x7bNC\x7d git is not installed\"\n        return 1\n    fi\n\n    if ! git rev-parse --is-inside-work-tree > /dev/null 2>&1; then\n        echo \"$\x7bRED\x7dError:$\x7bNC\x7d Not a git repository\"\n        return 1\n    fi\n\n    if git diff --cached --quiet; then\n        echo \"$\x7bYELLOW\x7dNothing to commit$\x7bNC\x7d - no staged changes\"\n        echo \"$\x7bDIM\x7dStage changes first: git add <files>$\x7bNC\x7d\"\n        return 0\n    fi\n\n    echo \"$\x7bBOLD\x7d$\x7bBLUE\x7d━━━━━━━━━━━━━━━━━━━━━━━━━━━━━━━━━━━━━━━━━━━━━━━━━━━$\x7bNC\x7d\"\n    echo \"$\x7bBOLD\x7d📝 Git Commit with AI Message$\x7bNC\x7d\"\n    echo \"$\x7bBOLD\x7d$\x7bBLUE\x7d━━━━━━━━━━━━━━━━━━━━━━━━━━━━━━━━━━━━━━━━━━━━━━━━━━━$\x7bNC\x7d\"\n\n    local commit_message=\"\"\n    \n    if [ -n \"$user_message\" ]; then\n        echo \"\"\n        echo \"$\x7bGREEN\x7d✓$\x7bNC\x7d Using provided commit message\"\n        commit_message=\"$user_message\"\n    else\n        if ! command -v ") ++ ofStr claudeCLI.command ++ ofStr (" &> /dev/null; then\n            echo \"$\x7bRED\x7dError:$\x7bNC\x7d ") ++ ofStr claudeCLI.name) = false :=
    occursb_chain (by decide) h3 (by decide)
      (by
        intro k hk0 hkl
        rw [show List.length (ofStr ("gp")) = 2 from rfl] at hkl
        have hk : k = 1 := by omega
        subst hk
        exact Or.inl (by rw [endsIn_append_long _ (by decide)]; decide))
  have h5 : occursb (ofStr ("gp")) (ofStr ("\n    local GREEN=$'\\033[0;32m'\n    local YELLOW=$'\\033[1;33m'\n    local BLUE=$'\\033[0;34m'\n    local RED=$'\\033[0;31m'\n    local NC=$'\\033[0m'\n    local BOLD=$'\\033[1m'\n    local DIM=$'\\033[2m'\n    \n    local review_mode=false\n    local user_message=\"\"\n    \n    if [[ \"$1\" == \"-r\" ]]; then\n        review_mode=true\n        shift\n        user_message=\"$*\"\n    else\n        user_message=\"$*\"\n    fi\n\n    if ! command -v git &> /dev/null; then\n        echo \"$\x7bRED\x7dError:$\x7bNC\x7d git is not installed\"\n        return 1\n    fi\n\n    if ! git rev-parse --is-inside-work-tree > /dev/null 2>&1; then\n        echo \"$\x7bRED\x7dError:$\x7bNC\x7d Not a git repository\"\n        return 1\n    fi\n\n    if git diff --cached --quiet; then\n        echo \"$\x7bYELLOW\x7dNothing to commit$\x7bNC\x7d - no staged changes\"\n        echo \"$\x7bDIM\x7dStage changes first: git add <files>$\x7bNC\x7d\"\n        return 0\n    fi\n\n    echo \"$\x7bBOLD\x7d$\x7bBLUE\x7d━━━━━━━━━━━━━━━━━━━━━━━━━━━━━━━━━━━━━━━━━━━━━━━━━━━$\x7bNC\x7d\"\n    echo \"$\x7bBOLD\x7d📝 Git Commit with AI Message$\x7bNC\x7d\"\n    echo \"$\x7bBOLD\x7d$\x7bBLUE\x7d━━━━━━━━━━━━━━━━━━━━━━━━━━━━━━━━━━━━━━━━━━━━━━━━━━━$\x7bNC\x7d\"\n\n    local commit_message=\"\"\n    \n    if [ -n \"$user_message\" ]; then\n        echo \"\"\n        echo \"$\x7bGREEN\x7d✓$\x7bNC\x7d Using provided commit message\"\n        commit_message=\"$user_message\"\n    else\n        if ! command -v ") ++ ofStr claudeCLI.command ++ ofStr (" &> /dev/null; then\n            echo \"$\x7bRED\x7dError:$\x7bNC\x7d ") ++ ofStr claudeCLI.name ++ ofStr (" is not installed\"\n            return 1\n        fi\n\n        echo \"\"\n        echo \"$\x7bYELLOW\x7d[1/2]$\x7bNC\x7d 🔍 Analyzing staged changes...\"\n    \n        local staged_diff=$(git diff --cached 2>/dev/null | head -500)\n    \n        local prompt=\"Analyze the following staged git changes and generate a commit message following the Conventional Commits specification with bullet-point changelog style.\n\n## Commit Message Format:\n<type>(<scope>): <short summary>\n\n- <bullet point describing a specific change>\n- <bullet point describing another change>\n\n## Types: feat, fix, docs, style, refactor, perf, test, build, ci, chore, revert\n\n## Rules:\n1. Subject line: max 50 chars, imperative mood, no period\n2. Body uses bullet points (- ) to list specific changes\n3. Each bullet should be concise and actionable\n\n## Staged Changes:\n$\x7bstaged_diff\x7d\n\nOUTPUT ONLY THE COMMIT MESSAGE, nothing else.\"\n\n        echo \"$\x7bYELLOW\x7d[2/2]$\x7bNC\x7d 🤖 Generating commit message with ")) = false :=
    occursb_chain (by decide) h4 (by decide)
      (by
        intro k hk0 hkl
        rw [show List.length (ofStr ("gp")) = 2 from rfl] at hkl
        have hk : k = 1 := by omega
        subst hk
        exact Or.inl (by rw [endsIn_append_long _ (by decide)]; decide))
  have h6 : occursb (ofStr ("gp")) (ofStr ("\n    local GREEN=$'\\033[0;32m'\n    local YELLOW=$'\\033[1;33m'\n    local BLUE=$'\\033[0;34m'\n    local RED=$'\\033[0;31m'\n    local NC=$'\\033[0m'\n    local BOLD=$'\\033[1m'\n    local DIM=$'\\033[2m'\n    \n    local review_mode=false\n    local user_message=\"\"\n    \n    if [[ \"$1\" == \"-r\" ]]; then\n        review_mode=true\n        shift\n        user_message=\"$*\"\n    else\n        user_message=\"$*\"\n    fi\n\n    if ! command -v git &> /dev/null; then\n        echo \"$\x7bRED\x7dError:$\x7bNC\x7d git is not installed\"\n        return 1\n    fi\n\n    if ! git rev-parse --is-inside-work-tree > /dev/null 2>&1; then\n        echo \"$\x7bRED\x7dError:$\x7bNC\x7d Not a git repository\"\n        return 1\n    fi\n\n    if git diff --cached --quiet; then\n        echo \"$\x7bYELLOW\x7dNothing to commit$\x7bNC\x7d - no staged changes\"\n        echo \"$\x7bDIM\x7dStage changes first: git add <files>$\x7bNC\x7d\"\n        return 0\n    fi\n\n    echo \"$\x7bBOLD\x7d$\x7bBLUE\x7d━━━━━━━━━━━━━━━━━━━━━━━━━━━━━━━━━━━━━━━━━━━━━━━━━━━$\x7bNC\x7d\"\n    echo \"$\x7bBOLD\x7d📝 Git Commit with AI Message$\x7bNC\x7d\"\n    echo \"$\x7bBOLD\x7d$\x7bBLUE\x7d━━━━━━━━━━━━━━━━━━━━━━━━━━━━━━━━━━━━━━━━━━━━━━━━━━━$\x7bNC\x7d\"\n\n    local commit_message=\"\"\n    \n    if [ -n \"$user_message\" ]; then\n        echo \"\"\n        echo \"$\x7bGREEN\x7d✓$\x7bNC\x7d Using provided commit message\"\n        commit_message=\"$user_message\"\n    else\n        if ! command -v ") ++ ofStr claudeCLI.command ++ ofStr (" &> /dev/null; then\n            echo \"$\x7bRED\x7dError:$\x7bNC\x7d ") ++ ofStr claudeCLI.name ++ ofStr (" is not installed\"\n            return 1\n        fi\n\n        echo \"\"\n        echo \"$\x7bYELLOW\x7d[1/2]$\x7bNC\x7d 🔍 Analyzing staged changes...\"\n    \n        local staged_diff=$(git diff --cached 2>/dev/null | head -500)\n    \n        local prompt=\"Analyze the following staged git changes and generate a commit message following the Conventional Commits specification with bullet-point changelog style.\n\n## Commit Message Format:\n<type>(<scope>): <short summary>\n\n- <bullet point describing a specific change>\n- <bullet point describing another change>\n\n## Types: feat, fix, docs, style, refactor, perf, test, build, ci, chore, revert\n\n## Rules:\n1. Subject line: max 50 chars, imperative mood, no period\n2. Body uses bullet points (- ) to list specific changes\n3. Each bullet should be concise and actionable\n\n## Staged Changes:\n$\x7bstaged_diff\x7d\n\nOUTPUT ONLY THE COMMIT MESSAGE, nothing else.\"\n\n        echo \"$\x7bYELLOW\x7d[2/2]$\x7bNC\x7d 🤖 Generating commit message with ") ++ ofStr claudeCLI.name) = false :=
    occursb_chain (by decide) h5 (by decide)
      (by
        intro k hk0 hkl
        rw [show List.length (ofStr ("gp")) = 2 from rfl] at hkl
        have hk : k = 1 := by omega
        subst hk
        exact Or.inl (by rw [endsIn_append_long _ (by decide)]; decide))
  have h7 : occursb (ofStr ("gp")) (ofStr ("\n    local GREEN=$'\\033[0;32m'\n    local YELLOW=$'\\033[1;33m'\n    local BLUE=$'\\033[0;34m'\n    local RED=$'\\033[0;31m'\n    local NC=$'\\033[0m'\n    local BOLD=$'\\033[1m'\n    local DIM=$'\\033[2m'\n    \n    local review_mode=false\n    local user_message=\"\"\n    \n    if [[ \"$1\" == \"-r\" ]]; then\n        review_mode=true\n        shift\n        user_message=\"$*\"\n    else\n        user_message=\"$*\"\n    fi\n\n    if ! command -v git &> /dev/null; then\n        echo \"$\x7bRED\x7dError:$\x7bNC\x7d git is not installed\"\n        return 1\n    fi\n\n    if ! git rev-parse --is-inside-work-tree > /dev/null 2>&1; then\n        echo \"$\x7bRED\x7dError:$\x7bNC\x7d Not a git repository\"\n        return 1\n    fi\n\n    if git diff --cached --quiet; then\n        echo \"$\x7bYELLOW\x7dNothing to commit$\x7bNC\x7d - no staged changes\"\n        echo \"$\x7bDIM\x7dStage changes first: git add <files>$\x7bNC\x7d\"\n        return 0\n    fi\n\n    echo \"$\x7bBOLD\x7d$\x7bBLUE\x7d━━━━━━━━━━━━━━━━━━━━━━━━━━━━━━━━━━━━━━━━━━━━━━━━━━━$\x7bNC\x7d\"\n    echo \"$\x7bBOLD\x7d📝 Git Commit with AI Message$\x7bNC\x7d\"\n    echo \"$\x7bBOLD\x7d$\x7bBLUE\x7d━━━━━━━━━━━━━━━━━━━━━━━━━━━━━━━━━━━━━━━━━━━━━━━━━━━$\x7bNC\x7d\"\n\n    local commit_message=\"\"\n    \n    if [ -n \"$user_message\" ]; then\n        echo \"\"\n        echo \"$\x7bGREEN\x7d✓$\x7bNC\x7d Using provided commit message\"\n        commit_message=\"$user_message\"\n    else\n        if ! command -v ") ++ ofStr claudeCLI.command ++ ofStr (" &> /dev/null; then\n            echo \"$\x7bRED\x7dError:$\x7bNC\x7d ") ++ ofStr claudeCLI.name ++ ofStr (" is not installed\"\n            return 1\n        fi\n\n        echo \"\"\n        echo \"$\x7bYELLOW\x7d[1/2]$\x7bNC\x7d 🔍 Analyzing staged changes...\"\n    \n        local staged_diff=$(git diff --cached 2>/dev/null | head -500)\n    \n        local prompt=\"Analyze the following staged git changes and generate a commit message following the Conventional Commits specification with bullet-point changelog style.\n\n## Commit Message Format:\n<type>(<scope>): <short summary>\n\n- <bullet point describing a specific change>\n- <bullet point describing another change>\n\n## Types: feat, fix, docs, style, refactor, perf, test, build, ci, chore, revert\n\n## Rules:\n1. Subject line: max 50 chars, imperative mood, no period\n2. Body uses bullet points (- ) to list specific changes\n3. Each bullet should be concise and actionable\n\n## Staged Changes:\n$\x7bstaged_diff\x7d\n\nOUTPUT ONLY THE COMMIT MESSAGE, nothing else.\"\n\n        echo \"$\x7bYELLOW\x7d[2/2]$\x7bNC\x7d 🤖 Generating commit message with ") ++ ofStr claudeCLI.name ++ ofStr ("...\"\n        echo \"$\x7bDIM\x7d     (this may take a few seconds...)$\x7bNC\x7d\"\n    \n        local temp_file=$(mktemp)\n        local error_file=$(mktemp)\n    \n        ")) = false :=
    occursb_chain (by decide) h6 (by decide)
      (by
        intro k hk0 hkl
        rw [show List.length (ofStr ("gp")) = 2 from rfl] at hkl
        have hk : k = 1 := by omega
        subst hk
        exact Or.inl (by rw [endsIn_append_long _ (by decide)]; decide))
  have h8 : occursb (ofStr ("gp")) (ofStr ("\n    local GREEN=$'\\033[0;32m'\n    local YELLOW=$'\\033[1;33m'\n    local BLUE=$'\\033[0;34m'\n    local RED=$'\\033[0;31m'\n    local NC=$'\\033[0m'\n    local BOLD=$'\\033[1m'\n    local DIM=$'\\033[2m'\n    \n    local review_mode=false\n    local user_message=\"\"\n    \n    if [[ \"$1\" == \"-r\" ]]; then\n        review_mode=true\n        shift\n        user_message=\"$*\"\n    else\n        user_message=\"$*\"\n    fi\n\n    if ! command -v git &> /dev/null; then\n        echo \"$\x7bRED\x7dError:$\x7bNC\x7d git is not installed\"\n        return 1\n    fi\n\n    if ! git rev-parse --is-inside-work-tree > /dev/null 2>&1; then\n        echo \"$\x7bRED\x7dError:$\x7bNC\x7d Not a git repository\"\n        return 1\n    fi\n\n    if git diff --cached --quiet; then\n        echo \"$\x7bYELLOW\x7dNothing to commit$\x7bNC\x7d - no staged changes\"\n        echo \"$\x7bDIM\x7dStage changes first: git add <files>$\x7bNC\x7d\"\n        return 0\n    fi\n\n    echo \"$\x7bBOLD\x7d$\x7bBLUE\x7d━━━━━━━━━━━━━━━━━━━━━━━━━━━━━━━━━━━━━━━━━━━━━━━━━━━$\x7bNC\x7d\"\n    echo \"$\x7bBOLD\x7d📝 Git Commit with AI Message$\x7bNC\x7d\"\n    echo \"$\x7bBOLD\x7d$\x7bBLUE\x7d━━━━━━━━━━━━━━━━━━━━━━━━━━━━━━━━━━━━━━━━━━━━━━━━━━━$\x7bNC\x7d\"\n\n    local commit_message=\"\"\n    \n    if [ -n \"$user_message\" ]; then\n        echo \"\"\n        echo \"$\x7bGREEN\x7d✓$\x7bNC\x7d Using provided commit message\"\n        commit_message=\"$user_message\"\n    else\n        if ! command -v ") ++ ofStr claudeCLI.command ++ ofStr (" &> /dev/null; then\n            echo \"$\x7bRED\x7dError:$\x7bNC\x7d ") ++ ofStr claudeCLI.name ++ ofStr (" is not installed\"\n            return 1\n        fi\n\n        echo \"\"\n        echo \"$\x7bYELLOW\x7d[1/2]$\x7bNC\x7d 🔍 Analyzing staged changes...\"\n    \n        local staged_diff=$(git diff --cached 2>/dev/null | head -500)\n    \n        local prompt=\"Analyze the following staged git changes and generate a commit message following the Conventional Commits specification with bullet-point changelog style.\n\n## Commit Message Format:\n<type>(<scope>): <short summary>\n\n- <bullet point describing a specific change>\n- <bullet point describing another change>\n\n## Types: feat, fix, docs, style, refactor, perf, test, build, ci, chore, revert\n\n## Rules:\n1. Subject line: max 50 chars, imperative mood, no period\n2. Body uses bullet points (- ) to list specific changes\n3. Each bullet should be concise and actionable\n\n## Staged Changes:\n$\x7bstaged_diff\x7d\n\nOUTPUT ONLY THE COMMIT MESSAGE, nothing else.\"\n\n        echo \"$\x7bYELLOW\x7d[2/2]$\x7bNC\x7d 🤖 Generating commit message with ") ++ ofStr claudeCLI.name ++ ofStr ("...\"\n        echo \"$\x7bDIM\x7d     (this may take a few seconds...)$\x7bNC\x7d\"\n    \n        local temp_file=$(mktemp)\n        local error_file=$(mktemp)\n    \n        ") ++ ofStr (buildCLICommand claudeCLI "sonnet")) = false :=
    occursb_chain (by decide) h7 (by decide)
      (by
        intro k hk0 hkl
        rw [show List.length (ofStr ("gp")) = 2 from rfl] at hkl
        have hk : k = 1 := by omega
        subst hk
        exact Or.inl (by rw [endsIn_append_long _ (by decide)]; decide))
  have h9 : occursb (ofStr ("gp")) (ofStr ("\n    local GREEN=$'\\033[0;32m'\n    local YELLOW=$'\\033[1;33m'\n    local BLUE=$'\\033[0;34m'\n    local RED=$'\\033[0;31m'\n    local NC=$'\\033[0m'\n    local BOLD=$'\\033[1m'\n    local DIM=$'\\033[2m'\n    \n    local review_mode=false\n    local user_message=\"\"\n    \n    if [[ \"$1\" == \"-r\" ]]; then\n        review_mode=true\n        shift\n        user_message=\"$*\"\n    else\n        user_message=\"$*\"\n    fi\n\n    if ! command -v git &> /dev/null; then\n        echo \"$\x7bRED\x7dError:$\x7bNC\x7d git is not installed\"\n        return 1\n    fi\n\n    if ! git rev-parse --is-inside-work-tree > /dev/null 2>&1; then\n        echo \"$\x7bRED\x7dError:$\x7bNC\x7d Not a git repository\"\n        return 1\n    fi\n\n    if git diff --cached --quiet; then\n        echo \"$\x7bYELLOW\x7dNothing to commit$\x7bNC\x7d - no staged changes\"\n        echo \"$\x7bDIM\x7dStage changes first: git add <files>$\x7bNC\x7d\"\n        return 0\n    fi\n\n    echo \"$\x7bBOLD\x7d$\x7bBLUE\x7d━━━━━━━━━━━━━━━━━━━━━━━━━━━━━━━━━━━━━━━━━━━━━━━━━━━$\x7bNC\x7d\"\n    echo \"$\x7bBOLD\x7d📝 Git Commit with AI Message$\x7bNC\x7d\"\n    echo \"$\x7bBOLD\x7d$\x7bBLUE\x7d━━━━━━━━━━━━━━━━━━━━━━━━━━━━━━━━━━━━━━━━━━━━━━━━━━━$\x7bNC\x7d\"\n\n    local commit_message=\"\"\n    \n    if [ -n \"$user_message\" ]; then\n        echo \"\"\n        echo \"$\x7bGREEN\x7d✓$\x7bNC\x7d Using provided commit message\"\n        commit_message=\"$user_message\"\n    else\n        if ! command -v ") ++ ofStr claudeCLI.command ++ ofStr (" &> /dev/null; then\n            echo \"$\x7bRED\x7dError:$\x7bNC\x7d ") ++ ofStr claudeCLI.name ++ ofStr (" is not installed\"\n            return 1\n        fi\n\n        echo \"\"\n        echo \"$\x7bYELLOW\x7d[1/2]$\x7bNC\x7d 🔍 Analyzing staged changes...\"\n    \n        local staged_diff=$(git diff --cached 2>/dev/null | head -500)\n    \n        local prompt=\"Analyze the following staged git changes and generate a commit message following the Conventional Commits specification with bullet-point changelog style.\n\n## Commit Message Format:\n<type>(<scope>): <short summary>\n\n- <bullet point describing a specific change>\n- <bullet point describing another change>\n\n## Types: feat, fix, docs, style, refactor, perf, test, build, ci, chore, revert\n\n## Rules:\n1. Subject line: max 50 chars, imperative mood, no period\n2. Body uses bullet points (- ) to list specific changes\n3. Each bullet should be concise and actionable\n\n## Staged Changes:\n$\x7bstaged_diff\x7d\n\nOUTPUT ONLY THE COMMIT MESSAGE, nothing else.\"\n\n        echo \"$\x7bYELLOW\x7d[2/2]$\x7bNC\x7d 🤖 Generating commit message with ") ++ ofStr claudeCLI.name ++ ofStr ("...\"\n        echo \"$\x7bDIM\x7d     (this may take a few seconds...)$\x7bNC\x7d\"\n    \n        local temp_file=$(mktemp)\n        local error_file=$(mktemp)\n    \n        ") ++ ofStr (buildCLICommand claudeCLI "sonnet") ++ ofStr (" > \"$temp_file\" 2> \"$error_file\"\n        local exit_code=$?\n    \n        if [ $exit_code -ne 0 ] || [ ! -s \"$temp_file\" ]; then\n            echo \"$\x7bRED\x7dError:$\x7bNC\x7d Failed to generate commit message\"\n            cat \"$error_file\" 2>/dev/null\n            rm -f \"$temp_file\" \"$error_file\"\n            return 1\n        fi\n    \n        commit_message=$(cat \"$temp_file\")\n        rm -f \"$temp_file\" \"$error_file\"\n    \n        echo \"\"\n        echo \"$\x7bGREEN\x7dGenerated Commit Message:$\x7bNC\x7d\"\n        echo \"$commit_message\"\n    \n        if [ \"$review_mode\" = true ]; then\n            echo \"\"\n            echo -n \"$\x7bYELLOW\x7dProceed with this commit message? [Y/n/e(dit)]:$\x7bNC\x7d \"\n            read confirm\n    \n            case \"$confirm\" in\n                [nN]) echo \"$\x7bYELLOW\x7dAborted.$\x7bNC\x7d\"; return 0 ;;\n                [eE])\n                    local edit_file=$(mktemp)\n                    echo \"$commit_message\" > \"$edit_file\"\n                    $\x7bEDITOR:-vim\x7d \"$edit_file\"\n                    commit_message=$(cat \"$edit_file\")\n                    rm -f \"$edit_file\"\n                    ;;\n            esac\n        fi\n    fi\n\n    echo \"\"\n    echo \"$\x7bYELLOW\x7d📦 Committing...$\x7bNC\x7d\"\n    \n    if ! git commit -m \"$commit_message\" 2>&1; then\n        echo \"$\x7bRED\x7dError:$\x7bNC\x7d Failed to commit\"\n        return 1\n    fi\n\n    echo \"\"\n    echo \"$\x7bBOLD\x7d$\x7bGREEN\x7d━━━━━━━━━━━━━━━━━━━━━━━━━━━━━━━━━━━━━━━━━━━━━━━━━━━$\x7bNC\x7d\"\n    echo \"$\x7bBOLD\x7d$\x7bGREEN\x7d✨ Done!$\x7bNC\x7d\"\n    echo \"$\x7bBOLD\x7d$\x7bGREEN\x7d━━━━━━━━━━━━━━━━━━━━━━━━━━━━━━━━━━━━━━━━━━━━━━━━━━━$\x7bNC\x7d\"")) = false :=
    occursb_chain (by decide) h8 (by decide)
      (by
        intro k hk0 hkl
        rw [show List.length (ofStr ("gp")) = 2 from rfl] at hkl
        have hk : k = 1 := by omega
        subst hk
        exact Or.inl (by rw [endsIn_append_long _ (by decide)]; decide))
  exact h9

set_option maxRecDepth 400000 in
theorem occ_gc_bodyGc : occursb (ofStr ("gc")) bodyGc = false := by
  unfold bodyGc gcBody
  have h1 : occursb (ofStr ("gc")) (ofStr ("\n    local GREEN=$'\\033[0;32m'\n    local YELLOW=$'\\033[1;33m'\n    local BLUE=$'\\033[0;34m'\n    local RED=$'\\033[0;31m'\n    local NC=$'\\033[0m'\n    local BOLD=$'\\033[1m'\n    local DIM=$'\\033[2m'\n    \n    local review_mode=false\n    local user_message=\"\"\n    \n    if [[ \"$1\" == \"-r\" ]]; then\n        review_mode=true\n        shift\n        user_message=\"$*\"\n    else\n        user_message=\"$*\"\n    fi\n\n    if ! command -v git &> /dev/null; then\n        echo \"$\x7bRED\x7dError:$\x7bNC\x7d git is not installed\"\n        return 1\n    fi\n\n    if ! git rev-parse --is-inside-work-tree > /dev/null 2>&1; then\n        echo \"$\x7bRED\x7dError:$\x7bNC\x7d Not a git repository\"\n        return 1\n    fi\n\n    if git diff --cached --quiet; then\n        echo \"$\x7bYELLOW\x7dNothing to commit$\x7bNC\x7d - no staged changes\"\n        echo \"$\x7bDIM\x7dStage changes first: git add <files>$\x7bNC\x7d\"\n        return 0\n    fi\n\n    echo \"$\x7bBOLD\x7d$\x7bBLUE\x7d━━━━━━━━━━━━━━━━━━━━━━━━━━━━━━━━━━━━━━━━━━━━━━━━━━━$\x7bNC\x7d\"\n    echo \"$\x7bBOLD\x7d📝 Git Commit with AI Message$\x7bNC\x7d\"\n    echo \"$\x7bBOLD\x7d$\x7bBLUE\x7d━━━━━━━━━━━━━━━━━━━━━━━━━━━━━━━━━━━━━━━━━━━━━━━━━━━$\x7bNC\x7d\"\n\n    local commit_message=\"\"\n    \n    if [ -n \"$user_message\" ]; then\n        echo \"\"\n        echo \"$\x7bGREEN\x7d✓$\x7bNC\x7d Using provided commit message\"\n        commit_message=\"$user_message\"\n    else\n        if ! command -v ")) = false := by decide
  have h2 : occursb (ofStr ("gc")) (ofStr ("\n    local GREEN=$'\\033[0;32m'\n    local YELLOW=$'\\033[1;33m'\n    local BLUE=$'\\033[0;34m'\n    local RED=$'\\033[0;31m'\n    local NC=$'\\033[0m'\n    local BOLD=$'\\033[1m'\n    local DIM=$'\\033[2m'\n    \n    local review_mode=false\n    local user_message=\"\"\n    \n    if [[ \"$1\" == \"-r\" ]]; then\n        review_mode=true\n        shift\n        user_message=\"$*\"\n    else\n        user_message=\"$*\"\n    fi\n\n    if ! command -v git &> /dev/null; then\n        echo \"$\x7bRED\x7dError:$\x7bNC\x7d git is not installed\"\n        return 1\n    fi\n\n    if ! git rev-parse --is-inside-work-tree > /dev/null 2>&1; then\n        echo \"$\x7bRED\x7dError:$\x7bNC\x7d Not a git repository\"\n        return 1\n    fi\n\n    if git diff --cached --quiet; then\n        echo \"$\x7bYELLOW\x7dNothing to commit$\x7bNC\x7d - no staged changes\"\n        echo \"$\x7bDIM\x7dStage changes first: git add <files>$\x7bNC\x7d\"\n        return 0\n    fi\n\n    echo \"$\x7bBOLD\x7d$\x7bBLUE\x7d━━━━━━━━━━━━━━━━━━━━━━━━━━━━━━━━━━━━━━━━━━━━━━━━━━━$\x7bNC\x7d\"\n    echo \"$\x7bBOLD\x7d📝 Git Commit with AI Message$\x7bNC\x7d\"\n    echo \"$\x7bBOLD\x7d$\x7bBLUE\x7d━━━━━━━━━━━━━━━━━━━━━━━━━━━━━━━━━━━━━━━━━━━━━━━━━━━$\x7bNC\x7d\"\n\n    local commit_message=\"\"\n    \n    if [ -n \"$user_message\" ]; then\n        echo \"\"\n        echo \"$\x7bGREEN\x7d✓$\x7bNC\x7d Using provided commit message\"\n        commit_message=\"$user_message\"\n    else\n        if ! command -v ") ++ ofStr claudeCLI.command) = false :=
    occursb_chain (by decide) h1 (by decide)
      (by
        intro k hk0 hkl
        rw [show List.length (ofStr ("gc")) = 2 from rfl] at hkl
        have hk : k = 1 := by omega
        subst hk
        exact Or.inl (by decide))
  have h3 : occursb (ofStr ("gc")) (ofStr ("\n    local GREEN=$'\\033[0;32m'\n    local YELLOW=$'\\033[1;33m'\n    local BLUE=$'\\033[0;34m'\n    local RED=$'\\033[0;31m'\n    local NC=$'\\033[0m'\n    local BOLD=$'\\033[1m'\n    local DIM=$'\\033[2m'\n    \n    local review_mode=false\n    local user_message=\"\"\n    \n    if [[ \"$1\" == \"-r\" ]]; then\n        review_mode=true\n        shift\n        user_message=\"$*\"\n    else\n        user_message=\"$*\"\n    fi\n\n    if ! command -v git &> /dev/null; then\n        echo \"$\x7bRED\x7dError:$\x7bNC\x7d git is not installed\"\n        return 1\n    fi\n\n    if ! git rev-parse --is-inside-work-tree > /dev/null 2>&1; then\n        echo \"$\x7bRED\x7dError:$\x7bNC\x7d Not a git repository\"\n        return 1\n    fi\n\n    if git diff --cached --quiet; then\n        echo \"$\x7bYELLOW\x7dNothing to commit$\x7bNC\x7d - no staged changes\"\n        echo \"$\x7bDIM\x7dStage changes first: git add <files>$\x7bNC\x7d\"\n        return 0\n    fi\n\n    echo \"$\x7bBOLD\x7d$\x7bBLUE\x7d━━━━━━━━━━━━━━━━━━━━━━━━━━━━━━━━━━━━━━━━━━━━━━━━━━━$\x7bNC\x7d\"\n    echo \"$\x7bBOLD\x7d📝 Git Commit with AI Message$\x7bNC\x7d\"\n    echo \"$\x7bBOLD\x7d$\x7bBLUE\x7d━━━━━━━━━━━━━━━━━━━━━━━━━━━━━━━━━━━━━━━━━━━━━━━━━━━$\x7bNC\x7d\"\n\n    local commit_message=\"\"\n    \n    if [ -n \"$user_message\" ]; then\n        echo \"\"\n        echo \"$\x7bGREEN\x7d✓$\x7bNC\x7d Using provided commit message\"\n        commit_message=\"$user_message\"\n    else\n        if ! command -v ") ++ ofStr claudeCLI.command ++ ofStr (" &> /dev/null; then\n            echo \"$\x7bRED\x7dError:$\x7bNC\x7d ")) = false :=
    occursb_chain (by decide) h2 (by decide)
      (by
        intro k hk0 hkl
        rw [show List.length (ofStr ("gc")) = 2 from rfl] at hkl
        have hk : k = 1 := by omega
        subst hk
        exact Or.inl (by rw [endsIn_append_long _ (by decide)]; decide))
  have h4 : occursb (ofStr ("gc")) (ofStr ("\n    local GREEN=$'\\033[0;32m'\n    local YELLOW=$'\\033[1;33m'\n    local BLUE=$'\\033[0;34m'\n    local RED=$'\\033[0;31m'\n    local NC=$'\\033[0m'\n    local BOLD=$'\\033[1m'\n    local DIM=$'\\033[2m'\n    \n    local review_mode=false\n    local user_message=\"\"\n    \n    if [[ \"$1\" == \"-r\" ]]; then\n        review_mode=true\n        shift\n        user_message=\"$*\"\n    else\n        user_message=\"$*\"\n    fi\n\n    if ! command -v git &> /dev/null; then\n        echo \"$\x7bRED\x7dError:$\x7bNC\x7d git is not installed\"\n        return 1\n    fi\n\n    if ! git rev-parse --is-inside-work-tree > /dev/null 2>&1; then\n        echo \"$\x7bRED\x7dError:$\x7bNC\x7d Not a git repository\"\n        return 1\n    fi\n\n    if git diff --cached --quiet; then\n        echo \"$\x7bYELLOW\x7dNothing to commit$\x7bNC\x7d - no staged changes\"\n        echo \"$\x7bDIM\x7dStage changes first: git add <files>$\x7bNC\x7d\"\n        return 0\n    fi\n\n    echo \"$\x7bBOLD\x7d$\x7bBLUE\x7d━━━━━━━━━━━━━━━━━━━━━━━━━━━━━━━━━━━━━━━━━━━━━━━━━━━$\x7bNC\x7d\"\n    echo \"$\x7bBOLD\x7d📝 Git Commit with AI Message$\x7bNC\x7d\"\n    echo \"$\x7bBOLD\x7d$\x7bBLUE\x7d━━━━━━━━━━━━━━━━━━━━━━━━━━━━━━━━━━━━━━━━━━━━━━━━━━━$\x7bNC\x7d\"\n\n    local commit_message=\"\"\n    \n    if [ -n \"$user_message\" ]; then\n        echo \"\"\n        echo \"$\x7bGREEN\x7d✓$\x7bNC\x7d Using provided commit message\"\n        commit_message=\"$user_message\"\n    else\n        if ! command -v ") ++ ofStr claudeCLI.command ++ ofStr (" &> /dev/null; then\n            echo \"$\x7bRED\x7dError:$\x7bNC\x7d ") ++ ofStr claudeCLI.name) = false :=
    occursb_chain (by decide) h3 (by decide)
      (by
        intro k hk0 hkl
        rw [show List.length (ofStr ("gc")) = 2 from rfl] at hkl
        have hk : k = 1 := by omega
        subst hk
        exact Or.inl (by rw [endsIn_append_long _ (by decide)]; decide))
  have h5 : occursb (ofStr ("gc")) (ofStr ("\n    local GREEN=$'\\033[0;32m'\n    local YELLOW=$'\\033[1;33m'\n    local BLUE=$'\\033[0;34m'\n    local RED=$'\\033[0;31m'\n    local NC=$'\\033[0m'\n    local BOLD=$'\\033[1m'\n    local DIM=$'\\033[2m'\n    \n    local review_mode=false\n    local user_message=\"\"\n    \n    if [[ \"$1\" == \"-r\" ]]; then\n        review_mode=true\n        shift\n        user_message=\"$*\"\n    else\n        user_message=\"$*\"\n    fi\n\n    if ! command -v git &> /dev/null; then\n        echo \"$\x7bRED\x7dError:$\x7bNC\x7d git is not installed\"\n        return 1\n    fi\n\n    if ! git rev-parse --is-inside-work-tree > /dev/null 2>&1; then\n        echo \"$\x7bRED\x7dError:$\x7bNC\x7d Not a git repository\"\n        return 1\n    fi\n\n    if git diff --cached --quiet; then\n        echo \"$\x7bYELLOW\x7dNothing to commit$\x7bNC\x7d - no staged changes\"\n        echo \"$\x7bDIM\x7dStage changes first: git add <files>$\x7bNC\x7d\"\n        return 0\n    fi\n\n    echo \"$\x7bBOLD\x7d$\x7bBLUE\x7d━━━━━━━━━━━━━━━━━━━━━━━━━━━━━━━━━━━━━━━━━━━━━━━━━━━$\x7bNC\x7d\"\n    echo \"$\x7bBOLD\x7d📝 Git Commit with AI Message$\x7bNC\x7d\"\n    echo \"$\x7bBOLD\x7d$\x7bBLUE\x7d━━━━━━━━━━━━━━━━━━━━━━━━━━━━━━━━━━━━━━━━━━━━━━━━━━━$\x7bNC\x7d\"\n\n    local commit_message=\"\"\n    \n    if [ -n \"$user_message\" ]; then\n        echo \"\"\n        echo \"$\x7bGREEN\x7d✓$\x7bNC\x7d Using provided commit message\"\n        commit_message=\"$user_message\"\n    else\n        if ! command -v ") ++ ofStr claudeCLI.command ++ ofStr (" &> /dev/null; then\n            echo \"$\x7bRED\x7dError:$\x7bNC\x7d ") ++ ofStr claudeCLI.name ++ ofStr (" is not installed\"\n            return 1\n        fi\n\n        echo \"\"\n        echo \"$\x7bYELLOW\x7d[1/2]$\x7bNC\x7d 🔍 Analyzing staged changes...\"\n    \n        local staged_diff=$(git diff --cached 2>/dev/null | head -500)\n    \n        local prompt=\"Analyze the following staged git changes and generate a commit message following the Conventional Commits specification with bullet-point changelog style.\n\n## Commit Message Format:\n<type>(<scope>): <short summary>\n\n- <bullet point describing a specific change>\n- <bullet point describing another change>\n\n## Types: feat, fix, docs, style, refactor, perf, test, build, ci, chore, revert\n\n## Rules:\n1. Subject line: max 50 chars, imperative mood, no period\n2. Body uses bullet points (- ) to list specific changes\n3. Each bullet should be concise and actionable\n\n## Staged Changes:\n$\x7bstaged_diff\x7d\n\nOUTPUT ONLY THE COMMIT MESSAGE, nothing else.\"\n\n        echo \"$\x7bYELLOW\x7d[2/2]$\x7bNC\x7d 🤖 Generating commit message with ")) = false :=
    occursb_chain (by decide) h4 (by decide)
      (by
        intro k hk0 hkl
        rw [show List.length (ofStr ("gc")) = 2 from rfl] at hkl
        have hk : k = 1 := by omega
        subst hk
        exact Or.inl (by rw [endsIn_append_long _ (by decide)]; decide))
  have h6 : occursb (ofStr ("gc")) (ofStr ("\n    local GREEN=$'\\033[0;32m'\n    local YELLOW=$'\\033[1;33m'\n    local BLUE=$'\\033[0;34m'\n    local RED=$'\\033[0;31m'\n    local NC=$'\\033[0m'\n    local BOLD=$'\\033[1m'\n    local DIM=$'\\033[2m'\n    \n    local review_mode=false\n    local user_message=\"\"\n    \n    if [[ \"$1\" == \"-r\" ]]; then\n        review_mode=true\n        shift\n        user_message=\"$*\"\n    else\n        user_message=\"$*\"\n    fi\n\n    if ! command -v git &> /dev/null; then\n        echo \"$\x7bRED\x7dError:$\x7bNC\x7d git is not installed\"\n        return 1\n    fi\n\n    if ! git rev-parse --is-inside-work-tree > /dev/null 2>&1; then\n        echo \"$\x7bRED\x7dError:$\x7bNC\x7d Not a git repository\"\n        return 1\n    fi\n\n    if git diff --cached --quiet; then\n        echo \"$\x7bYELLOW\x7dNothing to commit$\x7bNC\x7d - no staged changes\"\n        echo \"$\x7bDIM\x7dStage changes first: git add <files>$\x7bNC\x7d\"\n        return 0\n    fi\n\n    echo \"$\x7bBOLD\x7d$\x7bBLUE\x7d━━━━━━━━━━━━━━━━━━━━━━━━━━━━━━━━━━━━━━━━━━━━━━━━━━━$\x7bNC\x7d\"\n    echo \"$\x7bBOLD\x7d📝 Git Commit with AI Message$\x7bNC\x7d\"\n    echo \"$\x7bBOLD\x7d$\x7bBLUE\x7d━━━━━━━━━━━━━━━━━━━━━━━━━━━━━━━━━━━━━━━━━━━━━━━━━━━$\x7bNC\x7d\"\n\n    local commit_message=\"\"\n    \n    if [ -n \"$user_message\" ]; then\n        echo \"\"\n        echo \"$\x7bGREEN\x7d✓$\x7bNC\x7d Using provided commit message\"\n        commit_message=\"$user_message\"\n    else\n        if ! command -v ") ++ ofStr claudeCLI.command ++ ofStr (" &> /dev/null; then\n            echo \"$\x7bRED\x7dError:$\x7bNC\x7d ") ++ ofStr claudeCLI.name ++ ofStr (" is not installed\"\n            return 1\n        fi\n\n        echo \"\"\n        echo \"$\x7bYELLOW\x7d[1/2]$\x7bNC\x7d 🔍 Analyzing staged changes...\"\n    \n        local staged_diff=$(git diff --cached 2>/dev/null | head -500)\n    \n        local prompt=\"Analyze the following staged git changes and generate a commit message following the Conventional Commits specification with bullet-point changelog style.\n\n## Commit Message Format:\n<type>(<scope>): <short summary>\n\n- <bullet point describing a specific change>\n- <bullet point describing another change>\n\n## Types: feat, fix, docs, style, refactor, perf, test, build, ci, chore, revert\n\n## Rules:\n1. Subject line: max 50 chars, imperative mood, no period\n2. Body uses bullet points (- ) to list specific changes\n3. Each bullet should be concise and actionable\n\n## Staged Changes:\n$\x7bstaged_diff\x7d\n\nOUTPUT ONLY THE COMMIT MESSAGE, nothing else.\"\n\n        echo \"$\x7bYELLOW\x7d[2/2]$\x7bNC\x7d 🤖 Generating commit message with ") ++ ofStr claudeCLI.name) = false :=
    occursb_chain (by decide) h5 (by decide)
      (by
        intro k hk0 hkl
        rw [show List.length (ofStr ("gc")) = 2 from rfl] at hkl
        have hk : k = 1 := by omega
        subst hk
        exact Or.inl (by rw [endsIn_append_long _ (by decide)]; decide))
  have h7 : occursb (ofStr ("gc")) (ofStr ("\n    local GREEN=$'\\033[0;32m'\n    local YELLOW=$'\\033[1;33m'\n    local BLUE=$'\\033[0;34m'\n    local RED=$'\\033[0;31m'\n    local NC=$'\\033[0m'\n    local BOLD=$'\\033[1m'\n    local DIM=$'\\033[2m'\n    \n    local review_mode=false\n    local user_message=\"\"\n    \n    if [[ \"$1\" == \"-r\" ]]; then\n        review_mode=true\n        shift\n        user_message=\"$*\"\n    else\n        user_message=\"$*\"\n    fi\n\n    if ! command -v git &> /dev/null; then\n        echo \"$\x7bRED\x7dError:$\x7bNC\x7d git is not installed\"\n        return 1\n    fi\n\n    if ! git rev-parse --is-inside-work-tree > /dev/null 2>&1; then\n        echo \"$\x7bRED\x7dError:$\x7bNC\x7d Not a git repository\"\n        return 1\n    fi\n\n    if git diff --cached --quiet; then\n        echo \"$\x7bYELLOW\x7dNothing to commit$\x7bNC\x7d - no staged changes\"\n        echo \"$\x7bDIM\x7dStage changes first: git add <files>$\x7bNC\x7d\"\n        return 0\n    fi\n\n    echo \"$\x7bBOLD\x7d$\x7bBLUE\x7d━━━━━━━━━━━━━━━━━━━━━━━━━━━━━━━━━━━━━━━━━━━━━━━━━━━$\x7bNC\x7d\"\n    echo \"$\x7bBOLD\x7d📝 Git Commit with AI Message$\x7bNC\x7d\"\n    echo \"$\x7bBOLD\x7d$\x7bBLUE\x7d━━━━━━━━━━━━━━━━━━━━━━━━━━━━━━━━━━━━━━━━━━━━━━━━━━━$\x7bNC\x7d\"\n\n    local commit_message=\"\"\n    \n    if [ -n \"$user_message\" ]; then\n        echo \"\"\n        echo \"$\x7bGREEN\x7d✓$\x7bNC\x7d Using provided commit message\"\n        commit_message=\"$user_message\"\n    else\n        if ! command -v ") ++ ofStr claudeCLI.command ++ ofStr (" &> /dev/null; then\n            echo \"$\x7bRED\x7dError:$\x7bNC\x7d ") ++ ofStr claudeCLI.name ++ ofStr (" is not installed\"\n            return 1\n        fi\n\n        echo \"\"\n        echo \"$\x7bYELLOW\x7d[1/2]$\x7bNC\x7d 🔍 Analyzing staged changes...\"\n    \n        local staged_diff=$(git diff --cached 2>/dev/null | head -500)\n    \n        local prompt=\"Analyze the following staged git changes and generate a commit message following the Conventional Commits specification with bullet-point changelog style.\n\n## Commit Message Format:\n<type>(<scope>): <short summary>\n\n- <bullet point describing a specific change>\n- <bullet point describing another change>\n\n## Types: feat, fix, docs, style, refactor, perf, test, build, ci, chore, revert\n\n## Rules:\n1. Subject line: max 50 chars, imperative mood, no period\n2. Body uses bullet points (- ) to list specific changes\n3. Each bullet should be concise and actionable\n\n## Staged Changes:\n$\x7bstaged_diff\x7d\n\nOUTPUT ONLY THE COMMIT MESSAGE, nothing else.\"\n\n        echo \"$\x7bYELLOW\x7d[2/2]$\x7bNC\x7d 🤖 Generating commit message with ") ++ ofStr claudeCLI.name ++ ofStr ("...\"\n        echo \"$\x7bDIM\x7d     (this may take a few seconds...)$\x7bNC\x7d\"\n    \n        local temp_file=$(mktemp)\n        local error_file=$(mktemp)\n    \n        ")) = false :=
    occursb_chain (by decide) h6 (by decide)
      (by
        intro k hk0 hkl
        rw [show List.length (ofStr ("gc")) = 2 from rfl] at hkl
        have hk : k = 1 := by omega
        subst hk
        exact Or.inl (by rw [endsIn_append_long _ (by decide)]; decide))
  have h8 : occursb (ofStr ("gc")) (ofStr ("\n    local GREEN=$'\\033[0;32m'\n    local YELLOW=$'\\033[1;33m'\n    local BLUE=$'\\033[0;34m'\n    local RED=$'\\033[0;31m'\n    local NC=$'\\033[0m'\n    local BOLD=$'\\033[1m'\n    local DIM=$'\\033[2m'\n    \n    local review_mode=false\n    local user_message=\"\"\n    \n    if [[ \"$1\" == \"-r\" ]]; then\n        review_mode=true\n        shift\n        user_message=\"$*\"\n    else\n        user_message=\"$*\"\n    fi\n\n    if ! command -v git &> /dev/null; then\n        echo \"$\x7bRED\x7dError:$\x7bNC\x7d git is not installed\"\n        return 1\n    fi\n\n    if ! git rev-parse --is-inside-work-tree > /dev/null 2>&1; then\n        echo \"$\x7bRED\x7dError:$\x7bNC\x7d Not a git repository\"\n        return 1\n    fi\n\n    if git diff --cached --quiet; then\n        echo \"$\x7bYELLOW\x7dNothing to commit$\x7bNC\x7d - no staged changes\"\n        echo \"$\x7bDIM\x7dStage changes first: git add <files>$\x7bNC\x7d\"\n        return 0\n    fi\n\n    echo \"$\x7bBOLD\x7d$\x7bBLUE\x7d━━━━━━━━━━━━━━━━━━━━━━━━━━━━━━━━━━━━━━━━━━━━━━━━━━━$\x7bNC\x7d\"\n    echo \"$\x7bBOLD\x7d📝 Git Commit with AI Message$\x7bNC\x7d\"\n    echo \"$\x7bBOLD\x7d$\x7bBLUE\x7d━━━━━━━━━━━━━━━━━━━━━━━━━━━━━━━━━━━━━━━━━━━━━━━━━━━$\x7bNC\x7d\"\n\n    local commit_message=\"\"\n    \n    if [ -n \"$user_message\" ]; then\n        echo \"\"\n        echo \"$\x7bGREEN\x7d✓$\x7bNC\x7d Using provided commit message\"\n        commit_message=\"$user_message\"\n    else\n        if ! command -v ") ++ ofStr claudeCLI.command ++ ofStr (" &> /dev/null; then\n            echo \"$\x7bRED\x7dError:$\x7bNC\x7d ") ++ ofStr claudeCLI.name ++ ofStr (" is not installed\"\n            return 1\n        fi\n\n        echo \"\"\n        echo \"$\x7bYELLOW\x7d[1/2]$\x7bNC\x7d 🔍 Analyzing staged changes...\"\n    \n        local staged_diff=$(git diff --cached 2>/dev/null | head -500)\n    \n        local prompt=\"Analyze the following staged git changes and generate a commit message following the Conventional Commits specification with bullet-point changelog style.\n\n## Commit Message Format:\n<type>(<scope>): <short summary>\n\n- <bullet point describing a specific change>\n- <bullet point describing another change>\n\n## Types: feat, fix, docs, style, refactor, perf, test, build, ci, chore, revert\n\n## Rules:\n1. Subject line: max 50 chars, imperative mood, no period\n2. Body uses bullet points (- ) to list specific changes\n3. Each bullet should be concise and actionable\n\n## Staged Changes:\n$\x7bstaged_diff\x7d\n\nOUTPUT ONLY THE COMMIT MESSAGE, nothing else.\"\n\n        echo \"$\x7bYELLOW\x7d[2/2]$\x7bNC\x7d 🤖 Generating commit message with ") ++ ofStr claudeCLI.name ++ ofStr ("...\"\n        echo \"$\x7bDIM\x7d     (this may take a few seconds...)$\x7bNC\x7d\"\n    \n        local temp_file=$(mktemp)\n        local error_file=$(mktemp)\n    \n        ") ++ ofStr (buildCLICommand claudeCLI "sonnet")) = false :=
    occursb_chain (by decide) h7 (by decide)
      (by
        intro k hk0 hkl
        rw [show List.length (ofStr ("gc")) = 2 from rfl] at hkl
        have hk : k = 1 := by omega
        subst hk
        exact Or.inl (by rw [endsIn_append_long _ (by decide)]; decide))
  have h9 : occursb (ofStr ("gc")) (ofStr ("\n    local GREEN=$'\\033[0;32m'\n    local YELLOW=$'\\033[1;33m'\n    local BLUE=$'\\033[0;34m'\n    local RED=$'\\033[0;31m'\n    local NC=$'\\033[0m'\n    local BOLD=$'\\033[1m'\n    local DIM=$'\\033[2m'\n    \n    local review_mode=false\n    local user_message=\"\"\n    \n    if [[ \"$1\" == \"-r\" ]]; then\n        review_mode=true\n        shift\n        user_message=\"$*\"\n    else\n        user_message=\"$*\"\n    fi\n\n    if ! command -v git &> /dev/null; then\n        echo \"$\x7bRED\x7dError:$\x7bNC\x7d git is not installed\"\n        return 1\n    fi\n\n    if ! git rev-parse --is-inside-work-tree > /dev/null 2>&1; then\n        echo \"$\x7bRED\x7dError:$\x7bNC\x7d Not a git repository\"\n        return 1\n    fi\n\n    if git diff --cached --quiet; then\n        echo \"$\x7bYELLOW\x7dNothing to commit$\x7bNC\x7d - no staged changes\"\n        echo \"$\x7bDIM\x7dStage changes first: git add <files>$\x7bNC\x7d\"\n        return 0\n    fi\n\n    echo \"$\x7bBOLD\x7d$\x7bBLUE\x7d━━━━━━━━━━━━━━━━━━━━━━━━━━━━━━━━━━━━━━━━━━━━━━━━━━━$\x7bNC\x7d\"\n    echo \"$\x7bBOLD\x7d📝 Git Commit with AI Message$\x7bNC\x7d\"\n    echo \"$\x7bBOLD\x7d$\x7bBLUE\x7d━━━━━━━━━━━━━━━━━━━━━━━━━━━━━━━━━━━━━━━━━━━━━━━━━━━$\x7bNC\x7d\"\n\n    local commit_message=\"\"\n    \n    if [ -n \"$user_message\" ]; then\n        echo \"\"\n        echo \"$\x7bGREEN\x7d✓$\x7bNC\x7d Using provided commit message\"\n        commit_message=\"$user_message\"\n    else\n        if ! command -v ") ++ ofStr claudeCLI.command ++ ofStr (" &> /dev/null; then\n            echo \"$\x7bRED\x7dError:$\x7bNC\x7d ") ++ ofStr claudeCLI.name ++ ofStr (" is not installed\"\n            return 1\n        fi\n\n        echo \"\"\n        echo \"$\x7bYELLOW\x7d[1/2]$\x7bNC\x7d 🔍 Analyzing staged changes...\"\n    \n        local staged_diff=$(git diff --cached 2>/dev/null | head -500)\n    \n        local prompt=\"Analyze the following staged git changes and generate a commit message following the Conventional Commits specification with bullet-point changelog style.\n\n## Commit Message Format:\n<type>(<scope>): <short summary>\n\n- <bullet point describing a specific change>\n- <bullet point describing another change>\n\n## Types: feat, fix, docs, style, refactor, perf, test, build, ci, chore, revert\n\n## Rules:\n1. Subject line: max 50 chars, imperative mood, no period\n2. Body uses bullet points (- ) to list specific changes\n3. Each bullet should be concise and actionable\n\n## Staged Changes:\n$\x7bstaged_diff\x7d\n\nOUTPUT ONLY THE COMMIT MESSAGE, nothing else.\"\n\n        echo \"$\x7bYELLOW\x7d[2/2]$\x7bNC\x7d 🤖 Generating commit message with ") ++ ofStr claudeCLI.name ++ ofStr ("...\"\n        echo \"$\x7bDIM\x7d     (this may take a few seconds...)$\x7bNC\x7d\"\n    \n        local temp_file=$(mktemp)\n        local error_file=$(mktemp)\n    \n        ") ++ ofStr (buildCLICommand claudeCLI "sonnet") ++ ofStr (" > \"$temp_file\" 2> \"$error_file\"\n        local exit_code=$?\n    \n        if [ $exit_code -ne 0 ] || [ ! -s \"$temp_file\" ]; then\n            echo \"$\x7bRED\x7dError:$\x7bNC\x7d Failed to generate commit message\"\n            cat \"$error_file\" 2>/dev/null\n            rm -f \"$temp_file\" \"$error_file\"\n            return 1\n        fi\n    \n        commit_message=$(cat \"$temp_file\")\n        rm -f \"$temp_file\" \"$error_file\"\n    \n        echo \"\"\n        echo \"$\x7bGREEN\x7dGenerated Commit Message:$\x7bNC\x7d\"\n        echo \"$commit_message\"\n    \n        if [ \"$review_mode\" = true ]; then\n            echo \"\"\n            echo -n \"$\x7bYELLOW\x7dProceed with this commit message? [Y/n/e(dit)]:$\x7bNC\x7d \"\n            read confirm\n    \n            case \"$confirm\" in\n                [nN]) echo \"$\x7bYELLOW\x7dAborted.$\x7bNC\x7d\"; return 0 ;;\n                [eE])\n                    local edit_file=$(mktemp)\n                    echo \"$commit_message\" > \"$edit_file\"\n                    $\x7bEDITOR:-vim\x7d \"$edit_file\"\n                    commit_message=$(cat \"$edit_file\")\n                    rm -f \"$edit_file\"\n                    ;;\n            esac\n        fi\n    fi\n\n    echo \"\"\n    echo \"$\x7bYELLOW\x7d📦 Committing...$\x7bNC\x7d\"\n    \n    if ! git commit -m \"$commit_message\" 2>&1; then\n        echo \"$\x7bRED\x7dError:$\x7bNC\x7d Failed to commit\"\n        return 1\n    fi\n\n    echo \"\"\n    echo \"$\x7bBOLD\x7d$\x7bGREEN\x7d━━━━━━━━━━━━━━━━━━━━━━━━━━━━━━━━━━━━━━━━━━━━━━━━━━━$\x7bNC\x7d\"\n    echo \"$\x7bBOLD\x7d$\x7bGREEN\x7d✨ Done!$\x7bNC\x7d\"\n    echo \"$\x7bBOLD\x7d$\x7bGREEN\x7d━━━━━━━━━━━━━━━━━━━━━━━━━━━━━━━━━━━━━━━━━━━━━━━━━━━$\x7bNC\x7d\"")) = false :=
    occursb_chain (by decide) h8 (by decide)
      (by
        intro k hk0 hkl
        rw [show List.length (ofStr ("gc")) = 2 from rfl] at hkl
        have hk : k = 1 := by omega
        subst hk
        exact Or.inl (by rw [endsIn_append_long _ (by decide)]; decide))
  exact h9

set_option maxRecDepth 400000 in
theorem occ_nb_bodyGc : occursb (ofStr ("\n\x7d")) bodyGc = false := by
  unfold bodyGc gcBody
  have h1 : occursb (ofStr ("\n\x7d")) (ofStr ("\n    local GREEN=$'\\033[0;32m'\n    local YELLOW=$'\\033[1;33m'\n    local BLUE=$'\\033[0;34m'\n    local RED=$'\\033[0;31m'\n    local NC=$'\\033[0m'\n    local BOLD=$'\\033[1m'\n    local DIM=$'\\033[2m'\n    \n    local review_mode=false\n    local user_message=\"\"\n    \n    if [[ \"$1\" == \"-r\" ]]; then\n        review_mode=true\n        shift\n        user_message=\"$*\"\n    else\n        user_message=\"$*\"\n    fi\n\n    if ! command -v git &> /dev/null; then\n        echo \"$\x7bRED\x7dError:$\x7bNC\x7d git is not installed\"\n        return 1\n    fi\n\n    if ! git rev-parse --is-inside-work-tree > /dev/null 2>&1; then\n        echo \"$\x7bRED\x7dError:$\x7bNC\x7d Not a git repository\"\n        return 1\n    fi\n\n    if git diff --cached --quiet; then\n        echo \"$\x7bYELLOW\x7dNothing to commit$\x7bNC\x7d - no staged changes\"\n        echo \"$\x7bDIM\x7dStage changes first: git add <files>$\x7bNC\x7d\"\n        return 0\n    fi\n\n    echo \"$\x7bBOLD\x7d$\x7bBLUE\x7d━━━━━━━━━━━━━━━━━━━━━━━━━━━━━━━━━━━━━━━━━━━━━━━━━━━$\x7bNC\x7d\"\n    echo \"$\x7bBOLD\x7d📝 Git Commit with AI Message$\x7bNC\x7d\"\n    echo \"$\x7bBOLD\x7d$\x7bBLUE\x7d━━━━━━━━━━━━━━━━━━━━━━━━━━━━━━━━━━━━━━━━━━━━━━━━━━━$\x7bNC\x7d\"\n\n    local commit_message=\"\"\n    \n    if [ -n \"$user_message\" ]; then\n        echo \"\"\n        echo \"$\x7bGREEN\x7d✓$\x7bNC\x7d Using provided commit message\"\n        commit_message=\"$user_message\"\n    else\n        if ! command -v ")) = false := by decide
  have h2 : occursb (ofStr ("\n\x7d")) (ofStr ("\n    local GREEN=$'\\033[0;32m'\n    local YELLOW=$'\\033[1;33m'\n    local BLUE=$'\\033[0;34m'\n    local RED=$'\\033[0;31m'\n    local NC=$'\\033[0m'\n    local BOLD=$'\\033[1m'\n    local DIM=$'\\033[2m'\n    \n    local review_mode=false\n    local user_message=\"\"\n    \n    if [[ \"$1\" == \"-r\" ]]; then\n        review_mode=true\n        shift\n        user_message=\"$*\"\n    else\n        user_message=\"$*\"\n    fi\n\n    if ! command -v git &> /dev/null; then\n        echo \"$\x7bRED\x7dError:$\x7bNC\x7d git is not installed\"\n        return 1\n    fi\n\n    if ! git rev-parse --is-inside-work-tree > /dev/null 2>&1; then\n        echo \"$\x7bRED\x7dError:$\x7bNC\x7d Not a git repository\"\n        return 1\n    fi\n\n    if git diff --cached --quiet; then\n        echo \"$\x7bYELLOW\x7dNothing to commit$\x7bNC\x7d - no staged changes\"\n        echo \"$\x7bDIM\x7dStage changes first: git add <files>$\x7bNC\x7d\"\n        return 0\n    fi\n\n    echo \"$\x7bBOLD\x7d$\x7bBLUE\x7d━━━━━━━━━━━━━━━━━━━━━━━━━━━━━━━━━━━━━━━━━━━━━━━━━━━$\x7bNC\x7d\"\n    echo \"$\x7bBOLD\x7d📝 Git Commit with AI Message$\x7bNC\x7d\"\n    echo \"$\x7bBOLD\x7d$\x7bBLUE\x7d━━━━━━━━━━━━━━━━━━━━━━━━━━━━━━━━━━━━━━━━━━━━━━━━━━━$\x7bNC\x7d\"\n\n    local commit_message=\"\"\n    \n    if [ -n \"$user_message\" ]; then\n        echo \"\"\n        echo \"$\x7bGREEN\x7d✓$\x7bNC\x7d Using provided commit message\"\n        commit_message=\"$user_message\"\n    else\n        if ! command -v ") ++ ofStr claudeCLI.command) = false :=
    occursb_chain (by decide) h1 (by decide)
      (by
        intro k hk0 hkl
        rw [show List.length (ofStr ("\n\x7d")) = 2 from rfl] at hkl
        have hk : k = 1 := by omega
        subst hk
        exact Or.inl (by decide))
  have h3 : occursb (ofStr ("\n\x7d")) (ofStr ("\n    local GREEN=$'\\033[0;32m'\n    local YELLOW=$'\\033[1;33m'\n    local BLUE=$'\\033[0;34m'\n    local RED=$'\\033[0;31m'\n    local NC=$'\\033[0m'\n    local BOLD=$'\\033[1m'\n    local DIM=$'\\033[2m'\n    \n    local review_mode=false\n    local user_message=\"\"\n    \n    if [[ \"$1\" == \"-r\" ]]; then\n        review_mode=true\n        shift\n        user_message=\"$*\"\n    else\n        user_message=\"$*\"\n    fi\n\n    if ! command -v git &> /dev/null; then\n        echo \"$\x7bRED\x7dError:$\x7bNC\x7d git is not installed\"\n        return 1\n    fi\n\n    if ! git rev-parse --is-inside-work-tree > /dev/null 2>&1; then\n        echo \"$\x7bRED\x7dError:$\x7bNC\x7d Not a git repository\"\n        return 1\n    fi\n\n    if git diff --cached --quiet; then\n        echo \"$\x7bYELLOW\x7dNothing to commit$\x7bNC\x7d - no staged changes\"\n        echo \"$\x7bDIM\x7dStage changes first: git add <files>$\x7bNC\x7d\"\n        return 0\n    fi\n\n    echo \"$\x7bBOLD\x7d$\x7bBLUE\x7d━━━━━━━━━━━━━━━━━━━━━━━━━━━━━━━━━━━━━━━━━━━━━━━━━━━$\x7bNC\x7d\"\n    echo \"$\x7bBOLD\x7d📝 Git Commit with AI Message$\x7bNC\x7d\"\n    echo \"$\x7bBOLD\x7d$\x7bBLUE\x7d━━━━━━━━━━━━━━━━━━━━━━━━━━━━━━━━━━━━━━━━━━━━━━━━━━━$\x7bNC\x7d\"\n\n    local commit_message=\"\"\n    \n    if [ -n \"$user_message\" ]; then\n        echo \"\"\n        echo \"$\x7bGREEN\x7d✓$\x7bNC\x7d Using provided commit message\"\n        commit_message=\"$user_message\"\n    else\n        if ! command -v ") ++ ofStr claudeCLI.command ++ ofStr (" &> /dev/null; then\n            echo \"$\x7bRED\x7dError:$\x7bNC\x7d ")) = false :=
    occursb_chain (by decide) h2 (by decide)
      (by
        intro k hk0 hkl
        rw [show List.length (ofStr ("\n\x7d")) = 2 from rfl] at hkl
        have hk : k = 1 := by omega
        subst hk
        exact Or.inl (by rw [endsIn_append_long _ (by decide)]; decide))
  have h4 : occursb (ofStr ("\n\x7d")) (ofStr ("\n    local GREEN=$'\\033[0;32m'\n    local YELLOW=$'\\033[1;33m'\n    local BLUE=$'\\033[0;34m'\n    local RED=$'\\033[0;31m'\n    local NC=$'\\033[0m'\n    local BOLD=$'\\033[1m'\n    local DIM=$'\\033[2m'\n    \n    local review_mode=false\n    local user_message=\"\"\n    \n    if [[ \"$1\" == \"-r\" ]]; then\n        review_mode=true\n        shift\n        user_message=\"$*\"\n    else\n        user_message=\"$*\"\n    fi\n\n    if ! command -v git &> /dev/null; then\n        echo \"$\x7bRED\x7dError:$\x7bNC\x7d git is not installed\"\n        return 1\n    fi\n\n    if ! git rev-parse --is-inside-work-tree > /dev/null 2>&1; then\n        echo \"$\x7bRED\x7dError:$\x7bNC\x7d Not a git repository\"\n        return 1\n    fi\n\n    if git diff --cached --quiet; then\n        echo \"$\x7bYELLOW\x7dNothing to commit$\x7bNC\x7d - no staged changes\"\n        echo \"$\x7bDIM\x7dStage changes first: git add <files>$\x7bNC\x7d\"\n        return 0\n    fi\n\n    echo \"$\x7bBOLD\x7d$\x7bBLUE\x7d━━━━━━━━━━━━━━━━━━━━━━━━━━━━━━━━━━━━━━━━━━━━━━━━━━━$\x7bNC\x7d\"\n    echo \"$\x7bBOLD\x7d📝 Git Commit with AI Message$\x7bNC\x7d\"\n    echo \"$\x7bBOLD\x7d$\x7bBLUE\x7d━━━━━━━━━━━━━━━━━━━━━━━━━━━━━━━━━━━━━━━━━━━━━━━━━━━$\x7bNC\x7d\"\n\n    local commit_message=\"\"\n    \n    if [ -n \"$user_message\" ]; then\n        echo \"\"\n        echo \"$\x7bGREEN\x7d✓$\x7bNC\x7d Using provided commit message\"\n        commit_message=\"$user_message\"\n    else\n        if ! command -v ") ++ ofStr claudeCLI.command ++ ofStr (" &> /dev/null; then\n            echo \"$\x7bRED\x7dError:$\x7bNC\x7d ") ++ ofStr claudeCLI.name) = false :=
    occursb_chain (by decide) h3 (by decide)
      (by
        intro k hk0 hkl
        rw [show List.length (ofStr ("\n\x7d")) = 2 from rfl] at hkl
        have hk : k = 1 := by omega
        subst hk
        exact Or.inl (by rw [endsIn_append_long _ (by decide)]; decide))
  have h5 : occursb (ofStr ("\n\x7d")) (ofStr ("\n    local GREEN=$'\\033[0;32m'\n    local YELLOW=$'\\033[1;33m'\n    local BLUE=$'\\033[0;34m'\n    local RED=$'\\033[0;31m'\n    local NC=$'\\033[0m'\n    local BOLD=$'\\033[1m'\n    local DIM=$'\\033[2m'\n    \n    local review_mode=false\n    local user_message=\"\"\n    \n    if [[ \"$1\" == \"-r\" ]]; then\n        review_mode=true\n        shift\n        user_message=\"$*\"\n    else\n        user_message=\"$*\"\n    fi\n\n    if ! command -v git &> /dev/null; then\n        echo \"$\x7bRED\x7dError:$\x7bNC\x7d git is not installed\"\n        return 1\n    fi\n\n    if ! git rev-parse --is-inside-work-tree > /dev/null 2>&1; then\n        echo \"$\x7bRED\x7dError:$\x7bNC\x7d Not a git repository\"\n        return 1\n    fi\n\n    if git diff --cached --quiet; then\n        echo \"$\x7bYELLOW\x7dNothing to commit$\x7bNC\x7d - no staged changes\"\n        echo \"$\x7bDIM\x7dStage changes first: git add <files>$\x7bNC\x7d\"\n        return 0\n    fi\n\n    echo \"$\x7bBOLD\x7d$\x7bBLUE\x7d━━━━━━━━━━━━━━━━━━━━━━━━━━━━━━━━━━━━━━━━━━━━━━━━━━━$\x7bNC\x7d\"\n    echo \"$\x7bBOLD\x7d📝 Git Commit with AI Message$\x7bNC\x7d\"\n    echo \"$\x7bBOLD\x7d$\x7bBLUE\x7d━━━━━━━━━━━━━━━━━━━━━━━━━━━━━━━━━━━━━━━━━━━━━━━━━━━$\x7bNC\x7d\"\n\n    local commit_message=\"\"\n    \n    if [ -n \"$user_message\" ]; then\n        echo \"\"\n        echo \"$\x7bGREEN\x7d✓$\x7bNC\x7d Using provided commit message\"\n        commit_message=\"$user_message\"\n    else\n        if ! command -v ") ++ ofStr claudeCLI.command ++ ofStr (" &> /dev/null; then\n            echo \"$\x7bRED\x7dError:$\x7bNC\x7d ") ++ ofStr claudeCLI.name ++ ofStr (" is not installed\"\n            return 1\n        fi\n\n        echo \"\"\n        echo \"$\x7bYELLOW\x7d[1/2]$\x7bNC\x7d 🔍 Analyzing staged changes...\"\n    \n        local staged_diff=$(git diff --cached 2>/dev/null | head -500)\n    \n        local prompt=\"Analyze the following staged git changes and generate a commit message following the Conventional Commits specification with bullet-point changelog style.\n\n## Commit Message Format:\n<type>(<scope>): <short summary>\n\n- <bullet point describing a specific change>\n- <bullet point describing another change>\n\n## Types: feat, fix, docs, style, refactor, perf, test, build, ci, chore, revert\n\n## Rules:\n1. Subject line: max 50 chars, imperative mood, no period\n2. Body uses bullet points (- ) to list specific changes\n3. Each bullet should be concise and actionable\n\n## Staged Changes:\n$\x7bstaged_diff\x7d\n\nOUTPUT ONLY THE COMMIT MESSAGE, nothing else.\"\n\n        echo \"$\x7bYELLOW\x7d[2/2]$\x7bNC\x7d 🤖 Generating commit message with ")) = false :=
    occursb_chain (by decide) h4 (by decide)
      (by
        intro k hk0 hkl
        rw [show List.length (ofStr ("\n\x7d")) = 2 from rfl] at hkl
        have hk : k = 1 := by omega
        subst hk
        exact Or.inl (by rw [endsIn_append_long _ (by decide)]; decide))
  have h6 : occursb (ofStr ("\n\x7d")) (ofStr ("\n    local GREEN=$'\\033[0;32m'\n    local YELLOW=$'\\033[1;33m'\n    local BLUE=$'\\033[0;34m'\n    local RED=$'\\033[0;31m'\n    local NC=$'\\033[0m'\n    local BOLD=$'\\033[1m'\n    local DIM=$'\\033[2m'\n    \n    local review_mode=false\n    local user_message=\"\"\n    \n    if [[ \"$1\" == \"-r\" ]]; then\n        review_mode=true\n        shift\n        user_message=\"$*\"\n    else\n        user_message=\"$*\"\n    fi\n\n    if ! command -v git &> /dev/null; then\n        echo \"$\x7bRED\x7dError:$\x7bNC\x7d git is not installed\"\n        return 1\n    fi\n\n    if ! git rev-parse --is-inside-work-tree > /dev/null 2>&1; then\n        echo \"$\x7bRED\x7dError:$\x7bNC\x7d Not a git repository\"\n        return 1\n    fi\n\n    if git diff --cached --quiet; then\n        echo \"$\x7bYELLOW\x7dNothing to commit$\x7bNC\x7d - no staged changes\"\n        echo \"$\x7bDIM\x7dStage changes first: git add <files>$\x7bNC\x7d\"\n        return 0\n    fi\n\n    echo \"$\x7bBOLD\x7d$\x7bBLUE\x7d━━━━━━━━━━━━━━━━━━━━━━━━━━━━━━━━━━━━━━━━━━━━━━━━━━━$\x7bNC\x7d\"\n    echo \"$\x7bBOLD\x7d📝 Git Commit with AI Message$\x7bNC\x7d\"\n    echo \"$\x7bBOLD\x7d$\x7bBLUE\x7d━━━━━━━━━━━━━━━━━━━━━━━━━━━━━━━━━━━━━━━━━━━━━━━━━━━$\x7bNC\x7d\"\n\n    local commit_message=\"\"\n    \n    if [ -n \"$user_message\" ]; then\n        echo \"\"\n        echo \"$\x7bGREEN\x7d✓$\x7bNC\x7d Using provided commit message\"\n        commit_message=\"$user_message\"\n    else\n        if ! command -v ") ++ ofStr claudeCLI.command ++ ofStr (" &> /dev/null; then\n            echo \"$\x7bRED\x7dError:$\x7bNC\x7d ") ++ ofStr claudeCLI.name ++ ofStr (" is not installed\"\n            return 1\n        fi\n\n        echo \"\"\n        echo \"$\x7bYELLOW\x7d[1/2]$\x7bNC\x7d 🔍 Analyzing staged changes...\"\n    \n        local staged_diff=$(git diff --cached 2>/dev/null | head -500)\n    \n        local prompt=\"Analyze the following staged git changes and generate a commit message following the Conventional Commits specification with bullet-point changelog style.\n\n## Commit Message Format:\n<type>(<scope>): <short summary>\n\n- <bullet point describing a specific change>\n- <bullet point describing another change>\n\n## Types: feat, fix, docs, style, refactor, perf, test, build, ci, chore, revert\n\n## Rules:\n1. Subject line: max 50 chars, imperative mood, no period\n2. Body uses bullet points (- ) to list specific changes\n3. Each bullet should be concise and actionable\n\n## Staged Changes:\n$\x7bstaged_diff\x7d\n\nOUTPUT ONLY THE COMMIT MESSAGE, nothing else.\"\n\n        echo \"$\x7bYELLOW\x7d[2/2]$\x7bNC\x7d 🤖 Generating commit message with ") ++ ofStr claudeCLI.name) = false :=
    occursb_chain (by decide) h5 (by decide)
      (by
        intro k hk0 hkl
        rw [show List.length (ofStr ("\n\x7d")) = 2 from rfl] at hkl
        have hk : k = 1 := by omega
        subst hk
        exact Or.inl (by rw [endsIn_append_long _ (by decide)]; decide))
  have h7 : occursb (ofStr ("\n\x7d")) (ofStr ("\n    local GREEN=$'\\033[0;32m'\n    local YELLOW=$'\\033[1;33m'\n    local BLUE=$'\\033[0;34m'\n    local RED=$'\\033[0;31m'\n    local NC=$'\\033[0m'\n    local BOLD=$'\\033[1m'\n    local DIM=$'\\033[2m'\n    \n    local review_mode=false\n    local user_message=\"\"\n    \n    if [[ \"$1\" == \"-r\" ]]; then\n        review_mode=true\n        shift\n        user_message=\"$*\"\n    else\n        user_message=\"$*\"\n    fi\n\n    if ! command -v git &> /dev/null; then\n        echo \"$\x7bRED\x7dError:$\x7bNC\x7d git is not installed\"\n        return 1\n    fi\n\n    if ! git rev-parse --is-inside-work-tree > /dev/null 2>&1; then\n        echo \"$\x7bRED\x7dError:$\x7bNC\x7d Not a git repository\"\n        return 1\n    fi\n\n    if git diff --cached --quiet; then\n        echo \"$\x7bYELLOW\x7dNothing to commit$\x7bNC\x7d - no staged changes\"\n        echo \"$\x7bDIM\x7dStage changes first: git add <files>$\x7bNC\x7d\"\n        return 0\n    fi\n\n    echo \"$\x7bBOLD\x7d$\x7bBLUE\x7d━━━━━━━━━━━━━━━━━━━━━━━━━━━━━━━━━━━━━━━━━━━━━━━━━━━$\x7bNC\x7d\"\n    echo \"$\x7bBOLD\x7d📝 Git Commit with AI Message$\x7bNC\x7d\"\n    echo \"$\x7bBOLD\x7d$\x7bBLUE\x7d━━━━━━━━━━━━━━━━━━━━━━━━━━━━━━━━━━━━━━━━━━━━━━━━━━━$\x7bNC\x7d\"\n\n    local commit_message=\"\"\n    \n    if [ -n \"$user_message\" ]; then\n        echo \"\"\n        echo \"$\x7bGREEN\x7d✓$\x7bNC\x7d Using provided commit message\"\n        commit_message=\"$user_message\"\n    else\n        if ! command -v ") ++ ofStr claudeCLI.command ++ ofStr (" &> /dev/null; then\n            echo \"$\x7bRED\x7dError:$\x7bNC\x7d ") ++ ofStr claudeCLI.name ++ ofStr (" is not installed\"\n            return 1\n        fi\n\n        echo \"\"\n        echo \"$\x7bYELLOW\x7d[1/2]$\x7bNC\x7d 🔍 Analyzing staged changes...\"\n    \n        local staged_diff=$(git diff --cached 2>/dev/null | head -500)\n    \n        local prompt=\"Analyze the following staged git changes and generate a commit message following the Conventional Commits specification with bullet-point changelog style.\n\n## Commit Message Format:\n<type>(<scope>): <short summary>\n\n- <bullet point describing a specific change>\n- <bullet point describing another change>\n\n## Types: feat, fix, docs, style, refactor, perf, test, build, ci, chore, revert\n\n## Rules:\n1. Subject line: max 50 chars, imperative mood, no period\n2. Body uses bullet points (- ) to list specific changes\n3. Each bullet should be concise and actionable\n\n## Staged Changes:\n$\x7bstaged_diff\x7d\n\nOUTPUT ONLY THE COMMIT MESSAGE, nothing else.\"\n\n        echo \"$\x7bYELLOW\x7d[2/2]$\x7bNC\x7d 🤖 Generating commit message with ") ++ ofStr claudeCLI.name ++ ofStr ("...\"\n        echo \"$\x7bDIM\x7d     (this may take a few seconds...)$\x7bNC\x7d\"\n    \n        local temp_file=$(mktemp)\n        local error_file=$(mktemp)\n    \n        ")) = false :=
    occursb_chain (by decide) h6 (by decide)
      (by
        intro k hk0 hkl
        rw [show List.length (ofStr ("\n\x7d")) = 2 from rfl] at hkl
        have hk : k = 1 := by omega
        subst hk
        exact Or.inl (by rw [endsIn_append_long _ (by decide)]; decide))
  have h8 : occursb (ofStr ("\n\x7d")) (ofStr ("\n    local GREEN=$'\\033[0;32m'\n    local YELLOW=$'\\033[1;33m'\n    local BLUE=$'\\033[0;34m'\n    local RED=$'\\033[0;31m'\n    local NC=$'\\033[0m'\n    local BOLD=$'\\033[1m'\n    local DIM=$'\\033[2m'\n    \n    local review_mode=false\n    local user_message=\"\"\n    \n    if [[ \"$1\" == \"-r\" ]]; then\n        review_mode=true\n        shift\n        user_message=\"$*\"\n    else\n        user_message=\"$*\"\n    fi\n\n    if ! command -v git &> /dev/null; then\n        echo \"$\x7bRED\x7dError:$\x7bNC\x7d git is not installed\"\n        return 1\n    fi\n\n    if ! git rev-parse --is-inside-work-tree > /dev/null 2>&1; then\n        echo \"$\x7bRED\x7dError:$\x7bNC\x7d Not a git repository\"\n        return 1\n    fi\n\n    if git diff --cached --quiet; then\n        echo \"$\x7bYELLOW\x7dNothing to commit$\x7bNC\x7d - no staged changes\"\n        echo \"$\x7bDIM\x7dStage changes first: git add <files>$\x7bNC\x7d\"\n        return 0\n    fi\n\n    echo \"$\x7bBOLD\x7d$\x7bBLUE\x7d━━━━━━━━━━━━━━━━━━━━━━━━━━━━━━━━━━━━━━━━━━━━━━━━━━━$\x7bNC\x7d\"\n    echo \"$\x7bBOLD\x7d📝 Git Commit with AI Message$\x7bNC\x7d\"\n    echo \"$\x7bBOLD\x7d$\x7bBLUE\x7d━━━━━━━━━━━━━━━━━━━━━━━━━━━━━━━━━━━━━━━━━━━━━━━━━━━$\x7bNC\x7d\"\n\n    local commit_message=\"\"\n    \n    if [ -n \"$user_message\" ]; then\n        echo \"\"\n        echo \"$\x7bGREEN\x7d✓$\x7bNC\x7d Using provided commit message\"\n        commit_message=\"$user_message\"\n    else\n        if ! command -v ") ++ ofStr claudeCLI.command ++ ofStr (" &> /dev/null; then\n            echo \"$\x7bRED\x7dError:$\x7bNC\x7d ") ++ ofStr claudeCLI.name ++ ofStr (" is not installed\"\n            return 1\n        fi\n\n        echo \"\"\n        echo \"$\x7bYELLOW\x7d[1/2]$\x7bNC\x7d 🔍 Analyzing staged changes...\"\n    \n        local staged_diff=$(git diff --cached 2>/dev/null | head -500)\n    \n        local prompt=\"Analyze the following staged git changes and generate a commit message following the Conventional Commits specification with bullet-point changelog style.\n\n## Commit Message Format:\n<type>(<scope>): <short summary>\n\n- <bullet point describing a specific change>\n- <bullet point describing another change>\n\n## Types: feat, fix, docs, style, refactor, perf, test, build, ci, chore, revert\n\n## Rules:\n1. Subject line: max 50 chars, imperative mood, no period\n2. Body uses bullet points (- ) to list specific changes\n3. Each bullet should be concise and actionable\n\n## Staged Changes:\n$\x7bstaged_diff\x7d\n\nOUTPUT ONLY THE COMMIT MESSAGE, nothing else.\"\n\n        echo \"$\x7bYELLOW\x7d[2/2]$\x7bNC\x7d 🤖 Generating commit message with ") ++ ofStr claudeCLI.name ++ ofStr ("...\"\n        echo \"$\x7bDIM\x7d     (this may take a few seconds...)$\x7bNC\x7d\"\n    \n        local temp_file=$(mktemp)\n        local error_file=$(mktemp)\n    \n        ") ++ ofStr (buildCLICommand claudeCLI "sonnet")) = false :=
    occursb_chain (by decide) h7 (by decide)
      (by
        intro k hk0 hkl
        rw [show List.length (ofStr ("\n\x7d")) = 2 from rfl] at hkl
        have hk : k = 1 := by omega
        subst hk
        exact Or.inl (by rw [endsIn_append_long _ (by decide)]; decide))
  have h9 : occursb (ofStr ("\n\x7d")) (ofStr ("\n    local GREEN=$'\\033[0;32m'\n    local YELLOW=$'\\033[1;33m'\n    local BLUE=$'\\033[0;34m'\n    local RED=$'\\033[0;31m'\n    local NC=$'\\033[0m'\n    local BOLD=$'\\033[1m'\n    local DIM=$'\\033[2m'\n    \n    local review_mode=false\n    local user_message=\"\"\n    \n    if [[ \"$1\" == \"-r\" ]]; then\n        review_mode=true\n        shift\n        user_message=\"$*\"\n    else\n        user_message=\"$*\"\n    fi\n\n    if ! command -v git &> /dev/null; then\n        echo \"$\x7bRED\x7dError:$\x7bNC\x7d git is not installed\"\n        return 1\n    fi\n\n    if ! git rev-parse --is-inside-work-tree > /dev/null 2>&1; then\n        echo \"$\x7bRED\x7dError:$\x7bNC\x7d Not a git repository\"\n        return 1\n    fi\n\n    if git diff --cached --quiet; then\n        echo \"$\x7bYELLOW\x7dNothing to commit$\x7bNC\x7d - no staged changes\"\n        echo \"$\x7bDIM\x7dStage changes first: git add <files>$\x7bNC\x7d\"\n        return 0\n    fi\n\n    echo \"$\x7bBOLD\x7d$\x7bBLUE\x7d━━━━━━━━━━━━━━━━━━━━━━━━━━━━━━━━━━━━━━━━━━━━━━━━━━━$\x7bNC\x7d\"\n    echo \"$\x7bBOLD\x7d📝 Git Commit with AI Message$\x7bNC\x7d\"\n    echo \"$\x7bBOLD\x7d$\x7bBLUE\x7d━━━━━━━━━━━━━━━━━━━━━━━━━━━━━━━━━━━━━━━━━━━━━━━━━━━$\x7bNC\x7d\"\n\n    local commit_message=\"\"\n    \n    if [ -n \"$user_message\" ]; then\n        echo \"\"\n        echo \"$\x7bGREEN\x7d✓$\x7bNC\x7d Using provided commit message\"\n        commit_message=\"$user_message\"\n    else\n        if ! command -v ") ++ ofStr claudeCLI.command ++ ofStr (" &> /dev/null; then\n            echo \"$\x7bRED\x7dError:$\x7bNC\x7d ") ++ ofStr claudeCLI.name ++ ofStr (" is not installed\"\n            return 1\n        fi\n\n        echo \"\"\n        echo \"$\x7bYELLOW\x7d[1/2]$\x7bNC\x7d 🔍 Analyzing staged changes...\"\n    \n        local staged_diff=$(git diff --cached 2>/dev/null | head -500)\n    \n        local prompt=\"Analyze the following staged git changes and generate a commit message following the Conventional Commits specification with bullet-point changelog style.\n\n## Commit Message Format:\n<type>(<scope>): <short summary>\n\n- <bullet point describing a specific change>\n- <bullet point describing another change>\n\n## Types: feat, fix, docs, style, refactor, perf, test, build, ci, chore, revert\n\n## Rules:\n1. Subject line: max 50 chars, imperative mood, no period\n2. Body uses bullet points (- ) to list specific changes\n3. Each bullet should be concise and actionable\n\n## Staged Changes:\n$\x7bstaged_diff\x7d\n\nOUTPUT ONLY THE COMMIT MESSAGE, nothing else.\"\n\n        echo \"$\x7bYELLOW\x7d[2/2]$\x7bNC\x7d 🤖 Generating commit message with ") ++ ofStr claudeCLI.name ++ ofStr ("...\"\n        echo \"$\x7bDIM\x7d     (this may take a few seconds...)$\x7bNC\x7d\"\n    \n        local temp_file=$(mktemp)\n        local error_file=$(mktemp)\n    \n        ") ++ ofStr (buildCLICommand claudeCLI "sonnet") ++ ofStr (" > \"$temp_file\" 2> \"$error_file\"\n        local exit_code=$?\n    \n        if [ $exit_code -ne 0 ] || [ ! -s \"$temp_file\" ]; then\n            echo \"$\x7bRED\x7dError:$\x7bNC\x7d Failed to generate commit message\"\n            cat \"$error_file\" 2>/dev/null\n            rm -f \"$temp_file\" \"$error_file\"\n            return 1\n        fi\n    \n        commit_message=$(cat \"$temp_file\")\n        rm -f \"$temp_file\" \"$error_file\"\n    \n        echo \"\"\n        echo \"$\x7bGREEN\x7dGenerated Commit Message:$\x7bNC\x7d\"\n        echo \"$commit_message\"\n    \n        if [ \"$review_mode\" = true ]; then\n            echo \"\"\n            echo -n \"$\x7bYELLOW\x7dProceed with this commit message? [Y/n/e(dit)]:$\x7bNC\x7d \"\n            read confirm\n    \n            case \"$confirm\" in\n                [nN]) echo \"$\x7bYELLOW\x7dAborted.$\x7bNC\x7d\"; return 0 ;;\n                [eE])\n                    local edit_file=$(mktemp)\n                    echo \"$commit_message\" > \"$edit_file\"\n                    $\x7bEDITOR:-vim\x7d \"$edit_file\"\n                    commit_message=$(cat \"$edit_file\")\n                    rm -f \"$edit_file\"\n                    ;;\n            esac\n        fi\n    fi\n\n    echo \"\"\n    echo \"$\x7bYELLOW\x7d📦 Committing...$\x7bNC\x7d\"\n    \n    if ! git commit -m \"$commit_message\" 2>&1; then\n        echo \"$\x7bRED\x7dError:$\x7bNC\x7d Failed to commit\"\n        return 1\n    fi\n\n    echo \"\"\n    echo \"$\x7bBOLD\x7d$\x7bGREEN\x7d━━━━━━━━━━━━━━━━━━━━━━━━━━━━━━━━━━━━━━━━━━━━━━━━━━━$\x7bNC\x7d\"\n    echo \"$\x7bBOLD\x7d$\x7bGREEN\x7d✨ Done!$\x7bNC\x7d\"\n    echo \"$\x7bBOLD\x7d$\x7bGREEN\x7d━━━━━━━━━━━━━━━━━━━━━━━━━━━━━━━━━━━━━━━━━━━━━━━━━━━$\x7bNC\x7d\"")) = false :=
    occursb_chain (by decide) h8 (by decide)
      (by
        intro k hk0 hkl
        rw [show List.length (ofStr ("\n\x7d")) = 2 from rfl] at hkl
        have hk : k = 1 := by omega
        subst hk
        exact Or.inl (by rw [endsIn_append_long _ (by decide)]; decide))
  exact h9

set_option maxRecDepth 400000 in
theorem occ_tri_bodyGc : occursb (ofStr ("\n\n\n")) bodyGc = false := by
  unfold bodyGc gcBody
  have h1 : occursb (ofStr ("\n\n\n")) (ofStr ("\n    local GREEN=$'\\033[0;32m'\n    local YELLOW=$'\\033[1;33m'\n    local BLUE=$'\\033[0;34m'\n    local RED=$'\\033[0;31m'\n    local NC=$'\\033[0m'\n    local BOLD=$'\\033[1m'\n    local DIM=$'\\033[2m'\n    \n    local review_mode=false\n    local user_message=\"\"\n    \n    if [[ \"$1\" == \"-r\" ]]; then\n        review_mode=true\n        shift\n        user_message=\"$*\"\n    else\n        user_message=\"$*\"\n    fi\n\n    if ! command -v git &> /dev/null; then\n        echo \"$\x7bRED\x7dError:$\x7bNC\x7d git is not installed\"\n        return 1\n    fi\n\n    if ! git rev-parse --is-inside-work-tree > /dev/null 2>&1; then\n        echo \"$\x7bRED\x7dError:$\x7bNC\x7d Not a git repository\"\n        return 1\n    fi\n\n    if git diff --cached --quiet; then\n        echo \"$\x7bYELLOW\x7dNothing to commit$\x7bNC\x7d - no staged changes\"\n        echo \"$\x7bDIM\x7dStage changes first: git add <files>$\x7bNC\x7d\"\n        return 0\n    fi\n\n    echo \"$\x7bBOLD\x7d$\x7bBLUE\x7d━━━━━━━━━━━━━━━━━━━━━━━━━━━━━━━━━━━━━━━━━━━━━━━━━━━$\x7bNC\x7d\"\n    echo \"$\x7bBOLD\x7d📝 Git Commit with AI Message$\x7bNC\x7d\"\n    echo \"$\x7bBOLD\x7d$\x7bBLUE\x7d━━━━━━━━━━━━━━━━━━━━━━━━━━━━━━━━━━━━━━━━━━━━━━━━━━━$\x7bNC\x7d\"\n\n    local commit_message=\"\"\n    \n    if [ -n \"$user_message\" ]; then\n        echo \"\"\n        echo \"$\x7bGREEN\x7d✓$\x7bNC\x7d Using provided commit message\"\n        commit_message=\"$user_message\"\n    else\n        if ! command -v ")) = false := by decide
  have h2 : occursb (ofStr ("\n\n\n")) (ofStr ("\n    local GREEN=$'\\033[0;32m'\n    local YELLOW=$'\\033[1;33m'\n    local BLUE=$'\\033[0;34m'\n    local RED=$'\\033[0;31m'\n    local NC=$'\\033[0m'\n    local BOLD=$'\\033[1m'\n    local DIM=$'\\033[2m'\n    \n    local review_mode=false\n    local user_message=\"\"\n    \n    if [[ \"$1\" == \"-r\" ]]; then\n        review_mode=true\n        shift\n        user_message=\"$*\"\n    else\n        user_message=\"$*\"\n    fi\n\n    if ! command -v git &> /dev/null; then\n        echo \"$\x7bRED\x7dError:$\x7bNC\x7d git is not installed\"\n        return 1\n    fi\n\n    if ! git rev-parse --is-inside-work-tree > /dev/null 2>&1; then\n        echo \"$\x7bRED\x7dError:$\x7bNC\x7d Not a git repository\"\n        return 1\n    fi\n\n    if git diff --cached --quiet; then\n        echo \"$\x7bYELLOW\x7dNothing to commit$\x7bNC\x7d - no staged changes\"\n        echo \"$\x7bDIM\x7dStage changes first: git add <files>$\x7bNC\x7d\"\n        return 0\n    fi\n\n    echo \"$\x7bBOLD\x7d$\x7bBLUE\x7d━━━━━━━━━━━━━━━━━━━━━━━━━━━━━━━━━━━━━━━━━━━━━━━━━━━$\x7bNC\x7d\"\n    echo \"$\x7bBOLD\x7d📝 Git Commit with AI Message$\x7bNC\x7d\"\n    echo \"$\x7bBOLD\x7d$\x7bBLUE\x7d━━━━━━━━━━━━━━━━━━━━━━━━━━━━━━━━━━━━━━━━━━━━━━━━━━━$\x7bNC\x7d\"\n\n    local commit_message=\"\"\n    \n    if [ -n \"$user_message\" ]; then\n        echo \"\"\n        echo \"$\x7bGREEN\x7d✓$\x7bNC\x7d Using provided commit message\"\n        commit_message=\"$user_message\"\n    else\n        if ! command -v ") ++ ofStr claudeCLI.command) = false :=
    occursb_chain (by decide) h1 (by decide)
      (by
        intro k hk0 hkl
        rw [show List.length (ofStr ("\n\n\n")) = 3 from rfl] at hkl
        have hk : k = 1 ∨ k = 2 := by omega
        rcases hk with hk | hk <;> subst hk
        · exact Or.inl (by decide)
        · exact Or.inl (by decide))
  have h3 : occursb (ofStr ("\n\n\n")) (ofStr ("\n    local GREEN=$'\\033[0;32m'\n    local YELLOW=$'\\033[1;33m'\n    local BLUE=$'\\033[0;34m'\n    local RED=$'\\033[0;31m'\n    local NC=$'\\033[0m'\n    local BOLD=$'\\033[1m'\n    local DIM=$'\\033[2m'\n    \n    local review_mode=false\n    local user_message=\"\"\n    \n    if [[ \"$1\" == \"-r\" ]]; then\n        review_mode=true\n        shift\n        user_message=\"$*\"\n    else\n        user_message=\"$*\"\n    fi\n\n    if ! command -v git &> /dev/null; then\n        echo \"$\x7bRED\x7dError:$\x7bNC\x7d git is not installed\"\n        return 1\n    fi\n\n    if ! git rev-parse --is-inside-work-tree > /dev/null 2>&1; then\n        echo \"$\x7bRED\x7dError:$\x7bNC\x7d Not a git repository\"\n        return 1\n    fi\n\n    if git diff --cached --quiet; then\n        echo \"$\x7bYELLOW\x7dNothing to commit$\x7bNC\x7d - no staged changes\"\n        echo \"$\x7bDIM\x7dStage changes first: git add <files>$\x7bNC\x7d\"\n        return 0\n    fi\n\n    echo \"$\x7bBOLD\x7d$\x7bBLUE\x7d━━━━━━━━━━━━━━━━━━━━━━━━━━━━━━━━━━━━━━━━━━━━━━━━━━━$\x7bNC\x7d\"\n    echo \"$\x7bBOLD\x7d📝 Git Commit with AI Message$\x7bNC\x7d\"\n    echo \"$\x7bBOLD\x7d$\x7bBLUE\x7d━━━━━━━━━━━━━━━━━━━━━━━━━━━━━━━━━━━━━━━━━━━━━━━━━━━$\x7bNC\x7d\"\n\n    local commit_message=\"\"\n    \n    if [ -n \"$user_message\" ]; then\n        echo \"\"\n        echo \"$\x7bGREEN\x7d✓$\x7bNC\x7d Using provided commit message\"\n        commit_message=\"$user_message\"\n    else\n        if ! command -v ") ++ ofStr claudeCLI.command ++ ofStr (" &> /dev/null; then\n            echo \"$\x7bRED\x7dError:$\x7bNC\x7d ")) = false :=
    occursb_chain (by decide) h2 (by decide)
      (by
        intro k hk0 hkl
        rw [show List.length (ofStr ("\n\n\n")) = 3 from rfl] at hkl
        have hk : k = 1 ∨ k = 2 := by omega
        rcases hk with hk | hk <;> subst hk
        · exact Or.inl (by rw [endsIn_append_long _ (by decide)]; decide)
        · exact Or.inl (by rw [endsIn_append_long _ (by decide)]; decide))
  have h4 : occursb (ofStr ("\n\n\n")) (ofStr ("\n    local GREEN=$'\\033[0;32m'\n    local YELLOW=$'\\033[1;33m'\n    local BLUE=$'\\033[0;34m'\n    local RED=$'\\033[0;31m'\n    local NC=$'\\033[0m'\n    local BOLD=$'\\033[1m'\n    local DIM=$'\\033[2m'\n    \n    local review_mode=false\n    local user_message=\"\"\n    \n    if [[ \"$1\" == \"-r\" ]]; then\n        review_mode=true\n        shift\n        user_message=\"$*\"\n    else\n        user_message=\"$*\"\n    fi\n\n    if ! command -v git &> /dev/null; then\n        echo \"$\x7bRED\x7dError:$\x7bNC\x7d git is not installed\"\n        return 1\n    fi\n\n    if ! git rev-parse --is-inside-work-tree > /dev/null 2>&1; then\n        echo \"$\x7bRED\x7dError:$\x7bNC\x7d Not a git repository\"\n        return 1\n    fi\n\n    if git diff --cached --quiet; then\n        echo \"$\x7bYELLOW\x7dNothing to commit$\x7bNC\x7d - no staged changes\"\n        echo \"$\x7bDIM\x7dStage changes first: git add <files>$\x7bNC\x7d\"\n        return 0\n    fi\n\n    echo \"$\x7bBOLD\x7d$\x7bBLUE\x7d━━━━━━━━━━━━━━━━━━━━━━━━━━━━━━━━━━━━━━━━━━━━━━━━━━━$\x7bNC\x7d\"\n    echo \"$\x7bBOLD\x7d📝 Git Commit with AI Message$\x7bNC\x7d\"\n    echo \"$\x7bBOLD\x7d$\x7bBLUE\x7d━━━━━━━━━━━━━━━━━━━━━━━━━━━━━━━━━━━━━━━━━━━━━━━━━━━$\x7bNC\x7d\"\n\n    local commit_message=\"\"\n    \n    if [ -n \"$user_message\" ]; then\n        echo \"\"\n        echo \"$\x7bGREEN\x7d✓$\x7bNC\x7d Using provided commit message\"\n        commit_message=\"$user_message\"\n    else\n        if ! command -v ") ++ ofStr claudeCLI.command ++ ofStr (" &> /dev/null; then\n            echo \"$\x7bRED\x7dError:$\x7bNC\x7d ") ++ ofStr claudeCLI.name) = false :=
    occursb_chain (by decide) h3 (by decide)
      (by
        intro k hk0 hkl
        rw [show List.length (ofStr ("\n\n\n")) = 3 from rfl] at hkl
        have hk : k = 1 ∨ k = 2 := by omega
        rcases hk with hk | hk <;> subst hk
        · exact Or.inl (by rw [endsIn_append_long _ (by decide)]; decide)
        · exact Or.inl (by rw [endsIn_append_long _ (by decide)]; decide))
  have h5 : occursb (ofStr ("\n\n\n")) (ofStr ("\n    local GREEN=$'\\033[0;32m'\n    local YELLOW=$'\\033[1;33m'\n    local BLUE=$'\\033[0;34m'\n    local RED=$'\\033[0;31m'\n    local NC=$'\\033[0m'\n    local BOLD=$'\\033[1m'\n    local DIM=$'\\033[2m'\n    \n    local review_mode=false\n    local user_message=\"\"\n    \n    if [[ \"$1\" == \"-r\" ]]; then\n        review_mode=true\n        shift\n        user_message=\"$*\"\n    else\n        user_message=\"$*\"\n    fi\n\n    if ! command -v git &> /dev/null; then\n        echo \"$\x7bRED\x7dError:$\x7bNC\x7d git is not installed\"\n        return 1\n    fi\n\n    if ! git rev-parse --is-inside-work-tree > /dev/null 2>&1; then\n        echo \"$\x7bRED\x7dError:$\x7bNC\x7d Not a git repository\"\n        return 1\n    fi\n\n    if git diff --cached --quiet; then\n        echo \"$\x7bYELLOW\x7dNothing to commit$\x7bNC\x7d - no staged changes\"\n        echo \"$\x7bDIM\x7dStage changes first: git add <files>$\x7bNC\x7d\"\n        return 0\n    fi\n\n    echo \"$\x7bBOLD\x7d$\x7bBLUE\x7d━━━━━━━━━━━━━━━━━━━━━━━━━━━━━━━━━━━━━━━━━━━━━━━━━━━$\x7bNC\x7d\"\n    echo \"$\x7bBOLD\x7d📝 Git Commit with AI Message$\x7bNC\x7d\"\n    echo \"$\x7bBOLD\x7d$\x7bBLUE\x7d━━━━━━━━━━━━━━━━━━━━━━━━━━━━━━━━━━━━━━━━━━━━━━━━━━━$\x7bNC\x7d\"\n\n    local commit_message=\"\"\n    \n    if [ -n \"$user_message\" ]; then\n        echo \"\"\n        echo \"$\x7bGREEN\x7d✓$\x7bNC\x7d Using provided commit message\"\n        commit_message=\"$user_message\"\n    else\n        if ! command -v ") ++ ofStr claudeCLI.command ++ ofStr (" &> /dev/null; then\n            echo \"$\x7bRED\x7dError:$\x7bNC\x7d ") ++ ofStr claudeCLI.name ++ ofStr (" is not installed\"\n            return 1\n        fi\n\n        echo \"\"\n        echo \"$\x7bYELLOW\x7d[1/2]$\x7bNC\x7d 🔍 Analyzing staged changes...\"\n    \n        local staged_diff=$(git diff --cached 2>/dev/null | head -500)\n    \n        local prompt=\"Analyze the following staged git changes and generate a commit message following the Conventional Commits specification with bullet-point changelog style.\n\n## Commit Message Format:\n<type>(<scope>): <short summary>\n\n- <bullet point describing a specific change>\n- <bullet point describing another change>\n\n## Types: feat, fix, docs, style, refactor, perf, test, build, ci, chore, revert\n\n## Rules:\n1. Subject line: max 50 chars, imperative mood, no period\n2. Body uses bullet points (- ) to list specific changes\n3. Each bullet should be concise and actionable\n\n## Staged Changes:\n$\x7bstaged_diff\x7d\n\nOUTPUT ONLY THE COMMIT MESSAGE, nothing else.\"\n\n        echo \"$\x7bYELLOW\x7d[2/2]$\x7bNC\x7d 🤖 Generating commit message with ")) = false :=
    occursb_chain (by decide) h4 (by decide)
      (by
        intro k hk0 hkl
        rw [show List.length (ofStr ("\n\n\n")) = 3 from rfl] at hkl
        have hk : k = 1 ∨ k = 2 := by omega
        rcases hk with hk | hk <;> subst hk
        · exact Or.inl (by rw [endsIn_append_long _ (by decide)]; decide)
        · exact Or.inl (by rw [endsIn_append_long _ (by decide)]; decide))
  have h6 : occursb (ofStr ("\n\n\n")) (ofStr ("\n    local GREEN=$'\\033[0;32m'\n    local YELLOW=$'\\033[1;33m'\n    local BLUE=$'\\033[0;34m'\n    local RED=$'\\033[0;31m'\n    local NC=$'\\033[0m'\n    local BOLD=$'\\033[1m'\n    local DIM=$'\\033[2m'\n    \n    local review_mode=false\n    local user_message=\"\"\n    \n    if [[ \"$1\" == \"-r\" ]]; then\n        review_mode=true\n        shift\n        user_message=\"$*\"\n    else\n        user_message=\"$*\"\n    fi\n\n    if ! command -v git &> /dev/null; then\n        echo \"$\x7bRED\x7dError:$\x7bNC\x7d git is not installed\"\n        return 1\n    fi\n\n    if ! git rev-parse --is-inside-work-tree > /dev/null 2>&1; then\n        echo \"$\x7bRED\x7dError:$\x7bNC\x7d Not a git repository\"\n        return 1\n    fi\n\n    if git diff --cached --quiet; then\n        echo \"$\x7bYELLOW\x7dNothing to commit$\x7bNC\x7d - no staged changes\"\n        echo \"$\x7bDIM\x7dStage changes first: git add <files>$\x7bNC\x7d\"\n        return 0\n    fi\n\n    echo \"$\x7bBOLD\x7d$\x7bBLUE\x7d━━━━━━━━━━━━━━━━━━━━━━━━━━━━━━━━━━━━━━━━━━━━━━━━━━━$\x7bNC\x7d\"\n    echo \"$\x7bBOLD\x7d📝 Git Commit with AI Message$\x7bNC\x7d\"\n    echo \"$\x7bBOLD\x7d$\x7bBLUE\x7d━━━━━━━━━━━━━━━━━━━━━━━━━━━━━━━━━━━━━━━━━━━━━━━━━━━$\x7bNC\x7d\"\n\n    local commit_message=\"\"\n    \n    if [ -n \"$user_message\" ]; then\n        echo \"\"\n        echo \"$\x7bGREEN\x7d✓$\x7bNC\x7d Using provided commit message\"\n        commit_message=\"$user_message\"\n    else\n        if ! command -v ") ++ ofStr claudeCLI.command ++ ofStr (" &> /dev/null; then\n            echo \"$\x7bRED\x7dError:$\x7bNC\x7d ") ++ ofStr claudeCLI.name ++ ofStr (" is not installed\"\n            return 1\n        fi\n\n        echo \"\"\n        echo \"$\x7bYELLOW\x7d[1/2]$\x7bNC\x7d 🔍 Analyzing staged changes...\"\n    \n        local staged_diff=$(git diff --cached 2>/dev/null | head -500)\n    \n        local prompt=\"Analyze the following staged git changes and generate a commit message following the Conventional Commits specification with bullet-point changelog style.\n\n## Commit Message Format:\n<type>(<scope>): <short summary>\n\n- <bullet point describing a specific change>\n- <bullet point describing another change>\n\n## Types: feat, fix, docs, style, refactor, perf, test, build, ci, chore, revert\n\n## Rules:\n1. Subject line: max 50 chars, imperative mood, no period\n2. Body uses bullet points (- ) to list specific changes\n3. Each bullet should be concise and actionable\n\n## Staged Changes:\n$\x7bstaged_diff\x7d\n\nOUTPUT ONLY THE COMMIT MESSAGE, nothing else.\"\n\n        echo \"$\x7bYELLOW\x7d[2/2]$\x7bNC\x7d 🤖 Generating commit message with ") ++ ofStr claudeCLI.name) = false :=
    occursb_chain (by decide) h5 (by decide)
      (by
        intro k hk0 hkl
        rw [show List.length (ofStr ("\n\n\n")) = 3 from rfl] at hkl
        have hk : k = 1 ∨ k = 2 := by omega
        rcases hk with hk | hk <;> subst hk
        · exact Or.inl (by rw [endsIn_append_long _ (by decide)]; decide)
        · exact Or.inl (by rw [endsIn_append_long _ (by decide)]; decide))
  have h7 : occursb (ofStr ("\n\n\n")) (ofStr ("\n    local GREEN=$'\\033[0;32m'\n    local YELLOW=$'\\033[1;33m'\n    local BLUE=$'\\033[0;34m'\n    local RED=$'\\033[0;31m'\n    local NC=$'\\033[0m'\n    local BOLD=$'\\033[1m'\n    local DIM=$'\\033[2m'\n    \n    local review_mode=false\n    local user_message=\"\"\n    \n    if [[ \"$1\" == \"-r\" ]]; then\n        review_mode=true\n        shift\n        user_message=\"$*\"\n    else\n        user_message=\"$*\"\n    fi\n\n    if ! command -v git &> /dev/null; then\n        echo \"$\x7bRED\x7dError:$\x7bNC\x7d git is not installed\"\n        return 1\n    fi\n\n    if ! git rev-parse --is-inside-work-tree > /dev/null 2>&1; then\n        echo \"$\x7bRED\x7dError:$\x7bNC\x7d Not a git repository\"\n        return 1\n    fi\n\n    if git diff --cached --quiet; then\n        echo \"$\x7bYELLOW\x7dNothing to commit$\x7bNC\x7d - no staged changes\"\n        echo \"$\x7bDIM\x7dStage changes first: git add <files>$\x7bNC\x7d\"\n        return 0\n    fi\n\n    echo \"$\x7bBOLD\x7d$\x7bBLUE\x7d━━━━━━━━━━━━━━━━━━━━━━━━━━━━━━━━━━━━━━━━━━━━━━━━━━━$\x7bNC\x7d\"\n    echo \"$\x7bBOLD\x7d📝 Git Commit with AI Message$\x7bNC\x7d\"\n    echo \"$\x7bBOLD\x7d$\x7bBLUE\x7d━━━━━━━━━━━━━━━━━━━━━━━━━━━━━━━━━━━━━━━━━━━━━━━━━━━$\x7bNC\x7d\"\n\n    local commit_message=\"\"\n    \n    if [ -n \"$user_message\" ]; then\n        echo \"\"\n        echo \"$\x7bGREEN\x7d✓$\x7bNC\x7d Using provided commit message\"\n        commit_message=\"$user_message\"\n    else\n        if ! command -v ") ++ ofStr claudeCLI.command ++ ofStr (" &> /dev/null; then\n            echo \"$\x7bRED\x7dError:$\x7bNC\x7d ") ++ ofStr claudeCLI.name ++ ofStr (" is not installed\"\n            return 1\n        fi\n\n        echo \"\"\n        echo \"$\x7bYELLOW\x7d[1/2]$\x7bNC\x7d 🔍 Analyzing staged changes...\"\n    \n        local staged_diff=$(git diff --cached 2>/dev/null | head -500)\n    \n        local prompt=\"Analyze the following staged git changes and generate a commit message following the Conventional Commits specification with bullet-point changelog style.\n\n## Commit Message Format:\n<type>(<scope>): <short summary>\n\n- <bullet point describing a specific change>\n- <bullet point describing another change>\n\n## Types: feat, fix, docs, style, refactor, perf, test, build, ci, chore, revert\n\n## Rules:\n1. Subject line: max 50 chars, imperative mood, no period\n2. Body uses bullet points (- ) to list specific changes\n3. Each bullet should be concise and actionable\n\n## Staged Changes:\n$\x7bstaged_diff\x7d\n\nOUTPUT ONLY THE COMMIT MESSAGE, nothing else.\"\n\n        echo \"$\x7bYELLOW\x7d[2/2]$\x7bNC\x7d 🤖 Generating commit message with ") ++ ofStr claudeCLI.name ++ ofStr ("...\"\n        echo \"$\x7bDIM\x7d     (this may take a few seconds...)$\x7bNC\x7d\"\n    \n        local temp_file=$(mktemp)\n        local error_file=$(mktemp)\n    \n        ")) = false :=
    occursb_chain (by decide) h6 (by decide)
      (by
        intro k hk0 hkl
        rw [show List.length (ofStr ("\n\n\n")) = 3 from rfl] at hkl
        have hk : k = 1 ∨ k = 2 := by omega
        rcases hk with hk | hk <;> subst hk
        · exact Or.inl (by rw [endsIn_append_long _ (by decide)]; decide)
        · exact Or.inl (by rw [endsIn_append_long _ (by decide)]; decide))
  have h8 : occursb (ofStr ("\n\n\n")) (ofStr ("\n    local GREEN=$'\\033[0;32m'\n    local YELLOW=$'\\033[1;33m'\n    local BLUE=$'\\033[0;34m'\n    local RED=$'\\033[0;31m'\n    local NC=$'\\033[0m'\n    local BOLD=$'\\033[1m'\n    local DIM=$'\\033[2m'\n    \n    local review_mode=false\n    local user_message=\"\"\n    \n    if [[ \"$1\" == \"-r\" ]]; then\n        review_mode=true\n        shift\n        user_message=\"$*\"\n    else\n        user_message=\"$*\"\n    fi\n\n    if ! command -v git &> /dev/null; then\n        echo \"$\x7bRED\x7dError:$\x7bNC\x7d git is not installed\"\n        return 1\n    fi\n\n    if ! git rev-parse --is-inside-work-tree > /dev/null 2>&1; then\n        echo \"$\x7bRED\x7dError:$\x7bNC\x7d Not a git repository\"\n        return 1\n    fi\n\n    if git diff --cached --quiet; then\n        echo \"$\x7bYELLOW\x7dNothing to commit$\x7bNC\x7d - no staged changes\"\n        echo \"$\x7bDIM\x7dStage changes first: git add <files>$\x7bNC\x7d\"\n        return 0\n    fi\n\n    echo \"$\x7bBOLD\x7d$\x7bBLUE\x7d━━━━━━━━━━━━━━━━━━━━━━━━━━━━━━━━━━━━━━━━━━━━━━━━━━━$\x7bNC\x7d\"\n    echo \"$\x7bBOLD\x7d📝 Git Commit with AI Message$\x7bNC\x7d\"\n    echo \"$\x7bBOLD\x7d$\x7bBLUE\x7d━━━━━━━━━━━━━━━━━━━━━━━━━━━━━━━━━━━━━━━━━━━━━━━━━━━$\x7bNC\x7d\"\n\n    local commit_message=\"\"\n    \n    if [ -n \"$user_message\" ]; then\n        echo \"\"\n        echo \"$\x7bGREEN\x7d✓$\x7bNC\x7d Using provided commit message\"\n        commit_message=\"$user_message\"\n    else\n        if ! command -v ") ++ ofStr claudeCLI.command ++ ofStr (" &> /dev/null; then\n            echo \"$\x7bRED\x7dError:$\x7bNC\x7d ") ++ ofStr claudeCLI.name ++ ofStr (" is not installed\"\n            return 1\n        fi\n\n        echo \"\"\n        echo \"$\x7bYELLOW\x7d[1/2]$\x7bNC\x7d 🔍 Analyzing staged changes...\"\n    \n        local staged_diff=$(git diff --cached 2>/dev/null | head -500)\n    \n        local prompt=\"Analyze the following staged git changes and generate a commit message following the Conventional Commits specification with bullet-point changelog style.\n\n## Commit Message Format:\n<type>(<scope>): <short summary>\n\n- <bullet point describing a specific change>\n- <bullet point describing another change>\n\n## Types: feat, fix, docs, style, refactor, perf, test, build, ci, chore, revert\n\n## Rules:\n1. Subject line: max 50 chars, imperative mood, no period\n2. Body uses bullet points (- ) to list specific changes\n3. Each bullet should be concise and actionable\n\n## Staged Changes:\n$\x7bstaged_diff\x7d\n\nOUTPUT ONLY THE COMMIT MESSAGE, nothing else.\"\n\n        echo \"$\x7bYELLOW\x7d[2/2]$\x7bNC\x7d 🤖 Generating commit message with ") ++ ofStr claudeCLI.name ++ ofStr ("...\"\n        echo \"$\x7bDIM\x7d     (this may take a few seconds...)$\x7bNC\x7d\"\n    \n        local temp_file=$(mktemp)\n        local error_file=$(mktemp)\n    \n        ") ++ ofStr (buildCLICommand claudeCLI "sonnet")) = false :=
    occursb_chain (by decide) h7 (by decide)
      (by
        intro k hk0 hkl
        rw [show List.length (ofStr ("\n\n\n")) = 3 from rfl] at hkl
        have hk : k = 1 ∨ k = 2 := by omega
        rcases hk with hk | hk <;> subst hk
        · exact Or.inl (by rw [endsIn_append_long _ (by decide)]; decide)
        · exact Or.inl (by rw [endsIn_append_long _ (by decide)]; decide))
  have h9 : occursb (ofStr ("\n\n\n")) (ofStr ("\n    local GREEN=$'\\033[0;32m'\n    local YELLOW=$'\\033[1;33m'\n    local BLUE=$'\\033[0;34m'\n    local RED=$'\\033[0;31m'\n    local NC=$'\\033[0m'\n    local BOLD=$'\\033[1m'\n    local DIM=$'\\033[2m'\n    \n    local review_mode=false\n    local user_message=\"\"\n    \n    if [[ \"$1\" == \"-r\" ]]; then\n        review_mode=true\n        shift\n        user_message=\"$*\"\n    else\n        user_message=\"$*\"\n    fi\n\n    if ! command -v git &> /dev/null; then\n        echo \"$\x7bRED\x7dError:$\x7bNC\x7d git is not installed\"\n        return 1\n    fi\n\n    if ! git rev-parse --is-inside-work-tree > /dev/null 2>&1; then\n        echo \"$\x7bRED\x7dError:$\x7bNC\x7d Not a git repository\"\n        return 1\n    fi\n\n    if git diff --cached --quiet; then\n        echo \"$\x7bYELLOW\x7dNothing to commit$\x7bNC\x7d - no staged changes\"\n        echo \"$\x7bDIM\x7dStage changes first: git add <files>$\x7bNC\x7d\"\n        return 0\n    fi\n\n    echo \"$\x7bBOLD\x7d$\x7bBLUE\x7d━━━━━━━━━━━━━━━━━━━━━━━━━━━━━━━━━━━━━━━━━━━━━━━━━━━$\x7bNC\x7d\"\n    echo \"$\x7bBOLD\x7d📝 Git Commit with AI Message$\x7bNC\x7d\"\n    echo \"$\x7bBOLD\x7d$\x7bBLUE\x7d━━━━━━━━━━━━━━━━━━━━━━━━━━━━━━━━━━━━━━━━━━━━━━━━━━━$\x7bNC\x7d\"\n\n    local commit_message=\"\"\n    \n    if [ -n \"$user_message\" ]; then\n        echo \"\"\n        echo \"$\x7bGREEN\x7d✓$\x7bNC\x7d Using provided commit message\"\n        commit_message=\"$user_message\"\n    else\n        if ! command -v ") ++ ofStr claudeCLI.command ++ ofStr (" &> /dev/null; then\n            echo \"$\x7bRED\x7dError:$\x7bNC\x7d ") ++ ofStr claudeCLI.name ++ ofStr (" is not installed\"\n            return 1\n        fi\n\n        echo \"\"\n        echo \"$\x7bYELLOW\x7d[1/2]$\x7bNC\x7d 🔍 Analyzing staged changes...\"\n    \n        local staged_diff=$(git diff --cached 2>/dev/null | head -500)\n    \n        local prompt=\"Analyze the following staged git changes and generate a commit message following the Conventional Commits specification with bullet-point changelog style.\n\n## Commit Message Format:\n<type>(<scope>): <short summary>\n\n- <bullet point describing a specific change>\n- <bullet point describing another change>\n\n## Types: feat, fix, docs, style, refactor, perf, test, build, ci, chore, revert\n\n## Rules:\n1. Subject line: max 50 chars, imperative mood, no period\n2. Body uses bullet points (- ) to list specific changes\n3. Each bullet should be concise and actionable\n\n## Staged Changes:\n$\x7bstaged_diff\x7d\n\nOUTPUT ONLY THE COMMIT MESSAGE, nothing else.\"\n\n        echo \"$\x7bYELLOW\x7d[2/2]$\x7bNC\x7d 🤖 Generating commit message with ") ++ ofStr claudeCLI.name ++ ofStr ("...\"\n        echo \"$\x7bDIM\x7d     (this may take a few seconds...)$\x7bNC\x7d\"\n    \n        local temp_file=$(mktemp)\n        local error_file=$(mktemp)\n    \n        ") ++ ofStr (buildCLICommand claudeCLI "sonnet") ++ ofStr (" > \"$temp_file\" 2> \"$error_file\"\n        local exit_code=$?\n    \n        if [ $exit_code -ne 0 ] || [ ! -s \"$temp_file\" ]; then\n            echo \"$\x7bRED\x7dError:$\x7bNC\x7d Failed to generate commit message\"\n            cat \"$error_file\" 2>/dev/null\n            rm -f \"$temp_file\" \"$error_file\"\n            return 1\n        fi\n    \n        commit_message=$(cat \"$temp_file\")\n        rm -f \"$temp_file\" \"$error_file\"\n    \n        echo \"\"\n        echo \"$\x7bGREEN\x7dGenerated Commit Message:$\x7bNC\x7d\"\n        echo \"$commit_message\"\n    \n        if [ \"$review_mode\" = true ]; then\n            echo \"\"\n            echo -n \"$\x7bYELLOW\x7dProceed with this commit message? [Y/n/e(dit)]:$\x7bNC\x7d \"\n            read confirm\n    \n            case \"$confirm\" in\n                [nN]) echo \"$\x7bYELLOW\x7dAborted.$\x7bNC\x7d\"; return 0 ;;\n                [eE])\n                    local edit_file=$(mktemp)\n                    echo \"$commit_message\" > \"$edit_file\"\n                    $\x7bEDITOR:-vim\x7d \"$edit_file\"\n                    commit_message=$(cat \"$edit_file\")\n                    rm -f \"$edit_file\"\n                    ;;\n            esac\n        fi\n    fi\n\n    echo \"\"\n    echo \"$\x7bYELLOW\x7d📦 Committing...$\x7bNC\x7d\"\n    \n    if ! git commit -m \"$commit_message\" 2>&1; then\n        echo \"$\x7bRED\x7dError:$\x7bNC\x7d Failed to commit\"\n        return 1\n    fi\n\n    echo \"\"\n    echo \"$\x7bBOLD\x7d$\x7bGREEN\x7d━━━━━━━━━━━━━━━━━━━━━━━━━━━━━━━━━━━━━━━━━━━━━━━━━━━$\x7bNC\x7d\"\n    echo \"$\x7bBOLD\x7d$\x7bGREEN\x7d✨ Done!$\x7bNC\x7d\"\n    echo \"$\x7bBOLD\x7d$\x7bGREEN\x7d━━━━━━━━━━━━━━━━━━━━━━━━━━━━━━━━━━━━━━━━━━━━━━━━━━━$\x7bNC\x7d\"")) = false :=
    occursb_chain (by decide) h8 (by decide)
      (by
        intro k hk0 hkl
        rw [show List.length (ofStr ("\n\n\n")) = 3 from rfl] at hkl
        have hk : k = 1 ∨ k = 2 := by omega
        rcases hk with hk | hk <;> subst hk
        · exact Or.inl (by rw [endsIn_append_long _ (by decide)]; decide)
        · exact Or.inl (by rw [endsIn_append_long _ (by decide)]; decide))
  exact h9

set_option maxRecDepth 400000 in
theorem ends_g_bodyGc : endsIn (ofStr ("g")) bodyGc = false := by
  unfold bodyGc gcBody
  rw [endsIn_append_long _ (by decide)]
  decide

set_option maxRecDepth 400000 in
theorem ends_nl_bodyGc : endsIn (ofStr ("\n")) bodyGc = false := by
  unfold bodyGc gcBody
  rw [endsIn_append_long _ (by decide)]
  decide

set_option maxRecDepth 400000 in
theorem ends_nl2_bodyGc : endsIn (ofStr ("\n\n")) bodyGc = false := by
  unfold bodyGc gcBody
  rw [endsIn_append_long _ (by decide)]
  decide

theorem occ_gp_gcL1 : occursb (ofStr ("gp")) gcL1 = false := by
  unfold gcL1
  decide

theorem occ_gp_provL : occursb (ofStr ("gp")) provL = false := by
  unfold provL
  decide

theorem occ_gc_gpL1 : occursb (ofStr ("gc")) gpL1 = false := by
  unfold gpL1
  decide

theorem occ_gc_provL : occursb (ofStr ("gc")) provL = false := by
  unfold provL
  decide

theorem occ_nb_gpL1 : occursb (ofStr ("\n\x7d")) gpL1 = false := by
  unfold gpL1
  decide

theorem occ_nb_gcL1 : occursb (ofStr ("\n\x7d")) gcL1 = false := by
  unfold gcL1
  decide

theorem occ_nb_provL : occursb (ofStr ("\n\x7d")) provL = false := by
  unfold provL
  decide

theorem occ_tri_gpL1 : occursb (ofStr ("\n\n\n")) gpL1 = false := by
  unfold gpL1
  decide

theorem occ_tri_gcL1 : occursb (ofStr ("\n\n\n")) gcL1 = false := by
  unfold gcL1
  decide

theorem occ_tri_provL : occursb (ofStr ("\n\n\n")) provL = false := by
  unfold provL
  decide


/-!
### Matcher failure propagation over regions
-/

theorem matchSimpleAt_none_of_not_isPre {name t : List Char}
    (h : isPre name t = false) : matchSimpleAt name t = none := by
  unfold matchSimpleAt matchFuncHead
  cases hs : stripPre name t with
  | none => rfl
  | some r =>
    unfold isPre at h
    rw [hs] at h
    simp at h

theorem headMatch_false_of_not_isPre {name t : List Char}
    (h : isPre name t = false) : headMatch name t = false := by
  unfold headMatch matchFuncHead
  cases hs : stripPre name t with
  | none => rfl
  | some r =>
    unfold isPre at h
    rw [hs] at h
    simp at h

theorem matchParens_sp_a (r : List Char) : matchParens (' ' :: 'a' :: r) = none := by
  unfold matchParens
  rw [List.dropWhile_cons, if_pos (show isWsChar ' ' = true from rfl),
    List.dropWhile_cons, if_neg (show ¬(isWsChar 'a' = true) from by decide)]
  rw [show expectChar '(' ('a' :: r) = none from by simp [expectChar]]
  rfl

theorem matchSimpleAt_benign {name : List Char} (r : List Char) :
    matchSimpleAt name (name ++ ' ' :: 'a' :: r) = none := by
  unfold matchSimpleAt matchFuncHead
  rw [stripPre_self_append]
  simp only [Option.some_bind]
  rw [matchParens_sp_a]
  rfl

theorem headMatch_benign {name : List Char} (r : List Char) :
    headMatch name (name ++ ' ' :: 'a' :: r) = false := by
  unfold headMatch matchFuncHead
  rw [stripPre_self_append]
  simp only [Option.some_bind]
  rw [matchParens_sp_a]
  rfl

theorem matchFuncHead_parenHead {name : List Char} (r : List Char) :
    matchFuncHead name (name ++ (ofStr ("() \x7b") ++ r)) = some r := by
  refine matchFuncHead_eq_some_iff.mpr ⟨[], [], [' '], by simp, by simp, ?_, ?_⟩
  · intro c hc
    simp at hc
    subst hc
    rfl
  · rw [show (ofStr ("() \x7b") : List Char) = ['(', ')', ' ', '\x7b'] from rfl]
    simp

theorem headMatch_parenHead {name : List Char} (r : List Char) :
    headMatch name (name ++ (ofStr ("() \x7b") ++ r)) = true := by
  unfold headMatch
  rw [matchFuncHead_parenHead]
  rfl

theorem headMatch_funcBlock {name body : List Char} (r : List Char) :
    headMatch name (funcBlock name body ++ r) = true := by
  have hshape : funcBlock name body ++ r =
      name ++ (ofStr ("() \x7b") ++ (body ++ ('\n' :: '\x7d' :: r))) := by
    unfold funcBlock
    simp [List.append_assoc]
  rw [hshape]
  exact headMatch_parenHead _

theorem noSimple_region {x y : Char} {A C : List Char}
    (hA : occursb [x, y] A = false) (hC : headIs y C = false) :
    ∀ v, v <:+ A → v ≠ [] → matchSimpleAt [x, y] (v ++ C) = none := by
  intro v hv hne
  exact matchSimpleAt_none_of_not_isPre (isPre_pair_tails hA hC v hv hne)

theorem noHead_region {x y : Char} {A C : List Char}
    (hA : occursb [x, y] A = false) (hC : headIs y C = false)
    (hC0 : isPre [x, y] C = false) :
    ∀ v, v <:+ A → headMatch [x, y] (v ++ C) = false := by
  intro v hv
  cases v with
  | nil =>
    rw [List.nil_append]
    exact headMatch_false_of_not_isPre hC0
  | cons c v' =>
    exact headMatch_false_of_not_isPre (isPre_pair_tails hA hC _ hv (by simp))

theorem noSimple_all {x y : Char} {A : List Char}
    (hA : occursb [x, y] A = false) :
    ∀ t ∈ A.tails, matchSimpleAt [x, y] t = none := by
  intro t ht
  cases t with
  | nil => simp [matchSimpleAt, matchFuncHead, stripPre]
  | cons c t' =>
    have h := isPre_pair_tails hA (show headIs y [] = false from rfl) (c :: t')
      ((List.mem_tails _ _).mp ht) (by simp)
    rw [List.append_nil] at h
    exact matchSimpleAt_none_of_not_isPre h

theorem comment_none_cons {name : List Char} {c : Char} (X : List Char)
    (hc : ¬(c = '#')) : matchFuncCommentAt name (c :: X) = none := by
  unfold matchFuncCommentAt
  rw [show expectChar '#' (c :: X) = none from by simp [expectChar, hc]]
  rfl

theorem comment_none_sp {name : List Char} {d : Char} (X : List Char)
    (hd : ¬(d = ' ')) : matchFuncCommentAt name ('#' :: d :: X) = none := by
  unfold matchFuncCommentAt
  rw [show expectChar '#' ('#' :: d :: X) = some (d :: X) from by simp [expectChar]]
  simp only [Option.some_bind]
  rw [show expectChar ' ' (d :: X) = none from by simp [expectChar, hd]]
  rfl

theorem comment_ite {name rest : List Char} :
    matchFuncCommentAt name ('#' :: ' ' :: rest) =
      if occursb name (rest.takeWhile notNl) then
        (expectChar '\n' (rest.dropWhile notNl)).bind fun after =>
          matchSimpleAt name after
      else none := by
  unfold matchFuncCommentAt
  rw [show expectChar '#' ('#' :: ' ' :: rest) = some (' ' :: rest) from by
    simp [expectChar]]
  simp only [Option.some_bind]
  rw [show expectChar ' ' (' ' :: rest) = some rest from by simp [expectChar]]
  simp only [Option.some_bind]

theorem comment_at_hash_line {name v2 L2r : List Char}
    (hv2 : ∀ c ∈ v2, notNl c = true) (hL2 : isPre name L2r = false) :
    matchFuncCommentAt name ('#' :: ' ' :: (v2 ++ '\n' :: L2r)) = none := by
  rw [comment_ite]
  by_cases hocc : occursb name ((v2 ++ '\n' :: L2r).takeWhile notNl) = true
  · rw [if_pos hocc, dropWhile_all_append _ hv2,
      dropWhile_cons_neg _ (show notNl '\n' = false from rfl),
      show expectChar '\n' ('\n' :: L2r) = some L2r from by simp [expectChar]]
    simp only [Option.some_bind]
    exact matchSimpleAt_none_of_not_isPre hL2
  · rw [if_neg hocc]

theorem comment_none_region {name A C : List Char}
    (hA : occursb name A = false)
    (hend : headIs '\n' C = true ∨ endsIn (ofStr ("\n")) A = true) :
    ∀ v, v <:+ A → v ≠ [] → matchFuncCommentAt name (v ++ C) = none := by
  intro v hv hne
  cases v with
  | nil => exact absurd rfl hne
  | cons c v1 =>
    rw [List.cons_append]
    by_cases hc : c = '#'
    case neg => exact comment_none_cons _ hc
    case pos =>
    subst hc
    cases v1 with
    | nil =>
      rcases hend with hend | hend
      · cases C with
        | nil => simp [headIs] at hend
        | cons e C' =>
          have he : e = '\n' := by simpa [headIs] using hend
          subst he
          rw [List.nil_append]
          exact comment_none_sp C' (by decide)
      · exfalso
        rcases endsIn_iff.mp hend with ⟨u, hu⟩
        rw [show (ofStr ("\n") : List Char) = ['\n'] from rfl] at hu
        rcases hv with ⟨w, hw⟩
        have h1 : A.getLast? = some '\n' := by
          rw [hu]
          exact List.getLast?_concat _
        have h2 : A.getLast? = some '#' := by
          rw [← hw, show ('#' :: ([] : List Char)) = [] ++ ['#'] from rfl,
            ← List.append_assoc]
          exact List.getLast?_concat _
        rw [h1] at h2
        injection h2 with h3
        exact absurd h3 (by decide)
    | cons d v2 =>
      rw [List.cons_append]
      by_cases hd : d = ' '
      case neg => exact comment_none_sp _ hd
      case pos =>
      subst hd
      have hsufv2 : v2 <:+ A :=
        (show v2 <:+ '#' :: ' ' :: v2 from ⟨['#', ' '], rfl⟩).trans hv
      have hv2A : occursb name v2 = false := by
        rcases hsufv2 with ⟨w, hw⟩
        rw [← hw] at hA
        exact occursb_suffix w hA
      cases hdw : v2.dropWhile notNl with
      | nil =>
        have hall : ∀ x ∈ v2, notNl x = true := all_of_dropWhile_nil hdw
        rcases hend with hend | hend
        · cases C with
          | nil => simp [headIs] at hend
          | cons e C' =>
            have he : e = '\n' := by simpa [headIs] using hend
            subst he
            rw [comment_ite, takeWhile_all_append _ hall,
              takeWhile_cons_neg _ (show notNl '\n' = false from rfl),
              List.append_nil, if_neg (by simp [hv2A])]
        · exfalso
          rcases endsIn_iff.mp hend with ⟨u, hu⟩
          rw [show (ofStr ("\n") : List Char) = ['\n'] from rfl] at hu
          rcases hv with ⟨w, hw⟩
          have h1 : A.getLast? = some '\n' := by
            rw [hu]
            exact List.getLast?_concat _
          rcases v2.eq_nil_or_concat with rfl | ⟨ys, y, rfl⟩
          · have h2 : A.getLast? = some ' ' := by
              rw [← hw, show ('#' :: ' ' :: ([] : List Char)) = ['#'] ++ [' ']
                from rfl, ← List.append_assoc]
              exact List.getLast?_concat _
            rw [h1] at h2
            injection h2 with h3
            exact absurd h3 (by decide)
          · have hy : notNl y = true := hall y (by simp)
            have h2 : A.getLast? = some y := by
              rw [← hw, List.concat_eq_append,
                show '#' :: ' ' :: (ys ++ [y]) = ('#' :: ' ' :: ys) ++ [y]
                from by simp, ← List.append_assoc]
              exact List.getLast?_concat _
            rw [h1] at h2
            injection h2 with h3
            rw [← h3] at hy
            exact absurd hy (by decide)
      | cons g w =>
        rw [comment_ite, takeWhile_append_first C hdw]
        have hpre : occursb name (v2.takeWhile notNl) = false := by
          refine occursb_prefix (v2.dropWhile notNl) ?_
          rw [List.takeWhile_append_dropWhile]
          exact hv2A
        rw [if_neg (by simp [hpre])]


/-!
### Composite occurrence facts and header-line comment analysis
-/

theorem isPre_cons_step {c : Char} {q s : List Char} :
    isPre (c :: q) (c :: s) = isPre q s := by
  simp [isPre, stripPre]

theorem funcBlock_eq_PB (name body : List Char) :
    funcBlock name body = name ++ PB body := by
  unfold funcBlock PB
  simp [List.append_assoc]

theorem blockC_eq (ts : List Char) :
    aliasContentBlock gpT gcT claudeCLI "sonnet" ts = blockC ts := by
  rw [block_eq]
  rfl

theorem ends_nl_banner (ts : List Char) :
    endsIn (ofStr ("\n")) (bannerOf ts) = true := by
  unfold bannerOf
  rw [endsIn_append_long _ (by decide)]
  decide

theorem ends2_gpL1 : endsIn (ofStr ("\n\n")) gpL1 = false := by
  unfold gpL1
  rw [endsIn_append_long _ (by decide)]
  decide

theorem ends1_gpL1 : endsIn (ofStr ("\n")) gpL1 = false := by
  unfold gpL1
  rw [endsIn_append_long _ (by decide)]
  decide

theorem ends2_gcL1 : endsIn (ofStr ("\n\n")) gcL1 = false := by
  unfold gcL1
  rw [endsIn_append_long _ (by decide)]
  decide

theorem ends1_gcL1 : endsIn (ofStr ("\n")) gcL1 = false := by
  unfold gcL1
  rw [endsIn_append_long _ (by decide)]
  decide

theorem ends2_provL : endsIn (ofStr ("\n\n")) provL = false := by
  unfold provL
  rw [endsIn_append_long _ (by decide)]
  decide

theorem ends1_provL : endsIn (ofStr ("\n")) provL = false := by
  unfold provL
  rw [endsIn_append_long _ (by decide)]
  decide

theorem ends_g_provL : endsIn (ofStr ("g")) provL = false := by
  unfold provL
  rw [endsIn_append_long _ (by decide)]
  decide

theorem ends_g_gcL1 : endsIn (ofStr ("g")) gcL1 = false := by
  unfold gcL1
  rw [endsIn_append_long _ (by decide)]
  decide

theorem ends_g_gpL1 : endsIn (ofStr ("g")) gpL1 = false := by
  unfold gpL1
  rw [endsIn_append_long _ (by decide)]
  decide

theorem occ_gp_PBgp : occursb (ofStr ("gp")) (PB bodyGp) = false := by
  unfold PB
  refine occursb_chain (by decide) (by decide) ?_ ?_
  · refine occursb_chain (by decide) occ_gp_bodyGp (by decide) ?_
    intro k hk0 hkl
    rw [show List.length (ofStr ("gp")) = 2 from rfl] at hkl
    have hk : k = 1 := by omega
    subst hk
    rw [show List.take 1 (ofStr ("gp")) = ofStr ("g") from rfl]
    exact Or.inl ends_g_bodyGp
  · intro k hk0 hkl
    rw [show List.length (ofStr ("gp")) = 2 from rfl] at hkl
    have hk : k = 1 := by omega
    subst hk
    exact Or.inl (by decide)

theorem occ_gc_PBgp : occursb (ofStr ("gc")) (PB bodyGp) = false := by
  unfold PB
  refine occursb_chain (by decide) (by decide) ?_ ?_
  · refine occursb_chain (by decide) occ_gc_bodyGp (by decide) ?_
    intro k hk0 hkl
    rw [show List.length (ofStr ("gc")) = 2 from rfl] at hkl
    have hk : k = 1 := by omega
    subst hk
    rw [show List.take 1 (ofStr ("gc")) = ofStr ("g") from rfl]
    exact Or.inl ends_g_bodyGp
  · intro k hk0 hkl
    rw [show List.length (ofStr ("gc")) = 2 from rfl] at hkl
    have hk : k = 1 := by omega
    subst hk
    exact Or.inl (by decide)

theorem occ_gp_PBgc : occursb (ofStr ("gp")) (PB bodyGc) = false := by
  unfold PB
  refine occursb_chain (by decide) (by decide) ?_ ?_
  · refine occursb_chain (by decide) occ_gp_bodyGc (by decide) ?_
    intro k hk0 hkl
    rw [show List.length (ofStr ("gp")) = 2 from rfl] at hkl
    have hk : k = 1 := by omega
    subst hk
    rw [show List.take 1 (ofStr ("gp")) = ofStr ("g") from rfl]
    exact Or.inl ends_g_bodyGc
  · intro k hk0 hkl
    rw [show List.length (ofStr ("gp")) = 2 from rfl] at hkl
    have hk : k = 1 := by omega
    subst hk
    exact Or.inl (by decide)

theorem occ_gc_PBgc : occursb (ofStr ("gc")) (PB bodyGc) = false := by
  unfold PB
  refine occursb_chain (by decide) (by decide) ?_ ?_
  · refine occursb_chain (by decide) occ_gc_bodyGc (by decide) ?_
    intro k hk0 hkl
    rw [show List.length (ofStr ("gc")) = 2 from rfl] at hkl
    have hk : k = 1 := by omega
    subst hk
    rw [show List.take 1 (ofStr ("gc")) = ofStr ("g") from rfl]
    exact Or.inl ends_g_bodyGc
  · intro k hk0 hkl
    rw [show List.length (ofStr ("gc")) = 2 from rfl] at hkl
    have hk : k = 1 := by omega
    subst hk
    exact Or.inl (by decide)

theorem occ_tri_PBgc : occursb (ofStr ("\n\n\n")) (PB bodyGc) = false := by
  unfold PB
  refine occursb_chain (by decide) (by decide) ?_ ?_
  · refine occursb_chain (by decide) occ_tri_bodyGc (by decide) ?_
    intro k hk0 hkl
    rw [show List.length (ofStr ("\n\n\n")) = 3 from rfl] at hkl
    have hk : k = 1 ∨ k = 2 := by omega
    rcases hk with hk | hk <;> subst hk
    · rw [show List.take 1 (ofStr ("\n\n\n")) = ofStr ("\n") from rfl]
      exact Or.inl ends_nl_bodyGc
    · rw [show List.take 2 (ofStr ("\n\n\n")) = ofStr ("\n\n") from rfl]
      exact Or.inl ends_nl2_bodyGc
  · intro k hk0 hkl
    rw [show List.length (ofStr ("\n\n\n")) = 3 from rfl] at hkl
    have hk : k = 1 ∨ k = 2 := by omega
    rcases hk with hk | hk <;> subst hk
    · exact Or.inl (by decide)
    · exact Or.inl (by decide)

theorem occ_gp_fbGc :
    occursb (ofStr ("gp")) (funcBlock (ofStr ("gc")) bodyGc) = false := by
  rw [funcBlock_eq_PB]
  refine occursb_chain (by decide) (by decide) occ_gp_PBgc ?_
  intro k hk0 hkl
  rw [show List.length (ofStr ("gp")) = 2 from rfl] at hkl
  have hk : k = 1 := by omega
  subst hk
  exact Or.inl (by decide)

theorem occ_tri_fbGc :
    occursb (ofStr ("\n\n\n")) (funcBlock (ofStr ("gc")) bodyGc) = false := by
  rw [funcBlock_eq_PB]
  refine occursb_chain (by decide) (by decide) occ_tri_PBgc ?_
  intro k hk0 hkl
  rw [show List.length (ofStr ("\n\n\n")) = 3 from rfl] at hkl
  have hk : k = 1 ∨ k = 2 := by omega
  rcases hk with hk | hk <;> subst hk
  · exact Or.inl (by decide)
  · exact Or.inl (by decide)

theorem gcT_shape : gcT = gcL1 ++ (['\n'] ++ (provL ++ (['\n'] ++
    (funcBlock (ofStr ("gc")) bodyGc)))) := by
  rw [gcT_eq]
  simp

theorem occ_gp_gcT : occursb (ofStr ("gp")) gcT = false := by
  rw [gcT_shape]
  refine occursb_chain (by decide) occ_gp_gcL1 ?_ ?_
  · refine occursb_chain (by decide) (by decide) ?_ ?_
    · refine occursb_chain (by decide) occ_gp_provL ?_ ?_
      · refine occursb_chain (by decide) (by decide) occ_gp_fbGc ?_
        intro k hk0 hkl
        rw [show List.length (ofStr ("gp")) = 2 from rfl] at hkl
        have hk : k = 1 := by omega
        subst hk
        exact Or.inl (by decide)
      · intro k hk0 hkl
        rw [show List.length (ofStr ("gp")) = 2 from rfl] at hkl
        have hk : k = 1 := by omega
        subst hk
        exact Or.inl (by rw [show List.take 1 (ofStr ("gp")) = ofStr ("g") from rfl]
                         exact ends_g_provL)
    · intro k hk0 hkl
      rw [show List.length (ofStr ("gp")) = 2 from rfl] at hkl
      have hk : k = 1 := by omega
      subst hk
      exact Or.inl (by decide)
  · intro k hk0 hkl
    rw [show List.length (ofStr ("gp")) = 2 from rfl] at hkl
    have hk : k = 1 := by omega
    subst hk
    exact Or.inl (by rw [show List.take 1 (ofStr ("gp")) = ofStr ("g") from rfl]
                     exact ends_g_gcL1)


theorem gcT_last : ∃ Y, gcT = Y ++ ['\n', '\x7d'] := by
  refine ⟨gcL1 ++ (['\n'] ++ (provL ++ (['\n'] ++ (ofStr ("gc") ++
    (ofStr ("() \x7b") ++ bodyGc))))), ?_⟩
  rw [gcT_shape, funcBlock_eq_PB]
  unfold PB
  simp [List.append_assoc]

theorem ends2_gcT : endsIn (ofStr ("\n\n")) gcT = false := by
  rcases gcT_last with ⟨Y, hY⟩
  rw [hY, endsIn_append_long _ (by decide)]
  decide

theorem occ_tri_gcT : occursb (ofStr ("\n\n\n")) gcT = false := by
  rw [gcT_shape]
  refine occursb_chain (by decide) occ_tri_gcL1 ?_ ?_
  · refine occursb_chain (by decide) (by decide) ?_ ?_
    · refine occursb_chain (by decide) occ_tri_provL ?_ ?_
      · refine occursb_chain (by decide) (by decide) occ_tri_fbGc ?_
        intro k hk0 hkl
        rw [show List.length (ofStr ("\n\n\n")) = 3 from rfl] at hkl
        have hk : k = 1 ∨ k = 2 := by omega
        rcases hk with hk | hk <;> subst hk
        · refine Or.inr ?_
          rw [show List.drop 1 (ofStr ("\n\n\n")) = ofStr ("\n\n") from rfl,
            funcBlock_eq_PB, isPre_append_long _ (by decide)]
          decide
        · exact Or.inl (by decide)
      · intro k hk0 hkl
        rw [show List.length (ofStr ("\n\n\n")) = 3 from rfl] at hkl
        have hk : k = 1 ∨ k = 2 := by omega
        rcases hk with hk | hk <;> subst hk
        · rw [show List.take 1 (ofStr ("\n\n\n")) = ofStr ("\n") from rfl]
          exact Or.inl ends1_provL
        · rw [show List.take 2 (ofStr ("\n\n\n")) = ofStr ("\n\n") from rfl]
          exact Or.inl ends2_provL
    · intro k hk0 hkl
      rw [show List.length (ofStr ("\n\n\n")) = 3 from rfl] at hkl
      have hk : k = 1 ∨ k = 2 := by omega
      rcases hk with hk | hk <;> subst hk
      · refine Or.inr ?_
        rw [show List.drop 1 (ofStr ("\n\n\n")) = ofStr ("\n\n") from rfl,
          isPre_append_long _ (by decide)]
        decide
      · exact Or.inl (by decide)
  · intro k hk0 hkl
    rw [show List.length (ofStr ("\n\n\n")) = 3 from rfl] at hkl
    have hk : k = 1 ∨ k = 2 := by omega
    rcases hk with hk | hk <;> subst hk
    · rw [show List.take 1 (ofStr ("\n\n\n")) = ofStr ("\n") from rfl]
      exact Or.inl ends1_gcL1
    · rw [show List.take 2 (ofStr ("\n\n\n")) = ofStr ("\n\n") from rfl]
      exact Or.inl ends2_gcL1


theorem comment_gpL1 (R : List Char) : ∀ v, v <:+ gpL1 → v ≠ [] →
    matchFuncCommentAt (ofStr ("gp")) (v ++ ('\n' :: (provL ++ R))) = none := by
  intro v hv hne
  by_cases hfull : v = gpL1
  · subst hfull
    rw [show gpL1 ++ ('\n' :: (provL ++ R)) = '#' :: ' ' ::
      (ofStr ("Git Push with AI Commit Message (gp alias)") ++
        '\n' :: (provL ++ R)) from by unfold gpL1; rfl]
    exact comment_at_hash_line (by decide) (by rfl)
  · have hs2 : starts2 '#' ' ' v = false := by
      have hmem : v ∈ gpL1.tails := (List.mem_tails _ _).mpr hv
      have hdec : ∀ t ∈ gpL1.tails,
          t = [] ∨ t = gpL1 ∨ starts2 '#' ' ' t = false := by decide
      rcases hdec v hmem with h | h | h
      · exact absurd h hne
      · exact absurd h hfull
      · exact h
    cases v with
    | nil => exact absurd rfl hne
    | cons c v1 =>
      by_cases hc : c = '#'
      · subst hc
        cases v1 with
        | nil =>
          rw [List.cons_append, List.nil_append]
          exact comment_none_sp _ (by decide)
        | cons d v2 =>
          have hd : ¬(d = ' ') := by
            intro hdeq
            subst hdeq
            simp [starts2] at hs2
          rw [List.cons_append, List.cons_append]
          exact comment_none_sp _ hd
      · rw [List.cons_append]
        exact comment_none_cons _ hc

theorem comment_gcL1 (R : List Char) : ∀ v, v <:+ gcL1 → v ≠ [] →
    matchFuncCommentAt (ofStr ("gc")) (v ++ ('\n' :: (provL ++ R))) = none := by
  intro v hv hne
  by_cases hfull : v = gcL1
  · subst hfull
    rw [show gcL1 ++ ('\n' :: (provL ++ R)) = '#' :: ' ' ::
      (ofStr ("Git Commit with AI Message (gc alias)") ++
        '\n' :: (provL ++ R)) from by unfold gcL1; rfl]
    exact comment_at_hash_line (by decide) (by rfl)
  · have hs2 : starts2 '#' ' ' v = false := by
      have hmem : v ∈ gcL1.tails := (List.mem_tails _ _).mpr hv
      have hdec : ∀ t ∈ gcL1.tails,
          t = [] ∨ t = gcL1 ∨ starts2 '#' ' ' t = false := by decide
      rcases hdec v hmem with h | h | h
      · exact absurd h hne
      · exact absurd h hfull
      · exact h
    cases v with
    | nil => exact absurd rfl hne
    | cons c v1 =>
      by_cases hc : c = '#'
      · subst hc
        cases v1 with
        | nil =>
          rw [List.cons_append, List.nil_append]
          exact comment_none_sp _ (by decide)
        | cons d v2 =>
          have hd : ¬(d = ' ') := by
            intro hdeq
            subst hdeq
            simp [starts2] at hs2
          rw [List.cons_append, List.cons_append]
          exact comment_none_sp _ hd
      · rw [List.cons_append]
        exact comment_none_cons _ hc

theorem content1_shape (c0 ts : List Char) :
    c0 ++ blockC ts = c0 ++ (bannerOf ts ++ (gpL1 ++ '\n' ::
      (provL ++ '\n' :: ('g' :: 'p' :: (PB bodyGp ++ ('\n' :: '\n' ::
        (gcT ++ ['\n']))))))) := by
  unfold blockC
  rw [gpT_eq, funcBlock_eq_PB]
  rw [show (ofStr ("gp") : List Char) = ['g', 'p'] from rfl]
  simp [List.append_assoc]

theorem removeFC_gp_content1 (c0 ts : List Char)
    (h0gp : occursb (ofStr ("gp")) c0 = false)
    (hbgp : occursb (ofStr ("gp")) (bannerOf ts) = false) :
    removeFC (ofStr ("gp")) (c0 ++ blockC ts) = c0 ++ blockC ts := by
  rw [content1_shape]
  apply removePat_id
  intro t ht
  have hsuf := (List.mem_tails _ _).mp ht
  rcases suffix_append_cases hsuf with ⟨v, hv, hne, rfl⟩ | hsuf2
  · refine comment_none_region h0gp ?_ v hv hne
    exact Or.inl rfl
  rcases suffix_append_cases hsuf2 with ⟨v, hv, hne, rfl⟩ | hsuf3
  · exact comment_none_region hbgp (Or.inr (ends_nl_banner ts)) v hv hne
  rcases suffix_append_cases hsuf3 with ⟨v, hv, hne, rfl⟩ | hsuf4
  · exact comment_gpL1 _ v hv hne
  rcases List.suffix_cons_iff.mp hsuf4 with rfl | hsuf5
  · exact comment_none_cons _ (by decide)
  rcases suffix_append_cases hsuf5 with ⟨v, hv, hne, rfl⟩ | hsuf6
  · refine comment_none_region occ_gp_provL ?_ v hv hne
    exact Or.inl rfl
  rcases List.suffix_cons_iff.mp hsuf6 with rfl | hsuf7
  · exact comment_none_cons _ (by decide)
  rcases List.suffix_cons_iff.mp hsuf7 with rfl | hsuf8
  · exact comment_none_cons _ (by decide)
  rcases List.suffix_cons_iff.mp hsuf8 with rfl | hsuf9
  · exact comment_none_cons _ (by decide)
  rcases suffix_append_cases hsuf9 with ⟨v, hv, hne, rfl⟩ | hsuf10
  · refine comment_none_region occ_gp_PBgp ?_ v hv hne
    exact Or.inl rfl
  rcases List.suffix_cons_iff.mp hsuf10 with rfl | hsuf11
  · exact comment_none_cons _ (by decide)
  rcases List.suffix_cons_iff.mp hsuf11 with rfl | hsuf12
  · exact comment_none_cons _ (by decide)
  rcases suffix_append_cases hsuf12 with ⟨v, hv, hne, rfl⟩ | hsuf13
  · refine comment_none_region occ_gp_gcT ?_ v hv hne
    exact Or.inl rfl
  rcases List.suffix_cons_iff.mp hsuf13 with rfl | hsuf14
  · exact comment_none_cons _ (by decide)
  rw [List.suffix_nil] at hsuf14
  subst hsuf14
  rfl


theorem noSimple_gpL1 (B : List Char) (hB : headIs 'p' B = false) :
    ∀ t ∈ gpL1.tails, t ≠ [] → matchSimpleAt (ofStr ("gp")) (t ++ B) = none := by
  intro t ht hne
  have hsuf : t <:+ (ofStr ("# Git Push with AI Commit Message (") ++ ofStr ("gp")) ++ ofStr (" alias)") := by
    have h := (List.mem_tails _ _).mp ht
    unfold gpL1 at h
    exact h
  rcases suffix_append_cases hsuf with ⟨v, hv, hvne, rfl⟩ | hsuf2
  · rcases suffix_append_cases hv with ⟨w, hw, hwne, rfl⟩ | hv2
    · rw [List.append_assoc, List.append_assoc]
      exact matchSimpleAt_none_of_not_isPre (isPre_pair_tails
        (show occursb ['g', 'p'] (ofStr ("# Git Push with AI Commit Message (")) = false from by decide)
        (show headIs 'p' (ofStr ("gp") ++ (ofStr (" alias)") ++ B)) = false
          from rfl) w hw hwne)
    · rw [show (ofStr ("gp") : List Char) = 'g' :: ['p'] from rfl] at hv2
      rcases List.suffix_cons_iff.mp hv2 with rfl | hv3
      · rw [show (('g' :: ['p']) ++ ofStr (" alias)")) ++ B =
          ofStr ("gp") ++ (' ' :: 'a' :: (ofStr ("lias)") ++ B)) from rfl]
        exact matchSimpleAt_benign _
      · rcases List.suffix_cons_iff.mp hv3 with rfl | hv4
        · exact matchSimpleAt_none_of_not_isPre (by rfl)
        · rw [List.suffix_nil] at hv4
          exact absurd hv4 hvne
  · cases t with
    | nil => exact absurd rfl hne
    | cons c t' =>
      exact matchSimpleAt_none_of_not_isPre (isPre_pair_tails
        (show occursb ['g', 'p'] (ofStr (" alias)")) = false from by decide)
        hB (c :: t') hsuf2 (by simp))

theorem noSimple_gcL1 (B : List Char) (hB : headIs 'c' B = false) :
    ∀ t ∈ gcL1.tails, t ≠ [] → matchSimpleAt (ofStr ("gc")) (t ++ B) = none := by
  intro t ht hne
  have hsuf : t <:+ (ofStr ("# Git Commit with AI Message (") ++ ofStr ("gc")) ++ ofStr (" alias)") := by
    have h := (List.mem_tails _ _).mp ht
    unfold gcL1 at h
    exact h
  rcases suffix_append_cases hsuf with ⟨v, hv, hvne, rfl⟩ | hsuf2
  · rcases suffix_append_cases hv with ⟨w, hw, hwne, rfl⟩ | hv2
    · rw [List.append_assoc, List.append_assoc]
      exact matchSimpleAt_none_of_not_isPre (isPre_pair_tails
        (show occursb ['g', 'c'] (ofStr ("# Git Commit with AI Message (")) = false from by decide)
        (show headIs 'c' (ofStr ("gc") ++ (ofStr (" alias)") ++ B)) = false
          from rfl) w hw hwne)
    · rw [show (ofStr ("gc") : List Char) = 'g' :: ['c'] from rfl] at hv2
      rcases List.suffix_cons_iff.mp hv2 with rfl | hv3
      · rw [show (('g' :: ['c']) ++ ofStr (" alias)")) ++ B =
          ofStr ("gc") ++ (' ' :: 'a' :: (ofStr ("lias)") ++ B)) from rfl]
        exact matchSimpleAt_benign _
      · rcases List.suffix_cons_iff.mp hv3 with rfl | hv4
        · exact matchSimpleAt_none_of_not_isPre (by rfl)
        · rw [List.suffix_nil] at hv4
          exact absurd hv4 hvne
  · cases t with
    | nil => exact absurd rfl hne
    | cons c t' =>
      exact matchSimpleAt_none_of_not_isPre (isPre_pair_tails
        (show occursb ['g', 'c'] (ofStr (" alias)")) = false from by decide)
        hB (c :: t') hsuf2 (by simp))

theorem content1_shape2 (c0 ts : List Char) :
    c0 ++ blockC ts = c0 ++ (bannerOf ts ++ (gpL1 ++ ('\n' :: (provL ++ ('\n' :: (funcBlock (ofStr ("gp")) bodyGp ++ ('\n' :: ('\n' :: (gcT ++ ['\n']))))))))) := by
  unfold blockC
  rw [gpT_eq]
  simp [List.append_assoc]

theorem removeSimple_gp_content1 (c0 ts : List Char)
    (h0gp : occursb (ofStr ("gp")) c0 = false)
    (hbgp : occursb (ofStr ("gp")) (bannerOf ts) = false) :
    removeSimple (ofStr ("gp")) (c0 ++ blockC ts) = leftover1 c0 ts := by
  have hocc9 : occursb (ofStr ("gp")) (gcT ++ ['\n']) = false := by
    refine occursb_chain (by decide) occ_gp_gcT (by decide) ?_
    intro k hk0 hkl
    rw [show List.length (ofStr ("gp")) = 2 from rfl] at hkl
    have hk : k = 1 := by omega
    subst hk
    exact Or.inr (by decide)
  have e1 : removePat (matchSimpleAt (ofStr ("gp"))) (fun _ _ h => matchSimpleAt_lt h) (c0 ++ (bannerOf ts ++ (gpL1 ++ ('\n' :: (provL ++ ('\n' :: (funcBlock (ofStr ("gp")) bodyGp ++ ('\n' :: ('\n' :: (gcT ++ ['\n'])))))))))) = c0 ++ removePat (matchSimpleAt (ofStr ("gp"))) (fun _ _ h => matchSimpleAt_lt h) (bannerOf ts ++ (gpL1 ++ ('\n' :: (provL ++ ('\n' :: (funcBlock (ofStr ("gp")) bodyGp ++ ('\n' :: ('\n' :: (gcT ++ ['\n']))))))))) :=
    removePat_skip _ (fun t ht hne => noSimple_region
      (show occursb ['g', 'p'] c0 = false from h0gp)
      (show headIs 'p' (bannerOf ts ++ (gpL1 ++ ('\n' :: (provL ++ ('\n' :: (funcBlock (ofStr ("gp")) bodyGp ++ ('\n' :: ('\n' :: (gcT ++ ['\n']))))))))) = false from rfl) t ((List.mem_tails _ _).mp ht) hne)
  have e2 : removePat (matchSimpleAt (ofStr ("gp"))) (fun _ _ h => matchSimpleAt_lt h) (bannerOf ts ++ (gpL1 ++ ('\n' :: (provL ++ ('\n' :: (funcBlock (ofStr ("gp")) bodyGp ++ ('\n' :: ('\n' :: (gcT ++ ['\n']))))))))) = bannerOf ts ++ removePat (matchSimpleAt (ofStr ("gp"))) (fun _ _ h => matchSimpleAt_lt h) (gpL1 ++ ('\n' :: (provL ++ ('\n' :: (funcBlock (ofStr ("gp")) bodyGp ++ ('\n' :: ('\n' :: (gcT ++ ['\n'])))))))) :=
    removePat_skip _ (fun t ht hne => noSimple_region
      (show occursb ['g', 'p'] (bannerOf ts) = false from hbgp)
      (show headIs 'p' (gpL1 ++ ('\n' :: (provL ++ ('\n' :: (funcBlock (ofStr ("gp")) bodyGp ++ ('\n' :: ('\n' :: (gcT ++ ['\n'])))))))) = false from rfl) t ((List.mem_tails _ _).mp ht) hne)
  have e3 : removePat (matchSimpleAt (ofStr ("gp"))) (fun _ _ h => matchSimpleAt_lt h) (gpL1 ++ ('\n' :: (provL ++ ('\n' :: (funcBlock (ofStr ("gp")) bodyGp ++ ('\n' :: ('\n' :: (gcT ++ ['\n'])))))))) = gpL1 ++ removePat (matchSimpleAt (ofStr ("gp"))) (fun _ _ h => matchSimpleAt_lt h) ('\n' :: (provL ++ ('\n' :: (funcBlock (ofStr ("gp")) bodyGp ++ ('\n' :: ('\n' :: (gcT ++ ['\n']))))))) :=
    removePat_skip _ (noSimple_gpL1 ('\n' :: (provL ++ ('\n' :: (funcBlock (ofStr ("gp")) bodyGp ++ ('\n' :: ('\n' :: (gcT ++ ['\n']))))))) (by rfl))
  have e4 : removePat (matchSimpleAt (ofStr ("gp"))) (fun _ _ h => matchSimpleAt_lt h) ('\n' :: (provL ++ ('\n' :: (funcBlock (ofStr ("gp")) bodyGp ++ ('\n' :: ('\n' :: (gcT ++ ['\n']))))))) = '\n' :: removePat (matchSimpleAt (ofStr ("gp"))) (fun _ _ h => matchSimpleAt_lt h) (provL ++ ('\n' :: (funcBlock (ofStr ("gp")) bodyGp ++ ('\n' :: ('\n' :: (gcT ++ ['\n'])))))) :=
    removePat_none_cons (matchSimpleAt_none_of_not_isPre (by rfl))
  have e5 : removePat (matchSimpleAt (ofStr ("gp"))) (fun _ _ h => matchSimpleAt_lt h) (provL ++ ('\n' :: (funcBlock (ofStr ("gp")) bodyGp ++ ('\n' :: ('\n' :: (gcT ++ ['\n'])))))) = provL ++ removePat (matchSimpleAt (ofStr ("gp"))) (fun _ _ h => matchSimpleAt_lt h) ('\n' :: (funcBlock (ofStr ("gp")) bodyGp ++ ('\n' :: ('\n' :: (gcT ++ ['\n']))))) :=
    removePat_skip _ (fun t ht hne => noSimple_region
      (show occursb ['g', 'p'] provL = false from occ_gp_provL)
      (show headIs 'p' ('\n' :: (funcBlock (ofStr ("gp")) bodyGp ++ ('\n' :: ('\n' :: (gcT ++ ['\n']))))) = false from rfl) t ((List.mem_tails _ _).mp ht) hne)
  have e6 : removePat (matchSimpleAt (ofStr ("gp"))) (fun _ _ h => matchSimpleAt_lt h) ('\n' :: (funcBlock (ofStr ("gp")) bodyGp ++ ('\n' :: ('\n' :: (gcT ++ ['\n']))))) = '\n' :: removePat (matchSimpleAt (ofStr ("gp"))) (fun _ _ h => matchSimpleAt_lt h) (funcBlock (ofStr ("gp")) bodyGp ++ ('\n' :: ('\n' :: (gcT ++ ['\n'])))) :=
    removePat_none_cons (matchSimpleAt_none_of_not_isPre (by rfl))
  have e7 : removePat (matchSimpleAt (ofStr ("gp"))) (fun _ _ h => matchSimpleAt_lt h) (funcBlock (ofStr ("gp")) bodyGp ++ ('\n' :: ('\n' :: (gcT ++ ['\n'])))) = removePat (matchSimpleAt (ofStr ("gp"))) (fun _ _ h => matchSimpleAt_lt h) ('\n' :: (gcT ++ ['\n'])) :=
    removePat_match (matchSimpleAt_block ('\n' :: (gcT ++ ['\n'])) occ_nb_bodyGp)
  have e8 : removePat (matchSimpleAt (ofStr ("gp"))) (fun _ _ h => matchSimpleAt_lt h) ('\n' :: (gcT ++ ['\n'])) = '\n' :: removePat (matchSimpleAt (ofStr ("gp"))) (fun _ _ h => matchSimpleAt_lt h) (gcT ++ ['\n']) :=
    removePat_none_cons (matchSimpleAt_none_of_not_isPre (by rfl))
  have e9 : removePat (matchSimpleAt (ofStr ("gp"))) (fun _ _ h => matchSimpleAt_lt h) (gcT ++ ['\n']) = gcT ++ ['\n'] :=
    removePat_id (noSimple_all (show occursb ['g', 'p'] (gcT ++ ['\n']) = false from hocc9))
  unfold removeSimple
  rw [content1_shape2 c0 ts, e1, e2, e3, e4, e5, e6, e7, e8, e9]
  unfold leftover1
  rfl


theorem leftover1_chainshape (c0 ts : List Char) :
    leftover1 c0 ts = c0 ++ (bannerOf ts ++ (gpL1 ++ (['\n'] ++ (provL ++
      (['\n'] ++ (['\n'] ++ (gcT ++ ['\n']))))))) := by
  unfold leftover1
  rfl

theorem leftover2_chainshape (c0 ts : List Char) :
    leftover2 c0 ts = c0 ++ (bannerOf ts ++ (gpL1 ++ (['\n'] ++ (provL ++
      (['\n'] ++ (['\n'] ++ (gcL1 ++ (['\n'] ++ (provL ++ ['\n']))))))))) := by
  unfold leftover2
  rfl

theorem occ_tri_leftover1 (c0 ts : List Char)
    (h0tri : occursb (ofStr ("\n\n\n")) c0 = false)
    (h0tail : endsIn (ofStr ("\n\n")) c0 = false)
    (hbtri : occursb (ofStr ("\n\n\n")) (bannerOf ts) = false) :
    occursb (ofStr ("\n\n\n")) (leftover1 c0 ts) = false := by
  rw [leftover1_chainshape c0 ts]
  have c9 : occursb (ofStr ("\n\n\n")) (['\n']) = false := by decide
  have c8 : occursb (ofStr ("\n\n\n")) (gcT ++ (['\n'])) = false := by
    refine occursb_chain (by decide) (occ_tri_gcT) c9 ?_
    intro k hk0 hkl
    rw [show List.length (ofStr ("\n\n\n")) = 3 from rfl] at hkl
    have hk : k = 1 ∨ k = 2 := by omega
    rcases hk with hk | hk <;> subst hk
    · exact Or.inr (by rw [show List.drop 1 (ofStr ("\n\n\n")) = ofStr ("\n\n") from rfl]; decide)
    · exact Or.inl (by rw [show List.take 2 (ofStr ("\n\n\n")) = ofStr ("\n\n") from rfl]; exact ends2_gcT)
  have c7 : occursb (ofStr ("\n\n\n")) (['\n'] ++ (gcT ++ (['\n']))) = false := by
    refine occursb_chain (by decide) (by decide) c8 ?_
    intro k hk0 hkl
    rw [show List.length (ofStr ("\n\n\n")) = 3 from rfl] at hkl
    have hk : k = 1 ∨ k = 2 := by omega
    rcases hk with hk | hk <;> subst hk
    · exact Or.inr (by rw [show List.drop 1 (ofStr ("\n\n\n")) = ofStr ("\n\n") from rfl]; rfl)
    · exact Or.inl (by decide)
  have c6 : occursb (ofStr ("\n\n\n")) (['\n'] ++ (['\n'] ++ (gcT ++ (['\n'])))) = false := by
    refine occursb_chain (by decide) (by decide) c7 ?_
    intro k hk0 hkl
    rw [show List.length (ofStr ("\n\n\n")) = 3 from rfl] at hkl
    have hk : k = 1 ∨ k = 2 := by omega
    rcases hk with hk | hk <;> subst hk
    · exact Or.inr (by rw [show List.drop 1 (ofStr ("\n\n\n")) = ofStr ("\n\n") from rfl]; rfl)
    · exact Or.inl (by decide)
  have c5 : occursb (ofStr ("\n\n\n")) (provL ++ (['\n'] ++ (['\n'] ++ (gcT ++ (['\n']))))) = false := by
    refine occursb_chain (by decide) (occ_tri_provL) c6 ?_
    intro k hk0 hkl
    rw [show List.length (ofStr ("\n\n\n")) = 3 from rfl] at hkl
    have hk : k = 1 ∨ k = 2 := by omega
    rcases hk with hk | hk <;> subst hk
    · exact Or.inl (by rw [show List.take 1 (ofStr ("\n\n\n")) = ofStr ("\n") from rfl]; exact ends1_provL)
    · exact Or.inl (by rw [show List.take 2 (ofStr ("\n\n\n")) = ofStr ("\n\n") from rfl]; exact ends2_provL)
  have c4 : occursb (ofStr ("\n\n\n")) (['\n'] ++ (provL ++ (['\n'] ++ (['\n'] ++ (gcT ++ (['\n'])))))) = false := by
    refine occursb_chain (by decide) (by decide) c5 ?_
    intro k hk0 hkl
    rw [show List.length (ofStr ("\n\n\n")) = 3 from rfl] at hkl
    have hk : k = 1 ∨ k = 2 := by omega
    rcases hk with hk | hk <;> subst hk
    · exact Or.inr (by rw [show List.drop 1 (ofStr ("\n\n\n")) = ofStr ("\n\n") from rfl]; rfl)
    · exact Or.inl (by decide)
  have c3 : occursb (ofStr ("\n\n\n")) (gpL1 ++ (['\n'] ++ (provL ++ (['\n'] ++ (['\n'] ++ (gcT ++ (['\n']))))))) = false := by
    refine occursb_chain (by decide) (occ_tri_gpL1) c4 ?_
    intro k hk0 hkl
    rw [show List.length (ofStr ("\n\n\n")) = 3 from rfl] at hkl
    have hk : k = 1 ∨ k = 2 := by omega
    rcases hk with hk | hk <;> subst hk
    · exact Or.inr (by rw [show List.drop 1 (ofStr ("\n\n\n")) = ofStr ("\n\n") from rfl]; rfl)
    · exact Or.inl (by rw [show List.take 2 (ofStr ("\n\n\n")) = ofStr ("\n\n") from rfl]; exact ends2_gpL1)
  have c2 : occursb (ofStr ("\n\n\n")) (bannerOf ts ++ (gpL1 ++ (['\n'] ++ (provL ++ (['\n'] ++ (['\n'] ++ (gcT ++ (['\n'])))))))) = false := by
    refine occursb_chain (by decide) (hbtri) c3 ?_
    intro k hk0 hkl
    rw [show List.length (ofStr ("\n\n\n")) = 3 from rfl] at hkl
    have hk : k = 1 ∨ k = 2 := by omega
    rcases hk with hk | hk <;> subst hk
    · exact Or.inr (by rw [show List.drop 1 (ofStr ("\n\n\n")) = ofStr ("\n\n") from rfl]; rfl)
    · exact Or.inr (by rw [show List.drop 2 (ofStr ("\n\n\n")) = ofStr ("\n") from rfl]; rfl)
  have c1 : occursb (ofStr ("\n\n\n")) (c0 ++ (bannerOf ts ++ (gpL1 ++ (['\n'] ++ (provL ++ (['\n'] ++ (['\n'] ++ (gcT ++ (['\n']))))))))) = false := by
    refine occursb_chain (by decide) (h0tri) c2 ?_
    intro k hk0 hkl
    rw [show List.length (ofStr ("\n\n\n")) = 3 from rfl] at hkl
    have hk : k = 1 ∨ k = 2 := by omega
    rcases hk with hk | hk <;> subst hk
    · exact Or.inr (by rw [show List.drop 1 (ofStr ("\n\n\n")) = ofStr ("\n\n") from rfl]; rfl)
    · exact Or.inl (by rw [show List.take 2 (ofStr ("\n\n\n")) = ofStr ("\n\n") from rfl]; exact h0tail)
  exact c1

theorem occ_tri_leftover2 (c0 ts : List Char)
    (h0tri : occursb (ofStr ("\n\n\n")) c0 = false)
    (h0tail : endsIn (ofStr ("\n\n")) c0 = false)
    (hbtri : occursb (ofStr ("\n\n\n")) (bannerOf ts) = false) :
    occursb (ofStr ("\n\n\n")) (leftover2 c0 ts) = false := by
  rw [leftover2_chainshape c0 ts]
  have c11 : occursb (ofStr ("\n\n\n")) (['\n']) = false := by decide
  have c10 : occursb (ofStr ("\n\n\n")) (provL ++ (['\n'])) = false := by
    refine occursb_chain (by decide) (occ_tri_provL) c11 ?_
    intro k hk0 hkl
    rw [show List.length (ofStr ("\n\n\n")) = 3 from rfl] at hkl
    have hk : k = 1 ∨ k = 2 := by omega
    rcases hk with hk | hk <;> subst hk
    · exact Or.inr (by rw [show List.drop 1 (ofStr ("\n\n\n")) = ofStr ("\n\n") from rfl]; decide)
    · exact Or.inl (by rw [show List.take 2 (ofStr ("\n\n\n")) = ofStr ("\n\n") from rfl]; exact ends2_provL)
  have c9 : occursb (ofStr ("\n\n\n")) (['\n'] ++ (provL ++ (['\n']))) = false := by
    refine occursb_chain (by decide) (by decide) c10 ?_
    intro k hk0 hkl
    rw [show List.length (ofStr ("\n\n\n")) = 3 from rfl] at hkl
    have hk : k = 1 ∨ k = 2 := by omega
    rcases hk with hk | hk <;> subst hk
    · exact Or.inr (by rw [show List.drop 1 (ofStr ("\n\n\n")) = ofStr ("\n\n") from rfl]; rfl)
    · exact Or.inl (by decide)
  have c8 : occursb (ofStr ("\n\n\n")) (gcL1 ++ (['\n'] ++ (provL ++ (['\n'])))) = false := by
    refine occursb_chain (by decide) (occ_tri_gcL1) c9 ?_
    intro k hk0 hkl
    rw [show List.length (ofStr ("\n\n\n")) = 3 from rfl] at hkl
    have hk : k = 1 ∨ k = 2 := by omega
    rcases hk with hk | hk <;> subst hk
    · exact Or.inr (by rw [show List.drop 1 (ofStr ("\n\n\n")) = ofStr ("\n\n") from rfl]; rfl)
    · exact Or.inl (by rw [show List.take 2 (ofStr ("\n\n\n")) = ofStr ("\n\n") from rfl]; exact ends2_gcL1)
  have c7 : occursb (ofStr ("\n\n\n")) (['\n'] ++ (gcL1 ++ (['\n'] ++ (provL ++ (['\n']))))) = false := by
    refine occursb_chain (by decide) (by decide) c8 ?_
    intro k hk0 hkl
    rw [show List.length (ofStr ("\n\n\n")) = 3 from rfl] at hkl
    have hk : k = 1 ∨ k = 2 := by omega
    rcases hk with hk | hk <;> subst hk
    · exact Or.inr (by rw [show List.drop 1 (ofStr ("\n\n\n")) = ofStr ("\n\n") from rfl]; rfl)
    · exact Or.inl (by decide)
  have c6 : occursb (ofStr ("\n\n\n")) (['\n'] ++ (['\n'] ++ (gcL1 ++ (['\n'] ++ (provL ++ (['\n'])))))) = false := by
    refine occursb_chain (by decide) (by decide) c7 ?_
    intro k hk0 hkl
    rw [show List.length (ofStr ("\n\n\n")) = 3 from rfl] at hkl
    have hk : k = 1 ∨ k = 2 := by omega
    rcases hk with hk | hk <;> subst hk
    · exact Or.inr (by rw [show List.drop 1 (ofStr ("\n\n\n")) = ofStr ("\n\n") from rfl]; rfl)
    · exact Or.inl (by decide)
  have c5 : occursb (ofStr ("\n\n\n")) (provL ++ (['\n'] ++ (['\n'] ++ (gcL1 ++ (['\n'] ++ (provL ++ (['\n']))))))) = false := by
    refine occursb_chain (by decide) (occ_tri_provL) c6 ?_
    intro k hk0 hkl
    rw [show List.length (ofStr ("\n\n\n")) = 3 from rfl] at hkl
    have hk : k = 1 ∨ k = 2 := by omega
    rcases hk with hk | hk <;> subst hk
    · exact Or.inl (by rw [show List.take 1 (ofStr ("\n\n\n")) = ofStr ("\n") from rfl]; exact ends1_provL)
    · exact Or.inl (by rw [show List.take 2 (ofStr ("\n\n\n")) = ofStr ("\n\n") from rfl]; exact ends2_provL)
  have c4 : occursb (ofStr ("\n\n\n")) (['\n'] ++ (provL ++ (['\n'] ++ (['\n'] ++ (gcL1 ++ (['\n'] ++ (provL ++ (['\n'])))))))) = false := by
    refine occursb_chain (by decide) (by decide) c5 ?_
    intro k hk0 hkl
    rw [show List.length (ofStr ("\n\n\n")) = 3 from rfl] at hkl
    have hk : k = 1 ∨ k = 2 := by omega
    rcases hk with hk | hk <;> subst hk
    · exact Or.inr (by rw [show List.drop 1 (ofStr ("\n\n\n")) = ofStr ("\n\n") from rfl]; rfl)
    · exact Or.inl (by decide)
  have c3 : occursb (ofStr ("\n\n\n")) (gpL1 ++ (['\n'] ++ (provL ++ (['\n'] ++ (['\n'] ++ (gcL1 ++ (['\n'] ++ (provL ++ (['\n']))))))))) = false := by
    refine occursb_chain (by decide) (occ_tri_gpL1) c4 ?_
    intro k hk0 hkl
    rw [show List.length (ofStr ("\n\n\n")) = 3 from rfl] at hkl
    have hk : k = 1 ∨ k = 2 := by omega
    rcases hk with hk | hk <;> subst hk
    · exact Or.inr (by rw [show List.drop 1 (ofStr ("\n\n\n")) = ofStr ("\n\n") from rfl]; rfl)
    · exact Or.inl (by rw [show List.take 2 (ofStr ("\n\n\n")) = ofStr ("\n\n") from rfl]; exact ends2_gpL1)
  have c2 : occursb (ofStr ("\n\n\n")) (bannerOf ts ++ (gpL1 ++ (['\n'] ++ (provL ++ (['\n'] ++ (['\n'] ++ (gcL1 ++ (['\n'] ++ (provL ++ (['\n'])))))))))) = false := by
    refine occursb_chain (by decide) (hbtri) c3 ?_
    intro k hk0 hkl
    rw [show List.length (ofStr ("\n\n\n")) = 3 from rfl] at hkl
    have hk : k = 1 ∨ k = 2 := by omega
    rcases hk with hk | hk <;> subst hk
    · exact Or.inr (by rw [show List.drop 1 (ofStr ("\n\n\n")) = ofStr ("\n\n") from rfl]; rfl)
    · exact Or.inr (by rw [show List.drop 2 (ofStr ("\n\n\n")) = ofStr ("\n") from rfl]; rfl)
  have c1 : occursb (ofStr ("\n\n\n")) (c0 ++ (bannerOf ts ++ (gpL1 ++ (['\n'] ++ (provL ++ (['\n'] ++ (['\n'] ++ (gcL1 ++ (['\n'] ++ (provL ++ (['\n']))))))))))) = false := by
    refine occursb_chain (by decide) (h0tri) c2 ?_
    intro k hk0 hkl
    rw [show List.length (ofStr ("\n\n\n")) = 3 from rfl] at hkl
    have hk : k = 1 ∨ k = 2 := by omega
    rcases hk with hk | hk <;> subst hk
    · exact Or.inr (by rw [show List.drop 1 (ofStr ("\n\n\n")) = ofStr ("\n\n") from rfl]; rfl)
    · exact Or.inl (by rw [show List.take 2 (ofStr ("\n\n\n")) = ofStr ("\n\n") from rfl]; exact h0tail)
  exact c1

/-- The `gp` removal pass of the installer on a prior profile `c0` followed by
the appended block. -/
theorem removeAlias_gp (c0 ts : List Char)
    (h0gp : occursb (ofStr ("gp")) c0 = false)
    (h0tri : occursb (ofStr ("\n\n\n")) c0 = false)
    (h0tail : endsIn (ofStr ("\n\n")) c0 = false)
    (hbgp : occursb (ofStr ("gp")) (bannerOf ts) = false)
    (hbtri : occursb (ofStr ("\n\n\n")) (bannerOf ts) = false) :
    removeExistingAliasContent (ofStr ("gp")) (c0 ++ blockC ts) =
      leftover1 c0 ts := by
  unfold removeExistingAliasContent
  rw [removeFC_gp_content1 c0 ts h0gp hbgp,
    removeSimple_gp_content1 c0 ts h0gp hbgp]
  exact collapseNl_id_of_no_triple (occ_tri_leftover1 c0 ts h0tri h0tail hbtri)


theorem leftover1_shape3 (c0 ts : List Char) :
    leftover1 c0 ts = c0 ++ (bannerOf ts ++ (gpL1 ++ ('\n' :: (provL ++ ('\n' :: ('\n' :: (gcL1 ++ ('\n' :: (provL ++ ('\n' :: ('g' :: 'c' :: (PB bodyGc ++ ['\n'])))))))))))) := by
  unfold leftover1
  rw [gcT_eq, funcBlock_eq_PB,
    show (ofStr ("gc") : List Char) = ['g', 'c'] from rfl]
  simp [List.append_assoc]

theorem leftover1_shape4 (c0 ts : List Char) :
    leftover1 c0 ts = c0 ++ (bannerOf ts ++ (gpL1 ++ ('\n' :: (provL ++ ('\n' :: ('\n' :: (gcL1 ++ ('\n' :: (provL ++ ('\n' :: (funcBlock (ofStr ("gc")) bodyGc ++ ['\n']))))))))))) := by
  unfold leftover1
  rw [gcT_eq]
  simp [List.append_assoc]

theorem removeFC_gc_leftover1 (c0 ts : List Char)
    (h0gc : occursb (ofStr ("gc")) c0 = false)
    (hbgc : occursb (ofStr ("gc")) (bannerOf ts) = false) :
    removeFC (ofStr ("gc")) (leftover1 c0 ts) = leftover1 c0 ts := by
  rw [leftover1_shape3]
  apply removePat_id
  intro t ht
  have hsuf := (List.mem_tails _ _).mp ht
  rcases suffix_append_cases hsuf with ⟨v, hv, hne, rfl⟩ | hsuf2
  · refine comment_none_region h0gc ?_ v hv hne
    exact Or.inl rfl
  rcases suffix_append_cases hsuf2 with ⟨v, hv, hne, rfl⟩ | hsuf3
  · exact comment_none_region hbgc (Or.inr (ends_nl_banner ts)) v hv hne
  rcases suffix_append_cases hsuf3 with ⟨v, hv, hne, rfl⟩ | hsuf4
  · refine comment_none_region occ_gc_gpL1 ?_ v hv hne
    exact Or.inl rfl
  rcases List.suffix_cons_iff.mp hsuf4 with rfl | hsuf5
  · exact comment_none_cons _ (by decide)
  rcases suffix_append_cases hsuf5 with ⟨v, hv, hne, rfl⟩ | hsuf6
  · refine comment_none_region occ_gc_provL ?_ v hv hne
    exact Or.inl rfl
  rcases List.suffix_cons_iff.mp hsuf6 with rfl | hsuf7
  · exact comment_none_cons _ (by decide)
  rcases List.suffix_cons_iff.mp hsuf7 with rfl | hsuf8
  · exact comment_none_cons _ (by decide)
  rcases suffix_append_cases hsuf8 with ⟨v, hv, hne, rfl⟩ | hsuf9
  · exact comment_gcL1 _ v hv hne
  rcases List.suffix_cons_iff.mp hsuf9 with rfl | hsuf10
  · exact comment_none_cons _ (by decide)
  rcases suffix_append_cases hsuf10 with ⟨v, hv, hne, rfl⟩ | hsuf11
  · refine comment_none_region occ_gc_provL ?_ v hv hne
    exact Or.inl rfl
  rcases List.suffix_cons_iff.mp hsuf11 with rfl | hsuf12
  · exact comment_none_cons _ (by decide)
  rcases List.suffix_cons_iff.mp hsuf12 with rfl | hsuf13
  · exact comment_none_cons _ (by decide)
  rcases List.suffix_cons_iff.mp hsuf13 with rfl | hsuf14
  · exact comment_none_cons _ (by decide)
  rcases suffix_append_cases hsuf14 with ⟨v, hv, hne, rfl⟩ | hsuf15
  · refine comment_none_region occ_gc_PBgc ?_ v hv hne
    exact Or.inl rfl
  rcases List.suffix_cons_iff.mp hsuf15 with rfl | hsuf16
  · exact comment_none_cons _ (by decide)
  rw [List.suffix_nil] at hsuf16
  subst hsuf16
  rfl

theorem removeSimple_gc_leftover1 (c0 ts : List Char)
    (h0gc : occursb (ofStr ("gc")) c0 = false)
    (hbgc : occursb (ofStr ("gc")) (bannerOf ts) = false) :
    removeSimple (ofStr ("gc")) (leftover1 c0 ts) = leftover2 c0 ts := by
  have f1 : removePat (matchSimpleAt (ofStr ("gc"))) (fun _ _ h => matchSimpleAt_lt h) (c0 ++ (bannerOf ts ++ (gpL1 ++ ('\n' :: (provL ++ ('\n' :: ('\n' :: (gcL1 ++ ('\n' :: (provL ++ ('\n' :: (funcBlock (ofStr ("gc")) bodyGc ++ ['\n'])))))))))))) = c0 ++ removePat (matchSimpleAt (ofStr ("gc"))) (fun _ _ h => matchSimpleAt_lt h) (bannerOf ts ++ (gpL1 ++ ('\n' :: (provL ++ ('\n' :: ('\n' :: (gcL1 ++ ('\n' :: (provL ++ ('\n' :: (funcBlock (ofStr ("gc")) bodyGc ++ ['\n']))))))))))) :=
    removePat_skip _ (fun t ht hne => noSimple_region
      (show occursb ['g', 'c'] c0 = false from h0gc)
      (show headIs 'c' (bannerOf ts ++ (gpL1 ++ ('\n' :: (provL ++ ('\n' :: ('\n' :: (gcL1 ++ ('\n' :: (provL ++ ('\n' :: (funcBlock (ofStr ("gc")) bodyGc ++ ['\n']))))))))))) = false from rfl) t ((List.mem_tails _ _).mp ht) hne)
  have f2 : removePat (matchSimpleAt (ofStr ("gc"))) (fun _ _ h => matchSimpleAt_lt h) (bannerOf ts ++ (gpL1 ++ ('\n' :: (provL ++ ('\n' :: ('\n' :: (gcL1 ++ ('\n' :: (provL ++ ('\n' :: (funcBlock (ofStr ("gc")) bodyGc ++ ['\n']))))))))))) = bannerOf ts ++ removePat (matchSimpleAt (ofStr ("gc"))) (fun _ _ h => matchSimpleAt_lt h) (gpL1 ++ ('\n' :: (provL ++ ('\n' :: ('\n' :: (gcL1 ++ ('\n' :: (provL ++ ('\n' :: (funcBlock (ofStr ("gc")) bodyGc ++ ['\n'])))))))))) :=
    removePat_skip _ (fun t ht hne => noSimple_region
      (show occursb ['g', 'c'] (bannerOf ts) = false from hbgc)
      (show headIs 'c' (gpL1 ++ ('\n' :: (provL ++ ('\n' :: ('\n' :: (gcL1 ++ ('\n' :: (provL ++ ('\n' :: (funcBlock (ofStr ("gc")) bodyGc ++ ['\n'])))))))))) = false from rfl) t ((List.mem_tails _ _).mp ht) hne)
  have f3 : removePat (matchSimpleAt (ofStr ("gc"))) (fun _ _ h => matchSimpleAt_lt h) (gpL1 ++ ('\n' :: (provL ++ ('\n' :: ('\n' :: (gcL1 ++ ('\n' :: (provL ++ ('\n' :: (funcBlock (ofStr ("gc")) bodyGc ++ ['\n'])))))))))) = gpL1 ++ removePat (matchSimpleAt (ofStr ("gc"))) (fun _ _ h => matchSimpleAt_lt h) ('\n' :: (provL ++ ('\n' :: ('\n' :: (gcL1 ++ ('\n' :: (provL ++ ('\n' :: (funcBlock (ofStr ("gc")) bodyGc ++ ['\n']))))))))) :=
    removePat_skip _ (fun t ht hne => noSimple_region
      (show occursb ['g', 'c'] gpL1 = false from occ_gc_gpL1)
      (show headIs 'c' ('\n' :: (provL ++ ('\n' :: ('\n' :: (gcL1 ++ ('\n' :: (provL ++ ('\n' :: (funcBlock (ofStr ("gc")) bodyGc ++ ['\n']))))))))) = false from rfl) t ((List.mem_tails _ _).mp ht) hne)
  have f4 : removePat (matchSimpleAt (ofStr ("gc"))) (fun _ _ h => matchSimpleAt_lt h) ('\n' :: (provL ++ ('\n' :: ('\n' :: (gcL1 ++ ('\n' :: (provL ++ ('\n' :: (funcBlock (ofStr ("gc")) bodyGc ++ ['\n']))))))))) = '\n' :: removePat (matchSimpleAt (ofStr ("gc"))) (fun _ _ h => matchSimpleAt_lt h) (provL ++ ('\n' :: ('\n' :: (gcL1 ++ ('\n' :: (provL ++ ('\n' :: (funcBlock (ofStr ("gc")) bodyGc ++ ['\n'])))))))) :=
    removePat_none_cons (matchSimpleAt_none_of_not_isPre (by rfl))
  have f5 : removePat (matchSimpleAt (ofStr ("gc"))) (fun _ _ h => matchSimpleAt_lt h) (provL ++ ('\n' :: ('\n' :: (gcL1 ++ ('\n' :: (provL ++ ('\n' :: (funcBlock (ofStr ("gc")) bodyGc ++ ['\n'])))))))) = provL ++ removePat (matchSimpleAt (ofStr ("gc"))) (fun _ _ h => matchSimpleAt_lt h) ('\n' :: ('\n' :: (gcL1 ++ ('\n' :: (provL ++ ('\n' :: (funcBlock (ofStr ("gc")) bodyGc ++ ['\n']))))))) :=
    removePat_skip _ (fun t ht hne => noSimple_region
      (show occursb ['g', 'c'] provL = false from occ_gc_provL)
      (show headIs 'c' ('\n' :: ('\n' :: (gcL1 ++ ('\n' :: (provL ++ ('\n' :: (funcBlock (ofStr ("gc")) bodyGc ++ ['\n']))))))) = false from rfl) t ((List.mem_tails _ _).mp ht) hne)
  have f6 : removePat (matchSimpleAt (ofStr ("gc"))) (fun _ _ h => matchSimpleAt_lt h) ('\n' :: ('\n' :: (gcL1 ++ ('\n' :: (provL ++ ('\n' :: (funcBlock (ofStr ("gc")) bodyGc ++ ['\n']))))))) = '\n' :: removePat (matchSimpleAt (ofStr ("gc"))) (fun _ _ h => matchSimpleAt_lt h) ('\n' :: (gcL1 ++ ('\n' :: (provL ++ ('\n' :: (funcBlock (ofStr ("gc")) bodyGc ++ ['\n'])))))) :=
    removePat_none_cons (matchSimpleAt_none_of_not_isPre (by rfl))
  have f7 : removePat (matchSimpleAt (ofStr ("gc"))) (fun _ _ h => matchSimpleAt_lt h) ('\n' :: (gcL1 ++ ('\n' :: (provL ++ ('\n' :: (funcBlock (ofStr ("gc")) bodyGc ++ ['\n'])))))) = '\n' :: removePat (matchSimpleAt (ofStr ("gc"))) (fun _ _ h => matchSimpleAt_lt h) (gcL1 ++ ('\n' :: (provL ++ ('\n' :: (funcBlock (ofStr ("gc")) bodyGc ++ ['\n']))))) :=
    removePat_none_cons (matchSimpleAt_none_of_not_isPre (by rfl))
  have f8 : removePat (matchSimpleAt (ofStr ("gc"))) (fun _ _ h => matchSimpleAt_lt h) (gcL1 ++ ('\n' :: (provL ++ ('\n' :: (funcBlock (ofStr ("gc")) bodyGc ++ ['\n']))))) = gcL1 ++ removePat (matchSimpleAt (ofStr ("gc"))) (fun _ _ h => matchSimpleAt_lt h) ('\n' :: (provL ++ ('\n' :: (funcBlock (ofStr ("gc")) bodyGc ++ ['\n'])))) :=
    removePat_skip _ (noSimple_gcL1 ('\n' :: (provL ++ ('\n' :: (funcBlock (ofStr ("gc")) bodyGc ++ ['\n'])))) (by rfl))
  have f9 : removePat (matchSimpleAt (ofStr ("gc"))) (fun _ _ h => matchSimpleAt_lt h) ('\n' :: (provL ++ ('\n' :: (funcBlock (ofStr ("gc")) bodyGc ++ ['\n'])))) = '\n' :: removePat (matchSimpleAt (ofStr ("gc"))) (fun _ _ h => matchSimpleAt_lt h) (provL ++ ('\n' :: (funcBlock (ofStr ("gc")) bodyGc ++ ['\n']))) :=
    removePat_none_cons (matchSimpleAt_none_of_not_isPre (by rfl))
  have f10 : removePat (matchSimpleAt (ofStr ("gc"))) (fun _ _ h => matchSimpleAt_lt h) (provL ++ ('\n' :: (funcBlock (ofStr ("gc")) bodyGc ++ ['\n']))) = provL ++ removePat (matchSimpleAt (ofStr ("gc"))) (fun _ _ h => matchSimpleAt_lt h) ('\n' :: (funcBlock (ofStr ("gc")) bodyGc ++ ['\n'])) :=
    removePat_skip _ (fun t ht hne => noSimple_region
      (show occursb ['g', 'c'] provL = false from occ_gc_provL)
      (show headIs 'c' ('\n' :: (funcBlock (ofStr ("gc")) bodyGc ++ ['\n'])) = false from rfl) t ((List.mem_tails _ _).mp ht) hne)
  have f11 : removePat (matchSimpleAt (ofStr ("gc"))) (fun _ _ h => matchSimpleAt_lt h) ('\n' :: (funcBlock (ofStr ("gc")) bodyGc ++ ['\n'])) = '\n' :: removePat (matchSimpleAt (ofStr ("gc"))) (fun _ _ h => matchSimpleAt_lt h) (funcBlock (ofStr ("gc")) bodyGc ++ ['\n']) :=
    removePat_none_cons (matchSimpleAt_none_of_not_isPre (by rfl))
  have f12 : removePat (matchSimpleAt (ofStr ("gc"))) (fun _ _ h => matchSimpleAt_lt h) (funcBlock (ofStr ("gc")) bodyGc ++ ['\n']) = removePat (matchSimpleAt (ofStr ("gc"))) (fun _ _ h => matchSimpleAt_lt h) (([] : List Char)) :=
    removePat_match (matchSimpleAt_block [] occ_nb_bodyGc)
  have f13 : removePat (matchSimpleAt (ofStr ("gc"))) (fun _ _ h => matchSimpleAt_lt h) (([] : List Char)) = [] := removePat_nil
  unfold removeSimple
  rw [leftover1_shape4 c0 ts, f1, f2, f3, f4, f5, f6, f7, f8, f9, f10, f11, f12,
    f13]
  unfold leftover2
  rfl

/-- The `gc` removal pass of the installer on the content left by the `gp`
pass. -/
theorem removeAlias_gc (c0 ts : List Char)
    (h0gc : occursb (ofStr ("gc")) c0 = false)
    (h0tri : occursb (ofStr ("\n\n\n")) c0 = false)
    (h0tail : endsIn (ofStr ("\n\n")) c0 = false)
    (hbgc : occursb (ofStr ("gc")) (bannerOf ts) = false)
    (hbtri : occursb (ofStr ("\n\n\n")) (bannerOf ts) = false) :
    removeExistingAliasContent (ofStr ("gc")) (leftover1 c0 ts) =
      leftover2 c0 ts := by
  unfold removeExistingAliasContent
  rw [removeFC_gc_leftover1 c0 ts h0gc hbgc,
    removeSimple_gc_leftover1 c0 ts h0gc hbgc]
  exact collapseNl_id_of_no_triple (occ_tri_leftover2 c0 ts h0tri h0tail hbtri)


/-!
### Anchored-occurrence counting over the final profile
-/

theorem countAux_cons (p : List Char → Bool) (c : Char) (r : List Char) :
    countAux p (c :: r) = (if c = '\n' && p r then 1 else 0) + countAux p r := rfl

theorem countAux_append (p : List Char → Bool) (a b : List Char) :
    countAux p (a ++ b) = countAuxC p a b + countAux p b := by
  induction a with
  | nil => simp [countAuxC, countAux]
  | cons c r ih =>
    rw [List.cons_append, countAux_cons]
    simp only [countAuxC, ih, Nat.add_assoc]

theorem countAuxC_zero {p : List Char → Bool} {a b : List Char}
    (h : ∀ t ∈ a.tails, t.length < a.length → p (t ++ b) = false) :
    countAuxC p a b = 0 := by
  induction a with
  | nil => rfl
  | cons c r ih =>
    have hr : p (r ++ b) = false := by
      refine h r ?_ (by simp)
      rw [List.mem_tails]
      exact List.suffix_cons c r
    have hz : countAuxC p r b = 0 := by
      refine ih (fun t ht hlt => h t ?_ ?_)
      · rw [List.mem_tails] at ht ⊢
        exact ht.trans (List.suffix_cons c r)
      · simp only [List.length_cons]
        omega
    simp [countAuxC, hr, hz]

theorem noHead_gpL1 (B : List Char) (hB : headIs 'p' B = false)
    (hB0 : isPre ['g', 'p'] B = false) :
    ∀ t ∈ gpL1.tails, headMatch (ofStr ("gp")) (t ++ B) = false := by
  intro t ht
  have hsuf : t <:+ (ofStr ("# Git Push with AI Commit Message (") ++ ofStr ("gp")) ++ ofStr (" alias)") := by
    have h := (List.mem_tails _ _).mp ht
    unfold gpL1 at h
    exact h
  rcases suffix_append_cases hsuf with ⟨v, hv, hvne, rfl⟩ | hsuf2
  · rcases suffix_append_cases hv with ⟨w, hw, hwne, rfl⟩ | hv2
    · rw [List.append_assoc, List.append_assoc]
      exact headMatch_false_of_not_isPre (isPre_pair_tails
        (show occursb ['g', 'p'] (ofStr ("# Git Push with AI Commit Message (")) = false from by decide)
        (show headIs 'p' (ofStr ("gp") ++ (ofStr (" alias)") ++ B)) = false
          from rfl) w hw hwne)
    · rw [show (ofStr ("gp") : List Char) = 'g' :: ['p'] from rfl] at hv2
      rcases List.suffix_cons_iff.mp hv2 with rfl | hv3
      · rw [show (('g' :: ['p']) ++ ofStr (" alias)")) ++ B =
          ofStr ("gp") ++ (' ' :: 'a' :: (ofStr ("lias)") ++ B)) from rfl]
        exact headMatch_benign _
      · rcases List.suffix_cons_iff.mp hv3 with rfl | hv4
        · exact headMatch_false_of_not_isPre (by rfl)
        · rw [List.suffix_nil] at hv4
          exact absurd hv4 hvne
  · cases t with
    | nil =>
      rw [List.nil_append]
      exact headMatch_false_of_not_isPre hB0
    | cons c t' =>
      exact headMatch_false_of_not_isPre (isPre_pair_tails
        (show occursb ['g', 'p'] (ofStr (" alias)")) = false from by decide)
        hB (c :: t') hsuf2 (by simp))

theorem noHead_gcL1 (B : List Char) (hB : headIs 'c' B = false)
    (hB0 : isPre ['g', 'c'] B = false) :
    ∀ t ∈ gcL1.tails, headMatch (ofStr ("gc")) (t ++ B) = false := by
  intro t ht
  have hsuf : t <:+ (ofStr ("# Git Commit with AI Message (") ++ ofStr ("gc")) ++ ofStr (" alias)") := by
    have h := (List.mem_tails _ _).mp ht
    unfold gcL1 at h
    exact h
  rcases suffix_append_cases hsuf with ⟨v, hv, hvne, rfl⟩ | hsuf2
  · rcases suffix_append_cases hv with ⟨w, hw, hwne, rfl⟩ | hv2
    · rw [List.append_assoc, List.append_assoc]
      exact headMatch_false_of_not_isPre (isPre_pair_tails
        (show occursb ['g', 'c'] (ofStr ("# Git Commit with AI Message (")) = false from by decide)
        (show headIs 'c' (ofStr ("gc") ++ (ofStr (" alias)") ++ B)) = false
          from rfl) w hw hwne)
    · rw [show (ofStr ("gc") : List Char) = 'g' :: ['c'] from rfl] at hv2
      rcases List.suffix_cons_iff.mp hv2 with rfl | hv3
      · rw [show (('g' :: ['c']) ++ ofStr (" alias)")) ++ B =
          ofStr ("gc") ++ (' ' :: 'a' :: (ofStr ("lias)") ++ B)) from rfl]
        exact headMatch_benign _
      · rcases List.suffix_cons_iff.mp hv3 with rfl | hv4
        · exact headMatch_false_of_not_isPre (by rfl)
        · rw [List.suffix_nil] at hv4
          exact absurd hv4 hvne
  · cases t with
    | nil =>
      rw [List.nil_append]
      exact headMatch_false_of_not_isPre hB0
    | cons c t' =>
      exact headMatch_false_of_not_isPre (isPre_pair_tails
        (show occursb ['g', 'c'] (ofStr (" alias)")) = false from by decide)
        hB (c :: t') hsuf2 (by simp))

theorem occ_gc_fbGp :
    occursb (ofStr ("gc")) (funcBlock (ofStr ("gp")) bodyGp) = false := by
  rw [funcBlock_eq_PB]
  refine occursb_chain (by decide) (by decide) occ_gc_PBgp ?_
  intro k hk0 hkl
  rw [show List.length (ofStr ("gc")) = 2 from rfl] at hkl
  have hk : k = 1 := by omega
  subst hk
  exact Or.inl (by decide)

theorem final_shape2 (c0 ts1 ts2 : List Char) :
    leftover2 c0 ts1 ++ blockC ts2 = c0 ++ (bannerOf ts1 ++ (gpL1 ++ ('\n' :: (provL ++ ('\n' :: ('\n' :: (gcL1 ++ ('\n' :: (provL ++ ('\n' :: (bannerOf ts2 ++ (gpL1 ++ ('\n' :: (provL ++ ('\n' :: (funcBlock (ofStr ("gp")) bodyGp ++ ('\n' :: ('\n' :: (gcL1 ++ ('\n' :: (provL ++ ('\n' :: (funcBlock (ofStr ("gc")) bodyGc ++ (['\n'])))))))))))))))))))))))) := by
  unfold leftover2 blockC
  rw [gpT_eq, gcT_eq]
  simp [List.append_assoc]



theorem count_gp_final (c0 ts1 ts2 : List Char)
    (h0 : occursb (ofStr ("gp")) c0 = false)
    (hb1 : occursb (ofStr ("gp")) (bannerOf ts1) = false)
    (hb2 : occursb (ofStr ("gp")) (bannerOf ts2) = false) :
    countA (headMatch (ofStr ("gp"))) (leftover2 c0 ts1 ++ blockC ts2) = 1 := by
  rw [final_shape2]
  unfold countA
  rw [show headMatch (ofStr ("gp")) (c0 ++ (bannerOf ts1 ++ (gpL1 ++ ('\n' :: (provL ++ ('\n' :: ('\n' :: (gcL1 ++ ('\n' :: (provL ++ ('\n' :: (bannerOf ts2 ++ (gpL1 ++ ('\n' :: (provL ++ ('\n' :: (funcBlock (ofStr ("gp")) bodyGp ++ ('\n' :: ('\n' :: (gcL1 ++ ('\n' :: (provL ++ ('\n' :: (funcBlock (ofStr ("gc")) bodyGc ++ (['\n']))))))))))))))))))))))))) = false from noHead_region
    (show occursb ['g', 'p'] c0 = false from h0)
    (show headIs 'p' (bannerOf ts1 ++ (gpL1 ++ ('\n' :: (provL ++ ('\n' :: ('\n' :: (gcL1 ++ ('\n' :: (provL ++ ('\n' :: (bannerOf ts2 ++ (gpL1 ++ ('\n' :: (provL ++ ('\n' :: (funcBlock (ofStr ("gp")) bodyGp ++ ('\n' :: ('\n' :: (gcL1 ++ ('\n' :: (provL ++ ('\n' :: (funcBlock (ofStr ("gc")) bodyGc ++ (['\n'])))))))))))))))))))))))) = false from rfl)
    (show isPre ['g', 'p'] (bannerOf ts1 ++ (gpL1 ++ ('\n' :: (provL ++ ('\n' :: ('\n' :: (gcL1 ++ ('\n' :: (provL ++ ('\n' :: (bannerOf ts2 ++ (gpL1 ++ ('\n' :: (provL ++ ('\n' :: (funcBlock (ofStr ("gp")) bodyGp ++ ('\n' :: ('\n' :: (gcL1 ++ ('\n' :: (provL ++ ('\n' :: (funcBlock (ofStr ("gc")) bodyGc ++ (['\n'])))))))))))))))))))))))) = false from rfl) c0 (List.suffix_refl _)]
  have d1 : countAux (headMatch (ofStr ("gp"))) (c0 ++ (bannerOf ts1 ++ (gpL1 ++ ('\n' :: (provL ++ ('\n' :: ('\n' :: (gcL1 ++ ('\n' :: (provL ++ ('\n' :: (bannerOf ts2 ++ (gpL1 ++ ('\n' :: (provL ++ ('\n' :: (funcBlock (ofStr ("gp")) bodyGp ++ ('\n' :: ('\n' :: (gcL1 ++ ('\n' :: (provL ++ ('\n' :: (funcBlock (ofStr ("gc")) bodyGc ++ (['\n']))))))))))))))))))))))))) = countAux (headMatch (ofStr ("gp"))) (bannerOf ts1 ++ (gpL1 ++ ('\n' :: (provL ++ ('\n' :: ('\n' :: (gcL1 ++ ('\n' :: (provL ++ ('\n' :: (bannerOf ts2 ++ (gpL1 ++ ('\n' :: (provL ++ ('\n' :: (funcBlock (ofStr ("gp")) bodyGp ++ ('\n' :: ('\n' :: (gcL1 ++ ('\n' :: (provL ++ ('\n' :: (funcBlock (ofStr ("gc")) bodyGc ++ (['\n'])))))))))))))))))))))))) := by
    rw [countAux_append, show countAuxC (headMatch (ofStr ("gp"))) (c0) (bannerOf ts1 ++ (gpL1 ++ ('\n' :: (provL ++ ('\n' :: ('\n' :: (gcL1 ++ ('\n' :: (provL ++ ('\n' :: (bannerOf ts2 ++ (gpL1 ++ ('\n' :: (provL ++ ('\n' :: (funcBlock (ofStr ("gp")) bodyGp ++ ('\n' :: ('\n' :: (gcL1 ++ ('\n' :: (provL ++ ('\n' :: (funcBlock (ofStr ("gc")) bodyGc ++ (['\n'])))))))))))))))))))))))) = 0 from
      countAuxC_zero (fun t ht _ => noHead_region
        (show occursb ['g', 'p'] (c0) = false from h0)
        (show headIs 'p' (bannerOf ts1 ++ (gpL1 ++ ('\n' :: (provL ++ ('\n' :: ('\n' :: (gcL1 ++ ('\n' :: (provL ++ ('\n' :: (bannerOf ts2 ++ (gpL1 ++ ('\n' :: (provL ++ ('\n' :: (funcBlock (ofStr ("gp")) bodyGp ++ ('\n' :: ('\n' :: (gcL1 ++ ('\n' :: (provL ++ ('\n' :: (funcBlock (ofStr ("gc")) bodyGc ++ (['\n'])))))))))))))))))))))))) = false from rfl)
        (show isPre ['g', 'p'] (bannerOf ts1 ++ (gpL1 ++ ('\n' :: (provL ++ ('\n' :: ('\n' :: (gcL1 ++ ('\n' :: (provL ++ ('\n' :: (bannerOf ts2 ++ (gpL1 ++ ('\n' :: (provL ++ ('\n' :: (funcBlock (ofStr ("gp")) bodyGp ++ ('\n' :: ('\n' :: (gcL1 ++ ('\n' :: (provL ++ ('\n' :: (funcBlock (ofStr ("gc")) bodyGc ++ (['\n'])))))))))))))))))))))))) = false from rfl)
        t ((List.mem_tails _ _).mp ht))]
    simp
  have d2 : countAux (headMatch (ofStr ("gp"))) (bannerOf ts1 ++ (gpL1 ++ ('\n' :: (provL ++ ('\n' :: ('\n' :: (gcL1 ++ ('\n' :: (provL ++ ('\n' :: (bannerOf ts2 ++ (gpL1 ++ ('\n' :: (provL ++ ('\n' :: (funcBlock (ofStr ("gp")) bodyGp ++ ('\n' :: ('\n' :: (gcL1 ++ ('\n' :: (provL ++ ('\n' :: (funcBlock (ofStr ("gc")) bodyGc ++ (['\n'])))))))))))))))))))))))) = countAux (headMatch (ofStr ("gp"))) (gpL1 ++ ('\n' :: (provL ++ ('\n' :: ('\n' :: (gcL1 ++ ('\n' :: (provL ++ ('\n' :: (bannerOf ts2 ++ (gpL1 ++ ('\n' :: (provL ++ ('\n' :: (funcBlock (ofStr ("gp")) bodyGp ++ ('\n' :: ('\n' :: (gcL1 ++ ('\n' :: (provL ++ ('\n' :: (funcBlock (ofStr ("gc")) bodyGc ++ (['\n']))))))))))))))))))))))) := by
    rw [countAux_append, show countAuxC (headMatch (ofStr ("gp"))) (bannerOf ts1) (gpL1 ++ ('\n' :: (provL ++ ('\n' :: ('\n' :: (gcL1 ++ ('\n' :: (provL ++ ('\n' :: (bannerOf ts2 ++ (gpL1 ++ ('\n' :: (provL ++ ('\n' :: (funcBlock (ofStr ("gp")) bodyGp ++ ('\n' :: ('\n' :: (gcL1 ++ ('\n' :: (provL ++ ('\n' :: (funcBlock (ofStr ("gc")) bodyGc ++ (['\n']))))))))))))))))))))))) = 0 from
      countAuxC_zero (fun t ht _ => noHead_region
        (show occursb ['g', 'p'] (bannerOf ts1) = false from hb1)
        (show headIs 'p' (gpL1 ++ ('\n' :: (provL ++ ('\n' :: ('\n' :: (gcL1 ++ ('\n' :: (provL ++ ('\n' :: (bannerOf ts2 ++ (gpL1 ++ ('\n' :: (provL ++ ('\n' :: (funcBlock (ofStr ("gp")) bodyGp ++ ('\n' :: ('\n' :: (gcL1 ++ ('\n' :: (provL ++ ('\n' :: (funcBlock (ofStr ("gc")) bodyGc ++ (['\n']))))))))))))))))))))))) = false from rfl)
        (show isPre ['g', 'p'] (gpL1 ++ ('\n' :: (provL ++ ('\n' :: ('\n' :: (gcL1 ++ ('\n' :: (provL ++ ('\n' :: (bannerOf ts2 ++ (gpL1 ++ ('\n' :: (provL ++ ('\n' :: (funcBlock (ofStr ("gp")) bodyGp ++ ('\n' :: ('\n' :: (gcL1 ++ ('\n' :: (provL ++ ('\n' :: (funcBlock (ofStr ("gc")) bodyGc ++ (['\n']))))))))))))))))))))))) = false from rfl)
        t ((List.mem_tails _ _).mp ht))]
    simp
  have d3 : countAux (headMatch (ofStr ("gp"))) (gpL1 ++ ('\n' :: (provL ++ ('\n' :: ('\n' :: (gcL1 ++ ('\n' :: (provL ++ ('\n' :: (bannerOf ts2 ++ (gpL1 ++ ('\n' :: (provL ++ ('\n' :: (funcBlock (ofStr ("gp")) bodyGp ++ ('\n' :: ('\n' :: (gcL1 ++ ('\n' :: (provL ++ ('\n' :: (funcBlock (ofStr ("gc")) bodyGc ++ (['\n']))))))))))))))))))))))) = countAux (headMatch (ofStr ("gp"))) ('\n' :: (provL ++ ('\n' :: ('\n' :: (gcL1 ++ ('\n' :: (provL ++ ('\n' :: (bannerOf ts2 ++ (gpL1 ++ ('\n' :: (provL ++ ('\n' :: (funcBlock (ofStr ("gp")) bodyGp ++ ('\n' :: ('\n' :: (gcL1 ++ ('\n' :: (provL ++ ('\n' :: (funcBlock (ofStr ("gc")) bodyGc ++ (['\n'])))))))))))))))))))))) := by
    rw [countAux_append, show countAuxC (headMatch (ofStr ("gp"))) (gpL1) ('\n' :: (provL ++ ('\n' :: ('\n' :: (gcL1 ++ ('\n' :: (provL ++ ('\n' :: (bannerOf ts2 ++ (gpL1 ++ ('\n' :: (provL ++ ('\n' :: (funcBlock (ofStr ("gp")) bodyGp ++ ('\n' :: ('\n' :: (gcL1 ++ ('\n' :: (provL ++ ('\n' :: (funcBlock (ofStr ("gc")) bodyGc ++ (['\n'])))))))))))))))))))))) = 0 from
      countAuxC_zero (fun t ht _ => noHead_gpL1 ('\n' :: (provL ++ ('\n' :: ('\n' :: (gcL1 ++ ('\n' :: (provL ++ ('\n' :: (bannerOf ts2 ++ (gpL1 ++ ('\n' :: (provL ++ ('\n' :: (funcBlock (ofStr ("gp")) bodyGp ++ ('\n' :: ('\n' :: (gcL1 ++ ('\n' :: (provL ++ ('\n' :: (funcBlock (ofStr ("gc")) bodyGc ++ (['\n'])))))))))))))))))))))) (by rfl) (by rfl) t ht)]
    simp
  have d4 : countAux (headMatch (ofStr ("gp"))) ('\n' :: (provL ++ ('\n' :: ('\n' :: (gcL1 ++ ('\n' :: (provL ++ ('\n' :: (bannerOf ts2 ++ (gpL1 ++ ('\n' :: (provL ++ ('\n' :: (funcBlock (ofStr ("gp")) bodyGp ++ ('\n' :: ('\n' :: (gcL1 ++ ('\n' :: (provL ++ ('\n' :: (funcBlock (ofStr ("gc")) bodyGc ++ (['\n'])))))))))))))))))))))) = countAux (headMatch (ofStr ("gp"))) (provL ++ ('\n' :: ('\n' :: (gcL1 ++ ('\n' :: (provL ++ ('\n' :: (bannerOf ts2 ++ (gpL1 ++ ('\n' :: (provL ++ ('\n' :: (funcBlock (ofStr ("gp")) bodyGp ++ ('\n' :: ('\n' :: (gcL1 ++ ('\n' :: (provL ++ ('\n' :: (funcBlock (ofStr ("gc")) bodyGc ++ (['\n']))))))))))))))))))))) := by
    rw [countAux_cons, show headMatch (ofStr ("gp")) (provL ++ ('\n' :: ('\n' :: (gcL1 ++ ('\n' :: (provL ++ ('\n' :: (bannerOf ts2 ++ (gpL1 ++ ('\n' :: (provL ++ ('\n' :: (funcBlock (ofStr ("gp")) bodyGp ++ ('\n' :: ('\n' :: (gcL1 ++ ('\n' :: (provL ++ ('\n' :: (funcBlock (ofStr ("gc")) bodyGc ++ (['\n']))))))))))))))))))))) = false from rfl]
    simp
  have d5 : countAux (headMatch (ofStr ("gp"))) (provL ++ ('\n' :: ('\n' :: (gcL1 ++ ('\n' :: (provL ++ ('\n' :: (bannerOf ts2 ++ (gpL1 ++ ('\n' :: (provL ++ ('\n' :: (funcBlock (ofStr ("gp")) bodyGp ++ ('\n' :: ('\n' :: (gcL1 ++ ('\n' :: (provL ++ ('\n' :: (funcBlock (ofStr ("gc")) bodyGc ++ (['\n']))))))))))))))))))))) = countAux (headMatch (ofStr ("gp"))) ('\n' :: ('\n' :: (gcL1 ++ ('\n' :: (provL ++ ('\n' :: (bannerOf ts2 ++ (gpL1 ++ ('\n' :: (provL ++ ('\n' :: (funcBlock (ofStr ("gp")) bodyGp ++ ('\n' :: ('\n' :: (gcL1 ++ ('\n' :: (provL ++ ('\n' :: (funcBlock (ofStr ("gc")) bodyGc ++ (['\n'])))))))))))))))))))) := by
    rw [countAux_append, show countAuxC (headMatch (ofStr ("gp"))) (provL) ('\n' :: ('\n' :: (gcL1 ++ ('\n' :: (provL ++ ('\n' :: (bannerOf ts2 ++ (gpL1 ++ ('\n' :: (provL ++ ('\n' :: (funcBlock (ofStr ("gp")) bodyGp ++ ('\n' :: ('\n' :: (gcL1 ++ ('\n' :: (provL ++ ('\n' :: (funcBlock (ofStr ("gc")) bodyGc ++ (['\n'])))))))))))))))))))) = 0 from
      countAuxC_zero (fun t ht _ => noHead_region
        (show occursb ['g', 'p'] (provL) = false from occ_gp_provL)
        (show headIs 'p' ('\n' :: ('\n' :: (gcL1 ++ ('\n' :: (provL ++ ('\n' :: (bannerOf ts2 ++ (gpL1 ++ ('\n' :: (provL ++ ('\n' :: (funcBlock (ofStr ("gp")) bodyGp ++ ('\n' :: ('\n' :: (gcL1 ++ ('\n' :: (provL ++ ('\n' :: (funcBlock (ofStr ("gc")) bodyGc ++ (['\n'])))))))))))))))))))) = false from rfl)
        (show isPre ['g', 'p'] ('\n' :: ('\n' :: (gcL1 ++ ('\n' :: (provL ++ ('\n' :: (bannerOf ts2 ++ (gpL1 ++ ('\n' :: (provL ++ ('\n' :: (funcBlock (ofStr ("gp")) bodyGp ++ ('\n' :: ('\n' :: (gcL1 ++ ('\n' :: (provL ++ ('\n' :: (funcBlock (ofStr ("gc")) bodyGc ++ (['\n'])))))))))))))))))))) = false from rfl)
        t ((List.mem_tails _ _).mp ht))]
    simp
  have d6 : countAux (headMatch (ofStr ("gp"))) ('\n' :: ('\n' :: (gcL1 ++ ('\n' :: (provL ++ ('\n' :: (bannerOf ts2 ++ (gpL1 ++ ('\n' :: (provL ++ ('\n' :: (funcBlock (ofStr ("gp")) bodyGp ++ ('\n' :: ('\n' :: (gcL1 ++ ('\n' :: (provL ++ ('\n' :: (funcBlock (ofStr ("gc")) bodyGc ++ (['\n'])))))))))))))))))))) = countAux (headMatch (ofStr ("gp"))) ('\n' :: (gcL1 ++ ('\n' :: (provL ++ ('\n' :: (bannerOf ts2 ++ (gpL1 ++ ('\n' :: (provL ++ ('\n' :: (funcBlock (ofStr ("gp")) bodyGp ++ ('\n' :: ('\n' :: (gcL1 ++ ('\n' :: (provL ++ ('\n' :: (funcBlock (ofStr ("gc")) bodyGc ++ (['\n']))))))))))))))))))) := by
    rw [countAux_cons, show headMatch (ofStr ("gp")) ('\n' :: (gcL1 ++ ('\n' :: (provL ++ ('\n' :: (bannerOf ts2 ++ (gpL1 ++ ('\n' :: (provL ++ ('\n' :: (funcBlock (ofStr ("gp")) bodyGp ++ ('\n' :: ('\n' :: (gcL1 ++ ('\n' :: (provL ++ ('\n' :: (funcBlock (ofStr ("gc")) bodyGc ++ (['\n']))))))))))))))))))) = false from rfl]
    simp
  have d7 : countAux (headMatch (ofStr ("gp"))) ('\n' :: (gcL1 ++ ('\n' :: (provL ++ ('\n' :: (bannerOf ts2 ++ (gpL1 ++ ('\n' :: (provL ++ ('\n' :: (funcBlock (ofStr ("gp")) bodyGp ++ ('\n' :: ('\n' :: (gcL1 ++ ('\n' :: (provL ++ ('\n' :: (funcBlock (ofStr ("gc")) bodyGc ++ (['\n']))))))))))))))))))) = countAux (headMatch (ofStr ("gp"))) (gcL1 ++ ('\n' :: (provL ++ ('\n' :: (bannerOf ts2 ++ (gpL1 ++ ('\n' :: (provL ++ ('\n' :: (funcBlock (ofStr ("gp")) bodyGp ++ ('\n' :: ('\n' :: (gcL1 ++ ('\n' :: (provL ++ ('\n' :: (funcBlock (ofStr ("gc")) bodyGc ++ (['\n'])))))))))))))))))) := by
    rw [countAux_cons, show headMatch (ofStr ("gp")) (gcL1 ++ ('\n' :: (provL ++ ('\n' :: (bannerOf ts2 ++ (gpL1 ++ ('\n' :: (provL ++ ('\n' :: (funcBlock (ofStr ("gp")) bodyGp ++ ('\n' :: ('\n' :: (gcL1 ++ ('\n' :: (provL ++ ('\n' :: (funcBlock (ofStr ("gc")) bodyGc ++ (['\n'])))))))))))))))))) = false from rfl]
    simp
  have d8 : countAux (headMatch (ofStr ("gp"))) (gcL1 ++ ('\n' :: (provL ++ ('\n' :: (bannerOf ts2 ++ (gpL1 ++ ('\n' :: (provL ++ ('\n' :: (funcBlock (ofStr ("gp")) bodyGp ++ ('\n' :: ('\n' :: (gcL1 ++ ('\n' :: (provL ++ ('\n' :: (funcBlock (ofStr ("gc")) bodyGc ++ (['\n'])))))))))))))))))) = countAux (headMatch (ofStr ("gp"))) ('\n' :: (provL ++ ('\n' :: (bannerOf ts2 ++ (gpL1 ++ ('\n' :: (provL ++ ('\n' :: (funcBlock (ofStr ("gp")) bodyGp ++ ('\n' :: ('\n' :: (gcL1 ++ ('\n' :: (provL ++ ('\n' :: (funcBlock (ofStr ("gc")) bodyGc ++ (['\n']))))))))))))))))) := by
    rw [countAux_append, show countAuxC (headMatch (ofStr ("gp"))) (gcL1) ('\n' :: (provL ++ ('\n' :: (bannerOf ts2 ++ (gpL1 ++ ('\n' :: (provL ++ ('\n' :: (funcBlock (ofStr ("gp")) bodyGp ++ ('\n' :: ('\n' :: (gcL1 ++ ('\n' :: (provL ++ ('\n' :: (funcBlock (ofStr ("gc")) bodyGc ++ (['\n']))))))))))))))))) = 0 from
      countAuxC_zero (fun t ht _ => noHead_region
        (show occursb ['g', 'p'] gcL1 = false from occ_gp_gcL1)
        (show headIs 'p' ('\n' :: (provL ++ ('\n' :: (bannerOf ts2 ++ (gpL1 ++ ('\n' :: (provL ++ ('\n' :: (funcBlock (ofStr ("gp")) bodyGp ++ ('\n' :: ('\n' :: (gcL1 ++ ('\n' :: (provL ++ ('\n' :: (funcBlock (ofStr ("gc")) bodyGc ++ (['\n']))))))))))))))))) = false from rfl)
        (show isPre ['g', 'p'] ('\n' :: (provL ++ ('\n' :: (bannerOf ts2 ++ (gpL1 ++ ('\n' :: (provL ++ ('\n' :: (funcBlock (ofStr ("gp")) bodyGp ++ ('\n' :: ('\n' :: (gcL1 ++ ('\n' :: (provL ++ ('\n' :: (funcBlock (ofStr ("gc")) bodyGc ++ (['\n']))))))))))))))))) = false from rfl)
        t ((List.mem_tails _ _).mp ht))]
    simp
  have d9 : countAux (headMatch (ofStr ("gp"))) ('\n' :: (provL ++ ('\n' :: (bannerOf ts2 ++ (gpL1 ++ ('\n' :: (provL ++ ('\n' :: (funcBlock (ofStr ("gp")) bodyGp ++ ('\n' :: ('\n' :: (gcL1 ++ ('\n' :: (provL ++ ('\n' :: (funcBlock (ofStr ("gc")) bodyGc ++ (['\n']))))))))))))))))) = countAux (headMatch (ofStr ("gp"))) (provL ++ ('\n' :: (bannerOf ts2 ++ (gpL1 ++ ('\n' :: (provL ++ ('\n' :: (funcBlock (ofStr ("gp")) bodyGp ++ ('\n' :: ('\n' :: (gcL1 ++ ('\n' :: (provL ++ ('\n' :: (funcBlock (ofStr ("gc")) bodyGc ++ (['\n'])))))))))))))))) := by
    rw [countAux_cons, show headMatch (ofStr ("gp")) (provL ++ ('\n' :: (bannerOf ts2 ++ (gpL1 ++ ('\n' :: (provL ++ ('\n' :: (funcBlock (ofStr ("gp")) bodyGp ++ ('\n' :: ('\n' :: (gcL1 ++ ('\n' :: (provL ++ ('\n' :: (funcBlock (ofStr ("gc")) bodyGc ++ (['\n'])))))))))))))))) = false from rfl]
    simp
  have d10 : countAux (headMatch (ofStr ("gp"))) (provL ++ ('\n' :: (bannerOf ts2 ++ (gpL1 ++ ('\n' :: (provL ++ ('\n' :: (funcBlock (ofStr ("gp")) bodyGp ++ ('\n' :: ('\n' :: (gcL1 ++ ('\n' :: (provL ++ ('\n' :: (funcBlock (ofStr ("gc")) bodyGc ++ (['\n'])))))))))))))))) = countAux (headMatch (ofStr ("gp"))) ('\n' :: (bannerOf ts2 ++ (gpL1 ++ ('\n' :: (provL ++ ('\n' :: (funcBlock (ofStr ("gp")) bodyGp ++ ('\n' :: ('\n' :: (gcL1 ++ ('\n' :: (provL ++ ('\n' :: (funcBlock (ofStr ("gc")) bodyGc ++ (['\n']))))))))))))))) := by
    rw [countAux_append, show countAuxC (headMatch (ofStr ("gp"))) (provL) ('\n' :: (bannerOf ts2 ++ (gpL1 ++ ('\n' :: (provL ++ ('\n' :: (funcBlock (ofStr ("gp")) bodyGp ++ ('\n' :: ('\n' :: (gcL1 ++ ('\n' :: (provL ++ ('\n' :: (funcBlock (ofStr ("gc")) bodyGc ++ (['\n']))))))))))))))) = 0 from
      countAuxC_zero (fun t ht _ => noHead_region
        (show occursb ['g', 'p'] (provL) = false from occ_gp_provL)
        (show headIs 'p' ('\n' :: (bannerOf ts2 ++ (gpL1 ++ ('\n' :: (provL ++ ('\n' :: (funcBlock (ofStr ("gp")) bodyGp ++ ('\n' :: ('\n' :: (gcL1 ++ ('\n' :: (provL ++ ('\n' :: (funcBlock (ofStr ("gc")) bodyGc ++ (['\n']))))))))))))))) = false from rfl)
        (show isPre ['g', 'p'] ('\n' :: (bannerOf ts2 ++ (gpL1 ++ ('\n' :: (provL ++ ('\n' :: (funcBlock (ofStr ("gp")) bodyGp ++ ('\n' :: ('\n' :: (gcL1 ++ ('\n' :: (provL ++ ('\n' :: (funcBlock (ofStr ("gc")) bodyGc ++ (['\n']))))))))))))))) = false from rfl)
        t ((List.mem_tails _ _).mp ht))]
    simp
  have d11 : countAux (headMatch (ofStr ("gp"))) ('\n' :: (bannerOf ts2 ++ (gpL1 ++ ('\n' :: (provL ++ ('\n' :: (funcBlock (ofStr ("gp")) bodyGp ++ ('\n' :: ('\n' :: (gcL1 ++ ('\n' :: (provL ++ ('\n' :: (funcBlock (ofStr ("gc")) bodyGc ++ (['\n']))))))))))))))) = countAux (headMatch (ofStr ("gp"))) (bannerOf ts2 ++ (gpL1 ++ ('\n' :: (provL ++ ('\n' :: (funcBlock (ofStr ("gp")) bodyGp ++ ('\n' :: ('\n' :: (gcL1 ++ ('\n' :: (provL ++ ('\n' :: (funcBlock (ofStr ("gc")) bodyGc ++ (['\n'])))))))))))))) := by
    rw [countAux_cons, show headMatch (ofStr ("gp")) (bannerOf ts2 ++ (gpL1 ++ ('\n' :: (provL ++ ('\n' :: (funcBlock (ofStr ("gp")) bodyGp ++ ('\n' :: ('\n' :: (gcL1 ++ ('\n' :: (provL ++ ('\n' :: (funcBlock (ofStr ("gc")) bodyGc ++ (['\n'])))))))))))))) = false from rfl]
    simp
  have d12 : countAux (headMatch (ofStr ("gp"))) (bannerOf ts2 ++ (gpL1 ++ ('\n' :: (provL ++ ('\n' :: (funcBlock (ofStr ("gp")) bodyGp ++ ('\n' :: ('\n' :: (gcL1 ++ ('\n' :: (provL ++ ('\n' :: (funcBlock (ofStr ("gc")) bodyGc ++ (['\n'])))))))))))))) = countAux (headMatch (ofStr ("gp"))) (gpL1 ++ ('\n' :: (provL ++ ('\n' :: (funcBlock (ofStr ("gp")) bodyGp ++ ('\n' :: ('\n' :: (gcL1 ++ ('\n' :: (provL ++ ('\n' :: (funcBlock (ofStr ("gc")) bodyGc ++ (['\n']))))))))))))) := by
    rw [countAux_append, show countAuxC (headMatch (ofStr ("gp"))) (bannerOf ts2) (gpL1 ++ ('\n' :: (provL ++ ('\n' :: (funcBlock (ofStr ("gp")) bodyGp ++ ('\n' :: ('\n' :: (gcL1 ++ ('\n' :: (provL ++ ('\n' :: (funcBlock (ofStr ("gc")) bodyGc ++ (['\n']))))))))))))) = 0 from
      countAuxC_zero (fun t ht _ => noHead_region
        (show occursb ['g', 'p'] (bannerOf ts2) = false from hb2)
        (show headIs 'p' (gpL1 ++ ('\n' :: (provL ++ ('\n' :: (funcBlock (ofStr ("gp")) bodyGp ++ ('\n' :: ('\n' :: (gcL1 ++ ('\n' :: (provL ++ ('\n' :: (funcBlock (ofStr ("gc")) bodyGc ++ (['\n']))))))))))))) = false from rfl)
        (show isPre ['g', 'p'] (gpL1 ++ ('\n' :: (provL ++ ('\n' :: (funcBlock (ofStr ("gp")) bodyGp ++ ('\n' :: ('\n' :: (gcL1 ++ ('\n' :: (provL ++ ('\n' :: (funcBlock (ofStr ("gc")) bodyGc ++ (['\n']))))))))))))) = false from rfl)
        t ((List.mem_tails _ _).mp ht))]
    simp
  have d13 : countAux (headMatch (ofStr ("gp"))) (gpL1 ++ ('\n' :: (provL ++ ('\n' :: (funcBlock (ofStr ("gp")) bodyGp ++ ('\n' :: ('\n' :: (gcL1 ++ ('\n' :: (provL ++ ('\n' :: (funcBlock (ofStr ("gc")) bodyGc ++ (['\n']))))))))))))) = countAux (headMatch (ofStr ("gp"))) ('\n' :: (provL ++ ('\n' :: (funcBlock (ofStr ("gp")) bodyGp ++ ('\n' :: ('\n' :: (gcL1 ++ ('\n' :: (provL ++ ('\n' :: (funcBlock (ofStr ("gc")) bodyGc ++ (['\n'])))))))))))) := by
    rw [countAux_append, show countAuxC (headMatch (ofStr ("gp"))) (gpL1) ('\n' :: (provL ++ ('\n' :: (funcBlock (ofStr ("gp")) bodyGp ++ ('\n' :: ('\n' :: (gcL1 ++ ('\n' :: (provL ++ ('\n' :: (funcBlock (ofStr ("gc")) bodyGc ++ (['\n'])))))))))))) = 0 from
      countAuxC_zero (fun t ht _ => noHead_gpL1 ('\n' :: (provL ++ ('\n' :: (funcBlock (ofStr ("gp")) bodyGp ++ ('\n' :: ('\n' :: (gcL1 ++ ('\n' :: (provL ++ ('\n' :: (funcBlock (ofStr ("gc")) bodyGc ++ (['\n'])))))))))))) (by rfl) (by rfl) t ht)]
    simp
  have d14 : countAux (headMatch (ofStr ("gp"))) ('\n' :: (provL ++ ('\n' :: (funcBlock (ofStr ("gp")) bodyGp ++ ('\n' :: ('\n' :: (gcL1 ++ ('\n' :: (provL ++ ('\n' :: (funcBlock (ofStr ("gc")) bodyGc ++ (['\n'])))))))))))) = countAux (headMatch (ofStr ("gp"))) (provL ++ ('\n' :: (funcBlock (ofStr ("gp")) bodyGp ++ ('\n' :: ('\n' :: (gcL1 ++ ('\n' :: (provL ++ ('\n' :: (funcBlock (ofStr ("gc")) bodyGc ++ (['\n']))))))))))) := by
    rw [countAux_cons, show headMatch (ofStr ("gp")) (provL ++ ('\n' :: (funcBlock (ofStr ("gp")) bodyGp ++ ('\n' :: ('\n' :: (gcL1 ++ ('\n' :: (provL ++ ('\n' :: (funcBlock (ofStr ("gc")) bodyGc ++ (['\n']))))))))))) = false from rfl]
    simp
  have d15 : countAux (headMatch (ofStr ("gp"))) (provL ++ ('\n' :: (funcBlock (ofStr ("gp")) bodyGp ++ ('\n' :: ('\n' :: (gcL1 ++ ('\n' :: (provL ++ ('\n' :: (funcBlock (ofStr ("gc")) bodyGc ++ (['\n']))))))))))) = countAux (headMatch (ofStr ("gp"))) ('\n' :: (funcBlock (ofStr ("gp")) bodyGp ++ ('\n' :: ('\n' :: (gcL1 ++ ('\n' :: (provL ++ ('\n' :: (funcBlock (ofStr ("gc")) bodyGc ++ (['\n'])))))))))) := by
    rw [countAux_append, show countAuxC (headMatch (ofStr ("gp"))) (provL) ('\n' :: (funcBlock (ofStr ("gp")) bodyGp ++ ('\n' :: ('\n' :: (gcL1 ++ ('\n' :: (provL ++ ('\n' :: (funcBlock (ofStr ("gc")) bodyGc ++ (['\n'])))))))))) = 0 from
      countAuxC_zero (fun t ht _ => noHead_region
        (show occursb ['g', 'p'] (provL) = false from occ_gp_provL)
        (show headIs 'p' ('\n' :: (funcBlock (ofStr ("gp")) bodyGp ++ ('\n' :: ('\n' :: (gcL1 ++ ('\n' :: (provL ++ ('\n' :: (funcBlock (ofStr ("gc")) bodyGc ++ (['\n'])))))))))) = false from rfl)
        (show isPre ['g', 'p'] ('\n' :: (funcBlock (ofStr ("gp")) bodyGp ++ ('\n' :: ('\n' :: (gcL1 ++ ('\n' :: (provL ++ ('\n' :: (funcBlock (ofStr ("gc")) bodyGc ++ (['\n'])))))))))) = false from rfl)
        t ((List.mem_tails _ _).mp ht))]
    simp
  have d16 : countAux (headMatch (ofStr ("gp"))) ('\n' :: (funcBlock (ofStr ("gp")) bodyGp ++ ('\n' :: ('\n' :: (gcL1 ++ ('\n' :: (provL ++ ('\n' :: (funcBlock (ofStr ("gc")) bodyGc ++ (['\n'])))))))))) = 1 + countAux (headMatch (ofStr ("gp"))) (funcBlock (ofStr ("gp")) bodyGp ++ ('\n' :: ('\n' :: (gcL1 ++ ('\n' :: (provL ++ ('\n' :: (funcBlock (ofStr ("gc")) bodyGc ++ (['\n']))))))))) := by
    rw [countAux_cons, show headMatch (ofStr ("gp")) (funcBlock (ofStr ("gp")) bodyGp ++ ('\n' :: ('\n' :: (gcL1 ++ ('\n' :: (provL ++ ('\n' :: (funcBlock (ofStr ("gc")) bodyGc ++ (['\n']))))))))) = true from headMatch_funcBlock _]
    simp
  have d17 : countAux (headMatch (ofStr ("gp"))) (funcBlock (ofStr ("gp")) bodyGp ++ ('\n' :: ('\n' :: (gcL1 ++ ('\n' :: (provL ++ ('\n' :: (funcBlock (ofStr ("gc")) bodyGc ++ (['\n']))))))))) = countAux (headMatch (ofStr ("gp"))) ('\n' :: ('\n' :: (gcL1 ++ ('\n' :: (provL ++ ('\n' :: (funcBlock (ofStr ("gc")) bodyGc ++ (['\n'])))))))) := by
    rw [countAux_append, show countAuxC (headMatch (ofStr ("gp"))) (funcBlock (ofStr ("gp")) bodyGp) ('\n' :: ('\n' :: (gcL1 ++ ('\n' :: (provL ++ ('\n' :: (funcBlock (ofStr ("gc")) bodyGc ++ (['\n'])))))))) = 0 from
      countAuxC_zero (fun t ht hlt => by
        have hsuf := (List.mem_tails _ _).mp ht
        rw [funcBlock_eq_PB,
          show (ofStr ("gp") : List Char) = ['g', 'p'] from rfl] at hsuf
        simp only [List.cons_append, List.nil_append] at hsuf
        rcases List.suffix_cons_iff.mp hsuf with rfl | hsuf2
        · exfalso
          rw [funcBlock_eq_PB,
            show (ofStr ("gp") : List Char) = ['g', 'p'] from rfl] at hlt
          simp at hlt
        · rcases List.suffix_cons_iff.mp hsuf2 with rfl | hsuf3
          · exact headMatch_false_of_not_isPre (by rfl)
          · exact noHead_region
              (show occursb ['g', 'p'] (PB bodyGp) = false from occ_gp_PBgp)
              (show headIs 'p' ('\n' :: ('\n' :: (gcL1 ++ ('\n' :: (provL ++ ('\n' :: (funcBlock (ofStr ("gc")) bodyGc ++ (['\n'])))))))) = false from rfl)
              (show isPre ['g', 'p'] ('\n' :: ('\n' :: (gcL1 ++ ('\n' :: (provL ++ ('\n' :: (funcBlock (ofStr ("gc")) bodyGc ++ (['\n'])))))))) = false from rfl) t hsuf3)]
    simp
  have d18 : countAux (headMatch (ofStr ("gp"))) ('\n' :: ('\n' :: (gcL1 ++ ('\n' :: (provL ++ ('\n' :: (funcBlock (ofStr ("gc")) bodyGc ++ (['\n'])))))))) = countAux (headMatch (ofStr ("gp"))) ('\n' :: (gcL1 ++ ('\n' :: (provL ++ ('\n' :: (funcBlock (ofStr ("gc")) bodyGc ++ (['\n']))))))) := by
    rw [countAux_cons, show headMatch (ofStr ("gp")) ('\n' :: (gcL1 ++ ('\n' :: (provL ++ ('\n' :: (funcBlock (ofStr ("gc")) bodyGc ++ (['\n']))))))) = false from rfl]
    simp
  have d19 : countAux (headMatch (ofStr ("gp"))) ('\n' :: (gcL1 ++ ('\n' :: (provL ++ ('\n' :: (funcBlock (ofStr ("gc")) bodyGc ++ (['\n']))))))) = countAux (headMatch (ofStr ("gp"))) (gcL1 ++ ('\n' :: (provL ++ ('\n' :: (funcBlock (ofStr ("gc")) bodyGc ++ (['\n'])))))) := by
    rw [countAux_cons, show headMatch (ofStr ("gp")) (gcL1 ++ ('\n' :: (provL ++ ('\n' :: (funcBlock (ofStr ("gc")) bodyGc ++ (['\n'])))))) = false from rfl]
    simp
  have d20 : countAux (headMatch (ofStr ("gp"))) (gcL1 ++ ('\n' :: (provL ++ ('\n' :: (funcBlock (ofStr ("gc")) bodyGc ++ (['\n'])))))) = countAux (headMatch (ofStr ("gp"))) ('\n' :: (provL ++ ('\n' :: (funcBlock (ofStr ("gc")) bodyGc ++ (['\n']))))) := by
    rw [countAux_append, show countAuxC (headMatch (ofStr ("gp"))) (gcL1) ('\n' :: (provL ++ ('\n' :: (funcBlock (ofStr ("gc")) bodyGc ++ (['\n']))))) = 0 from
      countAuxC_zero (fun t ht _ => noHead_region
        (show occursb ['g', 'p'] gcL1 = false from occ_gp_gcL1)
        (show headIs 'p' ('\n' :: (provL ++ ('\n' :: (funcBlock (ofStr ("gc")) bodyGc ++ (['\n']))))) = false from rfl)
        (show isPre ['g', 'p'] ('\n' :: (provL ++ ('\n' :: (funcBlock (ofStr ("gc")) bodyGc ++ (['\n']))))) = false from rfl)
        t ((List.mem_tails _ _).mp ht))]
    simp
  have d21 : countAux (headMatch (ofStr ("gp"))) ('\n' :: (provL ++ ('\n' :: (funcBlock (ofStr ("gc")) bodyGc ++ (['\n']))))) = countAux (headMatch (ofStr ("gp"))) (provL ++ ('\n' :: (funcBlock (ofStr ("gc")) bodyGc ++ (['\n'])))) := by
    rw [countAux_cons, show headMatch (ofStr ("gp")) (provL ++ ('\n' :: (funcBlock (ofStr ("gc")) bodyGc ++ (['\n'])))) = false from rfl]
    simp
  have d22 : countAux (headMatch (ofStr ("gp"))) (provL ++ ('\n' :: (funcBlock (ofStr ("gc")) bodyGc ++ (['\n'])))) = countAux (headMatch (ofStr ("gp"))) ('\n' :: (funcBlock (ofStr ("gc")) bodyGc ++ (['\n']))) := by
    rw [countAux_append, show countAuxC (headMatch (ofStr ("gp"))) (provL) ('\n' :: (funcBlock (ofStr ("gc")) bodyGc ++ (['\n']))) = 0 from
      countAuxC_zero (fun t ht _ => noHead_region
        (show occursb ['g', 'p'] (provL) = false from occ_gp_provL)
        (show headIs 'p' ('\n' :: (funcBlock (ofStr ("gc")) bodyGc ++ (['\n']))) = false from rfl)
        (show isPre ['g', 'p'] ('\n' :: (funcBlock (ofStr ("gc")) bodyGc ++ (['\n']))) = false from rfl)
        t ((List.mem_tails _ _).mp ht))]
    simp
  have d23 : countAux (headMatch (ofStr ("gp"))) ('\n' :: (funcBlock (ofStr ("gc")) bodyGc ++ (['\n']))) = countAux (headMatch (ofStr ("gp"))) (funcBlock (ofStr ("gc")) bodyGc ++ (['\n'])) := by
    rw [countAux_cons, show headMatch (ofStr ("gp")) (funcBlock (ofStr ("gc")) bodyGc ++ (['\n'])) = false from rfl]
    simp
  have d24 : countAux (headMatch (ofStr ("gp"))) (funcBlock (ofStr ("gc")) bodyGc ++ (['\n'])) = countAux (headMatch (ofStr ("gp"))) (['\n']) := by
    rw [countAux_append, show countAuxC (headMatch (ofStr ("gp"))) (funcBlock (ofStr ("gc")) bodyGc) (['\n']) = 0 from
      countAuxC_zero (fun t ht _ => noHead_region
        (show occursb ['g', 'p'] (funcBlock (ofStr ("gc")) bodyGc) = false from occ_gp_fbGc)
        (show headIs 'p' (['\n']) = false from rfl)
        (show isPre ['g', 'p'] (['\n']) = false from rfl)
        t ((List.mem_tails _ _).mp ht))]
    simp
  rw [d1, d2, d3, d4, d5, d6, d7, d8, d9, d10, d11, d12, d13, d14, d15, d16, d17, d18, d19, d20, d21, d22, d23, d24,
    show countAux (headMatch (ofStr ("gp"))) (['\n'] : List Char) = 0 from by decide]
  simp

theorem count_gc_final (c0 ts1 ts2 : List Char)
    (h0 : occursb (ofStr ("gc")) c0 = false)
    (hb1 : occursb (ofStr ("gc")) (bannerOf ts1) = false)
    (hb2 : occursb (ofStr ("gc")) (bannerOf ts2) = false) :
    countA (headMatch (ofStr ("gc"))) (leftover2 c0 ts1 ++ blockC ts2) = 1 := by
  rw [final_shape2]
  unfold countA
  rw [show headMatch (ofStr ("gc")) (c0 ++ (bannerOf ts1 ++ (gpL1 ++ ('\n' :: (provL ++ ('\n' :: ('\n' :: (gcL1 ++ ('\n' :: (provL ++ ('\n' :: (bannerOf ts2 ++ (gpL1 ++ ('\n' :: (provL ++ ('\n' :: (funcBlock (ofStr ("gp")) bodyGp ++ ('\n' :: ('\n' :: (gcL1 ++ ('\n' :: (provL ++ ('\n' :: (funcBlock (ofStr ("gc")) bodyGc ++ (['\n']))))))))))))))))))))))))) = false from noHead_region
    (show occursb ['g', 'c'] c0 = false from h0)
    (show headIs 'c' (bannerOf ts1 ++ (gpL1 ++ ('\n' :: (provL ++ ('\n' :: ('\n' :: (gcL1 ++ ('\n' :: (provL ++ ('\n' :: (bannerOf ts2 ++ (gpL1 ++ ('\n' :: (provL ++ ('\n' :: (funcBlock (ofStr ("gp")) bodyGp ++ ('\n' :: ('\n' :: (gcL1 ++ ('\n' :: (provL ++ ('\n' :: (funcBlock (ofStr ("gc")) bodyGc ++ (['\n'])))))))))))))))))))))))) = false from rfl)
    (show isPre ['g', 'c'] (bannerOf ts1 ++ (gpL1 ++ ('\n' :: (provL ++ ('\n' :: ('\n' :: (gcL1 ++ ('\n' :: (provL ++ ('\n' :: (bannerOf ts2 ++ (gpL1 ++ ('\n' :: (provL ++ ('\n' :: (funcBlock (ofStr ("gp")) bodyGp ++ ('\n' :: ('\n' :: (gcL1 ++ ('\n' :: (provL ++ ('\n' :: (funcBlock (ofStr ("gc")) bodyGc ++ (['\n'])))))))))))))))))))))))) = false from rfl) c0 (List.suffix_refl _)]
  have d1 : countAux (headMatch (ofStr ("gc"))) (c0 ++ (bannerOf ts1 ++ (gpL1 ++ ('\n' :: (provL ++ ('\n' :: ('\n' :: (gcL1 ++ ('\n' :: (provL ++ ('\n' :: (bannerOf ts2 ++ (gpL1 ++ ('\n' :: (provL ++ ('\n' :: (funcBlock (ofStr ("gp")) bodyGp ++ ('\n' :: ('\n' :: (gcL1 ++ ('\n' :: (provL ++ ('\n' :: (funcBlock (ofStr ("gc")) bodyGc ++ (['\n']))))))))))))))))))))))))) = countAux (headMatch (ofStr ("gc"))) (bannerOf ts1 ++ (gpL1 ++ ('\n' :: (provL ++ ('\n' :: ('\n' :: (gcL1 ++ ('\n' :: (provL ++ ('\n' :: (bannerOf ts2 ++ (gpL1 ++ ('\n' :: (provL ++ ('\n' :: (funcBlock (ofStr ("gp")) bodyGp ++ ('\n' :: ('\n' :: (gcL1 ++ ('\n' :: (provL ++ ('\n' :: (funcBlock (ofStr ("gc")) bodyGc ++ (['\n'])))))))))))))))))))))))) := by
    rw [countAux_append, show countAuxC (headMatch (ofStr ("gc"))) (c0) (bannerOf ts1 ++ (gpL1 ++ ('\n' :: (provL ++ ('\n' :: ('\n' :: (gcL1 ++ ('\n' :: (provL ++ ('\n' :: (bannerOf ts2 ++ (gpL1 ++ ('\n' :: (provL ++ ('\n' :: (funcBlock (ofStr ("gp")) bodyGp ++ ('\n' :: ('\n' :: (gcL1 ++ ('\n' :: (provL ++ ('\n' :: (funcBlock (ofStr ("gc")) bodyGc ++ (['\n'])))))))))))))))))))))))) = 0 from
      countAuxC_zero (fun t ht _ => noHead_region
        (show occursb ['g', 'c'] (c0) = false from h0)
        (show headIs 'c' (bannerOf ts1 ++ (gpL1 ++ ('\n' :: (provL ++ ('\n' :: ('\n' :: (gcL1 ++ ('\n' :: (provL ++ ('\n' :: (bannerOf ts2 ++ (gpL1 ++ ('\n' :: (provL ++ ('\n' :: (funcBlock (ofStr ("gp")) bodyGp ++ ('\n' :: ('\n' :: (gcL1 ++ ('\n' :: (provL ++ ('\n' :: (funcBlock (ofStr ("gc")) bodyGc ++ (['\n'])))))))))))))))))))))))) = false from rfl)
        (show isPre ['g', 'c'] (bannerOf ts1 ++ (gpL1 ++ ('\n' :: (provL ++ ('\n' :: ('\n' :: (gcL1 ++ ('\n' :: (provL ++ ('\n' :: (bannerOf ts2 ++ (gpL1 ++ ('\n' :: (provL ++ ('\n' :: (funcBlock (ofStr ("gp")) bodyGp ++ ('\n' :: ('\n' :: (gcL1 ++ ('\n' :: (provL ++ ('\n' :: (funcBlock (ofStr ("gc")) bodyGc ++ (['\n'])))))))))))))))))))))))) = false from rfl)
        t ((List.mem_tails _ _).mp ht))]
    simp
  have d2 : countAux (headMatch (ofStr ("gc"))) (bannerOf ts1 ++ (gpL1 ++ ('\n' :: (provL ++ ('\n' :: ('\n' :: (gcL1 ++ ('\n' :: (provL ++ ('\n' :: (bannerOf ts2 ++ (gpL1 ++ ('\n' :: (provL ++ ('\n' :: (funcBlock (ofStr ("gp")) bodyGp ++ ('\n' :: ('\n' :: (gcL1 ++ ('\n' :: (provL ++ ('\n' :: (funcBlock (ofStr ("gc")) bodyGc ++ (['\n'])))))))))))))))))))))))) = countAux (headMatch (ofStr ("gc"))) (gpL1 ++ ('\n' :: (provL ++ ('\n' :: ('\n' :: (gcL1 ++ ('\n' :: (provL ++ ('\n' :: (bannerOf ts2 ++ (gpL1 ++ ('\n' :: (provL ++ ('\n' :: (funcBlock (ofStr ("gp")) bodyGp ++ ('\n' :: ('\n' :: (gcL1 ++ ('\n' :: (provL ++ ('\n' :: (funcBlock (ofStr ("gc")) bodyGc ++ (['\n']))))))))))))))))))))))) := by
    rw [countAux_append, show countAuxC (headMatch (ofStr ("gc"))) (bannerOf ts1) (gpL1 ++ ('\n' :: (provL ++ ('\n' :: ('\n' :: (gcL1 ++ ('\n' :: (provL ++ ('\n' :: (bannerOf ts2 ++ (gpL1 ++ ('\n' :: (provL ++ ('\n' :: (funcBlock (ofStr ("gp")) bodyGp ++ ('\n' :: ('\n' :: (gcL1 ++ ('\n' :: (provL ++ ('\n' :: (funcBlock (ofStr ("gc")) bodyGc ++ (['\n']))))))))))))))))))))))) = 0 from
      countAuxC_zero (fun t ht _ => noHead_region
        (show occursb ['g', 'c'] (bannerOf ts1) = false from hb1)
        (show headIs 'c' (gpL1 ++ ('\n' :: (provL ++ ('\n' :: ('\n' :: (gcL1 ++ ('\n' :: (provL ++ ('\n' :: (bannerOf ts2 ++ (gpL1 ++ ('\n' :: (provL ++ ('\n' :: (funcBlock (ofStr ("gp")) bodyGp ++ ('\n' :: ('\n' :: (gcL1 ++ ('\n' :: (provL ++ ('\n' :: (funcBlock (ofStr ("gc")) bodyGc ++ (['\n']))))))))))))))))))))))) = false from rfl)
        (show isPre ['g', 'c'] (gpL1 ++ ('\n' :: (provL ++ ('\n' :: ('\n' :: (gcL1 ++ ('\n' :: (provL ++ ('\n' :: (bannerOf ts2 ++ (gpL1 ++ ('\n' :: (provL ++ ('\n' :: (funcBlock (ofStr ("gp")) bodyGp ++ ('\n' :: ('\n' :: (gcL1 ++ ('\n' :: (provL ++ ('\n' :: (funcBlock (ofStr ("gc")) bodyGc ++ (['\n']))))))))))))))))))))))) = false from rfl)
        t ((List.mem_tails _ _).mp ht))]
    simp
  have d3 : countAux (headMatch (ofStr ("gc"))) (gpL1 ++ ('\n' :: (provL ++ ('\n' :: ('\n' :: (gcL1 ++ ('\n' :: (provL ++ ('\n' :: (bannerOf ts2 ++ (gpL1 ++ ('\n' :: (provL ++ ('\n' :: (funcBlock (ofStr ("gp")) bodyGp ++ ('\n' :: ('\n' :: (gcL1 ++ ('\n' :: (provL ++ ('\n' :: (funcBlock (ofStr ("gc")) bodyGc ++ (['\n']))))))))))))))))))))))) = countAux (headMatch (ofStr ("gc"))) ('\n' :: (provL ++ ('\n' :: ('\n' :: (gcL1 ++ ('\n' :: (provL ++ ('\n' :: (bannerOf ts2 ++ (gpL1 ++ ('\n' :: (provL ++ ('\n' :: (funcBlock (ofStr ("gp")) bodyGp ++ ('\n' :: ('\n' :: (gcL1 ++ ('\n' :: (provL ++ ('\n' :: (funcBlock (ofStr ("gc")) bodyGc ++ (['\n'])))))))))))))))))))))) := by
    rw [countAux_append, show countAuxC (headMatch (ofStr ("gc"))) (gpL1) ('\n' :: (provL ++ ('\n' :: ('\n' :: (gcL1 ++ ('\n' :: (provL ++ ('\n' :: (bannerOf ts2 ++ (gpL1 ++ ('\n' :: (provL ++ ('\n' :: (funcBlock (ofStr ("gp")) bodyGp ++ ('\n' :: ('\n' :: (gcL1 ++ ('\n' :: (provL ++ ('\n' :: (funcBlock (ofStr ("gc")) bodyGc ++ (['\n'])))))))))))))))))))))) = 0 from
      countAuxC_zero (fun t ht _ => noHead_region
        (show occursb ['g', 'c'] gpL1 = false from occ_gc_gpL1)
        (show headIs 'c' ('\n' :: (provL ++ ('\n' :: ('\n' :: (gcL1 ++ ('\n' :: (provL ++ ('\n' :: (bannerOf ts2 ++ (gpL1 ++ ('\n' :: (provL ++ ('\n' :: (funcBlock (ofStr ("gp")) bodyGp ++ ('\n' :: ('\n' :: (gcL1 ++ ('\n' :: (provL ++ ('\n' :: (funcBlock (ofStr ("gc")) bodyGc ++ (['\n'])))))))))))))))))))))) = false from rfl)
        (show isPre ['g', 'c'] ('\n' :: (provL ++ ('\n' :: ('\n' :: (gcL1 ++ ('\n' :: (provL ++ ('\n' :: (bannerOf ts2 ++ (gpL1 ++ ('\n' :: (provL ++ ('\n' :: (funcBlock (ofStr ("gp")) bodyGp ++ ('\n' :: ('\n' :: (gcL1 ++ ('\n' :: (provL ++ ('\n' :: (funcBlock (ofStr ("gc")) bodyGc ++ (['\n'])))))))))))))))))))))) = false from rfl)
        t ((List.mem_tails _ _).mp ht))]
    simp
  have d4 : countAux (headMatch (ofStr ("gc"))) ('\n' :: (provL ++ ('\n' :: ('\n' :: (gcL1 ++ ('\n' :: (provL ++ ('\n' :: (bannerOf ts2 ++ (gpL1 ++ ('\n' :: (provL ++ ('\n' :: (funcBlock (ofStr ("gp")) bodyGp ++ ('\n' :: ('\n' :: (gcL1 ++ ('\n' :: (provL ++ ('\n' :: (funcBlock (ofStr ("gc")) bodyGc ++ (['\n'])))))))))))))))))))))) = countAux (headMatch (ofStr ("gc"))) (provL ++ ('\n' :: ('\n' :: (gcL1 ++ ('\n' :: (provL ++ ('\n' :: (bannerOf ts2 ++ (gpL1 ++ ('\n' :: (provL ++ ('\n' :: (funcBlock (ofStr ("gp")) bodyGp ++ ('\n' :: ('\n' :: (gcL1 ++ ('\n' :: (provL ++ ('\n' :: (funcBlock (ofStr ("gc")) bodyGc ++ (['\n']))))))))))))))))))))) := by
    rw [countAux_cons, show headMatch (ofStr ("gc")) (provL ++ ('\n' :: ('\n' :: (gcL1 ++ ('\n' :: (provL ++ ('\n' :: (bannerOf ts2 ++ (gpL1 ++ ('\n' :: (provL ++ ('\n' :: (funcBlock (ofStr ("gp")) bodyGp ++ ('\n' :: ('\n' :: (gcL1 ++ ('\n' :: (provL ++ ('\n' :: (funcBlock (ofStr ("gc")) bodyGc ++ (['\n']))))))))))))))))))))) = false from rfl]
    simp
  have d5 : countAux (headMatch (ofStr ("gc"))) (provL ++ ('\n' :: ('\n' :: (gcL1 ++ ('\n' :: (provL ++ ('\n' :: (bannerOf ts2 ++ (gpL1 ++ ('\n' :: (provL ++ ('\n' :: (funcBlock (ofStr ("gp")) bodyGp ++ ('\n' :: ('\n' :: (gcL1 ++ ('\n' :: (provL ++ ('\n' :: (funcBlock (ofStr ("gc")) bodyGc ++ (['\n']))))))))))))))))))))) = countAux (headMatch (ofStr ("gc"))) ('\n' :: ('\n' :: (gcL1 ++ ('\n' :: (provL ++ ('\n' :: (bannerOf ts2 ++ (gpL1 ++ ('\n' :: (provL ++ ('\n' :: (funcBlock (ofStr ("gp")) bodyGp ++ ('\n' :: ('\n' :: (gcL1 ++ ('\n' :: (provL ++ ('\n' :: (funcBlock (ofStr ("gc")) bodyGc ++ (['\n'])))))))))))))))))))) := by
    rw [countAux_append, show countAuxC (headMatch (ofStr ("gc"))) (provL) ('\n' :: ('\n' :: (gcL1 ++ ('\n' :: (provL ++ ('\n' :: (bannerOf ts2 ++ (gpL1 ++ ('\n' :: (provL ++ ('\n' :: (funcBlock (ofStr ("gp")) bodyGp ++ ('\n' :: ('\n' :: (gcL1 ++ ('\n' :: (provL ++ ('\n' :: (funcBlock (ofStr ("gc")) bodyGc ++ (['\n'])))))))))))))))))))) = 0 from
      countAuxC_zero (fun t ht _ => noHead_region
        (show occursb ['g', 'c'] (provL) = false from occ_gc_provL)
        (show headIs 'c' ('\n' :: ('\n' :: (gcL1 ++ ('\n' :: (provL ++ ('\n' :: (bannerOf ts2 ++ (gpL1 ++ ('\n' :: (provL ++ ('\n' :: (funcBlock (ofStr ("gp")) bodyGp ++ ('\n' :: ('\n' :: (gcL1 ++ ('\n' :: (provL ++ ('\n' :: (funcBlock (ofStr ("gc")) bodyGc ++ (['\n'])))))))))))))))))))) = false from rfl)
        (show isPre ['g', 'c'] ('\n' :: ('\n' :: (gcL1 ++ ('\n' :: (provL ++ ('\n' :: (bannerOf ts2 ++ (gpL1 ++ ('\n' :: (provL ++ ('\n' :: (funcBlock (ofStr ("gp")) bodyGp ++ ('\n' :: ('\n' :: (gcL1 ++ ('\n' :: (provL ++ ('\n' :: (funcBlock (ofStr ("gc")) bodyGc ++ (['\n'])))))))))))))))))))) = false from rfl)
        t ((List.mem_tails _ _).mp ht))]
    simp
  have d6 : countAux (headMatch (ofStr ("gc"))) ('\n' :: ('\n' :: (gcL1 ++ ('\n' :: (provL ++ ('\n' :: (bannerOf ts2 ++ (gpL1 ++ ('\n' :: (provL ++ ('\n' :: (funcBlock (ofStr ("gp")) bodyGp ++ ('\n' :: ('\n' :: (gcL1 ++ ('\n' :: (provL ++ ('\n' :: (funcBlock (ofStr ("gc")) bodyGc ++ (['\n'])))))))))))))))))))) = countAux (headMatch (ofStr ("gc"))) ('\n' :: (gcL1 ++ ('\n' :: (provL ++ ('\n' :: (bannerOf ts2 ++ (gpL1 ++ ('\n' :: (provL ++ ('\n' :: (funcBlock (ofStr ("gp")) bodyGp ++ ('\n' :: ('\n' :: (gcL1 ++ ('\n' :: (provL ++ ('\n' :: (funcBlock (ofStr ("gc")) bodyGc ++ (['\n']))))))))))))))))))) := by
    rw [countAux_cons, show headMatch (ofStr ("gc")) ('\n' :: (gcL1 ++ ('\n' :: (provL ++ ('\n' :: (bannerOf ts2 ++ (gpL1 ++ ('\n' :: (provL ++ ('\n' :: (funcBlock (ofStr ("gp")) bodyGp ++ ('\n' :: ('\n' :: (gcL1 ++ ('\n' :: (provL ++ ('\n' :: (funcBlock (ofStr ("gc")) bodyGc ++ (['\n']))))))))))))))))))) = false from rfl]
    simp
  have d7 : countAux (headMatch (ofStr ("gc"))) ('\n' :: (gcL1 ++ ('\n' :: (provL ++ ('\n' :: (bannerOf ts2 ++ (gpL1 ++ ('\n' :: (provL ++ ('\n' :: (funcBlock (ofStr ("gp")) bodyGp ++ ('\n' :: ('\n' :: (gcL1 ++ ('\n' :: (provL ++ ('\n' :: (funcBlock (ofStr ("gc")) bodyGc ++ (['\n']))))))))))))))))))) = countAux (headMatch (ofStr ("gc"))) (gcL1 ++ ('\n' :: (provL ++ ('\n' :: (bannerOf ts2 ++ (gpL1 ++ ('\n' :: (provL ++ ('\n' :: (funcBlock (ofStr ("gp")) bodyGp ++ ('\n' :: ('\n' :: (gcL1 ++ ('\n' :: (provL ++ ('\n' :: (funcBlock (ofStr ("gc")) bodyGc ++ (['\n'])))))))))))))))))) := by
    rw [countAux_cons, show headMatch (ofStr ("gc")) (gcL1 ++ ('\n' :: (provL ++ ('\n' :: (bannerOf ts2 ++ (gpL1 ++ ('\n' :: (provL ++ ('\n' :: (funcBlock (ofStr ("gp")) bodyGp ++ ('\n' :: ('\n' :: (gcL1 ++ ('\n' :: (provL ++ ('\n' :: (funcBlock (ofStr ("gc")) bodyGc ++ (['\n'])))))))))))))))))) = false from rfl]
    simp
  have d8 : countAux (headMatch (ofStr ("gc"))) (gcL1 ++ ('\n' :: (provL ++ ('\n' :: (bannerOf ts2 ++ (gpL1 ++ ('\n' :: (provL ++ ('\n' :: (funcBlock (ofStr ("gp")) bodyGp ++ ('\n' :: ('\n' :: (gcL1 ++ ('\n' :: (provL ++ ('\n' :: (funcBlock (ofStr ("gc")) bodyGc ++ (['\n'])))))))))))))))))) = countAux (headMatch (ofStr ("gc"))) ('\n' :: (provL ++ ('\n' :: (bannerOf ts2 ++ (gpL1 ++ ('\n' :: (provL ++ ('\n' :: (funcBlock (ofStr ("gp")) bodyGp ++ ('\n' :: ('\n' :: (gcL1 ++ ('\n' :: (provL ++ ('\n' :: (funcBlock (ofStr ("gc")) bodyGc ++ (['\n']))))))))))))))))) := by
    rw [countAux_append, show countAuxC (headMatch (ofStr ("gc"))) (gcL1) ('\n' :: (provL ++ ('\n' :: (bannerOf ts2 ++ (gpL1 ++ ('\n' :: (provL ++ ('\n' :: (funcBlock (ofStr ("gp")) bodyGp ++ ('\n' :: ('\n' :: (gcL1 ++ ('\n' :: (provL ++ ('\n' :: (funcBlock (ofStr ("gc")) bodyGc ++ (['\n']))))))))))))))))) = 0 from
      countAuxC_zero (fun t ht _ => noHead_gcL1 ('\n' :: (provL ++ ('\n' :: (bannerOf ts2 ++ (gpL1 ++ ('\n' :: (provL ++ ('\n' :: (funcBlock (ofStr ("gp")) bodyGp ++ ('\n' :: ('\n' :: (gcL1 ++ ('\n' :: (provL ++ ('\n' :: (funcBlock (ofStr ("gc")) bodyGc ++ (['\n']))))))))))))))))) (by rfl) (by rfl) t ht)]
    simp
  have d9 : countAux (headMatch (ofStr ("gc"))) ('\n' :: (provL ++ ('\n' :: (bannerOf ts2 ++ (gpL1 ++ ('\n' :: (provL ++ ('\n' :: (funcBlock (ofStr ("gp")) bodyGp ++ ('\n' :: ('\n' :: (gcL1 ++ ('\n' :: (provL ++ ('\n' :: (funcBlock (ofStr ("gc")) bodyGc ++ (['\n']))))))))))))))))) = countAux (headMatch (ofStr ("gc"))) (provL ++ ('\n' :: (bannerOf ts2 ++ (gpL1 ++ ('\n' :: (provL ++ ('\n' :: (funcBlock (ofStr ("gp")) bodyGp ++ ('\n' :: ('\n' :: (gcL1 ++ ('\n' :: (provL ++ ('\n' :: (funcBlock (ofStr ("gc")) bodyGc ++ (['\n'])))))))))))))))) := by
    rw [countAux_cons, show headMatch (ofStr ("gc")) (provL ++ ('\n' :: (bannerOf ts2 ++ (gpL1 ++ ('\n' :: (provL ++ ('\n' :: (funcBlock (ofStr ("gp")) bodyGp ++ ('\n' :: ('\n' :: (gcL1 ++ ('\n' :: (provL ++ ('\n' :: (funcBlock (ofStr ("gc")) bodyGc ++ (['\n'])))))))))))))))) = false from rfl]
    simp
  have d10 : countAux (headMatch (ofStr ("gc"))) (provL ++ ('\n' :: (bannerOf ts2 ++ (gpL1 ++ ('\n' :: (provL ++ ('\n' :: (funcBlock (ofStr ("gp")) bodyGp ++ ('\n' :: ('\n' :: (gcL1 ++ ('\n' :: (provL ++ ('\n' :: (funcBlock (ofStr ("gc")) bodyGc ++ (['\n'])))))))))))))))) = countAux (headMatch (ofStr ("gc"))) ('\n' :: (bannerOf ts2 ++ (gpL1 ++ ('\n' :: (provL ++ ('\n' :: (funcBlock (ofStr ("gp")) bodyGp ++ ('\n' :: ('\n' :: (gcL1 ++ ('\n' :: (provL ++ ('\n' :: (funcBlock (ofStr ("gc")) bodyGc ++ (['\n']))))))))))))))) := by
    rw [countAux_append, show countAuxC (headMatch (ofStr ("gc"))) (provL) ('\n' :: (bannerOf ts2 ++ (gpL1 ++ ('\n' :: (provL ++ ('\n' :: (funcBlock (ofStr ("gp")) bodyGp ++ ('\n' :: ('\n' :: (gcL1 ++ ('\n' :: (provL ++ ('\n' :: (funcBlock (ofStr ("gc")) bodyGc ++ (['\n']))))))))))))))) = 0 from
      countAuxC_zero (fun t ht _ => noHead_region
        (show occursb ['g', 'c'] (provL) = false from occ_gc_provL)
        (show headIs 'c' ('\n' :: (bannerOf ts2 ++ (gpL1 ++ ('\n' :: (provL ++ ('\n' :: (funcBlock (ofStr ("gp")) bodyGp ++ ('\n' :: ('\n' :: (gcL1 ++ ('\n' :: (provL ++ ('\n' :: (funcBlock (ofStr ("gc")) bodyGc ++ (['\n']))))))))))))))) = false from rfl)
        (show isPre ['g', 'c'] ('\n' :: (bannerOf ts2 ++ (gpL1 ++ ('\n' :: (provL ++ ('\n' :: (funcBlock (ofStr ("gp")) bodyGp ++ ('\n' :: ('\n' :: (gcL1 ++ ('\n' :: (provL ++ ('\n' :: (funcBlock (ofStr ("gc")) bodyGc ++ (['\n']))))))))))))))) = false from rfl)
        t ((List.mem_tails _ _).mp ht))]
    simp
  have d11 : countAux (headMatch (ofStr ("gc"))) ('\n' :: (bannerOf ts2 ++ (gpL1 ++ ('\n' :: (provL ++ ('\n' :: (funcBlock (ofStr ("gp")) bodyGp ++ ('\n' :: ('\n' :: (gcL1 ++ ('\n' :: (provL ++ ('\n' :: (funcBlock (ofStr ("gc")) bodyGc ++ (['\n']))))))))))))))) = countAux (headMatch (ofStr ("gc"))) (bannerOf ts2 ++ (gpL1 ++ ('\n' :: (provL ++ ('\n' :: (funcBlock (ofStr ("gp")) bodyGp ++ ('\n' :: ('\n' :: (gcL1 ++ ('\n' :: (provL ++ ('\n' :: (funcBlock (ofStr ("gc")) bodyGc ++ (['\n'])))))))))))))) := by
    rw [countAux_cons, show headMatch (ofStr ("gc")) (bannerOf ts2 ++ (gpL1 ++ ('\n' :: (provL ++ ('\n' :: (funcBlock (ofStr ("gp")) bodyGp ++ ('\n' :: ('\n' :: (gcL1 ++ ('\n' :: (provL ++ ('\n' :: (funcBlock (ofStr ("gc")) bodyGc ++ (['\n'])))))))))))))) = false from rfl]
    simp
  have d12 : countAux (headMatch (ofStr ("gc"))) (bannerOf ts2 ++ (gpL1 ++ ('\n' :: (provL ++ ('\n' :: (funcBlock (ofStr ("gp")) bodyGp ++ ('\n' :: ('\n' :: (gcL1 ++ ('\n' :: (provL ++ ('\n' :: (funcBlock (ofStr ("gc")) bodyGc ++ (['\n'])))))))))))))) = countAux (headMatch (ofStr ("gc"))) (gpL1 ++ ('\n' :: (provL ++ ('\n' :: (funcBlock (ofStr ("gp")) bodyGp ++ ('\n' :: ('\n' :: (gcL1 ++ ('\n' :: (provL ++ ('\n' :: (funcBlock (ofStr ("gc")) bodyGc ++ (['\n']))))))))))))) := by
    rw [countAux_append, show countAuxC (headMatch (ofStr ("gc"))) (bannerOf ts2) (gpL1 ++ ('\n' :: (provL ++ ('\n' :: (funcBlock (ofStr ("gp")) bodyGp ++ ('\n' :: ('\n' :: (gcL1 ++ ('\n' :: (provL ++ ('\n' :: (funcBlock (ofStr ("gc")) bodyGc ++ (['\n']))))))))))))) = 0 from
      countAuxC_zero (fun t ht _ => noHead_region
        (show occursb ['g', 'c'] (bannerOf ts2) = false from hb2)
        (show headIs 'c' (gpL1 ++ ('\n' :: (provL ++ ('\n' :: (funcBlock (ofStr ("gp")) bodyGp ++ ('\n' :: ('\n' :: (gcL1 ++ ('\n' :: (provL ++ ('\n' :: (funcBlock (ofStr ("gc")) bodyGc ++ (['\n']))))))))))))) = false from rfl)
        (show isPre ['g', 'c'] (gpL1 ++ ('\n' :: (provL ++ ('\n' :: (funcBlock (ofStr ("gp")) bodyGp ++ ('\n' :: ('\n' :: (gcL1 ++ ('\n' :: (provL ++ ('\n' :: (funcBlock (ofStr ("gc")) bodyGc ++ (['\n']))))))))))))) = false from rfl)
        t ((List.mem_tails _ _).mp ht))]
    simp
  have d13 : countAux (headMatch (ofStr ("gc"))) (gpL1 ++ ('\n' :: (provL ++ ('\n' :: (funcBlock (ofStr ("gp")) bodyGp ++ ('\n' :: ('\n' :: (gcL1 ++ ('\n' :: (provL ++ ('\n' :: (funcBlock (ofStr ("gc")) bodyGc ++ (['\n']))))))))))))) = countAux (headMatch (ofStr ("gc"))) ('\n' :: (provL ++ ('\n' :: (funcBlock (ofStr ("gp")) bodyGp ++ ('\n' :: ('\n' :: (gcL1 ++ ('\n' :: (provL ++ ('\n' :: (funcBlock (ofStr ("gc")) bodyGc ++ (['\n'])))))))))))) := by
    rw [countAux_append, show countAuxC (headMatch (ofStr ("gc"))) (gpL1) ('\n' :: (provL ++ ('\n' :: (funcBlock (ofStr ("gp")) bodyGp ++ ('\n' :: ('\n' :: (gcL1 ++ ('\n' :: (provL ++ ('\n' :: (funcBlock (ofStr ("gc")) bodyGc ++ (['\n'])))))))))))) = 0 from
      countAuxC_zero (fun t ht _ => noHead_region
        (show occursb ['g', 'c'] gpL1 = false from occ_gc_gpL1)
        (show headIs 'c' ('\n' :: (provL ++ ('\n' :: (funcBlock (ofStr ("gp")) bodyGp ++ ('\n' :: ('\n' :: (gcL1 ++ ('\n' :: (provL ++ ('\n' :: (funcBlock (ofStr ("gc")) bodyGc ++ (['\n'])))))))))))) = false from rfl)
        (show isPre ['g', 'c'] ('\n' :: (provL ++ ('\n' :: (funcBlock (ofStr ("gp")) bodyGp ++ ('\n' :: ('\n' :: (gcL1 ++ ('\n' :: (provL ++ ('\n' :: (funcBlock (ofStr ("gc")) bodyGc ++ (['\n'])))))))))))) = false from rfl)
        t ((List.mem_tails _ _).mp ht))]
    simp
  have d14 : countAux (headMatch (ofStr ("gc"))) ('\n' :: (provL ++ ('\n' :: (funcBlock (ofStr ("gp")) bodyGp ++ ('\n' :: ('\n' :: (gcL1 ++ ('\n' :: (provL ++ ('\n' :: (funcBlock (ofStr ("gc")) bodyGc ++ (['\n'])))))))))))) = countAux (headMatch (ofStr ("gc"))) (provL ++ ('\n' :: (funcBlock (ofStr ("gp")) bodyGp ++ ('\n' :: ('\n' :: (gcL1 ++ ('\n' :: (provL ++ ('\n' :: (funcBlock (ofStr ("gc")) bodyGc ++ (['\n']))))))))))) := by
    rw [countAux_cons, show headMatch (ofStr ("gc")) (provL ++ ('\n' :: (funcBlock (ofStr ("gp")) bodyGp ++ ('\n' :: ('\n' :: (gcL1 ++ ('\n' :: (provL ++ ('\n' :: (funcBlock (ofStr ("gc")) bodyGc ++ (['\n']))))))))))) = false from rfl]
    simp
  have d15 : countAux (headMatch (ofStr ("gc"))) (provL ++ ('\n' :: (funcBlock (ofStr ("gp")) bodyGp ++ ('\n' :: ('\n' :: (gcL1 ++ ('\n' :: (provL ++ ('\n' :: (funcBlock (ofStr ("gc")) bodyGc ++ (['\n']))))))))))) = countAux (headMatch (ofStr ("gc"))) ('\n' :: (funcBlock (ofStr ("gp")) bodyGp ++ ('\n' :: ('\n' :: (gcL1 ++ ('\n' :: (provL ++ ('\n' :: (funcBlock (ofStr ("gc")) bodyGc ++ (['\n'])))))))))) := by
    rw [countAux_append, show countAuxC (headMatch (ofStr ("gc"))) (provL) ('\n' :: (funcBlock (ofStr ("gp")) bodyGp ++ ('\n' :: ('\n' :: (gcL1 ++ ('\n' :: (provL ++ ('\n' :: (funcBlock (ofStr ("gc")) bodyGc ++ (['\n'])))))))))) = 0 from
      countAuxC_zero (fun t ht _ => noHead_region
        (show occursb ['g', 'c'] (provL) = false from occ_gc_provL)
        (show headIs 'c' ('\n' :: (funcBlock (ofStr ("gp")) bodyGp ++ ('\n' :: ('\n' :: (gcL1 ++ ('\n' :: (provL ++ ('\n' :: (funcBlock (ofStr ("gc")) bodyGc ++ (['\n'])))))))))) = false from rfl)
        (show isPre ['g', 'c'] ('\n' :: (funcBlock (ofStr ("gp")) bodyGp ++ ('\n' :: ('\n' :: (gcL1 ++ ('\n' :: (provL ++ ('\n' :: (funcBlock (ofStr ("gc")) bodyGc ++ (['\n'])))))))))) = false from rfl)
        t ((List.mem_tails _ _).mp ht))]
    simp
  have d16 : countAux (headMatch (ofStr ("gc"))) ('\n' :: (funcBlock (ofStr ("gp")) bodyGp ++ ('\n' :: ('\n' :: (gcL1 ++ ('\n' :: (provL ++ ('\n' :: (funcBlock (ofStr ("gc")) bodyGc ++ (['\n'])))))))))) = countAux (headMatch (ofStr ("gc"))) (funcBlock (ofStr ("gp")) bodyGp ++ ('\n' :: ('\n' :: (gcL1 ++ ('\n' :: (provL ++ ('\n' :: (funcBlock (ofStr ("gc")) bodyGc ++ (['\n']))))))))) := by
    rw [countAux_cons, show headMatch (ofStr ("gc")) (funcBlock (ofStr ("gp")) bodyGp ++ ('\n' :: ('\n' :: (gcL1 ++ ('\n' :: (provL ++ ('\n' :: (funcBlock (ofStr ("gc")) bodyGc ++ (['\n']))))))))) = false from rfl]
    simp
  have d17 : countAux (headMatch (ofStr ("gc"))) (funcBlock (ofStr ("gp")) bodyGp ++ ('\n' :: ('\n' :: (gcL1 ++ ('\n' :: (provL ++ ('\n' :: (funcBlock (ofStr ("gc")) bodyGc ++ (['\n']))))))))) = countAux (headMatch (ofStr ("gc"))) ('\n' :: ('\n' :: (gcL1 ++ ('\n' :: (provL ++ ('\n' :: (funcBlock (ofStr ("gc")) bodyGc ++ (['\n'])))))))) := by
    rw [countAux_append, show countAuxC (headMatch (ofStr ("gc"))) (funcBlock (ofStr ("gp")) bodyGp) ('\n' :: ('\n' :: (gcL1 ++ ('\n' :: (provL ++ ('\n' :: (funcBlock (ofStr ("gc")) bodyGc ++ (['\n'])))))))) = 0 from
      countAuxC_zero (fun t ht _ => noHead_region
        (show occursb ['g', 'c'] (funcBlock (ofStr ("gp")) bodyGp) = false from occ_gc_fbGp)
        (show headIs 'c' ('\n' :: ('\n' :: (gcL1 ++ ('\n' :: (provL ++ ('\n' :: (funcBlock (ofStr ("gc")) bodyGc ++ (['\n'])))))))) = false from rfl)
        (show isPre ['g', 'c'] ('\n' :: ('\n' :: (gcL1 ++ ('\n' :: (provL ++ ('\n' :: (funcBlock (ofStr ("gc")) bodyGc ++ (['\n'])))))))) = false from rfl)
        t ((List.mem_tails _ _).mp ht))]
    simp
  have d18 : countAux (headMatch (ofStr ("gc"))) ('\n' :: ('\n' :: (gcL1 ++ ('\n' :: (provL ++ ('\n' :: (funcBlock (ofStr ("gc")) bodyGc ++ (['\n'])))))))) = countAux (headMatch (ofStr ("gc"))) ('\n' :: (gcL1 ++ ('\n' :: (provL ++ ('\n' :: (funcBlock (ofStr ("gc")) bodyGc ++ (['\n']))))))) := by
    rw [countAux_cons, show headMatch (ofStr ("gc")) ('\n' :: (gcL1 ++ ('\n' :: (provL ++ ('\n' :: (funcBlock (ofStr ("gc")) bodyGc ++ (['\n']))))))) = false from rfl]
    simp
  have d19 : countAux (headMatch (ofStr ("gc"))) ('\n' :: (gcL1 ++ ('\n' :: (provL ++ ('\n' :: (funcBlock (ofStr ("gc")) bodyGc ++ (['\n']))))))) = countAux (headMatch (ofStr ("gc"))) (gcL1 ++ ('\n' :: (provL ++ ('\n' :: (funcBlock (ofStr ("gc")) bodyGc ++ (['\n'])))))) := by
    rw [countAux_cons, show headMatch (ofStr ("gc")) (gcL1 ++ ('\n' :: (provL ++ ('\n' :: (funcBlock (ofStr ("gc")) bodyGc ++ (['\n'])))))) = false from rfl]
    simp
  have d20 : countAux (headMatch (ofStr ("gc"))) (gcL1 ++ ('\n' :: (provL ++ ('\n' :: (funcBlock (ofStr ("gc")) bodyGc ++ (['\n'])))))) = countAux (headMatch (ofStr ("gc"))) ('\n' :: (provL ++ ('\n' :: (funcBlock (ofStr ("gc")) bodyGc ++ (['\n']))))) := by
    rw [countAux_append, show countAuxC (headMatch (ofStr ("gc"))) (gcL1) ('\n' :: (provL ++ ('\n' :: (funcBlock (ofStr ("gc")) bodyGc ++ (['\n']))))) = 0 from
      countAuxC_zero (fun t ht _ => noHead_gcL1 ('\n' :: (provL ++ ('\n' :: (funcBlock (ofStr ("gc")) bodyGc ++ (['\n']))))) (by rfl) (by rfl) t ht)]
    simp
  have d21 : countAux (headMatch (ofStr ("gc"))) ('\n' :: (provL ++ ('\n' :: (funcBlock (ofStr ("gc")) bodyGc ++ (['\n']))))) = countAux (headMatch (ofStr ("gc"))) (provL ++ ('\n' :: (funcBlock (ofStr ("gc")) bodyGc ++ (['\n'])))) := by
    rw [countAux_cons, show headMatch (ofStr ("gc")) (provL ++ ('\n' :: (funcBlock (ofStr ("gc")) bodyGc ++ (['\n'])))) = false from rfl]
    simp
  have d22 : countAux (headMatch (ofStr ("gc"))) (provL ++ ('\n' :: (funcBlock (ofStr ("gc")) bodyGc ++ (['\n'])))) = countAux (headMatch (ofStr ("gc"))) ('\n' :: (funcBlock (ofStr ("gc")) bodyGc ++ (['\n']))) := by
    rw [countAux_append, show countAuxC (headMatch (ofStr ("gc"))) (provL) ('\n' :: (funcBlock (ofStr ("gc")) bodyGc ++ (['\n']))) = 0 from
      countAuxC_zero (fun t ht _ => noHead_region
        (show occursb ['g', 'c'] (provL) = false from occ_gc_provL)
        (show headIs 'c' ('\n' :: (funcBlock (ofStr ("gc")) bodyGc ++ (['\n']))) = false from rfl)
        (show isPre ['g', 'c'] ('\n' :: (funcBlock (ofStr ("gc")) bodyGc ++ (['\n']))) = false from rfl)
        t ((List.mem_tails _ _).mp ht))]
    simp
  have d23 : countAux (headMatch (ofStr ("gc"))) ('\n' :: (funcBlock (ofStr ("gc")) bodyGc ++ (['\n']))) = 1 + countAux (headMatch (ofStr ("gc"))) (funcBlock (ofStr ("gc")) bodyGc ++ (['\n'])) := by
    rw [countAux_cons, show headMatch (ofStr ("gc")) (funcBlock (ofStr ("gc")) bodyGc ++ (['\n'])) = true from headMatch_funcBlock _]
    simp
  have d24 : countAux (headMatch (ofStr ("gc"))) (funcBlock (ofStr ("gc")) bodyGc ++ (['\n'])) = countAux (headMatch (ofStr ("gc"))) (['\n']) := by
    rw [countAux_append, show countAuxC (headMatch (ofStr ("gc"))) (funcBlock (ofStr ("gc")) bodyGc) (['\n']) = 0 from
      countAuxC_zero (fun t ht hlt => by
        have hsuf := (List.mem_tails _ _).mp ht
        rw [funcBlock_eq_PB,
          show (ofStr ("gc") : List Char) = ['g', 'c'] from rfl] at hsuf
        simp only [List.cons_append, List.nil_append] at hsuf
        rcases List.suffix_cons_iff.mp hsuf with rfl | hsuf2
        · exfalso
          rw [funcBlock_eq_PB,
            show (ofStr ("gc") : List Char) = ['g', 'c'] from rfl] at hlt
          simp at hlt
        · rcases List.suffix_cons_iff.mp hsuf2 with rfl | hsuf3
          · exact headMatch_false_of_not_isPre (by rfl)
          · exact noHead_region
              (show occursb ['g', 'c'] (PB bodyGc) = false from occ_gc_PBgc)
              (show headIs 'c' (['\n']) = false from rfl)
              (show isPre ['g', 'c'] (['\n']) = false from rfl) t hsuf3)]
    simp
  rw [d1, d2, d3, d4, d5, d6, d7, d8, d9, d10, d11, d12, d13, d14, d15, d16, d17, d18, d19, d20, d21, d22, d23, d24,
    show countAux (headMatch (ofStr ("gc"))) (['\n'] : List Char) = 0 from by decide]
  simp


/-!
### Detection on the rendered contents
-/

theorem headMatch_isPre {name t : List Char} (h : headMatch name t = true) :
    isPre name t = true := by
  unfold headMatch matchFuncHead at h
  cases hs : stripPre name t with
  | none => rw [hs] at h; simp at h
  | some r => unfold isPre; rw [hs]; rfl

theorem existsFalse_of_free {name c : List Char}
    (h : occursb name c = false) : aliasExistsContent name c = false := by
  cases hx : aliasExistsContent name c with
  | false => rfl
  | true =>
    exfalso
    rcases anchoredAny_iff.mp hx with hp | ⟨u, t, rfl, hp⟩
    · rw [occursb_of_tail_isPre (List.suffix_refl c) (headMatch_isPre hp)] at h
      exact absurd h (by simp)
    · have hsuf : t <:+ u ++ '\n' :: t := ⟨u ++ ['\n'], by simp⟩
      rw [occursb_of_tail_isPre hsuf (headMatch_isPre hp)] at h
      exact absurd h (by simp)

theorem anchoredAux_cons (p : List Char → Bool) (c : Char) (rest : List Char) :
    anchoredAux p (c :: rest) = ((c = '\n' && p rest) || anchoredAux p rest) :=
  rfl

theorem anchoredAux_lift {p : List Char → Bool} :
    ∀ (a : List Char) {b : List Char}, anchoredAux p b = true →
      anchoredAux p (a ++ b) = true := by
  intro a
  induction a with
  | nil => intro b h; simpa using h
  | cons c a' ih =>
    intro b h
    rw [List.cons_append, anchoredAux_cons, ih h]
    simp

theorem existsTrue_content1_gp (c0 ts : List Char) :
    aliasExistsContent (ofStr ("gp")) (c0 ++ blockC ts) = true := by
  rw [content1_shape2]
  unfold aliasExistsContent anchoredAny
  have h1 : anchoredAux (headMatch (ofStr ("gp")))
      ('\n' :: (funcBlock (ofStr ("gp")) bodyGp ++ ('\n' :: ('\n' ::
        (gcT ++ ['\n']))))) = true := by
    rw [anchoredAux_cons, headMatch_funcBlock]
    simp
  have h2 := anchoredAux_lift provL h1
  have h3 : anchoredAux (headMatch (ofStr ("gp")))
      ('\n' :: (provL ++ ('\n' :: (funcBlock (ofStr ("gp")) bodyGp ++
        ('\n' :: ('\n' :: (gcT ++ ['\n']))))))) = true := by
    rw [anchoredAux_cons, h2]
    simp
  have h4 := anchoredAux_lift gpL1 h3
  have h5 := anchoredAux_lift (bannerOf ts) h4
  have h6 := anchoredAux_lift c0 h5
  rw [h6]
  simp

theorem gcT_nl_shape : gcT ++ (['\n'] : List Char) = gcL1 ++ ('\n' ::
    (provL ++ ('\n' :: (funcBlock (ofStr ("gc")) bodyGc ++ ['\n'])))) := by
  rw [gcT_eq]
  simp [List.append_assoc]

theorem existsTrue_content1_gc (c0 ts : List Char) :
    aliasExistsContent (ofStr ("gc")) (c0 ++ blockC ts) = true := by
  rw [content1_shape2]
  unfold aliasExistsContent anchoredAny
  have h1 : anchoredAux (headMatch (ofStr ("gc")))
      ('\n' :: (funcBlock (ofStr ("gc")) bodyGc ++ ['\n'])) = true := by
    rw [anchoredAux_cons, headMatch_funcBlock]
    simp
  have h2 := anchoredAux_lift provL h1
  have h3 : anchoredAux (headMatch (ofStr ("gc")))
      ('\n' :: (provL ++ ('\n' :: (funcBlock (ofStr ("gc")) bodyGc ++
        ['\n'])))) = true := by
    rw [anchoredAux_cons, h2]
    simp
  have h4 := anchoredAux_lift gcL1 h3
  have h4b : anchoredAux (headMatch (ofStr ("gc"))) (gcT ++ ['\n']) = true := by
    rw [gcT_nl_shape]
    exact h4
  have h5 : anchoredAux (headMatch (ofStr ("gc")))
      ('\n' :: (gcT ++ ['\n'])) = true := by
    rw [anchoredAux_cons, h4b]
    simp
  have h6 : anchoredAux (headMatch (ofStr ("gc")))
      ('\n' :: ('\n' :: (gcT ++ ['\n']))) = true := by
    rw [anchoredAux_cons, h5]
    simp
  have h7 : anchoredAux (headMatch (ofStr ("gc")))
      ('\n' :: (funcBlock (ofStr ("gp")) bodyGp ++ ('\n' :: ('\n' ::
        (gcT ++ ['\n']))))) = true := by
    rw [show ('\n' :: (funcBlock (ofStr ("gp")) bodyGp ++ ('\n' :: ('\n' ::
        (gcT ++ ['\n']))))) = ('\n' :: funcBlock (ofStr ("gp")) bodyGp) ++
        ('\n' :: ('\n' :: (gcT ++ ['\n']))) from rfl]
    exact anchoredAux_lift _ h6
  have h8 := anchoredAux_lift provL h7
  have h9 : anchoredAux (headMatch (ofStr ("gc")))
      ('\n' :: (provL ++ ('\n' :: (funcBlock (ofStr ("gp")) bodyGp ++
        ('\n' :: ('\n' :: (gcT ++ ['\n']))))))) = true := by
    rw [anchoredAux_cons, h8]
    simp
  have h10 := anchoredAux_lift gpL1 h9
  have h11 := anchoredAux_lift (bannerOf ts) h10
  have h12 := anchoredAux_lift c0 h11
  rw [h12]
  simp


theorem install1_step (env : ShellEnv) (bk : Bool) (c0 ts1 : List Char)
    (n1 : Nat)
    (h0gp : occursb (ofStr ("gp")) c0 = false)
    (h0gc : occursb (ofStr ("gc")) c0 = false) :
    installAliases env ⟨some c0, bk, true⟩ (ofStr ("gp")) (ofStr ("gc"))
        claudeCLI "sonnet" false ts1 n1 =
      (⟨some (c0 ++ blockC ts1), bk, true⟩,
        InstallResult.success (detectShellProfile env).1
          (detectShellProfile env).2) := by
  unfold installAliases
  rw [show aliasExistsFS ⟨some c0, bk, true⟩ (ofStr ("gp")) = false from
      existsFalse_of_free h0gp,
    show aliasExistsFS ⟨some c0, bk, true⟩ (ofStr ("gc")) = false from
      existsFalse_of_free h0gc]
  simp only [Bool.or_self, Bool.not_false, Bool.and_true, Bool.false_and,
    if_neg (by simp : ¬(false = true)), if_false]
  rw [show generateGpAlias (ofStr ("gp")) claudeCLI "sonnet" = gpT from rfl,
    show generateGcAlias (ofStr ("gc")) claudeCLI "sonnet" = gcT from rfl,
    blockC_eq]
  simp

theorem install2_step (env : ShellEnv) (bk : Bool) (c0 ts1 ts2 : List Char)
    (n2 : Nat)
    (h0gp : occursb (ofStr ("gp")) c0 = false)
    (h0gc : occursb (ofStr ("gc")) c0 = false)
    (h0tri : occursb (ofStr ("\n\n\n")) c0 = false)
    (h0tail : endsIn (ofStr ("\n\n")) c0 = false)
    (hb1gp : occursb (ofStr ("gp")) (bannerOf ts1) = false)
    (hb1gc : occursb (ofStr ("gc")) (bannerOf ts1) = false)
    (hb1tri : occursb (ofStr ("\n\n\n")) (bannerOf ts1) = false) :
    installAliases env ⟨some (c0 ++ blockC ts1), bk, true⟩ (ofStr ("gp"))
        (ofStr ("gc")) claudeCLI "sonnet" true ts2 n2 =
      (⟨some (leftover2 c0 ts1 ++ blockC ts2), bk, true⟩,
        InstallResult.success (detectShellProfile env).1
          (detectShellProfile env).2) := by
  unfold installAliases
  rw [show aliasExistsFS ⟨some (c0 ++ blockC ts1), bk, true⟩ (ofStr ("gp")) =
      true from existsTrue_content1_gp c0 ts1,
    show aliasExistsFS ⟨some (c0 ++ blockC ts1), bk, true⟩ (ofStr ("gc")) =
      true from existsTrue_content1_gc c0 ts1]
  simp only [Bool.or_self, Bool.not_true, Bool.and_false, Bool.true_and,
    if_neg (by simp : ¬(false = true)), if_pos rfl, if_true]
  unfold removeExistingAliasFS
  simp only []
  rw [show removeExistingAliasContent (ofStr ("gp")) (c0 ++ blockC ts1) =
    leftover1 c0 ts1 from removeAlias_gp c0 ts1 h0gp h0tri h0tail hb1gp hb1tri]
  rw [show removeExistingAliasContent (ofStr ("gc")) (leftover1 c0 ts1) =
    leftover2 c0 ts1 from removeAlias_gc c0 ts1 h0gc h0tri h0tail hb1gc hb1tri]
  rw [show generateGpAlias (ofStr ("gp")) claudeCLI "sonnet" = gpT from rfl,
    show generateGcAlias (ofStr ("gc")) claudeCLI "sonnet" = gcT from rfl,
    blockC_eq]
  simp

/-- **C2, amended** — for the default alias names `gp`/`gc` and the default
provider configuration (Claude, model `sonnet`): starting from a profile
whose prior content contains neither alias name as a substring, no run of
three or more newlines, and at most one trailing newline, and whose
banner timestamps contain no interfering text (decidable side conditions on
the two rendered banners), a first install succeeds by appending the block,
and a second install with `overwrite = true` removes both rendered function
blocks and re-appends, leaving a profile with *exactly one* anchored
occurrence of each alias's function header as counted by the `aliasExists`
detection pattern `^name\s*\(\s*\)\s*\{`.  (The claim's unrestricted
"for every alias name and every profile content" fails; see the
counterexample.) -/
theorem c2_double_install (env : ShellEnv) (bk : Bool)
    (c0 ts1 ts2 : List Char) (n1 n2 : Nat)
    (h0gp : occursb (ofStr ("gp")) c0 = false)
    (h0gc : occursb (ofStr ("gc")) c0 = false)
    (h0tri : occursb (ofStr ("\n\n\n")) c0 = false)
    (h0tail : endsIn (ofStr ("\n\n")) c0 = false)
    (hb1gp : occursb (ofStr ("gp")) (bannerOf ts1) = false)
    (hb1gc : occursb (ofStr ("gc")) (bannerOf ts1) = false)
    (hb1tri : occursb (ofStr ("\n\n\n")) (bannerOf ts1) = false)
    (hb2gp : occursb (ofStr ("gp")) (bannerOf ts2) = false)
    (hb2gc : occursb (ofStr ("gc")) (bannerOf ts2) = false) :
    (installAliases env ⟨some c0, bk, true⟩ (ofStr ("gp")) (ofStr ("gc"))
        claudeCLI "sonnet" false ts1 n1).2 =
      InstallResult.success (detectShellProfile env).1
        (detectShellProfile env).2 ∧
    ∃ p2,
      installAliases env
          (installAliases env ⟨some c0, bk, true⟩ (ofStr ("gp"))
            (ofStr ("gc")) claudeCLI "sonnet" false ts1 n1).1
          (ofStr ("gp")) (ofStr ("gc")) claudeCLI "sonnet" true ts2 n2 =
        (⟨some p2, bk, true⟩,
          InstallResult.success (detectShellProfile env).1
            (detectShellProfile env).2) ∧
      countA (headMatch (ofStr ("gp"))) p2 = 1 ∧
      countA (headMatch (ofStr ("gc"))) p2 = 1 := by
  rw [install1_step env bk c0 ts1 n1 h0gp h0gc]
  refine ⟨rfl, leftover2 c0 ts1 ++ blockC ts2, ?_, ?_, ?_⟩
  · exact install2_step env bk c0 ts1 ts2 n2 h0gp h0gc h0tri h0tail hb1gp
      hb1gc hb1tri
  · exact count_gp_final c0 ts1 ts2 h0gp hb1gp hb2gp
  · exact count_gc_final c0 ts1 ts2 h0gc hb1gc hb2gc


set_option maxRecDepth 400000 in
/-- Concrete double-install run discharging every side condition of the
amended C2 statement. -/
theorem c2_witness :
    occursb (ofStr ("gp")) (ofStr ("# mine\nPATH=/usr/bin\n")) = false ∧
    ((installAliases ⟨"/h", "zsh", true, true⟩
        ⟨some (ofStr ("# mine\nPATH=/usr/bin\n")), true, true⟩ (ofStr ("gp"))
        (ofStr ("gc")) claudeCLI "sonnet" false
        (ofStr ("2026-10-12T00:00:00.000Z")) 1).2 =
      InstallResult.success
        (detectShellProfile ⟨"/h", "zsh", true, true⟩).1
        (detectShellProfile ⟨"/h", "zsh", true, true⟩).2 ∧
    ∃ p2,
      installAliases ⟨"/h", "zsh", true, true⟩
          (installAliases ⟨"/h", "zsh", true, true⟩
            ⟨some (ofStr ("# mine\nPATH=/usr/bin\n")), true, true⟩
            (ofStr ("gp")) (ofStr ("gc")) claudeCLI "sonnet" false
            (ofStr ("2026-10-12T00:00:00.000Z")) 1).1
          (ofStr ("gp")) (ofStr ("gc")) claudeCLI "sonnet" true
          (ofStr ("2026-10-12T01:00:00.000Z")) 2 =
        (⟨some p2, true, true⟩,
          InstallResult.success
            (detectShellProfile ⟨"/h", "zsh", true, true⟩).1
            (detectShellProfile ⟨"/h", "zsh", true, true⟩).2) ∧
      countA (headMatch (ofStr ("gp"))) p2 = 1 ∧
      countA (headMatch (ofStr ("gc"))) p2 = 1) :=
  ⟨by decide,
    c2_double_install ⟨"/h", "zsh", true, true⟩ true
      (ofStr ("# mine\nPATH=/usr/bin\n"))
      (ofStr ("2026-10-12T00:00:00.000Z"))
      (ofStr ("2026-10-12T01:00:00.000Z")) 1 2
      (by decide) (by decide) (by decide) (by decide) (by decide)
      (by decide) (by decide) (by decide) (by decide)⟩

theorem countAux_ge_one {p : List Char → Bool} : ∀ (u : List Char)
    {v : List Char}, p v = true → 1 ≤ countAux p (u ++ '\n' :: v) := by
  intro u
  induction u with
  | nil =>
    intro v hp
    rw [List.nil_append, countAux_cons, hp]
    simp
  | cons c cs ih =>
    intro v hp
    rw [List.cons_append, countAux_cons]
    have h1 := ih hp
    omega

/-- **C2, counterexample** — the claim's unrestricted quantification over
profile contents fails.  With prior content holding a complete `gp` block
followed by an unterminated duplicate header `"gp() \x7b"`, a first install
reports a conflict and leaves the file untouched, and an install with
`overwrite = true` removes only the complete block (the bare pattern needs a
closing `"\n\x7d"`), so after the append the profile matches the detection
pattern `^gp\s*\(\s*\)\s*\{` at two or more anchored positions, not exactly
one. -/
theorem c2_counterexample :
    installAliases ⟨"/h", "zsh", true, true⟩
        ⟨some (ofStr ("gp() \x7b\ny\n\x7d\ngp() \x7b")), true, true⟩
        (ofStr ("gp")) (ofStr ("gc")) claudeCLI "sonnet" false
        (ofStr ("2026-10-12T00:00:00.000Z")) 1 =
      (⟨some (ofStr ("gp() \x7b\ny\n\x7d\ngp() \x7b")), true, true⟩,
        InstallResult.conflict [ofStr ("gp")]
          (detectShellProfile ⟨"/h", "zsh", true, true⟩).2) ∧
    2 ≤ countA (headMatch (ofStr ("gp")))
        ((installAliases ⟨"/h", "zsh", true, true⟩
            ⟨some (ofStr ("gp() \x7b\ny\n\x7d\ngp() \x7b")), true, true⟩
            (ofStr ("gp")) (ofStr ("gc")) claudeCLI "sonnet" true
            (ofStr ("2026-10-12T00:00:00.000Z")) 2).1.profile.getD []) := by
  have hshape : ofStr ("gp() \x7b\ny\n\x7d\ngp() \x7b") =
      funcBlock (ofStr ("gp")) (ofStr ("\ny")) ++ '\n' ::
        ofStr ("gp() \x7b") := by decide
  have h1 : removeFC (ofStr ("gp")) (ofStr ("gp() \x7b\ny\n\x7d\ngp() \x7b")) =
      ofStr ("gp() \x7b\ny\n\x7d\ngp() \x7b") :=
    removePat_id (by decide)
  have h2 : removeSimple (ofStr ("gp")) (ofStr ("gp() \x7b\ny\n\x7d\ngp() \x7b")) =
      ofStr ("gp() \x7b") := by
    rw [hshape]
    unfold removeSimple
    rw [removePat_match (matchSimpleAt_block (ofStr ("gp() \x7b")) (by decide)),
      removePat_id (by decide)]
  have hrem : removeExistingAliasContent (ofStr ("gp"))
      (ofStr ("gp() \x7b\ny\n\x7d\ngp() \x7b")) = ofStr ("gp() \x7b") := by
    unfold removeExistingAliasContent
    rw [h1, h2, collapseNl_id_of_no_triple (by decide)]
  have hinst2 : installAliases ⟨"/h", "zsh", true, true⟩
      ⟨some (ofStr ("gp() \x7b\ny\n\x7d\ngp() \x7b")), true, true⟩
      (ofStr ("gp")) (ofStr ("gc")) claudeCLI "sonnet" true
      (ofStr ("2026-10-12T00:00:00.000Z")) 2 =
      (⟨some (ofStr ("gp() \x7b") ++
          blockC (ofStr ("2026-10-12T00:00:00.000Z"))), true, true⟩,
        InstallResult.success
          (detectShellProfile ⟨"/h", "zsh", true, true⟩).1
          (detectShellProfile ⟨"/h", "zsh", true, true⟩).2) := by
    unfold installAliases
    rw [show aliasExistsFS ⟨some (ofStr ("gp() \x7b\ny\n\x7d\ngp() \x7b")),
        true, true⟩ (ofStr ("gp")) = true from by decide,
      show aliasExistsFS ⟨some (ofStr ("gp() \x7b\ny\n\x7d\ngp() \x7b")),
        true, true⟩ (ofStr ("gc")) = false from by decide]
    simp only [Bool.true_or, Bool.not_true, Bool.and_false, Bool.true_and,
      Bool.and_true, if_neg (by simp : ¬(false = true)), if_pos rfl, if_true,
      if_false]
    unfold removeExistingAliasFS
    simp only []
    rw [hrem]
    rw [show generateGpAlias (ofStr ("gp")) claudeCLI "sonnet" = gpT from rfl,
      show generateGcAlias (ofStr ("gc")) claudeCLI "sonnet" = gcT from rfl,
      blockC_eq]
    simp
  have hinst1 : installAliases ⟨"/h", "zsh", true, true⟩
      ⟨some (ofStr ("gp() \x7b\ny\n\x7d\ngp() \x7b")), true, true⟩
      (ofStr ("gp")) (ofStr ("gc")) claudeCLI "sonnet" false
      (ofStr ("2026-10-12T00:00:00.000Z")) 1 =
      (⟨some (ofStr ("gp() \x7b\ny\n\x7d\ngp() \x7b")), true, true⟩,
        InstallResult.conflict [ofStr ("gp")]
          (detectShellProfile ⟨"/h", "zsh", true, true⟩).2) := by
    unfold installAliases
    rw [show aliasExistsFS ⟨some (ofStr ("gp() \x7b\ny\n\x7d\ngp() \x7b")),
        true, true⟩ (ofStr ("gp")) = true from by decide,
      show aliasExistsFS ⟨some (ofStr ("gp() \x7b\ny\n\x7d\ngp() \x7b")),
        true, true⟩ (ofStr ("gc")) = false from by decide]
    simp
  refine ⟨hinst1, ?_⟩
  rw [hinst2]
  simp only [Option.getD_some]
  have hp0 : headMatch (ofStr ("gp")) (ofStr ("gp() \x7b") ++
      blockC (ofStr ("2026-10-12T00:00:00.000Z"))) = true := by
    rw [show ofStr ("gp() \x7b") ++ blockC (ofStr ("2026-10-12T00:00:00.000Z")) =
      ofStr ("gp") ++ (ofStr ("() \x7b") ++
        blockC (ofStr ("2026-10-12T00:00:00.000Z"))) from rfl]
    exact headMatch_parenHead _
  have hsh2 : ofStr ("gp() \x7b") ++ blockC (ofStr ("2026-10-12T00:00:00.000Z")) =
      (ofStr ("gp() \x7b") ++ (bannerOf (ofStr ("2026-10-12T00:00:00.000Z")) ++
        (gpL1 ++ ('\n' :: provL)))) ++
      '\n' :: (funcBlock (ofStr ("gp")) bodyGp ++
        ('\n' :: ('\n' :: (gcT ++ ['\n'])))) := by
    unfold blockC
    rw [gpT_eq]
    simp [List.append_assoc]
  have h1c : 1 ≤ countAux (headMatch (ofStr ("gp")))
      (ofStr ("gp() \x7b") ++ blockC (ofStr ("2026-10-12T00:00:00.000Z"))) := by
    rw [hsh2]
    exact countAux_ge_one _ (headMatch_funcBlock _)
  unfold countA
  rw [hp0]
  simp only [if_pos rfl, if_true]
  omega

end QA
